import Mathlib

/-!
# Glyph loaders of ts-freetype: CFF (`cffgload.c`) and CID-keyed Type 1 (`cidgload.c`)

A shallow embedding of `cid_load_glyph`, `cid_slot_load_glyph`,
`cff_get_glyph_data`, `cff_free_glyph_data` and `cff_slot_load`.

Conventions of the embedding.

* C unsigned integers are natural numbers; where the source computes a
  product, a sum or a difference that can wrap, the model reduces modulo
  `2^32` (`FT_TS_UInt`) or `2^64` (`FT_TS_ULong`).  Signed quantities are
  integers.
* Every function that the loaders call but whose body is not part of the
  sources (stream access, allocator, the `psaux` decoders, the `sfnt`
  service, fixed-point helpers) is a field of an environment record.  Such a
  collaborator reads and writes a hidden state `W` (the "world": stream
  position, heap, decoder internals) that is threaded through the calls in
  program order, so two calls with equal arguments may answer differently.
* A collaborator never writes the glyph slot directly: the decoders work on
  the builder, and the slot is written by the loader itself and by the `done`
  operation.  Nested calls of the parse callback from inside a decoder
  (accent composition) are part of the decoder collaborator.
* Each call of a collaborator, and each indexing of a per-dictionary array,
  is appended to a trace of events, so that "is called", "is called once" and
  "is indexed with" are statements about the trace a call produces.
* An array indexed outside its bounds (undefined behaviour in C) is recorded
  in the trace and yields the default element.
-/

namespace FreeType

/-! ## Error codes -/

/-- The type `FT_TS_Error`: zero is success, every other value is an error. -/
abbrev FT_TS_Error := Nat

/-- Success. -/
def FT_TS_Err_Ok : FT_TS_Error := 0

/-- Error code `Invalid_Argument` (value of the FreeType error list, whose
header is not part of the sources). -/
def FT_TS_Err_Invalid_Argument : FT_TS_Error := 0x06

/-- Error code `Invalid_Offset`. -/
def FT_TS_Err_Invalid_Offset : FT_TS_Error := 0x09

/-- Error code `Cannot_Render_Glyph`. -/
def FT_TS_Err_Cannot_Render_Glyph : FT_TS_Error := 0x13

/-- Error code `Glyph_Too_Big`. -/
def FT_TS_Err_Glyph_Too_Big : FT_TS_Error := 0xA4

/-- The macro `FT_TS_ERR_EQ( x, e )`: the base parts (low byte) of the two
codes agree. -/
def FT_TS_ERR_EQ (x e : FT_TS_Error) : Bool := x % 256 == e % 256

/-! ## Load flags and hinting engines -/

def FT_TS_LOAD_NO_SCALE : Nat := 1
def FT_TS_LOAD_NO_HINTING : Nat := 2
def FT_TS_LOAD_NO_BITMAP : Nat := 8
def FT_TS_LOAD_VERTICAL_LAYOUT : Nat := 16
def FT_TS_LOAD_ADVANCE_ONLY : Nat := 256
def FT_TS_LOAD_NO_RECURSE : Nat := 1024
def FT_TS_LOAD_SBITS_ONLY : Nat := 16384

/-- The macro `FT_TS_LOAD_TARGET_MODE( x )`. -/
def FT_TS_LOAD_TARGET_MODE (x : Nat) : Nat := (x >>> 16) &&& 15

def FT_TS_HINTING_FREETYPE : Nat := 0
def FT_TS_HINTING_ADOBE : Nat := 1

def FT_TS_GLYPH_FORMAT_NONE : Nat := 0
def FT_TS_GLYPH_FORMAT_COMPOSITE : Nat := 0x636F6D70
def FT_TS_GLYPH_FORMAT_BITMAP : Nat := 0x62697473
def FT_TS_GLYPH_FORMAT_OUTLINE : Nat := 0x6F75746C

def FT_TS_OUTLINE_OWNER : Nat := 0x1
def FT_TS_OUTLINE_REVERSE_FILL : Nat := 0x4
def FT_TS_OUTLINE_HIGH_PRECISION : Nat := 0x100

/-! ## Geometry and slot records -/

structure FT_TS_Vector where
  x : Int
  y : Int
deriving DecidableEq, Inhabited

structure FT_TS_Matrix where
  xx : Int
  xy : Int
  yx : Int
  yy : Int
deriving DecidableEq, Inhabited

structure FT_TS_BBox where
  xMin : Int
  yMin : Int
  xMax : Int
  yMax : Int
deriving DecidableEq, Inhabited

structure FT_TS_Outline where
  n_contours : Int
  n_points : Int
  points : List FT_TS_Vector
  tags : List Nat
  contours : List Nat
  flags : Nat
deriving DecidableEq, Inhabited

structure FT_TS_Glyph_Metrics where
  width : Int
  height : Int
  horiBearingX : Int
  horiBearingY : Int
  horiAdvance : Int
  vertBearingX : Int
  vertBearingY : Int
  vertAdvance : Int
deriving DecidableEq, Inhabited

structure FT_TS_Bitmap where
  rows : Nat
  width : Nat
  pitch : Int
  buffer : List Nat
  pixel_mode : Nat
deriving DecidableEq, Inhabited

structure FT_TS_Slot_InternalRec where
  glyph_transformed : Bool
  glyph_matrix : FT_TS_Matrix
  glyph_delta : FT_TS_Vector
deriving DecidableEq, Inhabited

/-- The glyph slot as the two loaders see it: the fields of the root
`FT_TS_GlyphSlotRec` they touch, followed by the four fields that
`CFF_GlyphSlotRec` and `CID_GlyphSlotRec` add (`hint`, `scaled`, `x_scale`,
`y_scale`). -/
structure T1_GlyphSlotRec where
  metrics : FT_TS_Glyph_Metrics
  linearHoriAdvance : Int
  linearVertAdvance : Int
  format : Nat
  bitmap : FT_TS_Bitmap
  bitmap_left : Int
  bitmap_top : Int
  outline : FT_TS_Outline
  control_data : Option Int
  control_len : Int
  internal : FT_TS_Slot_InternalRec
  hint : Bool
  scaled : Bool
  x_scale : Int
  y_scale : Int
deriving DecidableEq, Inhabited

/-- The record `FT_TS_Size_Metrics`, fields read by the loaders. -/
structure FT_TS_Size_Metrics where
  y_ppem : Nat
  x_scale : Int
  y_scale : Int
deriving DecidableEq, Inhabited

/-! ## Incremental interface -/

structure FT_TS_Data where
  pointer : List Nat
  length : Nat
deriving DecidableEq, Inhabited

structure FT_TS_Incremental_MetricsRec where
  bearing_x : Int
  bearing_y : Int
  advance : Int
  advance_v : Int
deriving DecidableEq, Inhabited

/-- The callbacks of `FT_TS_Incremental_InterfaceRec`; `get_glyph_metrics` is
optional (a null pointer is `none`). -/
structure FT_TS_Incremental_FuncsRec (W : Type) where
  get_glyph_data : Nat → W → FT_TS_Error × FT_TS_Data × W
  free_glyph_data : FT_TS_Data → W → W
  get_glyph_metrics :
    Option (Nat → Bool → FT_TS_Incremental_MetricsRec → W →
      FT_TS_Error × FT_TS_Incremental_MetricsRec × W)

/-! ## Trace of calls -/

/-- One observable step of a load: a call of a collaborator (with the value
it returned where it returns one) or the indexing of a per-dictionary array.
The `hint` argument of a call of the high-precision parser is the value of
the slot's hint flag at the moment of the call. -/
inductive Event where
  | inc_get_glyph_data (glyph_index : Nat) (ret : FT_TS_Error)
  | inc_free_glyph_data
  | inc_get_glyph_metrics (glyph_index : Nat) (ret : FT_TS_Error)
  | qalloc (size : Nat) (ret : FT_TS_Error)
  | mem_free
  | stream_seek (pos : Nat) (ret : FT_TS_Error)
  | frame_enter (count : Nat) (ret : FT_TS_Error)
  | frame_exit
  | stream_read_at (pos : Nat) (count : Nat) (ret : FT_TS_Error)
  | index_subrs (i : Nat)
  | index_font_dicts (i : Nat)
  | t1_decrypt (length : Nat)
  | t1_decoder_init (ret : FT_TS_Error)
  | t1_decoder_done
  | t1_parse_charstrings_old (bytes : List Nat) (len : Nat) (ret : FT_TS_Error)
  | t1_parse_metrics (bytes : List Nat) (len : Nat) (ret : FT_TS_Error)
  | t1_parse_charstrings (bytes : List Nat) (len : Nat) (hint : Bool)
      (ret : FT_TS_Error)
  | cff_charset_cid_to_gindex (cid : Nat) (ret : Nat)
  | load_sbit_image (glyph_index : Nat) (ret : FT_TS_Error)
  | sfnt_get_metrics (vertical : Bool) (glyph_index : Nat)
  | cff_fd_select_get (glyph_index : Nat) (ret : Nat)
  | index_subfonts (i : Nat)
  | cff_decoder_init
  | cff_get_glyph_data (glyph_index : Nat) (ret : FT_TS_Error)
  | cff_free_glyph_data
  | cff_index_access_element (glyph_index : Nat) (ret : FT_TS_Error)
  | cff_index_forget_element
  | cff_decoder_prepare (glyph_index : Nat) (ret : FT_TS_Error)
  | cff_parse_charstrings_old (bytes : List Nat) (len : Nat) (ret : FT_TS_Error)
  | cff_parse_charstrings (bytes : List Nat) (len : Nat) (hint : Bool)
      (ret : FT_TS_Error)
  | cff_builder_done
deriving DecidableEq, Inhabited, Repr

/-! ## CID-keyed Type 1 loader: data -/

/-- The record `PS_PrivateRec`: `lenIV` is read by the loader, the other
fields (blue zones, stem widths, ...) only travel to the decoder and are
gathered in `hints`. -/
structure PS_PrivateRec where
  lenIV : Int
  hints : List Int
deriving DecidableEq, Inhabited

structure CID_FaceDictRec where
  private_dict : PS_PrivateRec
  font_matrix : FT_TS_Matrix
  font_offset : FT_TS_Vector
deriving DecidableEq, Inhabited

structure CID_SubrsRec where
  num_subrs : Int
  code : List (List Nat)
deriving DecidableEq, Inhabited

structure CID_FaceInfoRec where
  font_bbox : FT_TS_BBox
  cidmap_offset : Nat
  fd_bytes : Nat
  gd_bytes : Nat
  num_dicts : Nat
  font_dicts : List CID_FaceDictRec
  data_offset : Nat
deriving DecidableEq, Inhabited

/-- The record `CID_FaceRec`, fields read by the loader.  `num_glyphs` is
`root.num_glyphs`, `stream_size` is `cid_stream->size`, `hinting_engine` is
the property of the face's driver, `incremental_interface` is
`root.internal->incremental_interface` (null is `none`). -/
structure CID_FaceRec (W : Type) where
  num_glyphs : Nat
  incremental_interface : Option (FT_TS_Incremental_FuncsRec W)
  cid : CID_FaceInfoRec
  subrs : List CID_SubrsRec
  stream_size : Nat
  hinting_engine : Nat

/-- The record `T1_BuilderRec`, fields read or written by the loader.
`hints_funcs` tells whether the pointer is non-null. -/
structure T1_BuilderRec where
  base : FT_TS_Outline
  left_bearing : FT_TS_Vector
  advance : FT_TS_Vector
  hints_funcs : Bool
  no_recurse : Bool
  metrics_only : Bool
deriving DecidableEq, Inhabited

/-- The record `T1_DecoderRec`, fields read or written by the loader.  The
pointers `subrs_len` and `subrs_hash` are `none` when null. -/
structure T1_DecoderRec where
  builder : T1_BuilderRec
  lenIV : Int
  num_subrs : Int
  subrs : List (List Nat)
  subrs_len : Option (List Nat)
  subrs_hash : Option Nat
  font_matrix : FT_TS_Matrix
  font_offset : FT_TS_Vector
deriving DecidableEq, Inhabited

/-- Fixed-point and outline helpers of the base layer (`ftcalc`, `ftoutln`,
`ftobjs`), whose bodies are not part of the sources. -/
structure FT_TS_Base where
  FIXED_TO_INT : Int → Int
  INT_TO_FIXED : Int → Int
  MulFix : Int → Int → Int
  MulDiv : Int → Int → Int → Int
  Outline_Transform : FT_TS_Outline → FT_TS_Matrix → FT_TS_Outline
  Outline_Translate : FT_TS_Outline → Int → Int → FT_TS_Outline
  Outline_Get_CBox : FT_TS_Outline → FT_TS_BBox
  synthesize_vertical_metrics : FT_TS_Glyph_Metrics → Int → FT_TS_Glyph_Metrics

/-- Everything `cidgload.c` calls without defining it, and its two
compile-time options. -/
structure CID_Env (W : Type) where
  T1_CONFIG_OPTION_OLD_ENGINE : Bool
  FT_TS_CONFIG_OPTION_INCREMENTAL : Bool
  base : FT_TS_Base
  /-- What `cid_get_offset( &p, n )` does: the value read and the advanced pointer. -/
  cid_get_offset : List Nat → Nat → Nat × List Nat
  stream_seek : Nat → W → FT_TS_Error × W
  /-- What `FT_TS_FRAME_ENTER( n )` does: the error and the bytes at `stream->cursor`. -/
  frame_enter : Nat → W → FT_TS_Error × List Nat × W
  frame_exit : W → W
  /-- What `FT_TS_STREAM_READ_AT( pos, buf, n )` does: the error and the bytes read. -/
  stream_read_at : Nat → Nat → W → FT_TS_Error × List Nat × W
  qalloc : Nat → W → FT_TS_Error × W
  mem_free : W → W
  /-- What `psaux->t1_decrypt( buf, n, seed )` does: the decrypted buffer. -/
  t1_decrypt : List Nat → Nat → Nat → List Nat
  /-- What `t1_decoder_funcs->init` does for a slot, a size, the hinting flag and the
  render mode: the error and the decoder it fills in. -/
  t1_decoder_init :
    T1_GlyphSlotRec → FT_TS_Size_Metrics → Bool → Nat → W → FT_TS_Error × T1_DecoderRec × W
  /-- The part of `t1_decoder_funcs->done` that acts on the hidden state (finalizers). -/
  t1_decoder_finish : W → W
  parse_charstrings_old :
    T1_DecoderRec → T1_GlyphSlotRec → List Nat → Nat → W → FT_TS_Error × T1_DecoderRec × W
  parse_metrics :
    T1_DecoderRec → T1_GlyphSlotRec → List Nat → Nat → W → FT_TS_Error × T1_DecoderRec × W
  /-- The high-precision engine, on the decoder prepared by `ps_decoder_init` with the
  subfont made by `t1_make_subfont` from the given private dictionary. -/
  parse_charstrings :
    T1_DecoderRec → PS_PrivateRec → T1_GlyphSlotRec → List Nat → Nat → W →
      FT_TS_Error × T1_DecoderRec × W

/-- The state a call of `cid_load_glyph` works on: the decoder it is handed,
the glyph slot reached through `decoder->builder.glyph`, the hidden state of
the collaborators and the trace so far. -/
structure CID_LoadState (W : Type) where
  decoder : T1_DecoderRec
  glyph : T1_GlyphSlotRec
  world : W
  trace : List Event

/-- Outcome of the part of `cid_load_glyph` that obtains the charstring:
either a jump to `Exit` with the current value of `error`, or the dictionary
index, the length and the buffer of the charstring. -/
inductive CID_Fetch (W : Type) where
  | exit (error : FT_TS_Error) (st : CID_LoadState W)
  | data (fd_select : Nat) (glyph_length : Nat) (charstring : List Nat)
      (st : CID_LoadState W)

/-- Outcome of the part of `cid_load_glyph` that reads the CIDMap: either a
jump to `Exit` with the current value of `error`, or the dictionary index
and the two offsets read. -/
inductive CID_MapEntry (W : Type) where
  | exit (error : FT_TS_Error) (st : CID_LoadState W)
  | entry (fd_select : Nat) (off1 : Nat) (off2 : Nat) (st : CID_LoadState W)

/-! ## CID-keyed Type 1 loader: `cid_load_glyph` -/

section CID

variable {W : Type}

/-- Label `Exit` of `cid_load_glyph` (lines 249-254): the charstring buffer
is freed, the slot's `scaled` flag receives `force_scaling`, and `error` is
returned. -/
def cid_load_glyph_Exit (env : CID_Env W) (error : FT_TS_Error) (force_scaling : Bool)
    (st : CID_LoadState W) : FT_TS_Error × CID_LoadState W :=
  (error,
    { st with
      glyph := { st.glyph with scaled := force_scaling }
      world := env.mem_free st.world
      trace := st.trace ++ [Event.mem_free] })

/-- Lines 72-95 of `cid_load_glyph`: the charstring of an incremental font
comes from the callback; the first `fd_bytes` bytes are the dictionary
index. -/
def cid_load_glyph_incremental (env : CID_Env W) (face : CID_FaceRec W)
    (inc : FT_TS_Incremental_FuncsRec W) (glyph_index : Nat) (st : CID_LoadState W) :
    CID_Fetch W :=
  let cid := face.cid
  let r := inc.get_glyph_data glyph_index st.world
  let error := r.1
  let glyph_data := r.2.1
  let st1 : CID_LoadState W :=
    { st with
      world := r.2.2
      trace := st.trace ++ [Event.inc_get_glyph_data glyph_index error] }
  if error ≠ 0 ∨ glyph_data.length < cid.fd_bytes then
    CID_Fetch.exit error st1
  else
    let fd_select := (env.cid_get_offset glyph_data.pointer cid.fd_bytes).1 % 2 ^ 64
    let glyph_length := glyph_data.length - cid.fd_bytes
    let a := env.qalloc glyph_length st1.world
    let error := a.1
    let charstring :=
      if error = 0 then (glyph_data.pointer.drop cid.fd_bytes).take glyph_length else []
    let st2 : CID_LoadState W :=
      { st1 with
        world := inc.free_glyph_data glyph_data a.2
        trace := st1.trace ++ [Event.qalloc glyph_length error, Event.inc_free_glyph_data] }
    if error ≠ 0 then
      CID_Fetch.exit error st2
    else
      CID_Fetch.data fd_select glyph_length charstring st2

/-- Lines 104-118 of `cid_load_glyph`: the entry of the glyph and the offset
of the next entry are read from the CIDMap.  Either a jump to `Exit`, or the
dictionary index `fd_select` and the offsets `off1`, `off2`. -/
def cid_load_glyph_cidmap_read (env : CID_Env W) (face : CID_FaceRec W)
    (glyph_index : Nat) (st : CID_LoadState W) : CID_MapEntry W :=
  let cid := face.cid
  let entry_len := (cid.fd_bytes + cid.gd_bytes) % 2 ^ 32
  let pos := (cid.data_offset + cid.cidmap_offset + (glyph_index * entry_len) % 2 ^ 32) % 2 ^ 64
  let s := env.stream_seek pos st.world
  let st1 : CID_LoadState W :=
    { st with world := s.2, trace := st.trace ++ [Event.stream_seek pos s.1] }
  if s.1 ≠ 0 then
    CID_MapEntry.exit s.1 st1
  else
    let count := (2 * entry_len) % 2 ^ 32
    let f := env.frame_enter count st1.world
    let st2 : CID_LoadState W :=
      { st1 with world := f.2.2, trace := st1.trace ++ [Event.frame_enter count f.1] }
    if f.1 ≠ 0 then
      CID_MapEntry.exit f.1 st2
    else
      let p := f.2.1
      let r1 := env.cid_get_offset p cid.fd_bytes
      let fd_select := r1.1 % 2 ^ 64
      let r2 := env.cid_get_offset r1.2 cid.gd_bytes
      let off1 := r2.1 % 2 ^ 64
      let p := r2.2.drop cid.fd_bytes
      let r3 := env.cid_get_offset p cid.gd_bytes
      let off2 := r3.1 % 2 ^ 64
      CID_MapEntry.entry fd_select off1 off2
        { st2 with world := env.frame_exit st2.world, trace := st2.trace ++ [Event.frame_exit] }

/-- Lines 120-135 of `cid_load_glyph`: the entry is checked, the length of
the charstring is computed, and the charstring is read from the stream. -/
def cid_load_glyph_cidmap_data (env : CID_Env W) (face : CID_FaceRec W)
    (fd_select off1 off2 : Nat) (st3 : CID_LoadState W) : CID_Fetch W :=
  let cid := face.cid
  if fd_select ≥ cid.num_dicts ∨ off2 > face.stream_size ∨ off1 > off2 then
    CID_Fetch.exit FT_TS_Err_Invalid_Offset st3
  else
    let glyph_length := (off2 + 2 ^ 64 - off1) % 2 ^ 64
    if glyph_length = 0 then
      CID_Fetch.exit FT_TS_Err_Ok st3
    else
      let a := env.qalloc glyph_length st3.world
      let st4 : CID_LoadState W :=
        { st3 with world := a.2, trace := st3.trace ++ [Event.qalloc glyph_length a.1] }
      if a.1 ≠ 0 then
        CID_Fetch.exit a.1 st4
      else
        let rpos := (cid.data_offset + off1) % 2 ^ 64
        let r := env.stream_read_at rpos glyph_length st4.world
        let st5 : CID_LoadState W :=
          { st4 with
            world := r.2.2
            trace := st4.trace ++ [Event.stream_read_at rpos glyph_length r.1] }
        if r.1 ≠ 0 then
          CID_Fetch.exit r.1 st5
        else
          CID_Fetch.data fd_select glyph_length r.2.1 st5

/-- Lines 103-136 of `cid_load_glyph`: the dictionary index and the two
charstring offsets are read from the CIDMap, checked, and the charstring is
read from the stream. -/
def cid_load_glyph_cidmap (env : CID_Env W) (face : CID_FaceRec W)
    (glyph_index : Nat) (st : CID_LoadState W) : CID_Fetch W :=
  match cid_load_glyph_cidmap_read env face glyph_index st with
  | CID_MapEntry.exit error st1 => CID_Fetch.exit error st1
  | CID_MapEntry.entry fd_select off1 off2 st3 =>
    cid_load_glyph_cidmap_data env face fd_select off1 off2 st3

/-- Lines 191-222 of `cid_load_glyph`: the high-precision engine, with one
retry when it answers `Glyph_Too_Big`.  Returns `error`, `force_scaling` and
the state. -/
def cid_load_glyph_parse (env : CID_Env W) (dict : CID_FaceDictRec)
    (bytes : List Nat) (len : Nat) (st : CID_LoadState W) :
    FT_TS_Error × Bool × CID_LoadState W :=
  let r := env.parse_charstrings st.decoder dict.private_dict st.glyph bytes len st.world
  let st1 : CID_LoadState W :=
    { st with
      decoder := r.2.1
      world := r.2.2
      trace := st.trace ++ [Event.t1_parse_charstrings bytes len st.glyph.hint r.1] }
  if FT_TS_ERR_EQ r.1 FT_TS_Err_Glyph_Too_Big then
    let glyph1 : T1_GlyphSlotRec := { st1.glyph with hint := false }
    let r' := env.parse_charstrings st1.decoder dict.private_dict glyph1 bytes len st1.world
    (r'.1, true,
      { st1 with
        glyph := glyph1
        decoder := r'.2.1
        world := r'.2.2
        trace := st1.trace ++ [Event.t1_parse_charstrings bytes len glyph1.hint r'.1] })
  else
    (r.1, false, st1)

/-- Lines 173-223 of `cid_load_glyph`: the charstring is parsed by the
engine chosen.  Returns `error`, `force_scaling` and the state. -/
def cid_load_glyph_engine (env : CID_Env W) (face : CID_FaceRec W) (dict : CID_FaceDictRec)
    (bytes : List Nat) (len : Nat) (st : CID_LoadState W) :
    FT_TS_Error × Bool × CID_LoadState W :=
  if env.T1_CONFIG_OPTION_OLD_ENGINE then
    if face.hinting_engine = FT_TS_HINTING_FREETYPE ∨ st.decoder.builder.metrics_only then
      let r := env.parse_charstrings_old st.decoder st.glyph bytes len st.world
      (r.1, false,
        { st with
          decoder := r.2.1
          world := r.2.2
          trace := st.trace ++ [Event.t1_parse_charstrings_old bytes len r.1] })
    else
      cid_load_glyph_parse env dict bytes len st
  else
    if st.decoder.builder.metrics_only then
      let r := env.parse_metrics st.decoder st.glyph bytes len st.world
      (r.1, false,
        { st with
          decoder := r.2.1
          world := r.2.2
          trace := st.trace ++ [Event.t1_parse_metrics bytes len r.1] })
    else
      cid_load_glyph_parse env dict bytes len st

/-- Lines 139-224 of `cid_load_glyph`: the decoder receives the subroutines,
matrix, offset and `lenIV` of dictionary `fd_select`, the buffer is decrypted
and parsed by the engine chosen.  Returns `error`, `force_scaling` and the
state; the `goto Exit` of line 166 leaves with a non-zero `error`, which also
skips the metrics override of lines 229-245. -/
def cid_load_glyph_decode (env : CID_Env W) (face : CID_FaceRec W)
    (fd_select glyph_length : Nat) (charstring : List Nat) (st : CID_LoadState W) :
    FT_TS_Error × Bool × CID_LoadState W :=
  let cid_subrs := face.subrs.getD fd_select default
  let dict := face.cid.font_dicts.getD fd_select default
  let decoder1 : T1_DecoderRec :=
    { st.decoder with
      num_subrs := cid_subrs.num_subrs
      subrs := cid_subrs.code
      subrs_len := none
      subrs_hash := none
      font_matrix := dict.font_matrix
      font_offset := dict.font_offset
      lenIV := dict.private_dict.lenIV }
  let st1 : CID_LoadState W :=
    { st with
      decoder := decoder1
      trace := st.trace ++ [Event.index_subrs fd_select, Event.index_font_dicts fd_select] }
  let cs_offset := if decoder1.lenIV ≥ 0 then decoder1.lenIV.toNat % 2 ^ 32 else 0
  if cs_offset > glyph_length then
    (FT_TS_Err_Invalid_Offset, false, st1)
  else if decoder1.lenIV ≥ 0 then
    cid_load_glyph_engine env face dict
      ((env.t1_decrypt charstring glyph_length 4330).drop cs_offset) (glyph_length - cs_offset)
      { st1 with trace := st1.trace ++ [Event.t1_decrypt glyph_length] }
  else
    cid_load_glyph_engine env face dict (charstring.drop cs_offset) (glyph_length - cs_offset) st1

/-- Lines 229-245 of `cid_load_glyph`: an incremental font may override the
metrics the decoder found. -/
def cid_load_glyph_metrics (env : CID_Env W) (inc : Option (FT_TS_Incremental_FuncsRec W))
    (glyph_index : Nat) (error : FT_TS_Error) (st : CID_LoadState W) :
    FT_TS_Error × CID_LoadState W :=
  match inc with
  | none => (error, st)
  | some i =>
    match i.get_glyph_metrics with
    | none => (error, st)
    | some get_glyph_metrics =>
      if error ≠ 0 then
        (error, st)
      else
        let b := st.decoder.builder
        let metrics : FT_TS_Incremental_MetricsRec :=
          { bearing_x := env.base.FIXED_TO_INT b.left_bearing.x
            bearing_y := 0
            advance := env.base.FIXED_TO_INT b.advance.x
            advance_v := env.base.FIXED_TO_INT b.advance.y }
        let r := get_glyph_metrics glyph_index false metrics st.world
        let m := r.2.1
        let b1 : T1_BuilderRec :=
          { b with
            left_bearing := { b.left_bearing with x := env.base.INT_TO_FIXED m.bearing_x }
            advance :=
              { x := env.base.INT_TO_FIXED m.advance
                y := env.base.INT_TO_FIXED m.advance_v } }
        (r.1,
          { st with
            decoder := { st.decoder with builder := b1 }
            world := r.2.2
            trace := st.trace ++ [Event.inc_get_glyph_metrics glyph_index r.1] })

/-- The pointer `inc` of `cid_load_glyph` (lines 60-63): the face's
incremental interface when the option is compiled in. -/
def cid_inc (env : CID_Env W) (face : CID_FaceRec W) : Option (FT_TS_Incremental_FuncsRec W) :=
  if env.FT_TS_CONFIG_OPTION_INCREMENTAL then face.incremental_interface else none

/-- Lines 68-136 of `cid_load_glyph`: the charstring comes from the
incremental callback when there is one, from the CIDMap otherwise. -/
def cid_load_glyph_fetch (env : CID_Env W) (face : CID_FaceRec W)
    (glyph_index : Nat) (st : CID_LoadState W) : CID_Fetch W :=
  match cid_inc env face with
  | some inc => cid_load_glyph_incremental env face inc glyph_index st
  | none => cid_load_glyph_cidmap env face glyph_index st

/-- The function `cid_load_glyph` (cidgload.c, lines 43-255). -/
def cid_load_glyph (env : CID_Env W) (face : CID_FaceRec W)
    (glyph_index : Nat) (st : CID_LoadState W) : FT_TS_Error × CID_LoadState W :=
  match cid_load_glyph_fetch env face glyph_index st with
  | CID_Fetch.exit error st1 => cid_load_glyph_Exit env error false st1
  | CID_Fetch.data fd_select glyph_length charstring st1 =>
    let d := cid_load_glyph_decode env face fd_select glyph_length charstring st1
    let m := cid_load_glyph_metrics env (cid_inc env face) glyph_index d.1 d.2.2
    cid_load_glyph_Exit env m.1 d.2.1 m.2

end CID

/-! ## CID-keyed Type 1 loader: `cid_slot_load_glyph` -/

/-- The points loop of the scaling step of both loaders
(`for ( n = cur->n_points; n > 0; n--, vec++ )`): the first `n` points are
multiplied by the scales, the others are left alone. -/
def scale_points (MulFix : Int → Int → Int) (n : Int) (x_scale y_scale : Int)
    (points : List FT_TS_Vector) : List FT_TS_Vector :=
  (points.take n.toNat).map
      (fun v => ({ x := MulFix v.x x_scale, y := MulFix v.y y_scale } : FT_TS_Vector)) ++
    points.drop n.toNat

/-- Modelled from the spec: the decoder's `done` operation
(`t1_decoder_funcs->done`, in `psaux`, is not part of the sources) saves the
builder's glyph tables into the slot: the slot's outline becomes the
builder's base outline, whose point array it then shares. -/
def t1_decoder_done {W : Type} (env : CID_Env W) (st : CID_LoadState W) : CID_LoadState W :=
  { st with
    glyph := { st.glyph with outline := st.decoder.builder.base }
    world := env.t1_decoder_finish st.world
    trace := st.trace ++ [Event.t1_decoder_done] }

section CID

variable {W : Type}

/-- Lines 412-413 of `cid_slot_load_glyph`: the outline keeps its owner flag
and receives the reverse-fill flag. -/
def cid_slot_load_glyph_flags (g : T1_GlyphSlotRec) : T1_GlyphSlotRec :=
  { g with
    outline :=
      { g.outline with
        flags := (g.outline.flags &&& FT_TS_OUTLINE_OWNER) ||| FT_TS_OUTLINE_REVERSE_FILL } }

/-- Lines 409-514 of `cid_slot_load_glyph`: metrics, font matrix and offset,
scaling and bounding box, after a successful `cid_load_glyph` and `done`.
`hinting` and `scaled` are the slot flags copied back at lines 398-399,
`font_matrix` and `font_offset` the decoder's at lines 401-402. -/
def cid_slot_load_glyph_metrics (env : CID_Env W) (face : CID_FaceRec W)
    (cidsize : FT_TS_Size_Metrics) (load_flags : Nat) (hinting scaled : Bool)
    (font_matrix : FT_TS_Matrix) (font_offset : FT_TS_Vector)
    (decoder : T1_DecoderRec) (g : T1_GlyphSlotRec) : T1_GlyphSlotRec :=
  if load_flags &&& FT_TS_LOAD_NO_RECURSE ≠ 0 then
    { cid_slot_load_glyph_flags g with
      metrics :=
        { g.metrics with
          horiBearingX := env.base.FIXED_TO_INT decoder.builder.left_bearing.x
          horiAdvance := env.base.FIXED_TO_INT decoder.builder.advance.x }
      internal :=
        { glyph_matrix := font_matrix
          glyph_delta := font_offset
          glyph_transformed := true } }
  else
    let g1 := cid_slot_load_glyph_flags g
    let horiAdvance0 := env.base.FIXED_TO_INT decoder.builder.advance.x
    let vertAdvance0 := (face.cid.font_bbox.yMax - face.cid.font_bbox.yMin) >>> 16
    let flags1 :=
      if cidsize.y_ppem < 24 then g1.outline.flags ||| FT_TS_OUTLINE_HIGH_PRECISION
      else g1.outline.flags
    let outline1 : FT_TS_Outline := { g1.outline with flags := flags1 }
    let has_matrix : Bool :=
      decide (font_matrix.xx ≠ 0x10000 ∨ font_matrix.yy ≠ 0x10000 ∨
        font_matrix.xy ≠ 0 ∨ font_matrix.yx ≠ 0)
    let outline2 := if has_matrix then env.base.Outline_Transform outline1 font_matrix else outline1
    let horiAdvance2 :=
      if has_matrix then env.base.MulFix horiAdvance0 font_matrix.xx else horiAdvance0
    let vertAdvance2 :=
      if has_matrix then env.base.MulFix vertAdvance0 font_matrix.yy else vertAdvance0
    let has_offset : Bool := decide (font_offset.x ≠ 0 ∨ font_offset.y ≠ 0)
    let outline3 :=
      if has_offset then env.base.Outline_Translate outline2 font_offset.x font_offset.y
      else outline2
    let horiAdvance3 := if has_offset then horiAdvance2 + font_offset.x else horiAdvance2
    let vertAdvance3 := if has_offset then vertAdvance2 + font_offset.y else vertAdvance2
    let do_scale : Bool := decide (load_flags &&& FT_TS_LOAD_NO_SCALE = 0) || scaled
    let scale_pts : Bool := do_scale && (!hinting || !decoder.builder.hints_funcs)
    let outline4 : FT_TS_Outline :=
      if scale_pts then
        { outline3 with
          points :=
            scale_points env.base.MulFix decoder.builder.base.n_points g.x_scale g.y_scale
              outline3.points }
      else outline3
    let horiAdvance4 := if do_scale then env.base.MulFix horiAdvance3 g.x_scale else horiAdvance3
    let vertAdvance4 := if do_scale then env.base.MulFix vertAdvance3 g.y_scale else vertAdvance3
    let cbox := env.base.Outline_Get_CBox outline4
    let metrics5 : FT_TS_Glyph_Metrics :=
      { g1.metrics with
        horiAdvance := horiAdvance4
        vertAdvance := vertAdvance4
        width := cbox.xMax - cbox.xMin
        height := cbox.yMax - cbox.yMin
        horiBearingX := cbox.xMin
        horiBearingY := cbox.yMax }
    let metrics6 :=
      if load_flags &&& FT_TS_LOAD_VERTICAL_LAYOUT ≠ 0 then
        env.base.synthesize_vertical_metrics metrics5 metrics5.vertAdvance
      else metrics5
    { g1 with
      metrics := metrics6
      linearHoriAdvance := horiAdvance0
      linearVertAdvance := vertAdvance0
      internal := { g1.internal with glyph_transformed := false }
      format := FT_TS_GLYPH_FORMAT_OUTLINE
      outline := outline4 }

/-- Lines 356-357 of `cid_slot_load_glyph` (and 233-234 of `cff_slot_load`):
`no_recurse` implies `no_scale` and `no_hinting`. -/
def load_flags_recurse (load_flags : Nat) : Nat :=
  if load_flags &&& FT_TS_LOAD_NO_RECURSE ≠ 0 then
    load_flags ||| (FT_TS_LOAD_NO_SCALE ||| FT_TS_LOAD_NO_HINTING)
  else load_flags

/-- Lines 359-371 of `cid_slot_load_glyph`: the slot receives the scales of
the size, an empty outline, the hint and scaled flags and the outline
format.  `load_flags` is the value after line 357. -/
def cid_slot_load_glyph_reset (cidglyph : T1_GlyphSlotRec) (cidsize : FT_TS_Size_Metrics)
    (load_flags : Nat) : T1_GlyphSlotRec :=
  let hinting : Bool :=
    decide (load_flags &&& FT_TS_LOAD_NO_SCALE = 0 ∧ load_flags &&& FT_TS_LOAD_NO_HINTING = 0)
  let scaled : Bool := decide (load_flags &&& FT_TS_LOAD_NO_SCALE = 0)
  { cidglyph with
    x_scale := cidsize.x_scale
    y_scale := cidsize.y_scale
    outline := { cidglyph.outline with n_points := 0, n_contours := 0 }
    hint := hinting
    scaled := scaled
    format := FT_TS_GLYPH_FORMAT_OUTLINE }

/-- Lines 373-391 of `cid_slot_load_glyph`: the decoder is initialised; on
success the state handed to `cid_load_glyph` holds the decoder with its
`no_recurse` flag set from the load flags.  `glyph1` is the slot after line
371, `load_flags` the value after line 357. -/
def cid_slot_load_glyph_init (env : CID_Env W) (glyph1 : T1_GlyphSlotRec)
    (cidsize : FT_TS_Size_Metrics) (load_flags : Nat) (w : W) :
    FT_TS_Error × CID_LoadState W :=
  let i := env.t1_decoder_init glyph1 cidsize glyph1.hint (FT_TS_LOAD_TARGET_MODE load_flags) w
  (i.1,
    { decoder :=
        { i.2.1 with
          builder :=
            { i.2.1.builder with
              no_recurse := decide (load_flags &&& FT_TS_LOAD_NO_RECURSE ≠ 0) } }
      glyph := glyph1
      world := i.2.2
      trace := [Event.t1_decoder_init i.1] })

/-- The function `cid_slot_load_glyph` (cidgload.c, lines 331-522).  Returns
the error, the slot, the hidden state and the trace of the call. -/
def cid_slot_load_glyph (env : CID_Env W) (face : CID_FaceRec W)
    (cidglyph : T1_GlyphSlotRec) (cidsize : FT_TS_Size_Metrics)
    (glyph_index load_flags : Nat) (w : W) :
    FT_TS_Error × T1_GlyphSlotRec × W × List Event :=
  if glyph_index ≥ face.num_glyphs % 2 ^ 32 then
    (FT_TS_Err_Invalid_Argument, cidglyph, w, [])
  else
    let load_flags := load_flags_recurse load_flags
    let glyph1 := cid_slot_load_glyph_reset cidglyph cidsize load_flags
    let i := cid_slot_load_glyph_init env glyph1 cidsize load_flags w
    if i.1 ≠ 0 then
      -- `Exit` with `must_finish_decoder` clear
      (i.1, glyph1, i.2.world, i.2.trace)
    else
      let r := cid_load_glyph env face glyph_index i.2
      if r.1 ≠ 0 then
        -- `Exit` with `must_finish_decoder` set
        let st := t1_decoder_done env r.2
        (r.1, st.glyph, st.world, st.trace)
      else
        let hinting := r.2.glyph.hint
        let scaled := r.2.glyph.scaled
        let font_matrix := r.2.decoder.font_matrix
        let font_offset := r.2.decoder.font_offset
        let st := t1_decoder_done env r.2
        (r.1,
          cid_slot_load_glyph_metrics env face cidsize load_flags hinting scaled
            font_matrix font_offset st.decoder st.glyph,
          st.world, st.trace)

end CID

/-! ## CFF loader: data -/

/-- The record `CFF_FontRecDictRec`, fields read by the loader. -/
structure CFF_FontRecDictRec where
  cid_registry : Nat
  units_per_em : Nat
  font_matrix : FT_TS_Matrix
  font_offset : FT_TS_Vector
deriving DecidableEq, Inhabited

structure CFF_SubFontRec where
  font_dict : CFF_FontRecDictRec
deriving DecidableEq, Inhabited

/-- The record `CFF_CharsetRec`: `cids` is the CID-to-GID array (`none` when
the pointer is null). -/
structure CFF_CharsetRec where
  sids : List Nat
  cids : Option (List Nat)
  max_cid : Nat
deriving DecidableEq, Inhabited

structure CFF_FDSelectRec where
  format : Nat
  range_count : Nat
  data : List Nat
deriving DecidableEq, Inhabited

/-- The record `CFF_IndexRec`: `offsets` is `none` when the pointer is null. -/
structure CFF_IndexRec where
  count : Nat
  offsets : Option (List Nat)
  bytes : List Nat
deriving DecidableEq, Inhabited

/-- The record `CFF_FontRec`, fields read by the loader. -/
structure CFF_FontRec where
  num_glyphs : Nat
  top_font : CFF_SubFontRec
  num_subfonts : Nat
  subfonts : List CFF_SubFontRec
  charset : CFF_CharsetRec
  charstrings_index : CFF_IndexRec
  fd_select : CFF_FDSelectRec
deriving DecidableEq, Inhabited

structure TT_HoriHeader where
  Ascender : Int
  Descender : Int
  number_Of_HMetrics : Nat
deriving DecidableEq, Inhabited

structure TT_VertHeader where
  number_Of_VMetrics : Nat
deriving DecidableEq, Inhabited

structure TT_OS2 where
  version : Nat
  sTypoAscender : Int
  sTypoDescender : Int
deriving DecidableEq, Inhabited

/-- The record `TT_FaceRec`, fields read by the loader.  `cff` is
`extra.data`, `load_eblc` tells whether `sfnt->load_eblc` is non-null,
`hinting_engine` is the property of the face's driver. -/
structure TT_FaceRec (W : Type) where
  cff : CFF_FontRec
  incremental_interface : Option (FT_TS_Incremental_FuncsRec W)
  horizontal : TT_HoriHeader
  vertical_info : Bool
  vertical : TT_VertHeader
  os2 : TT_OS2
  load_eblc : Bool
  hinting_engine : Nat

/-- The record `CFF_SizeRec`, fields read by the loader. -/
structure CFF_SizeRec where
  metrics : FT_TS_Size_Metrics
  strike_index : Nat
deriving DecidableEq, Inhabited

structure TT_SBit_MetricsRec where
  height : Nat
  width : Nat
  horiBearingX : Int
  horiBearingY : Int
  horiAdvance : Nat
  vertBearingX : Int
  vertBearingY : Int
  vertAdvance : Nat
deriving DecidableEq, Inhabited

/-- The record `CFF_Builder`, fields read or written by the loader. -/
structure CFF_BuilderRec where
  base : FT_TS_Outline
  left_bearing : FT_TS_Vector
  advance : FT_TS_Vector
  hints_funcs : Bool
  no_recurse : Bool
  metrics_only : Bool
deriving DecidableEq, Inhabited

/-- The record `CFF_Decoder`, fields read or written by the loader. -/
structure CFF_DecoderRec where
  builder : CFF_BuilderRec
  glyph_width : Int
  width_only : Bool
deriving DecidableEq, Inhabited

/-- Everything `cffgload.c` calls without defining it, and its three
compile-time options. -/
structure CFF_Env (W : Type) where
  CFF_CONFIG_OPTION_OLD_ENGINE : Bool
  FT_TS_CONFIG_OPTION_INCREMENTAL : Bool
  TT_CONFIG_OPTION_EMBEDDED_BITMAPS : Bool
  base : FT_TS_Base
  cff_charset_cid_to_gindex : CFF_CharsetRec → Nat → Nat
  cff_fd_select_get : CFF_FDSelectRec → Nat → Nat
  /-- What `cff_index_access_element` does: error, bytes and length of the element. -/
  cff_index_access_element : CFF_IndexRec → Nat → W → FT_TS_Error × List Nat × Nat × W
  cff_index_forget_element : CFF_IndexRec → List Nat → W → W
  /-- What `sfnt->load_sbit_image` does for a strike, a glyph, the flags and the slot's
  bitmap: error, new bitmap and strike metrics. -/
  load_sbit_image :
    Nat → Nat → Nat → FT_TS_Bitmap → W → FT_TS_Error × FT_TS_Bitmap × TT_SBit_MetricsRec × W
  /-- What `sfnt->get_metrics( face, vertical, gindex, &bearing, &advance )` stores. -/
  get_metrics : Bool → Nat → Int × Nat
  cff_decoder_init :
    T1_GlyphSlotRec → Option CFF_SizeRec → Bool → Nat → W → CFF_DecoderRec × W
  cff_decoder_prepare :
    CFF_DecoderRec → Option CFF_SizeRec → Nat → W → FT_TS_Error × CFF_DecoderRec × W
  parse_charstrings_old :
    CFF_DecoderRec → T1_GlyphSlotRec → List Nat → Nat → W → FT_TS_Error × CFF_DecoderRec × W
  /-- The high-precision engine, on the decoder prepared by `ps_decoder_init`. -/
  parse_charstrings :
    CFF_DecoderRec → T1_GlyphSlotRec → List Nat → Nat → W → FT_TS_Error × CFF_DecoderRec × W
  /-- The part of `builder.funcs.done` that acts on the hidden state. -/
  cff_builder_finish : W → W

/-- The state a call of `cff_slot_load` works on: the glyph slot, the hidden
state of the collaborators and the trace so far. -/
structure CFF_LoadState (W : Type) where
  glyph : T1_GlyphSlotRec
  world : W
  trace : List Event

/-- The cast `(FT_TS_Long)` of an `FT_TS_ULong` (two's complement, 64 bits). -/
def FT_TS_Long_of_ULong (n : Nat) : Int :=
  if n % 2 ^ 64 < 2 ^ 63 then ((n % 2 ^ 64 : Nat) : Int) else ((n % 2 ^ 64 : Nat) : Int) - 2 ^ 64

/-- Modelled from the spec: the builder's commit operation
(`builder.funcs.done`, in `psaux`, is not part of the sources) saves the
decoded glyph tables into the slot: the slot's outline becomes the builder's
base outline. -/
def cff_builder_done {W : Type} (env : CFF_Env W) (decoder : CFF_DecoderRec)
    (st : CFF_LoadState W) : CFF_LoadState W :=
  { glyph := { st.glyph with outline := decoder.builder.base }
    world := env.cff_builder_finish st.world
    trace := st.trace ++ [Event.cff_builder_done] }

/-! ## CFF loader: `cff_get_glyph_data`, `cff_free_glyph_data` -/

section CFF

variable {W : Type}

/-- The incremental interface of the face when the option is compiled in. -/
def cff_inc (env : CFF_Env W) (face : TT_FaceRec W) : Option (FT_TS_Incremental_FuncsRec W) :=
  if env.FT_TS_CONFIG_OPTION_INCREMENTAL then face.incremental_interface else none

/-- The function `cff_get_glyph_data` (cffgload.c, lines 43-76).  Returns the
error, `*pointer`, `*length` and the state. -/
def cff_get_glyph_data (env : CFF_Env W) (face : TT_FaceRec W) (glyph_index : Nat)
    (st : CFF_LoadState W) : FT_TS_Error × List Nat × Nat × CFF_LoadState W :=
  match cff_inc env face with
  | some inc =>
    let r := inc.get_glyph_data glyph_index st.world
    (r.1, r.2.1.pointer, r.2.1.length,
      { st with
        world := r.2.2
        trace := st.trace ++ [Event.inc_get_glyph_data glyph_index r.1] })
  | none =>
    let r := env.cff_index_access_element face.cff.charstrings_index glyph_index st.world
    (r.1, r.2.1, r.2.2.1,
      { st with
        world := r.2.2.2
        trace := st.trace ++ [Event.cff_index_access_element glyph_index r.1] })

/-- The function `cff_free_glyph_data` (cffgload.c, lines 79-111). -/
def cff_free_glyph_data (env : CFF_Env W) (face : TT_FaceRec W) (pointer : List Nat)
    (length : Nat) (st : CFF_LoadState W) : CFF_LoadState W :=
  match cff_inc env face with
  | some inc =>
    { st with
      world := inc.free_glyph_data { pointer := pointer, length := length % 2 ^ 32 } st.world
      trace := st.trace ++ [Event.inc_free_glyph_data] }
  | none =>
    { st with
      world := env.cff_index_forget_element face.cff.charstrings_index pointer st.world
      trace := st.trace ++ [Event.cff_index_forget_element] }

end CFF

/-! ## CFF loader: `cff_slot_load` -/

/-- How a block of `cff_slot_load` ends: with a `return` of the function, or
by falling through to the next block. -/
inductive CFF_Step (W : Type) where
  | ret (error : FT_TS_Error) (st : CFF_LoadState W)
  | next (st : CFF_LoadState W)

/-- What the block that builds the glyph (lines 395-495 of `cff_slot_load`)
leaves behind: `error`, the locals `hinting` and `force_scaling`, the
decoder and the state. -/
structure CFF_Build (W : Type) where
  error : FT_TS_Error
  hinting : Bool
  force_scaling : Bool
  decoder : CFF_DecoderRec
  st : CFF_LoadState W

section CFF

variable {W : Type}

/-- Lines 215-231 of `cff_slot_load`: in a CID-keyed font with a CID map the
requested index is a CID and is mapped to a glyph index, CID 0 excepted;
otherwise the index is checked against the number of glyphs.  Returns the
glyph index to use, or the error returned, and the calls made. -/
def cff_slot_load_index (env : CFF_Env W) (cff : CFF_FontRec) (glyph_index : Nat) :
    Except FT_TS_Error Nat × List Event :=
  if cff.top_font.font_dict.cid_registry ≠ 0xFFFF ∧ cff.charset.cids ≠ none then
    if glyph_index ≠ 0 then
      let g := env.cff_charset_cid_to_gindex cff.charset glyph_index % 2 ^ 32
      if g = 0 then
        (Except.error FT_TS_Err_Invalid_Argument, [Event.cff_charset_cid_to_gindex glyph_index g])
      else
        (Except.ok g, [Event.cff_charset_cid_to_gindex glyph_index g])
    else
      (Except.ok glyph_index, [])
  else if glyph_index ≥ cff.num_glyphs then
    (Except.error FT_TS_Err_Invalid_Argument, [])
  else
    (Except.ok glyph_index, [])

/-- Lines 306-336 of `cff_slot_load`: linear advances of a bitmap glyph. -/
def cff_slot_load_sbit_linear (env : CFF_Env W) (face : TT_FaceRec W) (glyph_index : Nat)
    (st : CFF_LoadState W) : CFF_LoadState W :=
  let h := env.get_metrics false glyph_index
  let has_vertical_info : Bool := face.vertical_info && decide (face.vertical.number_Of_VMetrics > 0)
  if has_vertical_info then
    let v := env.get_metrics true glyph_index
    { st with
      glyph := { st.glyph with linearHoriAdvance := h.2, linearVertAdvance := v.2 }
      trace := st.trace ++
        [Event.sfnt_get_metrics false glyph_index, Event.sfnt_get_metrics true glyph_index] }
  else
    { st with
      glyph :=
        { st.glyph with
          linearHoriAdvance := h.2
          linearVertAdvance :=
            if face.os2.version ≠ 0xFFFF then face.os2.sTypoAscender - face.os2.sTypoDescender
            else face.horizontal.Ascender - face.horizontal.Descender }
      trace := st.trace ++ [Event.sfnt_get_metrics false glyph_index] }

/-- Lines 244-343 of `cff_slot_load`: an embedded bitmap is tried first; when
one is loaded the function returns with a bitmap glyph. -/
def cff_slot_load_sbit (env : CFF_Env W) (face : TT_FaceRec W) (size : Option CFF_SizeRec)
    (glyph_index load_flags : Nat) (st : CFF_LoadState W) : CFF_Step W :=
  if env.TT_CONFIG_OPTION_EMBEDDED_BITMAPS then
    match size with
    | none => CFF_Step.next st
    | some sz =>
      if sz.strike_index ≠ 0xFFFFFFFF ∧ face.load_eblc = true ∧
          load_flags &&& FT_TS_LOAD_NO_BITMAP = 0 then
        let r := env.load_sbit_image sz.strike_index glyph_index load_flags st.glyph.bitmap st.world
        let error := r.1
        let metrics := r.2.2.1
        let st1 : CFF_LoadState W :=
          { glyph := { st.glyph with bitmap := r.2.1 }
            world := r.2.2.2
            trace := st.trace ++ [Event.load_sbit_image glyph_index error] }
        if error = 0 then
          let vertical : Bool := decide (load_flags &&& FT_TS_LOAD_VERTICAL_LAYOUT ≠ 0)
          let g : T1_GlyphSlotRec :=
            { st1.glyph with
              outline := { st1.glyph.outline with n_points := 0, n_contours := 0 }
              metrics :=
                { width := (metrics.width : Int) * 64
                  height := (metrics.height : Int) * 64
                  horiBearingX := metrics.horiBearingX * 64
                  horiBearingY := metrics.horiBearingY * 64
                  horiAdvance := (metrics.horiAdvance : Int) * 64
                  vertBearingX := metrics.vertBearingX * 64
                  vertBearingY := metrics.vertBearingY * 64
                  vertAdvance := (metrics.vertAdvance : Int) * 64 }
              format := FT_TS_GLYPH_FORMAT_BITMAP
              bitmap_left := if vertical then metrics.vertBearingX else metrics.horiBearingX
              bitmap_top := if vertical then metrics.vertBearingY else metrics.horiBearingY }
          CFF_Step.ret error (cff_slot_load_sbit_linear env face glyph_index { st1 with glyph := g })
        else
          CFF_Step.next st1
      else
        CFF_Step.next st
  else
    CFF_Step.next st

/-- Lines 353-381 of `cff_slot_load`: the font matrix and offset of the
governing dictionary, and the rescaling when the subfont's units per em
differ from the top font's.  Returns `font_matrix`, `font_offset`,
`force_scaling` and the state. -/
def cff_slot_load_subfont (env : CFF_Env W) (cff : CFF_FontRec) (glyph_index : Nat)
    (st : CFF_LoadState W) : FT_TS_Matrix × FT_TS_Vector × Bool × CFF_LoadState W :=
  if cff.num_subfonts ≠ 0 then
    let fd0 := env.cff_fd_select_get cff.fd_select glyph_index % 256
    let fd_index := if fd0 ≥ cff.num_subfonts then (cff.num_subfonts - 1) % 256 else fd0
    let top_upm := FT_TS_Long_of_ULong cff.top_font.font_dict.units_per_em
    let sub := (cff.subfonts.getD fd_index default).font_dict
    let sub_upm := FT_TS_Long_of_ULong sub.units_per_em
    let tr := st.trace ++
      [Event.cff_fd_select_get glyph_index fd0, Event.index_subfonts fd_index,
        Event.index_subfonts fd_index, Event.index_subfonts fd_index]
    if top_upm ≠ sub_upm then
      (sub.font_matrix, sub.font_offset, true,
        { st with
          glyph :=
            { st.glyph with
              x_scale := env.base.MulDiv st.glyph.x_scale top_upm sub_upm
              y_scale := env.base.MulDiv st.glyph.y_scale top_upm sub_upm }
          trace := tr })
    else
      (sub.font_matrix, sub.font_offset, false, { st with trace := tr })
  else
    (cff.top_font.font_dict.font_matrix, cff.top_font.font_dict.font_offset, false, st)

/-- Lines 426-457 of `cff_slot_load`: the charstring is parsed by the engine
chosen; the high-precision engine is tried again, unhinted, when it answers
`Glyph_Too_Big`. -/
def cff_slot_load_parse (env : CFF_Env W) (face : TT_FaceRec W)
    (charstring : List Nat) (charstring_len : Nat) (b : CFF_Build W) : CFF_Build W :=
  if env.CFF_CONFIG_OPTION_OLD_ENGINE = true ∧ face.hinting_engine = FT_TS_HINTING_FREETYPE then
    let r := env.parse_charstrings_old b.decoder b.st.glyph charstring charstring_len b.st.world
    { b with
      error := r.1
      decoder := r.2.1
      st :=
        { b.st with
          world := r.2.2
          trace := b.st.trace ++ [Event.cff_parse_charstrings_old charstring charstring_len r.1] } }
  else
    let r := env.parse_charstrings b.decoder b.st.glyph charstring charstring_len b.st.world
    let tr1 := b.st.trace ++
      [Event.cff_parse_charstrings charstring charstring_len b.st.glyph.hint r.1]
    if FT_TS_ERR_EQ r.1 FT_TS_Err_Glyph_Too_Big then
      let glyph1 : T1_GlyphSlotRec := { b.st.glyph with hint := false }
      let r' := env.parse_charstrings r.2.1 glyph1 charstring charstring_len r.2.2
      { error := r'.1
        hinting := false
        force_scaling := true
        decoder := r'.2.1
        st :=
          { glyph := glyph1
            world := r'.2.2
            trace := tr1 ++
              [Event.cff_parse_charstrings charstring charstring_len glyph1.hint r'.1] } }
    else
      { b with
        error := r.1
        decoder := r.2.1
        st := { b.st with world := r.2.2, trace := tr1 } }

/-- Lines 464-488 of `cff_slot_load`: control data of the slot.  The pointer
`csindex->bytes + csindex->offsets[glyph_index] - 1` is kept as its distance
from `csindex->bytes`, which is `-1` for an offset of 0. -/
def cff_slot_load_control (env : CFF_Env W) (face : TT_FaceRec W) (glyph_index : Nat)
    (charstring_len : Nat) (g : T1_GlyphSlotRec) : T1_GlyphSlotRec :=
  match cff_inc env face with
  | some _ => { g with control_data := none, control_len := 0 }
  | none =>
    match face.cff.charstrings_index.offsets with
    | some offsets =>
      { g with
        control_data := some ((offsets.getD glyph_index 0 : Int) - 1)
        control_len := FT_TS_Long_of_ULong charstring_len }
    | none => g

/-- Label `Glyph_Build_Finished` of `cff_slot_load` (lines 490-494): the
glyph tables are saved when there is no error. -/
def cff_slot_load_finished (env : CFF_Env W) (b : CFF_Build W) : CFF_Build W :=
  if b.error = 0 then { b with st := cff_builder_done env b.decoder b.st } else b

/-- Lines 404-414 of `cff_slot_load`: the decoder is initialised and
receives its `width_only` and `no_recurse` flags from the load flags. -/
def cff_slot_load_init (env : CFF_Env W) (size : Option CFF_SizeRec) (load_flags : Nat)
    (hinting : Bool) (st : CFF_LoadState W) : CFF_DecoderRec × CFF_LoadState W :=
  let i := env.cff_decoder_init st.glyph size hinting (FT_TS_LOAD_TARGET_MODE load_flags) st.world
  ({ i.1 with
      width_only := if load_flags &&& FT_TS_LOAD_ADVANCE_ONLY ≠ 0 then true else i.1.width_only
      builder := { i.1.builder with no_recurse := decide (load_flags &&& FT_TS_LOAD_NO_RECURSE ≠ 0) } },
    { st with world := i.2, trace := st.trace ++ [Event.cff_decoder_init] })

/-- Lines 416-495 of `cff_slot_load`: fetch of the charstring, prepare,
parse, release of the charstring, control data, and the commit at
`Glyph_Build_Finished`. -/
def cff_slot_load_decode (env : CFF_Env W) (face : TT_FaceRec W) (size : Option CFF_SizeRec)
    (glyph_index : Nat) (hinting force_scaling : Bool) (decoder0 : CFF_DecoderRec)
    (st0 : CFF_LoadState W) : CFF_Build W :=
  let d := cff_get_glyph_data env face glyph_index st0
  let charstring := d.2.1
  let charstring_len := d.2.2.1
  let st1 : CFF_LoadState W :=
    { d.2.2.2 with trace := d.2.2.2.trace ++ [Event.cff_get_glyph_data glyph_index d.1] }
  if d.1 ≠ 0 then
    cff_slot_load_finished env
      { error := d.1, hinting := hinting, force_scaling := force_scaling
        decoder := decoder0, st := st1 }
  else
    let p := env.cff_decoder_prepare decoder0 size glyph_index st1.world
    let st2 : CFF_LoadState W :=
      { st1 with world := p.2.2, trace := st1.trace ++ [Event.cff_decoder_prepare glyph_index p.1] }
    if p.1 ≠ 0 then
      cff_slot_load_finished env
        { error := p.1, hinting := hinting, force_scaling := force_scaling
          decoder := p.2.1, st := st2 }
    else
      let b := cff_slot_load_parse env face charstring charstring_len
        { error := p.1, hinting := hinting, force_scaling := force_scaling
          decoder := p.2.1, st := st2 }
      let st3 := cff_free_glyph_data env face charstring charstring_len
        { b.st with trace := b.st.trace ++ [Event.cff_free_glyph_data] }
      if b.error ≠ 0 then
        cff_slot_load_finished env { b with st := st3 }
      else
        cff_slot_load_finished env
          { b with
            st :=
              { st3 with
                glyph := cff_slot_load_control env face glyph_index charstring_len st3.glyph } }

/-- Lines 395-495 of `cff_slot_load`: the block that builds the glyph. -/
def cff_slot_load_build (env : CFF_Env W) (face : TT_FaceRec W) (size : Option CFF_SizeRec)
    (glyph_index load_flags : Nat) (hinting force_scaling : Bool) (st : CFF_LoadState W) :
    CFF_Build W :=
  let i := cff_slot_load_init env size load_flags hinting st
  cff_slot_load_decode env face size glyph_index hinting force_scaling i.1 i.2

/-- Lines 497-521 of `cff_slot_load`: an incremental font may override the
metrics the decoder found. -/
def cff_slot_load_inc_metrics (env : CFF_Env W) (face : TT_FaceRec W) (glyph_index : Nat)
    (b : CFF_Build W) : CFF_Build W :=
  match cff_inc env face with
  | none => b
  | some i =>
    match i.get_glyph_metrics with
    | none => b
    | some get_glyph_metrics =>
      if b.error ≠ 0 then
        b
      else
        let bl := b.decoder.builder
        let metrics : FT_TS_Incremental_MetricsRec :=
          { bearing_x := bl.left_bearing.x
            bearing_y := 0
            advance := bl.advance.x
            advance_v := bl.advance.y }
        let r := get_glyph_metrics glyph_index false metrics b.st.world
        let m := r.2.1
        let bl1 : CFF_BuilderRec :=
          { bl with
            left_bearing := { bl.left_bearing with x := m.bearing_x }
            advance := { x := m.advance, y := m.advance_v } }
        { b with
          error := r.1
          decoder := { b.decoder with builder := bl1 }
          st :=
            { b.st with
              world := r.2.2
              trace := b.st.trace ++ [Event.inc_get_glyph_metrics glyph_index r.1] } }

end CFF

section CFF

variable {W : Type}

/-- Lines 523-678 of `cff_slot_load`, run when `error` is zero: metrics from
the tables or from the decoder, font matrix and offset, scaling, bounding
box, vertical bearings. -/
def cff_slot_load_metrics (env : CFF_Env W) (face : TT_FaceRec W) (size : Option CFF_SizeRec)
    (glyph_index load_flags : Nat) (hinting force_scaling : Bool)
    (font_matrix : FT_TS_Matrix) (font_offset : FT_TS_Vector)
    (decoder : CFF_DecoderRec) (st : CFF_LoadState W) : CFF_LoadState W :=
  if load_flags &&& FT_TS_LOAD_NO_RECURSE ≠ 0 then
    { st with
      glyph :=
        { st.glyph with
          metrics :=
            { st.glyph.metrics with
              horiBearingX := decoder.builder.left_bearing.x
              horiAdvance := decoder.glyph_width }
          internal :=
            { glyph_matrix := font_matrix
              glyph_delta := font_offset
              glyph_transformed := true } } }
  else
    let g := st.glyph
    let has_hmetrics : Bool := decide (face.horizontal.number_Of_HMetrics ≠ 0)
    let hm := env.get_metrics false glyph_index
    let horiAdvance0 : Int := if has_hmetrics then (hm.2 : Int) else decoder.glyph_width
    let horiBearingX0 : Int := if has_hmetrics then hm.1 else g.metrics.horiBearingX
    let has_vertical_info : Bool :=
      face.vertical_info && decide (face.vertical.number_Of_VMetrics > 0)
    let vm := env.get_metrics true glyph_index
    let vertBearingY0 : Int := if has_vertical_info then vm.1 else g.metrics.vertBearingY
    let vertAdvance0 : Int :=
      if has_vertical_info then (vm.2 : Int)
      else if face.os2.version ≠ 0xFFFF then face.os2.sTypoAscender - face.os2.sTypoDescender
      else face.horizontal.Ascender - face.horizontal.Descender
    let small : Bool :=
      match size with
      | some sz => decide (sz.metrics.y_ppem < 24)
      | none => false
    let flags1 :=
      (if small then 0 ||| FT_TS_OUTLINE_HIGH_PRECISION else 0) ||| FT_TS_OUTLINE_REVERSE_FILL
    let outline1 : FT_TS_Outline := { g.outline with flags := flags1 }
    let has_matrix : Bool :=
      decide (font_matrix.xx ≠ 0x10000 ∨ font_matrix.yy ≠ 0x10000 ∨
        font_matrix.xy ≠ 0 ∨ font_matrix.yx ≠ 0)
    let outline2 := if has_matrix then env.base.Outline_Transform outline1 font_matrix else outline1
    let horiAdvance2 :=
      if has_matrix then env.base.MulFix horiAdvance0 font_matrix.xx else horiAdvance0
    let vertAdvance2 :=
      if has_matrix then env.base.MulFix vertAdvance0 font_matrix.yy else vertAdvance0
    let has_offset : Bool := decide (font_offset.x ≠ 0 ∨ font_offset.y ≠ 0)
    let outline3 :=
      if has_offset then env.base.Outline_Translate outline2 font_offset.x font_offset.y
      else outline2
    let horiAdvance3 := if has_offset then horiAdvance2 + font_offset.x else horiAdvance2
    let vertAdvance3 := if has_offset then vertAdvance2 + font_offset.y else vertAdvance2
    let do_scale : Bool := decide (load_flags &&& FT_TS_LOAD_NO_SCALE = 0) || force_scaling
    let scale_pts : Bool := do_scale && (!hinting || !decoder.builder.hints_funcs)
    let outline4 : FT_TS_Outline :=
      if scale_pts then
        { outline3 with
          points :=
            scale_points env.base.MulFix outline3.n_points g.x_scale g.y_scale outline3.points }
      else outline3
    let horiAdvance4 := if do_scale then env.base.MulFix horiAdvance3 g.x_scale else horiAdvance3
    let vertAdvance4 := if do_scale then env.base.MulFix vertAdvance3 g.y_scale else vertAdvance3
    let cbox := env.base.Outline_Get_CBox outline4
    let metrics0 : FT_TS_Glyph_Metrics :=
      { g.metrics with horiBearingX := horiBearingX0, vertBearingY := vertBearingY0 }
    let metrics5 : FT_TS_Glyph_Metrics :=
      { metrics0 with
        horiAdvance := horiAdvance4
        vertAdvance := vertAdvance4
        width := cbox.xMax - cbox.xMin
        height := cbox.yMax - cbox.yMin
        horiBearingX := cbox.xMin
        horiBearingY := cbox.yMax }
    let metrics6 : FT_TS_Glyph_Metrics :=
      if has_vertical_info then
        { metrics5 with
          vertBearingX := metrics5.horiBearingX - Int.tdiv metrics5.horiAdvance 2
          vertBearingY := env.base.MulFix metrics5.vertBearingY g.y_scale }
      else if load_flags &&& FT_TS_LOAD_VERTICAL_LAYOUT ≠ 0 then
        env.base.synthesize_vertical_metrics metrics5 metrics5.vertAdvance
      else metrics5
    { st with
      glyph :=
        { g with
          metrics := metrics6
          linearHoriAdvance := horiAdvance0
          linearVertAdvance := vertAdvance0
          internal := { g.internal with glyph_transformed := false }
          format := FT_TS_GLYPH_FORMAT_OUTLINE
          outline := outline4 }
      trace := st.trace ++
        (if has_hmetrics then [Event.sfnt_get_metrics false glyph_index] else []) ++
        (if has_vertical_info then [Event.sfnt_get_metrics true glyph_index] else []) }

/-- Lines 233-681 of `cff_slot_load`: the load of the glyph with internal
index `glyph_index`, after the mapping and the check of lines 215-231, whose
calls are in `tr`. -/
def cff_slot_load_from (env : CFF_Env W) (face : TT_FaceRec W) (glyph : T1_GlyphSlotRec)
    (size : Option CFF_SizeRec) (glyph_index load_flags : Nat) (w : W) (tr : List Event) :
    FT_TS_Error × T1_GlyphSlotRec × W × List Event :=
  let cff := face.cff
  let load_flags := load_flags_recurse load_flags
  let glyph1 : T1_GlyphSlotRec :=
    match size with
    | some sz => { glyph with x_scale := sz.metrics.x_scale, y_scale := sz.metrics.y_scale }
    | none => { glyph with x_scale := 0x10000, y_scale := 0x10000 }
  match cff_slot_load_sbit env face size glyph_index load_flags
      { glyph := glyph1, world := w, trace := tr } with
  | CFF_Step.ret error st => (error, st.glyph, st.world, st.trace)
  | CFF_Step.next st =>
    if load_flags &&& FT_TS_LOAD_SBITS_ONLY ≠ 0 then
      (FT_TS_Err_Invalid_Argument, st.glyph, st.world, st.trace)
    else
      let sf := cff_slot_load_subfont env cff glyph_index st
      let font_matrix := sf.1
      let font_offset := sf.2.1
      let hinting : Bool := decide (load_flags &&& FT_TS_LOAD_NO_HINTING = 0)
      let scaled : Bool := decide (load_flags &&& FT_TS_LOAD_NO_SCALE = 0)
      let st1 : CFF_LoadState W :=
        { sf.2.2.2 with
          glyph :=
            { sf.2.2.2.glyph with
              outline := { sf.2.2.2.glyph.outline with n_points := 0, n_contours := 0 }
              hint := hinting
              scaled := scaled
              format := FT_TS_GLYPH_FORMAT_OUTLINE } }
      let b := cff_slot_load_build env face size glyph_index load_flags hinting sf.2.2.1 st1
      let m := cff_slot_load_inc_metrics env face glyph_index b
      if m.error = 0 then
        let st2 := cff_slot_load_metrics env face size glyph_index load_flags m.hinting
          m.force_scaling font_matrix font_offset m.decoder m.st
        (m.error, st2.glyph, st2.world, st2.trace)
      else
        (m.error, m.st.glyph, m.st.world, m.st.trace)

/-- The function `cff_slot_load` (cffgload.c, lines 193-681).  `size` is
`none` for a null pointer.  Returns the error, the slot, the hidden state and
the trace of the call. -/
def cff_slot_load (env : CFF_Env W) (face : TT_FaceRec W) (glyph : T1_GlyphSlotRec)
    (size : Option CFF_SizeRec) (glyph_index load_flags : Nat) (w : W) :
    FT_TS_Error × T1_GlyphSlotRec × W × List Event :=
  let ix := cff_slot_load_index env face.cff glyph_index
  match ix.1 with
  | Except.error e => (e, glyph, w, ix.2)
  | Except.ok glyph_index => cff_slot_load_from env face glyph size glyph_index load_flags w ix.2

end CFF

/-! ## Reading a trace -/

/-- An invocation of a charstring parser of the CID loader. -/
def Event.isT1Parse : Event → Bool
  | Event.t1_parse_charstrings_old _ _ _ => true
  | Event.t1_parse_metrics _ _ _ => true
  | Event.t1_parse_charstrings _ _ _ _ => true
  | _ => false

/-- An invocation of a charstring parser of the CFF loader. -/
def Event.isCffParse : Event → Bool
  | Event.cff_parse_charstrings_old _ _ _ => true
  | Event.cff_parse_charstrings _ _ _ _ => true
  | _ => false

/-- An allocation, a read of the stream or a step of decoding (decryption or
a parser invocation) in `cid_load_glyph`. -/
def Event.isT1Work : Event → Bool
  | Event.qalloc _ _ => true
  | Event.stream_read_at _ _ _ => true
  | Event.t1_decrypt _ => true
  | Event.index_subrs _ => true
  | Event.index_font_dicts _ => true
  | e => e.isT1Parse

/-- The indexing of `face->subrs` or `cid->font_dicts` with an index that is
not below `num_dicts`. -/
def Event.isBadDictIndex (num_dicts : Nat) : Event → Bool
  | Event.index_subrs i => decide (num_dicts ≤ i)
  | Event.index_font_dicts i => decide (num_dicts ≤ i)
  | _ => false

/-- The indexing of `cff->subfonts` with an index that is not below
`num_subfonts`. -/
def Event.isBadSubfontIndex (num_subfonts : Nat) : Event → Bool
  | Event.index_subfonts i => decide (num_subfonts ≤ i)
  | _ => false

/-- A step of the part of `cid_load_glyph` that obtains the charstring. -/
def Event.isCidFetch : Event → Bool
  | Event.inc_get_glyph_data _ _ => true
  | Event.inc_free_glyph_data => true
  | Event.qalloc _ _ => true
  | Event.stream_seek _ _ => true
  | Event.frame_enter _ _ => true
  | Event.frame_exit => true
  | Event.stream_read_at _ _ _ => true
  | _ => false

/-- A step that `cid_load_glyph` can make. -/
def Event.isCidLoad : Event → Bool
  | Event.index_subrs _ => true
  | Event.index_font_dicts _ => true
  | Event.t1_decrypt _ => true
  | Event.inc_get_glyph_metrics _ _ => true
  | Event.mem_free => true
  | e => e.isCidFetch || e.isT1Parse

/-- A step of the decoding part of `cid_load_glyph` for dictionary index
`fd`. -/
def Event.isCidDecode (fd : Nat) : Event → Bool
  | Event.index_subrs i => decide (i = fd)
  | Event.index_font_dicts i => decide (i = fd)
  | Event.t1_decrypt _ => true
  | e => e.isT1Parse

/-- The state carried by the outcome of the CIDMap read. -/
def CID_MapEntry.state {W : Type} : CID_MapEntry W → CID_LoadState W
  | CID_MapEntry.exit _ st => st
  | CID_MapEntry.entry _ _ _ st => st

/-- A call of the metrics callback of an incremental font. -/
def Event.isIncMetrics : Event → Bool
  | Event.inc_get_glyph_metrics _ _ => true
  | _ => false

/-- The steps of `cff_slot_load` between the fetch of the charstring and the
commit: fetch, prepare, parser invocations, release and commit. -/
def Event.isCffKey : Event → Bool
  | Event.cff_get_glyph_data _ _ => true
  | Event.cff_decoder_prepare _ _ => true
  | Event.cff_free_glyph_data => true
  | Event.cff_builder_done => true
  | e => e.isCffParse

/-- A step of `cff_slot_load` that is not one of the steps of `isCffKey`, not
the mapping of a CID, and not an indexing of `cff->subfonts` outside the
array of `num_subfonts` subfonts. -/
def Event.isCffOther (num_subfonts : Nat) : Event → Bool
  | Event.load_sbit_image _ _ => true
  | Event.sfnt_get_metrics _ _ => true
  | Event.cff_fd_select_get _ _ => true
  | Event.index_subfonts i => decide (i < num_subfonts)
  | Event.cff_decoder_init => true
  | Event.inc_get_glyph_data _ _ => true
  | Event.inc_free_glyph_data => true
  | Event.cff_index_access_element _ _ => true
  | Event.cff_index_forget_element => true
  | Event.inc_get_glyph_metrics _ _ => true
  | _ => false

/-- How the parser invocations `ps` of `cff_slot_load` relate to the slot's
hint flag before (`hint`) and after (`hint'`) and to `error`.  With the
legacy engine there is one invocation.  With the high-precision engine there
is either one invocation that did not answer `Glyph_Too_Big`, or two
invocations on the same bytes and length, the first of which answered
`Glyph_Too_Big` and the second of which was made with the hint flag
cleared. -/
def CFF_ParseShape (legacy : Bool) (hint hint' : Bool) (error : FT_TS_Error)
    (ps : List Event) : Prop :=
  if legacy = true then
    ∃ b l, ps = [Event.cff_parse_charstrings_old b l error] ∧ hint' = hint
  else
    (∃ b l, ps = [Event.cff_parse_charstrings b l hint error] ∧
        FT_TS_ERR_EQ error FT_TS_Err_Glyph_Too_Big = false ∧ hint' = hint) ∨
      (∃ b l e1, ps = [Event.cff_parse_charstrings b l hint e1,
          Event.cff_parse_charstrings b l false error] ∧
        FT_TS_ERR_EQ e1 FT_TS_Err_Glyph_Too_Big = true ∧ hint' = false)

/-- How the steps `key` of the block that builds the glyph (fetch, prepare,
parser invocations, release, commit) relate to the `error` it leaves: the
fetch failed; or the fetch succeeded and prepare failed; or both succeeded,
the parser was invoked, the charstring was released, and the commit was made
when `error` is zero. -/
def CFF_BuildShape (legacy : Bool) (glyph_index : Nat) (hint hint' : Bool)
    (error : FT_TS_Error) (key : List Event) : Prop :=
  (error ≠ 0 ∧ hint' = hint ∧ key = [Event.cff_get_glyph_data glyph_index error]) ∨
    (error ≠ 0 ∧ hint' = hint ∧
      key = [Event.cff_get_glyph_data glyph_index 0,
        Event.cff_decoder_prepare glyph_index error]) ∨
    (∃ ps, CFF_ParseShape legacy hint hint' error ps ∧
      key = [Event.cff_get_glyph_data glyph_index 0, Event.cff_decoder_prepare glyph_index 0] ++
        ps ++ [Event.cff_free_glyph_data] ++
        (if error = 0 then [Event.cff_builder_done] else []))

/-- Whether `cff_slot_load` uses the legacy engine (lines 426-434). -/
def cff_legacy {W : Type} (env : CFF_Env W) (face : TT_FaceRec W) : Bool :=
  decide (env.CFF_CONFIG_OPTION_OLD_ENGINE = true ∧ face.hinting_engine = FT_TS_HINTING_FREETYPE)

/-- The mapping of a CID to a glyph index by `cff_charset_cid_to_gindex`. -/
def Event.isCidMap : Event → Bool
  | Event.cff_charset_cid_to_gindex _ _ => true
  | _ => false

/-- The trace `t'` extends the trace `t` by events that all satisfy `q`. -/
def Emits (q : Event → Bool) (t t' : List Event) : Prop :=
  ∃ new, t' = t ++ new ∧ ∀ e ∈ new, q e = true

/-- The state carried by the outcome of the fetch part of `cid_load_glyph`. -/
def CID_Fetch.state {W : Type} : CID_Fetch W → CID_LoadState W
  | CID_Fetch.exit _ st => st
  | CID_Fetch.data _ _ _ st => st

/-- How the parser invocations `ps` of one decode in `cid_load_glyph` relate
to the slot before (`g`) and after (`g'`), to `force_scaling` and to `error`:
either the high-precision engine answered `Glyph_Too_Big` and was invoked
again on the same bytes, after the hint flag was cleared, or at most one
invocation was made and it did not answer `Glyph_Too_Big` to the
high-precision call. -/
def CID_RetryShape (g g' : T1_GlyphSlotRec) (force_scaling : Bool) (error : FT_TS_Error)
    (ps : List Event) : Prop :=
  (force_scaling = true ∧ g' = { g with hint := false } ∧
      ∃ b l e1, ps = [Event.t1_parse_charstrings b l g.hint e1,
          Event.t1_parse_charstrings b l false error] ∧
        FT_TS_ERR_EQ e1 FT_TS_Err_Glyph_Too_Big = true) ∨
    (force_scaling = false ∧ g' = g ∧ ps.length ≤ 1 ∧
      ∀ b l h e, Event.t1_parse_charstrings b l h e ∈ ps →
        FT_TS_ERR_EQ e FT_TS_Err_Glyph_Too_Big = false)

/-! ## The steps shared by the two loaders

Lines 610-662 of `cff_slot_load` and lines 454-506 of `cid_slot_load_glyph`
are the same code: font matrix, offset, scaling, bounding box.  They are
given here once, on the part of the slot they work on. -/

/-- The part of the slot that the matrix, offset and scaling steps read and
write: the outline and the two advances. -/
structure Slot_Geometry where
  outline : FT_TS_Outline
  horiAdvance : Int
  vertAdvance : Int
deriving DecidableEq, Inhabited

/-- The step "apply the font matrix, if any" (cff 610-620, cid 454-464). -/
def apply_font_matrix (base : FT_TS_Base) (font_matrix : FT_TS_Matrix) (s : Slot_Geometry) :
    Slot_Geometry :=
  if font_matrix.xx ≠ 0x10000 ∨ font_matrix.yy ≠ 0x10000 ∨
      font_matrix.xy ≠ 0 ∨ font_matrix.yx ≠ 0 then
    { outline := base.Outline_Transform s.outline font_matrix
      horiAdvance := base.MulFix s.horiAdvance font_matrix.xx
      vertAdvance := base.MulFix s.vertAdvance font_matrix.yy }
  else s

/-- The step that applies the font offset (cff 622-630, cid 466-474). -/
def apply_font_offset (base : FT_TS_Base) (font_offset : FT_TS_Vector) (s : Slot_Geometry) :
    Slot_Geometry :=
  if font_offset.x ≠ 0 ∨ font_offset.y ≠ 0 then
    { outline := base.Outline_Translate s.outline font_offset.x font_offset.y
      horiAdvance := s.horiAdvance + font_offset.x
      vertAdvance := s.vertAdvance + font_offset.y }
  else s

/-- The step "scale the outline and the metrics" (cff 632-653, cid 476-497).
`forced` is `force_scaling` in `cff_slot_load` and `scaled` in
`cid_slot_load_glyph`; `n` is the number of points of the outline `cur`,
`hints_funcs` tells whether the builder has a hinter. -/
def scale_outline_metrics (base : FT_TS_Base) (load_flags : Nat)
    (forced hinting hints_funcs : Bool) (n : Int) (x_scale y_scale : Int) (s : Slot_Geometry) :
    Slot_Geometry :=
  if load_flags &&& FT_TS_LOAD_NO_SCALE = 0 ∨ forced = true then
    { outline :=
        if hinting = false ∨ hints_funcs = false then
          { s.outline with points := scale_points base.MulFix n x_scale y_scale s.outline.points }
        else s.outline
      horiAdvance := base.MulFix s.horiAdvance x_scale
      vertAdvance := base.MulFix s.vertAdvance y_scale }
  else s

/-- The step "compute the other metrics" (cff 655-662, cid 499-506): width,
height and horizontal bearings are read off the control box of the outline. -/
def compute_other_metrics (base : FT_TS_Base) (outline : FT_TS_Outline)
    (metrics : FT_TS_Glyph_Metrics) : FT_TS_Glyph_Metrics :=
  let cbox := base.Outline_Get_CBox outline
  { metrics with
    width := cbox.xMax - cbox.xMin
    height := cbox.yMax - cbox.yMin
    horiBearingX := cbox.xMin
    horiBearingY := cbox.yMax }

/-- The unscaled horizontal advance of `cff_slot_load` (lines 549-568): that
of the horizontal metrics table when the face has one, the width found by the
decoder otherwise. -/
def cff_slot_load_horiAdvance {W : Type} (env : CFF_Env W) (face : TT_FaceRec W)
    (glyph_index : Nat) (decoder : CFF_DecoderRec) : Int :=
  if face.horizontal.number_Of_HMetrics ≠ 0 then ((env.get_metrics false glyph_index).2 : Int)
  else decoder.glyph_width

/-- The flag `has_vertical_info` of `cff_slot_load` (lines 572-573): the face
has a vertical header and its vertical metrics table is not empty. -/
def cff_has_vertical_info {W : Type} (face : TT_FaceRec W) : Bool :=
  face.vertical_info && decide (face.vertical.number_Of_VMetrics > 0)

/-- The unscaled vertical advance of `cff_slot_load` (lines 572-598): that of
the vertical metrics table when the face has usable vertical metrics, a
constant of the font otherwise. -/
def cff_slot_load_vertAdvance {W : Type} (env : CFF_Env W) (face : TT_FaceRec W)
    (glyph_index : Nat) : Int :=
  if cff_has_vertical_info face then ((env.get_metrics true glyph_index).2 : Int)
  else if face.os2.version ≠ 0xFFFF then face.os2.sTypoAscender - face.os2.sTypoDescender
  else face.horizontal.Ascender - face.horizontal.Descender

/-- The flags the outline receives in `cff_slot_load` (lines 604-608). -/
def cff_slot_load_outline_flags (size : Option CFF_SizeRec) : Nat :=
  let small : Bool :=
    match size with
    | some sz => decide (sz.metrics.y_ppem < 24)
    | none => false
  (if small then 0 ||| FT_TS_OUTLINE_HIGH_PRECISION else 0) ||| FT_TS_OUTLINE_REVERSE_FILL

/-- The outline and the advances of `cff_slot_load` after lines 549-630:
the unscaled advances go, with the outline the slot holds, through the
matrix and offset steps. -/
def cff_slot_load_unscaled {W : Type} (env : CFF_Env W) (face : TT_FaceRec W)
    (size : Option CFF_SizeRec) (glyph_index : Nat)
    (font_matrix : FT_TS_Matrix) (font_offset : FT_TS_Vector) (decoder : CFF_DecoderRec)
    (g : T1_GlyphSlotRec) : Slot_Geometry :=
  apply_font_offset env.base font_offset
    (apply_font_matrix env.base font_matrix
      { outline := { g.outline with flags := cff_slot_load_outline_flags size }
        horiAdvance := cff_slot_load_horiAdvance env face glyph_index decoder
        vertAdvance := cff_slot_load_vertAdvance env face glyph_index })

/-- The outline and the advances of `cff_slot_load` after lines 549-653:
the scaling step follows the matrix and offset steps. -/
def cff_slot_load_geometry {W : Type} (env : CFF_Env W) (face : TT_FaceRec W)
    (size : Option CFF_SizeRec) (glyph_index load_flags : Nat) (hinting force_scaling : Bool)
    (font_matrix : FT_TS_Matrix) (font_offset : FT_TS_Vector) (decoder : CFF_DecoderRec)
    (g : T1_GlyphSlotRec) : Slot_Geometry :=
  scale_outline_metrics env.base load_flags force_scaling hinting decoder.builder.hints_funcs
    (cff_slot_load_unscaled env face size glyph_index font_matrix font_offset decoder
      g).outline.n_points
    g.x_scale g.y_scale
    (cff_slot_load_unscaled env face size glyph_index font_matrix font_offset decoder g)

/-- The metrics of `cff_slot_load` after line 662, before the vertical
bearings are set: bearings read from the tables (lines 565, 586), advances
after scaling, then the values read off the control box. -/
def cff_slot_load_box_metrics {W : Type} (env : CFF_Env W) (face : TT_FaceRec W)
    (size : Option CFF_SizeRec) (glyph_index load_flags : Nat) (hinting force_scaling : Bool)
    (font_matrix : FT_TS_Matrix) (font_offset : FT_TS_Vector) (decoder : CFF_DecoderRec)
    (g : T1_GlyphSlotRec) : FT_TS_Glyph_Metrics :=
  let s := cff_slot_load_geometry env face size glyph_index load_flags hinting force_scaling
    font_matrix font_offset decoder g
  compute_other_metrics env.base s.outline
    { g.metrics with
      horiBearingX :=
        if face.horizontal.number_Of_HMetrics ≠ 0 then (env.get_metrics false glyph_index).1
        else g.metrics.horiBearingX
      vertBearingY :=
        if cff_has_vertical_info face then (env.get_metrics true glyph_index).1
        else g.metrics.vertBearingY
      horiAdvance := s.horiAdvance
      vertAdvance := s.vertAdvance }

/-- The outline and the advances of `cid_slot_load_glyph` after lines
436-474: the unscaled advances go, with the outline the slot holds, through
the matrix and offset steps. -/
def cid_slot_load_glyph_unscaled {W : Type} (env : CID_Env W) (face : CID_FaceRec W)
    (cidsize : FT_TS_Size_Metrics)
    (font_matrix : FT_TS_Matrix) (font_offset : FT_TS_Vector) (decoder : T1_DecoderRec)
    (g : T1_GlyphSlotRec) : Slot_Geometry :=
  apply_font_offset env.base font_offset
    (apply_font_matrix env.base font_matrix
      { outline :=
          { (cid_slot_load_glyph_flags g).outline with
            flags :=
              if cidsize.y_ppem < 24 then
                (cid_slot_load_glyph_flags g).outline.flags ||| FT_TS_OUTLINE_HIGH_PRECISION
              else (cid_slot_load_glyph_flags g).outline.flags }
        horiAdvance := env.base.FIXED_TO_INT decoder.builder.advance.x
        vertAdvance := (face.cid.font_bbox.yMax - face.cid.font_bbox.yMin) >>> 16 })

/-- The outline and the advances of `cid_slot_load_glyph` after lines
436-497: the scaling step follows the matrix and offset steps. -/
def cid_slot_load_glyph_geometry {W : Type} (env : CID_Env W) (face : CID_FaceRec W)
    (cidsize : FT_TS_Size_Metrics) (load_flags : Nat) (hinting scaled : Bool)
    (font_matrix : FT_TS_Matrix) (font_offset : FT_TS_Vector) (decoder : T1_DecoderRec)
    (g : T1_GlyphSlotRec) : Slot_Geometry :=
  scale_outline_metrics env.base load_flags scaled hinting decoder.builder.hints_funcs
    decoder.builder.base.n_points g.x_scale g.y_scale
    (cid_slot_load_glyph_unscaled env face cidsize font_matrix font_offset decoder g)

/-- Modelled from the spec: `ft_synthesize_vertical_metrics` (in `ftobjs`,
not part of the sources) makes up the vertical bearings and the vertical
advance of a metrics record and leaves its other fields alone. -/
def FT_TS_Base.synthesizes_vertical (base : FT_TS_Base) : Prop :=
  ∀ (m : FT_TS_Glyph_Metrics) (a : Int),
    base.synthesize_vertical_metrics m a =
      { m with
        vertBearingX := (base.synthesize_vertical_metrics m a).vertBearingX
        vertBearingY := (base.synthesize_vertical_metrics m a).vertBearingY
        vertAdvance := (base.synthesize_vertical_metrics m a).vertAdvance }

/-! ## The base helpers, modelled

`FT_TS_MulFix`, `FT_TS_Outline_Transform`, `FT_TS_Outline_Translate` and
`FT_TS_Outline_Get_CBox` belong to the base layer, which is not part of the
sources.  The loaders take them as parameters (`FT_TS_Base`); the models
below serve the properties that depend on what they compute. -/

/-- Modelled from the spec: `FT_TS_MulFix`, the product of two 16.16 numbers
rounded to the nearest 16.16 number, halves away from zero. -/
def FT_TS_MulFix (a b : Int) : Int :=
  if a * b < 0 then -((-(a * b) + 0x8000) / 0x10000) else (a * b + 0x8000) / 0x10000

/-- Modelled from the spec: `FT_TS_Outline_Transform` multiplies every point
of the outline by the 16.16 matrix. -/
def FT_TS_Outline_Transform (o : FT_TS_Outline) (m : FT_TS_Matrix) : FT_TS_Outline :=
  { o with
    points := o.points.map (fun v =>
      ({ x := FT_TS_MulFix v.x m.xx + FT_TS_MulFix v.y m.xy
         y := FT_TS_MulFix v.x m.yx + FT_TS_MulFix v.y m.yy } : FT_TS_Vector)) }

/-- Modelled from the spec: `FT_TS_Outline_Translate` adds the offset to
every point of the outline. -/
def FT_TS_Outline_Translate (o : FT_TS_Outline) (dx dy : Int) : FT_TS_Outline :=
  { o with points := o.points.map (fun v => ({ x := v.x + dx, y := v.y + dy } : FT_TS_Vector)) }

/-- Modelled from the spec: `FT_TS_Outline_Get_CBox`, the smallest box that
holds every point of the outline, and the box at the origin for an outline
without points. -/
def FT_TS_Outline_Get_CBox (o : FT_TS_Outline) : FT_TS_BBox :=
  match o.points with
  | [] => { xMin := 0, yMin := 0, xMax := 0, yMax := 0 }
  | v :: vs =>
    { xMin := vs.foldl (fun a u => min a u.x) v.x
      yMin := vs.foldl (fun a u => min a u.y) v.y
      xMax := vs.foldl (fun a u => max a u.x) v.x
      yMax := vs.foldl (fun a u => max a u.y) v.y }

/-- The matrix step as the specification words it, without the test for the
identity: the matrix is applied whatever it is. -/
def apply_font_matrix_always (base : FT_TS_Base) (font_matrix : FT_TS_Matrix)
    (s : Slot_Geometry) : Slot_Geometry :=
  { outline := base.Outline_Transform s.outline font_matrix
    horiAdvance := base.MulFix s.horiAdvance font_matrix.xx
    vertAdvance := base.MulFix s.vertAdvance font_matrix.yy }

/-- The offset step as the specification words it, without the test for the
zero offset: the offset is applied whatever it is. -/
def apply_font_offset_always (base : FT_TS_Base) (font_offset : FT_TS_Vector)
    (s : Slot_Geometry) : Slot_Geometry :=
  { outline := base.Outline_Translate s.outline font_offset.x font_offset.y
    horiAdvance := s.horiAdvance + font_offset.x
    vertAdvance := s.vertAdvance + font_offset.y }

/-! ## Reaching the metrics -/

/-- An invocation of the high-precision CFF parser that answered
`Glyph_Too_Big`. -/
def Event.isCffTooBig : Event → Bool
  | Event.cff_parse_charstrings _ _ _ e => FT_TS_ERR_EQ e FT_TS_Err_Glyph_Too_Big
  | _ => false

/-- An invocation of the high-precision Type 1 parser that answered
`Glyph_Too_Big`. -/
def Event.isT1TooBig : Event → Bool
  | Event.t1_parse_charstrings _ _ _ e => FT_TS_ERR_EQ e FT_TS_Err_Glyph_Too_Big
  | _ => false

/-- What `cff_slot_load` holds when control reaches line 523: the glyph index
after lines 215-231, the load flags after line 234, the font matrix and offset
chosen at lines 353-381, and the error, the flags `hinting` and
`force_scaling`, the decoder and the slot left by lines 395-521. -/
structure CFF_Built (W : Type) where
  glyph_index : Nat
  load_flags : Nat
  font_matrix : FT_TS_Matrix
  font_offset : FT_TS_Vector
  build : CFF_Build W

section CFF

variable {W : Type}

/-- Lines 236-242 of `cff_slot_load`: the horizontal and vertical scales the
slot receives, those of the size, or `0x10000` when there is no size. -/
def cff_slot_load_scales (size : Option CFF_SizeRec) : Int × Int :=
  match size with
  | some sz => (sz.metrics.x_scale, sz.metrics.y_scale)
  | none => (0x10000, 0x10000)

/-- Lines 358-363 of `cff_slot_load`: the index of the subfont that governs
the glyph, brought back to the last subfont when it is too large. -/
def cff_slot_load_fd_index (env : CFF_Env W) (cff : CFF_FontRec) (glyph_index : Nat) : Nat :=
  let fd0 := env.cff_fd_select_get cff.fd_select glyph_index % 256
  if fd0 ≥ cff.num_subfonts then (cff.num_subfonts - 1) % 256 else fd0

/-- Lines 356-381 of `cff_slot_load`: the dictionary whose font matrix and
offset are used, that of the governing subfont when the font has subfonts and
the top dictionary otherwise. -/
def cff_slot_load_dict (env : CFF_Env W) (cff : CFF_FontRec) (glyph_index : Nat) :
    CFF_FontRecDictRec :=
  if cff.num_subfonts ≠ 0 then
    (cff.subfonts.getD (cff_slot_load_fd_index env cff glyph_index) default).font_dict
  else cff.top_font.font_dict

/-- Lines 215-521 of `cff_slot_load`: everything that precedes the setting of
the metrics.  `none` when the function has returned before line 523 (bad
index, bitmap loaded, or only bitmaps wanted). -/
def cff_slot_load_built (env : CFF_Env W) (face : TT_FaceRec W) (glyph : T1_GlyphSlotRec)
    (size : Option CFF_SizeRec) (glyph_index load_flags : Nat) (w : W) :
    Option (CFF_Built W) :=
  let cff := face.cff
  let ix := cff_slot_load_index env cff glyph_index
  match ix.1 with
  | Except.error _ => none
  | Except.ok glyph_index =>
    let load_flags := load_flags_recurse load_flags
    let glyph1 : T1_GlyphSlotRec :=
      match size with
      | some sz => { glyph with x_scale := sz.metrics.x_scale, y_scale := sz.metrics.y_scale }
      | none => { glyph with x_scale := 0x10000, y_scale := 0x10000 }
    match cff_slot_load_sbit env face size glyph_index load_flags
        { glyph := glyph1, world := w, trace := ix.2 } with
    | CFF_Step.ret _ _ => none
    | CFF_Step.next st =>
      if load_flags &&& FT_TS_LOAD_SBITS_ONLY ≠ 0 then
        none
      else
        let sf := cff_slot_load_subfont env cff glyph_index st
        let hinting : Bool := decide (load_flags &&& FT_TS_LOAD_NO_HINTING = 0)
        let scaled : Bool := decide (load_flags &&& FT_TS_LOAD_NO_SCALE = 0)
        let st1 : CFF_LoadState W :=
          { sf.2.2.2 with
            glyph :=
              { sf.2.2.2.glyph with
                outline := { sf.2.2.2.glyph.outline with n_points := 0, n_contours := 0 }
                hint := hinting
                scaled := scaled
                format := FT_TS_GLYPH_FORMAT_OUTLINE } }
        let b := cff_slot_load_build env face size glyph_index load_flags hinting sf.2.2.1 st1
        some
          { glyph_index := glyph_index
            load_flags := load_flags
            font_matrix := sf.1
            font_offset := sf.2.1
            build := cff_slot_load_inc_metrics env face glyph_index b }

end CFF

section CID

variable {W : Type}

/-- Lines 350-393 of `cid_slot_load_glyph`: everything up to the return of
`cid_load_glyph`, whose error and state are returned.  `none` when the
function has left before (bad index, or the decoder could not be
initialised). -/
def cid_slot_load_glyph_loaded (env : CID_Env W) (face : CID_FaceRec W)
    (cidglyph : T1_GlyphSlotRec) (cidsize : FT_TS_Size_Metrics)
    (glyph_index load_flags : Nat) (w : W) : Option (FT_TS_Error × CID_LoadState W) :=
  if glyph_index ≥ face.num_glyphs % 2 ^ 32 then
    none
  else
    let load_flags := load_flags_recurse load_flags
    let glyph1 := cid_slot_load_glyph_reset cidglyph cidsize load_flags
    let i := cid_slot_load_glyph_init env glyph1 cidsize load_flags w
    if i.1 ≠ 0 then
      none
    else
      some (cid_load_glyph env face glyph_index i.2)

end CID

/-! ## Monochrome renderer: `ft_raster1_render` (`ftrend1.c`) -/

/-- The render mode `FT_TS_RENDER_MODE_MONO` (value of the enumeration
`FT_TS_Render_Mode`, whose header is not part of the sources). -/
def FT_TS_RENDER_MODE_MONO : Nat := 2

/-- The flag `FT_TS_GLYPH_OWN_BITMAP` of `slot->internal->flags` (value of
`ftobjs.h`, which is not part of the sources). -/
def FT_TS_GLYPH_OWN_BITMAP : Nat := 0x1

/-- Error code `Raster_Overflow`. -/
def FT_TS_Err_Raster_Overflow : FT_TS_Error := 0x62

/-- The cast `(FT_TS_Int)` of an `unsigned int` (two's complement, 32 bits). -/
def FT_TS_Int_of_UInt (n : Nat) : Int :=
  if n % 2 ^ 32 < 2 ^ 31 then ((n % 2 ^ 32 : Nat) : Int) else ((n % 2 ^ 32 : Nat) : Int) - 2 ^ 32

/-- Arithmetic in `int` (`FT_TS_Int`): a result is reduced to 32 bits in
two's complement. -/
def FT_TS_Int_wrap (x : Int) : Int :=
  FT_TS_Int_of_UInt (x % 2 ^ 32).toNat

/-- The root glyph slot as the renderer sees it: the fields of
`FT_TS_GlyphSlotRec` that `ft_raster1_render` reads or writes.
`internal_flags` is `slot->internal->flags`; a null `bitmap.buffer` is the
empty list. -/
structure FT_TS_GlyphSlotRec where
  format : Nat
  outline : FT_TS_Outline
  bitmap : FT_TS_Bitmap
  bitmap_left : Int
  bitmap_top : Int
  internal_flags : Nat
deriving DecidableEq, Inhabited

/-- The record `FT_TS_RendererRec`, field read by `ft_raster1_render`. -/
structure FT_TS_RendererRec where
  glyph_format : Nat
deriving DecidableEq, Inhabited

/-- One call made by `ft_raster1_render`, with the value returned where there
is one. -/
inductive Raster_Event where
  | mem_free
  | preset_bitmap (overflow : Bool)
  | alloc_mult (rows : Nat) (pitch : Int) (ret : FT_TS_Error)
  | outline_translate (dx dy : Int)
  | raster_render (ret : FT_TS_Error)
deriving DecidableEq, Inhabited, Repr

/-- Everything `ft_raster1_render` calls without defining it.  The outline
helper `FT_TS_Outline_Translate` is that of `base`. -/
structure Raster_Env (W : Type) where
  base : FT_TS_Base
  /-- What `ft_glyphslot_preset_bitmap( slot, mode, origin )` does: its answer (true for
  an overflow) and the slot it leaves. -/
  ft_glyphslot_preset_bitmap :
    FT_TS_GlyphSlotRec → Nat → Option FT_TS_Vector → Bool × FT_TS_GlyphSlotRec
  /-- What `FT_TS_ALLOC_MULT( buffer, rows, pitch )` does: the error and the buffer. -/
  alloc_mult : Nat → Int → W → FT_TS_Error × List Nat × W
  /-- What `FT_TS_FREE( buffer )` does to the hidden state. -/
  mem_free : List Nat → W → W
  /-- What `render->raster_render( render->raster, &params )` does with the source outline
  and the target bitmap of `params`: the error and the bitmap it has drawn into. -/
  raster_render : FT_TS_Outline → FT_TS_Bitmap → W → FT_TS_Error × FT_TS_Bitmap × W

section Raster

variable {W : Type}

/-- The statement `FT_TS_FREE( bitmap->buffer ); slot->internal->flags &=
~FT_TS_GLYPH_OWN_BITMAP;` (lines 125-126 and 169-170 of `ftrend1.c`). -/
def ft_raster1_render_release (env : Raster_Env W) (slot : FT_TS_GlyphSlotRec) (w : W)
    (tr : List Raster_Event) : FT_TS_GlyphSlotRec × W × List Raster_Event :=
  ({ slot with
      bitmap := { slot.bitmap with buffer := [] }
      internal_flags := slot.internal_flags &&& (0xFFFFFFFF ^^^ FT_TS_GLYPH_OWN_BITMAP) },
    env.mem_free slot.bitmap.buffer w, tr ++ [Raster_Event.mem_free])

/-- Label `Exit` of `ft_raster1_render` (lines 162-176): on success the slot
becomes a bitmap glyph, on failure a bitmap the slot owns is released; then
the outline is translated back when a shift was applied. -/
def ft_raster1_render_Exit (env : Raster_Env W) (error : FT_TS_Error) (x_shift y_shift : Int)
    (slot : FT_TS_GlyphSlotRec) (w : W) (tr : List Raster_Event) :
    FT_TS_Error × FT_TS_GlyphSlotRec × W × List Raster_Event :=
  let r : FT_TS_GlyphSlotRec × W × List Raster_Event :=
    if error = 0 then
      ({ slot with format := FT_TS_GLYPH_FORMAT_BITMAP }, w, tr)
    else if slot.internal_flags &&& FT_TS_GLYPH_OWN_BITMAP ≠ 0 then
      ft_raster1_render_release env slot w tr
    else
      (slot, w, tr)
  if x_shift ≠ 0 ∨ y_shift ≠ 0 then
    (error,
      { r.1 with outline := env.base.Outline_Translate r.1.outline (-x_shift) (-y_shift) },
      r.2.1, r.2.2 ++ [Raster_Event.outline_translate (-x_shift) (-y_shift)])
  else
    (error, r.1, r.2.1, r.2.2)

/-- Lines 142-160 of `ft_raster1_render`, after the buffer has been
allocated: the slot owns its bitmap, the shift is computed, the outline is
translated and rendered into the bitmap.  The two products of lines 141-142
are computed in `int` before they are widened to `FT_TS_Pos`.  Returns
`error`, `x_shift`, `y_shift` and the state at `Exit`. -/
def ft_raster1_render_draw (env : Raster_Env W) (slot : FT_TS_GlyphSlotRec)
    (origin : Option FT_TS_Vector) (w : W) (tr : List Raster_Event) :
    FT_TS_Error × Int × Int × FT_TS_GlyphSlotRec × W × List Raster_Event :=
  let s1 : FT_TS_GlyphSlotRec :=
    { slot with internal_flags := slot.internal_flags ||| FT_TS_GLYPH_OWN_BITMAP }
  let x_shift0 : Int := FT_TS_Int_wrap (FT_TS_Int_wrap (-s1.bitmap_left) * 64)
  let y_shift0 : Int :=
    FT_TS_Int_wrap (FT_TS_Int_wrap (FT_TS_Int_of_UInt s1.bitmap.rows - s1.bitmap_top) * 64)
  let x_shift : Int :=
    match origin with
    | some o => x_shift0 + o.x
    | none => x_shift0
  let y_shift : Int :=
    match origin with
    | some o => y_shift0 + o.y
    | none => y_shift0
  let s2 : FT_TS_GlyphSlotRec :=
    if x_shift ≠ 0 ∨ y_shift ≠ 0 then
      { s1 with outline := env.base.Outline_Translate s1.outline x_shift y_shift }
    else s1
  let tr2 : List Raster_Event :=
    if x_shift ≠ 0 ∨ y_shift ≠ 0 then tr ++ [Raster_Event.outline_translate x_shift y_shift]
    else tr
  let r := env.raster_render s2.outline s2.bitmap w
  (r.1, x_shift, y_shift, { s2 with bitmap := r.2.1 }, r.2.2,
    tr2 ++ [Raster_Event.raster_render r.1])

/-- The function `ft_raster1_render` (ftrend1.c, lines 92-176).  `origin` is
`none` for a null pointer.  Returns the error, the slot, the hidden state and
the calls made. -/
def ft_raster1_render (env : Raster_Env W) (render : FT_TS_RendererRec)
    (slot : FT_TS_GlyphSlotRec) (mode : Nat) (origin : Option FT_TS_Vector) (w : W) :
    FT_TS_Error × FT_TS_GlyphSlotRec × W × List Raster_Event :=
  if slot.format ≠ render.glyph_format then
    ft_raster1_render_Exit env FT_TS_Err_Invalid_Argument 0 0 slot w []
  else if mode ≠ FT_TS_RENDER_MODE_MONO then
    (FT_TS_Err_Cannot_Render_Glyph, slot, w, [])
  else
    let s1 : FT_TS_GlyphSlotRec × W × List Raster_Event :=
      if slot.internal_flags &&& FT_TS_GLYPH_OWN_BITMAP ≠ 0 then
        ft_raster1_render_release env slot w []
      else (slot, w, [])
    let p := env.ft_glyphslot_preset_bitmap s1.1 mode origin
    let tr2 := s1.2.2 ++ [Raster_Event.preset_bitmap p.1]
    if p.1 = true then
      ft_raster1_render_Exit env FT_TS_Err_Raster_Overflow 0 0 p.2 s1.2.1 tr2
    else
      let a := env.alloc_mult p.2.bitmap.rows p.2.bitmap.pitch s1.2.1
      let s2 : FT_TS_GlyphSlotRec := { p.2 with bitmap := { p.2.bitmap with buffer := a.2.1 } }
      let tr3 := tr2 ++ [Raster_Event.alloc_mult p.2.bitmap.rows p.2.bitmap.pitch a.1]
      if a.1 ≠ 0 then
        ft_raster1_render_Exit env a.1 0 0 s2 a.2.2 tr3
      else
        let d := ft_raster1_render_draw env s2 origin a.2.2 tr3
        ft_raster1_render_Exit env d.1 d.2.1 d.2.2.1 d.2.2.2.1 d.2.2.2.2.1 d.2.2.2.2.2

/-- A translation of the outline. -/
def Raster_Event.isTranslate : Raster_Event → Bool
  | Raster_Event.outline_translate _ _ => true
  | _ => false

/-- A call of the rasterizer. -/
def Raster_Event.isRender : Raster_Event → Bool
  | Raster_Event.raster_render _ => true
  | _ => false

end Raster

/-! ## Validator of the `lcar` table: `gxv_lcar_validate` (`gxvlcar.c`)

The validator works on the bytes between `gxvalid->root->base` and
`gxvalid->root->limit`, here the list `root`; a pointer into the table is
its distance from `base`.  A validator leaves through one of the
`FT_TS_INVALID_...` macros (a long jump in C), here an error result. -/

/-- The ways a validator gives up: `FT_TS_INVALID_TOO_SHORT`,
`FT_TS_INVALID_FORMAT`, or another exit taken by a collaborator. -/
inductive FT_TS_Invalid where
  | TOO_SHORT
  | FORMAT
  | other (code : Nat)
deriving DecidableEq, Inhabited, Repr

/-- The value `GXV_LOOKUPVALUE_UNSIGNED` of `gxvalid->lookupval_sign`. -/
def GXV_LOOKUPVALUE_UNSIGNED : Nat := 0

/-- Modelled from the spec: the macro `FT_TS_NEXT_USHORT` belongs to
`ftstream.h`, which is not part of the sources; it reads a big-endian 16-bit
unsigned number.  `p` holds the bytes from the read position on. -/
def FT_TS_NEXT_USHORT (p : List Nat) : Nat :=
  (p.getD 0 0 % 256) * 256 + p.getD 1 0 % 256

/-- Modelled from the spec: the macro `FT_TS_NEXT_SHORT` (`ftstream.h`) reads
a big-endian 16-bit number in two's complement. -/
def FT_TS_NEXT_SHORT (p : List Nat) : Int :=
  if FT_TS_NEXT_USHORT p < 2 ^ 15 then (FT_TS_NEXT_USHORT p : Int)
  else (FT_TS_NEXT_USHORT p : Int) - 2 ^ 16

/-- Modelled from the spec: the macro `FT_TS_NEXT_LONG` (`ftstream.h`) reads a
big-endian 32-bit number in two's complement. -/
def FT_TS_NEXT_LONG (p : List Nat) : Int :=
  if FT_TS_NEXT_USHORT p < 2 ^ 15 then
    (FT_TS_NEXT_USHORT p : Int) * 2 ^ 16 + (FT_TS_NEXT_USHORT (p.drop 2) : Int)
  else
    (FT_TS_NEXT_USHORT p : Int) * 2 ^ 16 + (FT_TS_NEXT_USHORT (p.drop 2) : Int) - 2 ^ 32

/-- Modelled from the spec: the macro `GXV_LIMIT_CHECK( count )` belongs to
`gxvcommn.h`, which is not part of the sources; it leaves with
`FT_TS_INVALID_TOO_SHORT` when `p + count` lies beyond the limit, which is
`gxvalid->root->limit` when the local `limit` is null.  `true` is the answer
"too short". -/
def GXV_LIMIT_CHECK (root_limit : Nat) (limit : Option Nat) (p count : Nat) : Bool :=
  match limit with
  | some l => decide (p + count > l)
  | none => decide (p + count > root_limit)

/-- Everything `gxvlcar.c` calls without defining it. -/
structure GXV_Env (W : Type) where
  /-- What `gxv_ctlPoint_validate( gid, ctl_point, gxvalid )` does. -/
  gxv_ctlPoint_validate : Nat → Nat → W → Except FT_TS_Invalid W
  /-- What `gxv_LookupTable_validate( table, limit, gxvalid )` does with the position of the
  lookup table, the local limit, and the fields `lookupval_sign`, `lookupval_func` and
  `lookupfmt4_trans` of the validator. -/
  gxv_LookupTable_validate :
    List Nat → Nat → Option Nat → Nat → (Nat → Nat → W → Except FT_TS_Invalid W) →
      (Nat → Nat → Nat → Except FT_TS_Invalid Nat) → W → Except FT_TS_Invalid W

section GXV

variable {W : Type}

/-- The function `gxv_lcar_partial_validate` (gxvlcar.c, lines 68-83).
`format` is `GXV_LCAR_DATA( format )`; the cast `(FT_TS_UShort)` of the value
is its residue modulo `2^16`. -/
def gxv_lcar_partial_validate (env : GXV_Env W) (format : Nat) (value : Int) (glyph : Nat)
    (w : W) : Except FT_TS_Invalid W :=
  if format ≠ 1 then
    Except.ok w
  else
    env.gxv_ctlPoint_validate glyph (value % 2 ^ 16).toNat w

/-- The loop of `gxv_lcar_LookupValue_validate` (lines 103-107): the values
`i`, `i + 1`, ... below `count` are read at `p` and validated in turn. -/
def gxv_lcar_LookupValue_loop (env : GXV_Env W) (root : List Nat) (format glyph : Nat) :
    Nat → Nat → W → Except FT_TS_Invalid W
  | 0, _, w => Except.ok w
  | n + 1, p, w =>
    match gxv_lcar_partial_validate env format (FT_TS_NEXT_SHORT (root.drop p)) glyph w with
    | Except.error e => Except.error e
    | Except.ok w1 => gxv_lcar_LookupValue_loop env root format glyph n (p + 2) w1

/-- The function `gxv_lcar_LookupValue_validate` (gxvlcar.c, lines 85-110).
`value_u` is `value_p->u`. -/
def gxv_lcar_LookupValue_validate (env : GXV_Env W) (root : List Nat) (format : Nat)
    (glyph value_u : Nat) (w : W) : Except FT_TS_Invalid W :=
  let p := value_u
  let limit := root.length
  if GXV_LIMIT_CHECK root.length (some limit) p 2 then
    Except.error FT_TS_Invalid.TOO_SHORT
  else
    let count := FT_TS_NEXT_USHORT (root.drop p)
    let p := p + 2
    if GXV_LIMIT_CHECK root.length (some limit) p (2 * count) then
      Except.error FT_TS_Invalid.TOO_SHORT
    else
      gxv_lcar_LookupValue_loop env root format glyph count p w

/-- The function `gxv_lcar_LookupFmt4_transit` (gxvlcar.c, lines 151-172).
`base_value_u` is `base_value_p->u`; the offset is reduced modulo `2^16` by
the cast `(FT_TS_UShort)`. -/
def gxv_lcar_LookupFmt4_transit (root : List Nat) (relative_gindex base_value_u : Nat)
    (_lookuptbl_limit : Nat) : Except FT_TS_Invalid Nat :=
  let offset := (base_value_u + relative_gindex * 2) % 2 ^ 16
  let p := offset
  let limit := root.length
  if GXV_LIMIT_CHECK root.length (some limit) p 2 then
    Except.error FT_TS_Invalid.TOO_SHORT
  else
    Except.ok (FT_TS_NEXT_USHORT (root.drop p))

/-- The function `gxv_lcar_validate` (gxvlcar.c, lines 182-221).  `table` is
the position of the table; the local `limit` is null. -/
def gxv_lcar_validate (env : GXV_Env W) (root : List Nat) (table : Nat) (w : W) :
    Except FT_TS_Invalid W :=
  let p := table
  let limit : Option Nat := none
  if GXV_LIMIT_CHECK root.length limit p (4 + 2) then
    Except.error FT_TS_Invalid.TOO_SHORT
  else
    let version := FT_TS_NEXT_LONG (root.drop p)
    let p := p + 4
    let format := FT_TS_NEXT_USHORT (root.drop p)
    let p := p + 2
    if version ≠ 0x00010000 then
      Except.error FT_TS_Invalid.FORMAT
    else if format > 1 then
      Except.error FT_TS_Invalid.FORMAT
    else
      env.gxv_LookupTable_validate root p limit GXV_LOOKUPVALUE_UNSIGNED
        (gxv_lcar_LookupValue_validate env root format)
        (gxv_lcar_LookupFmt4_transit root) w

end GXV

/-- A step of the bitmap-strike block of `cff_slot_load` (lines 244-343): the
strike lookup or a read of the metrics tables. -/
def Event.isCffSbit : Event → Bool
  | Event.load_sbit_image _ _ => true
  | Event.sfnt_get_metrics _ _ => true
  | _ => false

/-- The bytes and the length a charstring parser of the CID loader was
invoked on. -/
def Event.parseInput : Event → Option (List Nat × Nat)
  | Event.t1_parse_charstrings_old b l _ => some (b, l)
  | Event.t1_parse_metrics b l _ => some (b, l)
  | Event.t1_parse_charstrings b l _ _ => some (b, l)
  | _ => none

/-- The answer of a parser invocation of the CID loader. -/
def Event.parseAnswer : Event → Option FT_TS_Error
  | Event.t1_parse_charstrings_old _ _ r => some r
  | Event.t1_parse_metrics _ _ r => some r
  | Event.t1_parse_charstrings _ _ _ r => some r
  | _ => none

/-- Modelled from the spec: the decoders belong to `psaux`, which is not part
of the sources.  In their metrics-only mode the accumulation of points and
contours is skipped entirely: `prepare` leaves the flag `width_only` alone,
and a parser invoked on a decoder whose `width_only` flag is set keeps the
flag and leaves a builder whose base outline has no point and no contour. -/
def CFF_Env.width_only_mode {W : Type} (env : CFF_Env W) : Prop :=
  (∀ d size g w, (env.cff_decoder_prepare d size g w).2.1.width_only = d.width_only) ∧
    (∀ d slot b l w, d.width_only = true →
      (env.parse_charstrings d slot b l w).2.1.width_only = true ∧
        (env.parse_charstrings d slot b l w).2.1.builder.base.n_points = 0 ∧
        (env.parse_charstrings d slot b l w).2.1.builder.base.n_contours = 0) ∧
    (∀ d slot b l w, d.width_only = true →
      (env.parse_charstrings_old d slot b l w).2.1.width_only = true ∧
        (env.parse_charstrings_old d slot b l w).2.1.builder.base.n_points = 0 ∧
        (env.parse_charstrings_old d slot b l w).2.1.builder.base.n_contours = 0)

/-! ## Deterministic collaborators

The collaborators read and write a hidden state, and the decoders reach the
slot through `builder.glyph`.  They are deterministic when what they answer
(everything but the hidden state they leave) depends on their arguments only,
and on the slot only through the four fields that `CFF_GlyphSlotRec` and
`CID_GlyphSlotRec` add to the root slot. -/

/-- The fields of the slot that a decoder reads: the hint and scaled flags
and the two scales. -/
def T1_GlyphSlotRec.key (g : T1_GlyphSlotRec) : Bool × Bool × Int × Int :=
  (g.hint, g.scaled, g.x_scale, g.y_scale)

/-- The callbacks of an incremental interface answer the same whatever the
hidden state. -/
def FT_TS_Incremental_FuncsRec.deterministic {W : Type} (i : FT_TS_Incremental_FuncsRec W) :
    Prop :=
  (∀ gi w w', (i.get_glyph_data gi w).1 = (i.get_glyph_data gi w').1 ∧
      (i.get_glyph_data gi w).2.1 = (i.get_glyph_data gi w').2.1) ∧
    ∀ f, i.get_glyph_metrics = some f →
      ∀ gi v m w w', (f gi v m w).1 = (f gi v m w').1 ∧ (f gi v m w).2.1 = (f gi v m w').2.1

/-- The synthesis of vertical metrics, run on a record that already holds the
vertical bearings it makes up, makes them up again: it does not build on the
bearings it finds. -/
def FT_TS_Base.synthesize_stable (base : FT_TS_Base) : Prop :=
  ∀ (m : FT_TS_Glyph_Metrics) (a : Int),
    base.synthesize_vertical_metrics
        { m with
          vertBearingX := (base.synthesize_vertical_metrics m a).vertBearingX
          vertBearingY := (base.synthesize_vertical_metrics m a).vertBearingY } a =
      base.synthesize_vertical_metrics m a

/-- The collaborators of the CFF loader are deterministic: the strike lookup,
the access to the charstrings index, the initialisation and the preparation
of the decoder and the two parsers answer the same whatever the hidden state
(and whatever the bitmap, respectively the slot outside its four fields), and
the synthesis of vertical metrics is stable. -/
def CFF_Env.deterministic {W : Type} (env : CFF_Env W) : Prop :=
  (∀ strike gi lf b b' w w',
      (env.load_sbit_image strike gi lf b w).1 = (env.load_sbit_image strike gi lf b' w').1 ∧
      (env.load_sbit_image strike gi lf b w).2.2.1 =
        (env.load_sbit_image strike gi lf b' w').2.2.1) ∧
    (∀ idx gi w w',
      (env.cff_index_access_element idx gi w).1 = (env.cff_index_access_element idx gi w').1 ∧
      (env.cff_index_access_element idx gi w).2.1 =
        (env.cff_index_access_element idx gi w').2.1 ∧
      (env.cff_index_access_element idx gi w).2.2.1 =
        (env.cff_index_access_element idx gi w').2.2.1) ∧
    (∀ g g' size h m w w', g.key = g'.key →
      (env.cff_decoder_init g size h m w).1 = (env.cff_decoder_init g' size h m w').1) ∧
    (∀ d size gi w w',
      (env.cff_decoder_prepare d size gi w).1 = (env.cff_decoder_prepare d size gi w').1 ∧
      (env.cff_decoder_prepare d size gi w).2.1 = (env.cff_decoder_prepare d size gi w').2.1) ∧
    (∀ d g g' b l w w', g.key = g'.key →
      (env.parse_charstrings_old d g b l w).1 = (env.parse_charstrings_old d g' b l w').1 ∧
      (env.parse_charstrings_old d g b l w).2.1 =
        (env.parse_charstrings_old d g' b l w').2.1) ∧
    (∀ d g g' b l w w', g.key = g'.key →
      (env.parse_charstrings d g b l w).1 = (env.parse_charstrings d g' b l w').1 ∧
      (env.parse_charstrings d g b l w).2.1 = (env.parse_charstrings d g' b l w').2.1) ∧
    env.base.synthesize_stable

/-- The collaborators of the CID loader are deterministic: a seek followed by
a frame access, a read of the stream, the allocator, the initialisation of
the decoder and the three parsers answer the same whatever the hidden state
(and whatever the slot outside its four fields), and the synthesis of
vertical metrics is stable. -/
def CID_Env.deterministic {W : Type} (env : CID_Env W) : Prop :=
  (∀ pos w w', (env.stream_seek pos w).1 = (env.stream_seek pos w').1) ∧
    (∀ pos n w w',
      (env.frame_enter n (env.stream_seek pos w).2).1 =
        (env.frame_enter n (env.stream_seek pos w').2).1 ∧
      (env.frame_enter n (env.stream_seek pos w).2).2.1 =
        (env.frame_enter n (env.stream_seek pos w').2).2.1) ∧
    (∀ pos n w w',
      (env.stream_read_at pos n w).1 = (env.stream_read_at pos n w').1 ∧
      (env.stream_read_at pos n w).2.1 = (env.stream_read_at pos n w').2.1) ∧
    (∀ n w w', (env.qalloc n w).1 = (env.qalloc n w').1) ∧
    (∀ g g' size h m w w', g.key = g'.key →
      (env.t1_decoder_init g size h m w).1 = (env.t1_decoder_init g' size h m w').1 ∧
      (env.t1_decoder_init g size h m w).2.1 = (env.t1_decoder_init g' size h m w').2.1) ∧
    (∀ d g g' b l w w', g.key = g'.key →
      (env.parse_charstrings_old d g b l w).1 = (env.parse_charstrings_old d g' b l w').1 ∧
      (env.parse_charstrings_old d g b l w).2.1 =
        (env.parse_charstrings_old d g' b l w').2.1) ∧
    (∀ d g g' b l w w', g.key = g'.key →
      (env.parse_metrics d g b l w).1 = (env.parse_metrics d g' b l w').1 ∧
      (env.parse_metrics d g b l w).2.1 = (env.parse_metrics d g' b l w').2.1) ∧
    (∀ d p g g' b l w w', g.key = g'.key →
      (env.parse_charstrings d p g b l w).1 = (env.parse_charstrings d p g' b l w').1 ∧
      (env.parse_charstrings d p g b l w).2.1 = (env.parse_charstrings d p g' b l w').2.1) ∧
    env.base.synthesize_stable

/-- Two states of `cff_slot_load` that a deterministic collaborator cannot
tell apart, and that have seen the same calls. -/
def CFF_LoadState.sim {W : Type} (st st' : CFF_LoadState W) : Prop :=
  st.glyph.key = st'.glyph.key ∧ st.trace = st'.trace

/-- Two outcomes of the block that builds the glyph that agree on everything
but the hidden state and the fields of the slot a decoder does not read. -/
def CFF_Build.sim {W : Type} (b b' : CFF_Build W) : Prop :=
  b.error = b'.error ∧ b.hinting = b'.hinting ∧ b.force_scaling = b'.force_scaling ∧
    b.decoder = b'.decoder ∧ b.st.sim b'.st

/-- Two states of `cid_load_glyph` that a deterministic collaborator cannot
tell apart, with the same decoder, and that have seen the same calls. -/
def CID_LoadState.sim {W : Type} (st st' : CID_LoadState W) : Prop :=
  st.decoder = st'.decoder ∧ st.glyph.key = st'.glyph.key ∧ st.trace = st'.trace

section CFF

variable {W : Type}

/-- Lines 395-681 of `cff_slot_load`: the block that builds the glyph, the
metrics override of an incremental font and, when no error occurred, the
setting of the metrics.  Returns `error` and the state. -/
def cff_slot_load_tail (env : CFF_Env W) (face : TT_FaceRec W) (size : Option CFF_SizeRec)
    (glyph_index load_flags : Nat) (hinting force_scaling : Bool)
    (font_matrix : FT_TS_Matrix) (font_offset : FT_TS_Vector) (st : CFF_LoadState W) :
    FT_TS_Error × CFF_LoadState W :=
  let b := cff_slot_load_build env face size glyph_index load_flags hinting force_scaling st
  let m := cff_slot_load_inc_metrics env face glyph_index b
  if m.error = 0 then
    (m.error,
      cff_slot_load_metrics env face size glyph_index load_flags m.hinting m.force_scaling
        font_matrix font_offset m.decoder m.st)
  else
    (m.error, m.st)

/-- Lines 383-393 of `cff_slot_load`: the slot receives an empty outline, the
hint and scaled flags and the outline format.  `load_flags` is the value after
line 234. -/
def cff_slot_load_reset (load_flags : Nat) (st : CFF_LoadState W) : CFF_LoadState W :=
  { st with
    glyph :=
      { st.glyph with
        outline := { st.glyph.outline with n_points := 0, n_contours := 0 }
        hint := decide (load_flags &&& FT_TS_LOAD_NO_HINTING = 0)
        scaled := decide (load_flags &&& FT_TS_LOAD_NO_SCALE = 0)
        format := FT_TS_GLYPH_FORMAT_OUTLINE } }

/-- The fields of a slot that a load is compared on: the outline, the
metrics, the two scales and the hint and scaled flags. -/
def T1_GlyphSlotRec.loaded (g : T1_GlyphSlotRec) :
    FT_TS_Outline × FT_TS_Glyph_Metrics × (Bool × Bool × Int × Int) :=
  (g.outline, g.metrics, g.key)

end CFF

/-- Two outcomes of the fetch of `cid_load_glyph` that agree on everything
but the hidden state and the fields of the slot a decoder does not read. -/
def CID_Fetch.sim {W : Type} : CID_Fetch W → CID_Fetch W → Prop
  | CID_Fetch.exit e s, CID_Fetch.exit e' s' => e = e' ∧ s.sim s'
  | CID_Fetch.data f l c s, CID_Fetch.data f' l' c' s' => f = f' ∧ l = l' ∧ c = c' ∧ s.sim s'
  | _, _ => False

/-- Two outcomes of the reading of the CIDMap that agree on everything but
the hidden state and the fields of the slot a decoder does not read. -/
def CID_MapEntry.sim {W : Type} : CID_MapEntry W → CID_MapEntry W → Prop
  | CID_MapEntry.exit e s, CID_MapEntry.exit e' s' => e = e' ∧ s.sim s'
  | CID_MapEntry.entry f a b s, CID_MapEntry.entry f' a' b' s' =>
    f = f' ∧ a = a' ∧ b = b' ∧ s.sim s'
  | _, _ => False

/-! ## Sample collaborators

Concrete collaborators on which the loaders can be evaluated: a stream held
in a list of bytes, a big-endian offset reader, an allocator that never
fails and decoders that answer from a script. -/

namespace Sample

/-- Hidden state of the sample collaborators: position of the stream and
number of parser invocations so far. -/
structure World where
  pos : Nat
  calls : Nat
deriving DecidableEq, Inhabited

/-- Big-endian reader of `n` bytes. -/
def get_offset (p : List Nat) (n : Nat) : Nat × List Nat :=
  ((p.take n).foldl (fun acc b => acc * 256 + b) 0, p.drop n)

/-- Rounded 16.16 product and the other base helpers, for values that are
not negative. -/
def base : FT_TS_Base where
  FIXED_TO_INT := fun x => (x + 0x8000) >>> 16
  INT_TO_FIXED := fun x => x * 65536
  MulFix := fun a b => (a * b + 0x8000) >>> 16
  MulDiv := fun a b c => if c = 0 then 0x7FFFFFFF else (a * b + c / 2) / c
  Outline_Transform := fun o m =>
    { o with
      points := o.points.map (fun v =>
        ({ x := (v.x * m.xx + v.y * m.xy + 0x8000) >>> 16
           y := (v.x * m.yx + v.y * m.yy + 0x8000) >>> 16 } : FT_TS_Vector)) }
  Outline_Translate := fun o dx dy =>
    { o with points := o.points.map (fun v => ({ x := v.x + dx, y := v.y + dy } : FT_TS_Vector)) }
  Outline_Get_CBox := fun o =>
    match o.points with
    | [] => { xMin := 0, yMin := 0, xMax := 0, yMax := 0 }
    | v :: vs =>
      { xMin := vs.foldl (fun a u => min a u.x) v.x
        yMin := vs.foldl (fun a u => min a u.y) v.y
        xMax := vs.foldl (fun a u => max a u.x) v.x
        yMax := vs.foldl (fun a u => max a u.y) v.y }
  synthesize_vertical_metrics := fun m adv =>
    { m with vertBearingX := m.horiBearingX - Int.tdiv m.horiAdvance 2, vertAdvance := adv }

/-- A square of side 100. -/
def square : FT_TS_Outline where
  n_contours := 1
  n_points := 4
  points := [{ x := 0, y := 0 }, { x := 100, y := 0 }, { x := 100, y := 100 }, { x := 0, y := 100 }]
  tags := [1, 1, 1, 1]
  contours := [3]
  flags := 0

/-- The sample T1 decoder leaves the square and an advance of 500 units in
the builder, whatever it answers. -/
def t1_parsed (d : T1_DecoderRec) : T1_DecoderRec :=
  { d with builder := { d.builder with base := square, advance := { x := 500 * 65536, y := 0 } } }

/-- Collaborators of the CID loader: the stream is `stream`, the `n`-th
parser invocation answers the `n`-th entry of `answers` (0 when the script is
exhausted). -/
def cid_env (stream : List Nat) (answers : List FT_TS_Error) (old_engine : Bool) :
    CID_Env World where
  T1_CONFIG_OPTION_OLD_ENGINE := old_engine
  FT_TS_CONFIG_OPTION_INCREMENTAL := true
  base := base
  cid_get_offset := get_offset
  stream_seek := fun pos w => (0, { w with pos := pos })
  frame_enter := fun n w => (0, (stream.drop w.pos).take n, w)
  frame_exit := fun w => w
  stream_read_at := fun pos n w => (0, (stream.drop pos).take n, w)
  qalloc := fun _ w => (0, w)
  mem_free := fun w => w
  t1_decrypt := fun buf _ _ => buf
  t1_decoder_init := fun _ _ hinting _ w =>
    (0, { (default : T1_DecoderRec) with
          builder := { (default : T1_BuilderRec) with hints_funcs := hinting } }, w)
  t1_decoder_finish := fun w => w
  parse_charstrings_old := fun d _ _ _ w =>
    (answers.getD w.calls 0, t1_parsed d, { w with calls := w.calls + 1 })
  parse_metrics := fun d _ _ _ w =>
    (answers.getD w.calls 0, t1_parsed d, { w with calls := w.calls + 1 })
  parse_charstrings := fun d _ _ _ _ w =>
    (answers.getD w.calls 0, t1_parsed d, { w with calls := w.calls + 1 })

/-- A CIDMap with entries of one dictionary byte and two offset bytes for two
glyphs (charstrings at 9..12 and 12..12), followed by the charstring data. -/
def cid_stream : List Nat := [0, 0, 9, 0, 0, 12, 0, 0, 12, 21, 22, 23]

/-- A CIDMap whose first entry names dictionary 5 and whose offsets run
backwards (12, then 9). -/
def cid_stream_bad : List Nat := [5, 0, 12, 0, 0, 9, 0, 0, 12, 21, 22, 23]

/-- An incremental interface whose glyph data starts with dictionary index
5. -/
def cid_incremental : FT_TS_Incremental_FuncsRec World where
  get_glyph_data := fun _ w => (0, { pointer := [5, 21, 22, 23], length := 4 }, w)
  free_glyph_data := fun _ w => w
  get_glyph_metrics := none

/-- A CID face with one dictionary and two glyphs. -/
def cid_face (inc : Option (FT_TS_Incremental_FuncsRec World)) : CID_FaceRec World where
  num_glyphs := 2
  incremental_interface := inc
  cid :=
    { font_bbox := { xMin := 0, yMin := 0, xMax := 1000 * 65536, yMax := 1000 * 65536 }
      cidmap_offset := 0
      fd_bytes := 1
      gd_bytes := 2
      num_dicts := 1
      font_dicts :=
        [{ private_dict := { lenIV := -1, hints := [] }
           font_matrix := { xx := 0x10000, xy := 0, yx := 0, yy := 0x10000 }
           font_offset := { x := 0, y := 0 } }]
      data_offset := 0 }
  subrs := [{ num_subrs := 0, code := [] }]
  stream_size := 12
  hinting_engine := FT_TS_HINTING_ADOBE

/-- A state for `cid_load_glyph`: fresh decoder, hinted slot, empty trace. -/
def cid_state : CID_LoadState World where
  decoder := default
  glyph := { (default : T1_GlyphSlotRec) with hint := true, scaled := true }
  world := { pos := 0, calls := 0 }
  trace := []

/-- A size of 16 pixels per em with scales 2.0. -/
def size_metrics : FT_TS_Size_Metrics where
  y_ppem := 16
  x_scale := 0x20000
  y_scale := 0x20000

/-- The sample CFF decoder leaves the square and a width of 500 units in the
decoder, whatever it answers. -/
def cff_parsed (d : CFF_DecoderRec) : CFF_DecoderRec :=
  { d with
    builder := { d.builder with base := square, advance := { x := 500, y := 0 } }
    glyph_width := 500 }

/-- Collaborators of the CFF loader: the CID map is `cid_map`, the dictionary
selector is `fd`, `prepare` answers `prepare_error`, the `n`-th parser
invocation answers the `n`-th entry of `answers` (0 when the script is
exhausted), and no embedded bitmap is ever found. -/
def cff_env (cid_map : Nat → Nat) (fd : Nat → Nat) (prepare_error : FT_TS_Error)
    (answers : List FT_TS_Error) (old_engine : Bool) : CFF_Env World where
  CFF_CONFIG_OPTION_OLD_ENGINE := old_engine
  FT_TS_CONFIG_OPTION_INCREMENTAL := true
  TT_CONFIG_OPTION_EMBEDDED_BITMAPS := true
  base := base
  cff_charset_cid_to_gindex := fun _ cid => cid_map cid
  cff_fd_select_get := fun _ g => fd g
  cff_index_access_element := fun _ _ w => (0, [21, 22, 23], 3, w)
  cff_index_forget_element := fun _ _ w => w
  load_sbit_image := fun _ _ _ b w => (0x9D, b, default, w)
  get_metrics := fun _ _ => (0, 600)
  cff_decoder_init := fun _ _ hinting _ w =>
    ({ (default : CFF_DecoderRec) with
        builder := { (default : CFF_BuilderRec) with hints_funcs := hinting } }, w)
  cff_decoder_prepare := fun d _ _ w => (prepare_error, d, w)
  parse_charstrings_old := fun d _ _ _ w =>
    (answers.getD w.calls 0, cff_parsed d, { w with calls := w.calls + 1 })
  parse_charstrings := fun d _ _ _ w =>
    (answers.getD w.calls 0, cff_parsed d, { w with calls := w.calls + 1 })
  cff_builder_finish := fun w => w

/-- An incremental interface for the CFF loader whose metrics callback
answers `metrics_error`. -/
def cff_incremental (metrics_error : FT_TS_Error) : FT_TS_Incremental_FuncsRec World where
  get_glyph_data := fun _ w => (0, { pointer := [21, 22, 23], length := 3 }, w)
  free_glyph_data := fun _ w => w
  get_glyph_metrics := some (fun _ _ m w => (metrics_error, m, w))

/-- The font dictionary of the sample CFF fonts: identity matrix, no offset. -/
def cff_dict (cid_registry units_per_em : Nat) : CFF_FontRecDictRec where
  cid_registry := cid_registry
  units_per_em := units_per_em
  font_matrix := { xx := 0x10000, xy := 0, yx := 0, yy := 0x10000 }
  font_offset := { x := 0, y := 0 }

/-- A CFF face with two glyphs and no metrics tables.  `cid_registry` is
`0xFFFF` for a font that is not CID-keyed, `cids` is the CID map, and the
font has `num_subfonts` subfonts. -/
def cff_face (cid_registry : Nat) (cids : Option (List Nat)) (num_subfonts : Nat)
    (inc : Option (FT_TS_Incremental_FuncsRec World)) (hinting_engine : Nat) :
    TT_FaceRec World where
  cff :=
    { num_glyphs := 2
      top_font := { font_dict := cff_dict cid_registry 1000 }
      num_subfonts := num_subfonts
      subfonts := List.replicate num_subfonts { font_dict := cff_dict cid_registry 1000 }
      charset := { sids := [0, 1], cids := cids, max_cid := 1 }
      charstrings_index := { count := 2, offsets := some [1, 4, 7], bytes := [21, 22, 23, 24, 25, 26] }
      fd_select := { format := 0, range_count := 0, data := [0, 0] } }
  incremental_interface := inc
  horizontal := { Ascender := 800, Descender := -200, number_Of_HMetrics := 0 }
  vertical_info := false
  vertical := { number_Of_VMetrics := 0 }
  os2 := { version := 0xFFFF, sTypoAscender := 0, sTypoDescender := 0 }
  load_eblc := false
  hinting_engine := hinting_engine

/-- The initial hidden state of the sample collaborators. -/
def world : World where
  pos := 0
  calls := 0

/-- A size of 16 pixels per em with scales 2.0 and no bitmap strike. -/
def cff_size : CFF_SizeRec where
  metrics := size_metrics
  strike_index := 0xFFFFFFFF

/-- The sample base helpers with the modelled product, transform, translation
and control box. -/
def base_model : FT_TS_Base :=
  { base with
    MulFix := FT_TS_MulFix
    Outline_Transform := FT_TS_Outline_Transform
    Outline_Translate := FT_TS_Outline_Translate
    Outline_Get_CBox := FT_TS_Outline_Get_CBox }

/-- The sample collaborators of the CFF loader with the modelled base helpers
and metrics tables that answer a bearing of 7 and an advance of 601
(horizontal), a bearing of 30 and an advance of 900 (vertical). -/
def cff_env_model : CFF_Env World :=
  { cff_env id id 0 [] false with
    base := base_model
    get_metrics := fun vertical _ => if vertical then (30, 900) else (7, 601) }

/-- The sample collaborators of the CID loader with the modelled base
helpers. -/
def cid_env_model : CID_Env World :=
  { cid_env cid_stream [] false with base := base_model }

/-- A CFF face with horizontal and vertical metrics tables. -/
def cff_face_metrics : TT_FaceRec World :=
  { cff_face 0xFFFF none 0 none 1 with
    horizontal := { Ascender := 800, Descender := -200, number_Of_HMetrics := 2 }
    vertical_info := true
    vertical := { number_Of_VMetrics := 2 } }

/-- A CFF face with one subfont whose units per em (2000) differ from those
of the top dictionary (1000). -/
def cff_face_upm : TT_FaceRec World :=
  { cff_face 0xFFFF none 1 none 1 with
    cff :=
      { (cff_face 0xFFFF none 1 none 1).cff with
        subfonts := [{ font_dict := cff_dict 0xFFFF 2000 }] } }

/-- Collaborators of the renderer: the preset asks for a bitmap of 2 rows of
one byte whose left edge is at 1 and whose top is at 2 (and answers
`overflow`), the allocator answers `alloc_error`, the rasterizer answers
`render_error` and draws nothing. -/
def raster_env (overflow : Bool) (alloc_error render_error : FT_TS_Error) :
    Raster_Env World where
  base := base_model
  ft_glyphslot_preset_bitmap := fun s _ _ =>
    (overflow,
      { s with
        bitmap := { s.bitmap with rows := 2, width := 8, pitch := 1, pixel_mode := 1 }
        bitmap_left := 1
        bitmap_top := 2 })
  alloc_mult := fun rows pitch w =>
    (alloc_error, if alloc_error = 0 then List.replicate (rows * pitch.toNat) 0 else [], w)
  mem_free := fun _ w => w
  raster_render := fun _ b w => (render_error, b, w)

/-- The monochrome renderer: it takes outline glyphs. -/
def raster1 : FT_TS_RendererRec where
  glyph_format := FT_TS_GLYPH_FORMAT_OUTLINE

/-- A slot that holds the square as an outline glyph and owns no bitmap. -/
def raster_slot : FT_TS_GlyphSlotRec where
  format := FT_TS_GLYPH_FORMAT_OUTLINE
  outline := square
  bitmap := default
  bitmap_left := 0
  bitmap_top := 0
  internal_flags := 0

/-- A slot that holds a bitmap glyph and owns its bitmap of one byte. -/
def raster_slot_bitmap : FT_TS_GlyphSlotRec where
  format := FT_TS_GLYPH_FORMAT_BITMAP
  outline := square
  bitmap := { rows := 1, width := 8, pitch := 1, buffer := [255], pixel_mode := 1 }
  bitmap_left := 0
  bitmap_top := 1
  internal_flags := FT_TS_GLYPH_OWN_BITMAP

/-- Collaborators of the `lcar` validator: a glyph has 100 control points,
and the lookup table holds one value, the offset 8, for glyph 3. -/
def gxv_env : GXV_Env World where
  gxv_ctlPoint_validate := fun _ ctl_point w =>
    if ctl_point < 100 then Except.ok { w with calls := w.calls + 1 }
    else Except.error (FT_TS_Invalid.other 1)
  gxv_LookupTable_validate := fun _ _ _ _ lookupval_func _ w => lookupval_func 3 8 w

/-- An `lcar` table of the given version (high and low 16 bits) and format
whose lookup value at offset 8 lists the two partial values 5 and 200. -/
def lcar_table (version_hi version_lo format : Nat) : List Nat :=
  [version_hi / 256, version_hi % 256, version_lo / 256, version_lo % 256,
    format / 256, format % 256, 0, 0, 0, 2, 0, 5, 0, 200]

/-- The sample CFF decoder with a metrics-only mode: when `width_only` is set
it finds the width of 500 units and leaves the builder's outline empty,
otherwise it leaves the square. -/
def cff_parsed_width (d : CFF_DecoderRec) : CFF_DecoderRec :=
  if d.width_only then
    { d with builder := { d.builder with base := default }, glyph_width := 500 }
  else cff_parsed d

/-- The sample collaborators of the CFF loader with the modelled base helpers
and parsers that have a metrics-only mode. -/
def cff_env_width : CFF_Env World :=
  { cff_env_model with
    parse_charstrings_old := fun d _ _ _ w => (0, cff_parsed_width d, w)
    parse_charstrings := fun d _ _ _ w => (0, cff_parsed_width d, w) }

/-- A size of 16 pixels per em with scales 1.0 and no bitmap strike. -/
def cff_size_unit : CFF_SizeRec where
  metrics := { y_ppem := 16, x_scale := 0x10000, y_scale := 0x10000 }
  strike_index := 0xFFFFFFFF

/-- The sample collaborators of the CFF loader with a bitmap strike: the
strike lookup finds a bitmap of 3 by 4 pixels for every glyph. -/
def cff_env_strike : CFF_Env World :=
  { cff_env_model with
    load_sbit_image := fun _ _ _ b w =>
      (0, b,
        { height := 4, width := 3, horiBearingX := 1, horiBearingY := 4, horiAdvance := 5
          vertBearingX := -1, vertBearingY := 0, vertAdvance := 6 }, w) }

/-- A CFF face with a bitmap table. -/
def cff_face_strike : TT_FaceRec World :=
  { cff_face 0xFFFF none 0 none 1 with load_eblc := true }

/-- A size of 16 pixels per em with scales 2.0 whose strike is the first
one. -/
def cff_size_strike : CFF_SizeRec where
  metrics := size_metrics
  strike_index := 0

end Sample

/-! # Properties -/

/-! ## Traces -/

theorem Emits.refl (q : Event → Bool) (t : List Event) : Emits q t t :=
  ⟨[], by simp, by simp⟩

theorem Emits.trans {q : Event → Bool} {t1 t2 t3 : List Event}
    (h12 : Emits q t1 t2) (h23 : Emits q t2 t3) : Emits q t1 t3 := by
  obtain ⟨n1, rfl, h1⟩ := h12
  obtain ⟨n2, rfl, h2⟩ := h23
  refine ⟨n1 ++ n2, by simp, ?_⟩
  intro e he
  rcases List.mem_append.mp he with h | h
  · exact h1 e h
  · exact h2 e h

theorem Emits.mono {q q' : Event → Bool} {t t' : List Event}
    (h : Emits q t t') (hq : ∀ e, q e = true → q' e = true) : Emits q' t t' := by
  obtain ⟨n, rfl, hn⟩ := h
  exact ⟨n, rfl, fun e he => hq e (hn e he)⟩

@[simp]
theorem emits_self (q : Event → Bool) (t : List Event) : Emits q t t :=
  Emits.refl q t

@[simp]
theorem emits_append_iff (q : Event → Bool) (t l : List Event) :
    Emits q t (t ++ l) ↔ ∀ e ∈ l, q e = true := by
  constructor
  · rintro ⟨n, hn, h⟩
    have : l = n := List.append_cancel_left hn
    subst this
    exact h
  · intro h
    exact ⟨l, rfl, h⟩

theorem Emits.filter_eq {q p : Event → Bool} {t t' : List Event}
    (h : Emits q t t') (hp : ∀ e, q e = true → p e = false) :
    t'.filter p = t.filter p := by
  obtain ⟨n, rfl, hn⟩ := h
  have : n.filter p = [] := by
    rw [List.filter_eq_nil_iff]
    intro e he
    simp [hp e (hn e he)]
  simp [this]

section CIDProofs

variable {W : Type}

theorem cid_load_glyph_Exit_emits (env : CID_Env W) (error : FT_TS_Error) (fs : Bool)
    (st : CID_LoadState W) :
    Emits (fun e => e == Event.mem_free) st.trace (cid_load_glyph_Exit env error fs st).2.trace := by
  simp [cid_load_glyph_Exit]

theorem cid_load_glyph_incremental_emits (env : CID_Env W) (face : CID_FaceRec W)
    (inc : FT_TS_Incremental_FuncsRec W) (glyph_index : Nat) (st : CID_LoadState W) :
    Emits Event.isCidFetch st.trace
      (cid_load_glyph_incremental env face inc glyph_index st).state.trace := by
  unfold cid_load_glyph_incremental
  simp only []
  split_ifs <;> simp [CID_Fetch.state, Event.isCidFetch, List.append_assoc]

theorem cid_load_glyph_cidmap_read_emits (env : CID_Env W) (face : CID_FaceRec W)
    (glyph_index : Nat) (st : CID_LoadState W) :
    Emits Event.isCidFetch st.trace
        (cid_load_glyph_cidmap_read env face glyph_index st).state.trace ∧
      (cid_load_glyph_cidmap_read env face glyph_index st).state.glyph = st.glyph ∧
      (cid_load_glyph_cidmap_read env face glyph_index st).state.decoder = st.decoder ∧
      ∀ e ∈ (cid_load_glyph_cidmap_read env face glyph_index st).state.trace,
        e.isT1Work = true → e ∈ st.trace := by
  unfold cid_load_glyph_cidmap_read
  simp only []
  split_ifs <;>
    simp (disch := simp) [CID_MapEntry.state, Event.isCidFetch, Event.isT1Work,
      Event.isT1Parse, List.append_assoc] <;>
    (try (intro e he; rcases he with he | he | he | he <;>
      simp_all [Event.isT1Work, Event.isT1Parse]))

theorem cid_load_glyph_cidmap_data_emits (env : CID_Env W) (face : CID_FaceRec W)
    (fd_select off1 off2 : Nat) (st : CID_LoadState W) :
    Emits Event.isCidFetch st.trace
        (cid_load_glyph_cidmap_data env face fd_select off1 off2 st).state.trace ∧
      (cid_load_glyph_cidmap_data env face fd_select off1 off2 st).state.glyph = st.glyph ∧
      (cid_load_glyph_cidmap_data env face fd_select off1 off2 st).state.decoder =
        st.decoder := by
  unfold cid_load_glyph_cidmap_data
  simp only []
  split_ifs <;> simp [CID_Fetch.state, Event.isCidFetch, List.append_assoc]

theorem cid_load_glyph_cidmap_emits (env : CID_Env W) (face : CID_FaceRec W)
    (glyph_index : Nat) (st : CID_LoadState W) :
    Emits Event.isCidFetch st.trace
        (cid_load_glyph_cidmap env face glyph_index st).state.trace ∧
      (cid_load_glyph_cidmap env face glyph_index st).state.glyph = st.glyph ∧
      (cid_load_glyph_cidmap env face glyph_index st).state.decoder = st.decoder := by
  have hr := cid_load_glyph_cidmap_read_emits env face glyph_index st
  unfold cid_load_glyph_cidmap
  cases h : cid_load_glyph_cidmap_read env face glyph_index st with
  | exit error st1 =>
    rw [h] at hr
    exact ⟨hr.1, hr.2.1, hr.2.2.1⟩
  | entry fd_select off1 off2 st3 =>
    rw [h] at hr
    simp only [CID_MapEntry.state] at hr
    have hd := cid_load_glyph_cidmap_data_emits env face fd_select off1 off2 st3
    exact ⟨hr.1.trans hd.1, hd.2.1.trans hr.2.1, hd.2.2.trans hr.2.2.1⟩

theorem cid_load_glyph_incremental_frame (env : CID_Env W) (face : CID_FaceRec W)
    (inc : FT_TS_Incremental_FuncsRec W) (glyph_index : Nat) (st : CID_LoadState W) :
    (cid_load_glyph_incremental env face inc glyph_index st).state.glyph = st.glyph ∧
      (cid_load_glyph_incremental env face inc glyph_index st).state.decoder = st.decoder := by
  unfold cid_load_glyph_incremental
  simp only []
  split_ifs <;> simp [CID_Fetch.state]

theorem cid_load_glyph_fetch_emits (env : CID_Env W) (face : CID_FaceRec W)
    (glyph_index : Nat) (st : CID_LoadState W) :
    Emits Event.isCidFetch st.trace
      (cid_load_glyph_fetch env face glyph_index st).state.trace := by
  unfold cid_load_glyph_fetch
  split
  · exact cid_load_glyph_incremental_emits env face _ glyph_index st
  · exact (cid_load_glyph_cidmap_emits env face glyph_index st).1

theorem cid_load_glyph_fetch_frame (env : CID_Env W) (face : CID_FaceRec W)
    (glyph_index : Nat) (st : CID_LoadState W) :
    (cid_load_glyph_fetch env face glyph_index st).state.glyph = st.glyph ∧
      (cid_load_glyph_fetch env face glyph_index st).state.decoder = st.decoder := by
  unfold cid_load_glyph_fetch
  split
  · exact cid_load_glyph_incremental_frame env face _ glyph_index st
  · exact (cid_load_glyph_cidmap_emits env face glyph_index st).2

theorem cid_retryShape_none (g : T1_GlyphSlotRec) (err : FT_TS_Error) :
    CID_RetryShape g g false err [] :=
  Or.inr ⟨rfl, rfl, by simp, by simp⟩

theorem cid_retryShape_single (e : Event) (g : T1_GlyphSlotRec) (err : FT_TS_Error)
    (he : ∀ b l h r, e ≠ Event.t1_parse_charstrings b l h r) :
    CID_RetryShape g g false err [e] := by
  right
  refine ⟨rfl, rfl, by simp, ?_⟩
  intro b l h r hm
  simp at hm
  exact absurd hm.symm (he b l h r)

theorem cid_load_glyph_parse_shape (env : CID_Env W) (dict : CID_FaceDictRec)
    (bytes : List Nat) (len : Nat) (st : CID_LoadState W) :
    ∃ ps, (cid_load_glyph_parse env dict bytes len st).2.2.trace = st.trace ++ ps ∧
      ps.filter Event.isT1Parse = ps ∧
      CID_RetryShape st.glyph (cid_load_glyph_parse env dict bytes len st).2.2.glyph
        (cid_load_glyph_parse env dict bytes len st).2.1
        (cid_load_glyph_parse env dict bytes len st).1 ps := by
  unfold cid_load_glyph_parse CID_RetryShape
  simp only []
  split_ifs with h
  · refine ⟨_, List.append_assoc _ _ _, by simp [Event.isT1Parse], ?_⟩
    left
    exact ⟨rfl, rfl, bytes, len, _, rfl, h⟩
  · refine ⟨[Event.t1_parse_charstrings bytes len st.glyph.hint _], rfl,
      by simp [Event.isT1Parse], ?_⟩
    right
    refine ⟨rfl, rfl, by simp, ?_⟩
    intro b l h' e he
    simp at he
    rw [he.2.2.2]
    simpa using h

theorem cid_load_glyph_engine_shape (env : CID_Env W) (face : CID_FaceRec W)
    (dict : CID_FaceDictRec) (bytes : List Nat) (len : Nat) (st : CID_LoadState W) :
    ∃ ps, (cid_load_glyph_engine env face dict bytes len st).2.2.trace = st.trace ++ ps ∧
      ps.filter Event.isT1Parse = ps ∧
      CID_RetryShape st.glyph (cid_load_glyph_engine env face dict bytes len st).2.2.glyph
        (cid_load_glyph_engine env face dict bytes len st).2.1
        (cid_load_glyph_engine env face dict bytes len st).1 ps := by
  unfold cid_load_glyph_engine
  split_ifs
  · exact ⟨_, rfl, by simp [Event.isT1Parse], cid_retryShape_single _ _ _ (by simp)⟩
  · exact cid_load_glyph_parse_shape env dict bytes len st
  · exact ⟨_, rfl, by simp [Event.isT1Parse], cid_retryShape_single _ _ _ (by simp)⟩
  · exact cid_load_glyph_parse_shape env dict bytes len st

theorem cid_load_glyph_engine_shape_from (env : CID_Env W) (face : CID_FaceRec W)
    (dict : CID_FaceDictRec) (bytes : List Nat) (len : Nat) (s : CID_LoadState W)
    (g : T1_GlyphSlotRec) (t : List Event) (hg : s.glyph = g)
    (ht : s.trace.filter Event.isT1Parse = t.filter Event.isT1Parse) :
    ∃ ps, (cid_load_glyph_engine env face dict bytes len s).2.2.trace.filter Event.isT1Parse =
        t.filter Event.isT1Parse ++ ps ∧
      CID_RetryShape g (cid_load_glyph_engine env face dict bytes len s).2.2.glyph
        (cid_load_glyph_engine env face dict bytes len s).2.1
        (cid_load_glyph_engine env face dict bytes len s).1 ps := by
  obtain ⟨ps, h1, h2, h3⟩ := cid_load_glyph_engine_shape env face dict bytes len s
  refine ⟨ps, ?_, hg ▸ h3⟩
  rw [h1, List.filter_append, h2, ht]

/-- What the parser invocations of a decode look like. -/
theorem cid_load_glyph_decode_shape (env : CID_Env W) (face : CID_FaceRec W)
    (fd_select glyph_length : Nat) (charstring : List Nat) (st : CID_LoadState W) :
    ∃ ps : List Event,
      (cid_load_glyph_decode env face fd_select glyph_length charstring st).2.2.trace.filter
          Event.isT1Parse = st.trace.filter Event.isT1Parse ++ ps ∧
      CID_RetryShape st.glyph
        (cid_load_glyph_decode env face fd_select glyph_length charstring st).2.2.glyph
        (cid_load_glyph_decode env face fd_select glyph_length charstring st).2.1
        (cid_load_glyph_decode env face fd_select glyph_length charstring st).1 ps := by
  unfold cid_load_glyph_decode
  simp only []
  split_ifs
  all_goals first
    | (refine ⟨[], ?_, cid_retryShape_none _ _⟩
       simp [Event.isT1Parse])
    | (refine cid_load_glyph_engine_shape_from env face _ _ _ _ _ _ rfl ?_
       simp [Event.isT1Parse])

theorem cid_load_glyph_metrics_frame (env : CID_Env W)
    (inc : Option (FT_TS_Incremental_FuncsRec W)) (glyph_index : Nat) (error : FT_TS_Error)
    (st : CID_LoadState W) :
    (cid_load_glyph_metrics env inc glyph_index error st).2.glyph = st.glyph ∧
      Emits Event.isIncMetrics st.trace
        (cid_load_glyph_metrics env inc glyph_index error st).2.trace := by
  unfold cid_load_glyph_metrics
  split
  · exact ⟨rfl, Emits.refl _ _⟩
  · split
    · exact ⟨rfl, Emits.refl _ _⟩
    · split_ifs
      · exact ⟨rfl, Emits.refl _ _⟩
      · exact ⟨rfl, by simp [Event.isIncMetrics]⟩

theorem cid_load_glyph_Exit_result (env : CID_Env W) (error : FT_TS_Error) (fs : Bool)
    (st : CID_LoadState W) :
    (cid_load_glyph_Exit env error fs st).1 = error ∧
      (cid_load_glyph_Exit env error fs st).2.glyph = { st.glyph with scaled := fs } ∧
      (cid_load_glyph_Exit env error fs st).2.decoder = st.decoder ∧
      (cid_load_glyph_Exit env error fs st).2.trace = st.trace ++ [Event.mem_free] :=
  ⟨rfl, rfl, rfl, rfl⟩

/-- C7: after `cid_load_glyph` the slot's `scaled` flag is set exactly when
the parser invocations `ps` of the call are two invocations of the
high-precision engine on the same bytes and length, the first of which
answered `Glyph_Too_Big` and the second of which saw the hint flag cleared;
the hint flag is then false.  Otherwise the flag is false and the call made
at most one parser invocation, none of them a high-precision invocation that
answered `Glyph_Too_Big`. -/
theorem cid_load_glyph_scaled_iff_retry (env : CID_Env W) (face : CID_FaceRec W)
    (glyph_index : Nat) (st : CID_LoadState W) :
    ∃ ps : List Event,
      (cid_load_glyph env face glyph_index st).2.trace.filter Event.isT1Parse =
        st.trace.filter Event.isT1Parse ++ ps ∧
      ((cid_load_glyph env face glyph_index st).2.glyph.scaled = true ↔
        ∃ b l h e1 e2, ps = [Event.t1_parse_charstrings b l h e1,
            Event.t1_parse_charstrings b l false e2] ∧
          FT_TS_ERR_EQ e1 FT_TS_Err_Glyph_Too_Big = true) ∧
      ((cid_load_glyph env face glyph_index st).2.glyph.scaled = true →
        (cid_load_glyph env face glyph_index st).2.glyph.hint = false) ∧
      ((cid_load_glyph env face glyph_index st).2.glyph.scaled = false →
        ps.length ≤ 1 ∧ ∀ b l h e, Event.t1_parse_charstrings b l h e ∈ ps →
          FT_TS_ERR_EQ e FT_TS_Err_Glyph_Too_Big = false) := by
  have hf := cid_load_glyph_fetch_frame env face glyph_index st
  have he := cid_load_glyph_fetch_emits env face glyph_index st
  unfold cid_load_glyph
  cases hfetch : cid_load_glyph_fetch env face glyph_index st with
  | exit error st1 =>
    rw [hfetch] at hf he
    simp only [CID_Fetch.state] at hf he
    refine ⟨[], ?_, ?_, ?_, ?_⟩
    · have := he.filter_eq (p := Event.isT1Parse)
        (by intro e; cases e <;> simp [Event.isCidFetch, Event.isT1Parse])
      simp [cid_load_glyph_Exit, this, Event.isT1Parse]
    · simp [cid_load_glyph_Exit]
    · simp [cid_load_glyph_Exit]
    · simp
  | data fd_select glyph_length charstring st1 =>
    rw [hfetch] at hf he
    simp only [CID_Fetch.state] at hf he
    obtain ⟨ps, hps, hshape⟩ :=
      cid_load_glyph_decode_shape env face fd_select glyph_length charstring st1
    have hm := cid_load_glyph_metrics_frame env (cid_inc env face) glyph_index
      (cid_load_glyph_decode env face fd_select glyph_length charstring st1).1
      (cid_load_glyph_decode env face fd_select glyph_length charstring st1).2.2
    have h1 := he.filter_eq (p := Event.isT1Parse)
      (by intro e; cases e <;> simp [Event.isCidFetch, Event.isT1Parse])
    have h2 := hm.2.filter_eq (p := Event.isT1Parse)
      (by intro e; cases e <;> simp [Event.isIncMetrics, Event.isT1Parse])
    refine ⟨ps, ?_, ?_⟩
    · simp only [cid_load_glyph_Exit, List.filter_append, h2, hps, h1]
      simp [Event.isT1Parse]
    · simp only [cid_load_glyph_Exit, hm.1]
      rw [hf.1] at hshape
      rcases hshape with ⟨hfs, hg, b, l, e1, hps', htb⟩ | ⟨hfs, hg, hlen, hno⟩
      · rw [hfs, hg]
        refine ⟨?_, ?_, ?_⟩
        · constructor
          · intro _
            exact ⟨b, l, _, e1, _, hps', htb⟩
          · intro _
            rfl
        · intro _
          rfl
        · intro h
          simp at h
      · rw [hfs]
        refine ⟨?_, ?_, ?_⟩
        · constructor
          · intro h
            simp at h
          · rintro ⟨b, l, h, e1, e2, hps', _⟩
            rw [hps'] at hlen
            simp at hlen
        · intro h
          simp at h
        · intro _
          exact ⟨hlen, hno⟩

end CIDProofs

section CIDProofs2

variable {W : Type}

theorem cid_load_glyph_engine_emits (env : CID_Env W) (face : CID_FaceRec W)
    (dict : CID_FaceDictRec) (bytes : List Nat) (len : Nat) (st : CID_LoadState W) :
    Emits Event.isT1Parse st.trace (cid_load_glyph_engine env face dict bytes len st).2.2.trace ∧
      (cid_load_glyph_engine env face dict bytes len st).2.2.glyph.metrics = st.glyph.metrics := by
  obtain ⟨ps, h1, h2, h3⟩ := cid_load_glyph_engine_shape env face dict bytes len st
  refine ⟨⟨ps, h1, ?_⟩, ?_⟩
  · intro e he
    rw [← h2] at he
    exact (List.mem_filter.mp he).2
  · rcases h3 with ⟨_, hg, _⟩ | ⟨_, hg, _⟩ <;> rw [hg]

theorem cid_load_glyph_decode_emits (env : CID_Env W) (face : CID_FaceRec W)
    (fd_select glyph_length : Nat) (charstring : List Nat) (st : CID_LoadState W) :
    Emits (Event.isCidDecode fd_select) st.trace
      (cid_load_glyph_decode env face fd_select glyph_length charstring st).2.2.trace := by
  have hq : ∀ e, Event.isT1Parse e = true → Event.isCidDecode fd_select e = true := by
    intro e; cases e <;> simp [Event.isT1Parse, Event.isCidDecode]
  unfold cid_load_glyph_decode
  simp only []
  split_ifs
  all_goals first
    | (simp [Event.isCidDecode]; done)
    | (refine Emits.trans ?_ ((cid_load_glyph_engine_emits env face _ _ _ _).1.mono hq)
       simp [Event.isCidDecode, List.append_assoc])

theorem cid_load_glyph_cidmap_data_lt (env : CID_Env W) (face : CID_FaceRec W)
    (fd_select off1 off2 : Nat) (st : CID_LoadState W)
    (fd len : Nat) (cs : List Nat) (st' : CID_LoadState W)
    (h : cid_load_glyph_cidmap_data env face fd_select off1 off2 st = CID_Fetch.data fd len cs st') :
    fd < face.cid.num_dicts ∧ fd = fd_select ∧ len = (off2 + 2 ^ 64 - off1) % 2 ^ 64 := by
  unfold cid_load_glyph_cidmap_data at h
  simp only [] at h
  split_ifs at h with h1 h2 h3 h4
  simp only [CID_Fetch.data.injEq] at h
  push_neg at h1
  exact ⟨by omega, h.1.symm, h.2.1.symm⟩

theorem cid_load_glyph_emits (env : CID_Env W) (face : CID_FaceRec W)
    (glyph_index : Nat) (st : CID_LoadState W) :
    Emits Event.isCidLoad st.trace (cid_load_glyph env face glyph_index st).2.trace := by
  have he := cid_load_glyph_fetch_emits env face glyph_index st
  have hq1 : ∀ e, Event.isCidFetch e = true → Event.isCidLoad e = true := by
    intro e; cases e <;> simp [Event.isCidFetch, Event.isCidLoad]
  have hq2 : ∀ fd e, Event.isCidDecode fd e = true → Event.isCidLoad e = true := by
    intro fd e; cases e <;> simp [Event.isCidDecode, Event.isCidLoad, Event.isCidFetch]
  have hq3 : ∀ e, Event.isIncMetrics e = true → Event.isCidLoad e = true := by
    intro e; cases e <;> simp [Event.isIncMetrics, Event.isCidLoad]
  have hx : ∀ error fs (s : CID_LoadState W),
      Emits Event.isCidLoad s.trace (cid_load_glyph_Exit env error fs s).2.trace := by
    intro error fs s
    simp [cid_load_glyph_Exit, Event.isCidLoad]
  unfold cid_load_glyph
  cases hfetch : cid_load_glyph_fetch env face glyph_index st with
  | exit error st1 =>
    rw [hfetch] at he
    exact (he.mono hq1).trans (hx _ _ _)
  | data fd_select glyph_length charstring st1 =>
    rw [hfetch] at he
    simp only [CID_Fetch.state] at he
    exact (((he.mono hq1).trans
      ((cid_load_glyph_decode_emits env face fd_select glyph_length charstring st1).mono
        (hq2 fd_select))).trans
      ((cid_load_glyph_metrics_frame env _ glyph_index _ _).2.mono hq3)).trans (hx _ _ _)

/-- On the CIDMap path every indexing of `face->subrs` and `cid->font_dicts`
made by `cid_load_glyph` uses an index below `num_dicts`. -/
theorem cid_load_glyph_cidmap_dict_index (env : CID_Env W) (face : CID_FaceRec W)
    (glyph_index : Nat) (st : CID_LoadState W) (hinc : cid_inc env face = none) :
    Emits (fun e => !e.isBadDictIndex face.cid.num_dicts) st.trace
      (cid_load_glyph env face glyph_index st).2.trace := by
  have he := cid_load_glyph_fetch_emits env face glyph_index st
  have hq1 : ∀ e, Event.isCidFetch e = true →
      (!Event.isBadDictIndex face.cid.num_dicts e) = true := by
    intro e; cases e <;> simp [Event.isCidFetch, Event.isBadDictIndex]
  have hq2 : ∀ fd, fd < face.cid.num_dicts → ∀ e, Event.isCidDecode fd e = true →
      (!Event.isBadDictIndex face.cid.num_dicts e) = true := by
    intro fd hfd e
    cases e <;> simp [Event.isCidDecode, Event.isBadDictIndex, Event.isT1Parse] <;> omega
  have hq3 : ∀ e, Event.isIncMetrics e = true →
      (!Event.isBadDictIndex face.cid.num_dicts e) = true := by
    intro e
    cases e <;> simp [Event.isIncMetrics, Event.isBadDictIndex]
  have hx : ∀ error fs (s : CID_LoadState W),
      Emits (fun e => !e.isBadDictIndex face.cid.num_dicts) s.trace
        (cid_load_glyph_Exit env error fs s).2.trace := by
    intro error fs s
    simp [cid_load_glyph_Exit, Event.isBadDictIndex]
  unfold cid_load_glyph
  cases hfetch : cid_load_glyph_fetch env face glyph_index st with
  | exit error st1 =>
    rw [hfetch] at he
    exact (he.mono hq1).trans (hx _ _ _)
  | data fd_select glyph_length charstring st1 =>
    rw [hfetch] at he
    simp only [CID_Fetch.state] at he
    have hlt : fd_select < face.cid.num_dicts := by
      unfold cid_load_glyph_fetch at hfetch
      rw [hinc] at hfetch
      simp only [cid_load_glyph_cidmap] at hfetch
      split at hfetch
      · exact absurd hfetch (by simp)
      · exact (cid_load_glyph_cidmap_data_lt env face _ _ _ _ _ _ _ _ hfetch).1
    exact (((he.mono hq1).trans
      ((cid_load_glyph_decode_emits env face fd_select glyph_length charstring st1).mono
        (hq2 fd_select hlt))).trans
      ((cid_load_glyph_metrics_frame env _ glyph_index _ _).2.mono hq3)).trans (hx _ _ _)

/-- C1 (failing input): an incremental font with one dictionary whose glyph
data names dictionary 5.  `cid_load_glyph` succeeds and indexes both
`face->subrs` and `cid->font_dicts` with 5. -/
theorem cid_load_glyph_incremental_fd_select_unchecked :
    (Sample.cid_face (some Sample.cid_incremental)).cid.num_dicts = 1 ∧
      (cid_load_glyph (Sample.cid_env Sample.cid_stream [] false)
        (Sample.cid_face (some Sample.cid_incremental)) 0 Sample.cid_state).1 = FT_TS_Err_Ok ∧
      (cid_load_glyph (Sample.cid_env Sample.cid_stream [] false)
        (Sample.cid_face (some Sample.cid_incremental)) 0 Sample.cid_state).2.trace =
        [Event.inc_get_glyph_data 0 0, Event.qalloc 3 0, Event.inc_free_glyph_data,
          Event.index_subrs 5, Event.index_font_dicts 5, Event.t1_decrypt 3,
          Event.t1_parse_charstrings [21, 22, 23] 3 true 0, Event.mem_free] := by
  decide

end CIDProofs2

section CIDProofs3

variable {W : Type}

theorem cid_load_glyph_cidmap_read_entry (env : CID_Env W) (face : CID_FaceRec W)
    (glyph_index : Nat) (st : CID_LoadState W) (fd off1 off2 : Nat) (st3 : CID_LoadState W)
    (h : cid_load_glyph_cidmap_read env face glyph_index st = CID_MapEntry.entry fd off1 off2 st3) :
    off1 < 2 ^ 64 ∧ off2 < 2 ^ 64 ∧
      ∃ pos count, st3.trace = st.trace ++
        [Event.stream_seek pos 0, Event.frame_enter count 0, Event.frame_exit] := by
  unfold cid_load_glyph_cidmap_read at h
  simp only [] at h
  split_ifs at h with h1 h2
  simp only [CID_MapEntry.entry.injEq] at h
  obtain ⟨_, ho1, ho2, hst⟩ := h
  push_neg at h1 h2
  refine ⟨?_, ?_,
    (face.cid.data_offset + face.cid.cidmap_offset +
      (glyph_index * ((face.cid.fd_bytes + face.cid.gd_bytes) % 2 ^ 32)) % 2 ^ 32) % 2 ^ 64,
    (2 * ((face.cid.fd_bytes + face.cid.gd_bytes) % 2 ^ 32)) % 2 ^ 32, ?_⟩
  · rw [← ho1]; exact Nat.mod_lt _ (by norm_num)
  · rw [← ho2]; exact Nat.mod_lt _ (by norm_num)
  · rw [← hst]
    simp only [List.append_assoc, h1, h2]
    rfl

/-- C10: on the CIDMap path of `cid_load_glyph`, for the offsets `off1` and
`off2` read from the map: when `off1 > off2` or `off2` exceeds the size of
the stream, the call returns `Invalid_Offset` and its trace holds only the
seek, the frame access and the final free (no allocation, no read, no
decoding); otherwise the wrapping difference computed by the code is the
true difference `off2 - off1`, and this is the length of the charstring
whenever one is fetched. -/
theorem cid_load_glyph_cidmap_offsets (env : CID_Env W) (face : CID_FaceRec W)
    (glyph_index : Nat) (st : CID_LoadState W) (fd off1 off2 : Nat) (st3 : CID_LoadState W)
    (hinc : cid_inc env face = none)
    (hread : cid_load_glyph_cidmap_read env face glyph_index st =
      CID_MapEntry.entry fd off1 off2 st3) :
    ((off1 > off2 ∨ off2 > face.stream_size) →
        (cid_load_glyph env face glyph_index st).1 = FT_TS_Err_Invalid_Offset ∧
        ∃ pos count, (cid_load_glyph env face glyph_index st).2.trace = st.trace ++
          [Event.stream_seek pos 0, Event.frame_enter count 0, Event.frame_exit,
            Event.mem_free]) ∧
      (¬(off1 > off2 ∨ off2 > face.stream_size) →
        (((off2 + 2 ^ 64 - off1) % 2 ^ 64 : Nat) : Int) = (off2 : Int) - (off1 : Int) ∧
        ∀ fd' len cs st', cid_load_glyph_fetch env face glyph_index st =
            CID_Fetch.data fd' len cs st' →
          (len : Int) = (off2 : Int) - (off1 : Int)) := by
  obtain ⟨ho1, ho2, pos, count, htr⟩ :=
    cid_load_glyph_cidmap_read_entry env face glyph_index st fd off1 off2 st3 hread
  have hfetch : cid_load_glyph_fetch env face glyph_index st =
      cid_load_glyph_cidmap_data env face fd off1 off2 st3 := by
    unfold cid_load_glyph_fetch
    rw [hinc]
    simp only [cid_load_glyph_cidmap, hread]
  constructor
  · intro hbad
    have hdata : cid_load_glyph_cidmap_data env face fd off1 off2 st3 =
        CID_Fetch.exit FT_TS_Err_Invalid_Offset st3 := by
      unfold cid_load_glyph_cidmap_data
      simp only []
      rw [if_pos]
      rcases hbad with h | h
      · exact Or.inr (Or.inr h)
      · exact Or.inr (Or.inl h)
    unfold cid_load_glyph
    rw [hfetch, hdata]
    refine ⟨rfl, pos, count, ?_⟩
    simp [cid_load_glyph_Exit, htr]
  · intro hok
    push_neg at hok
    have hwrap : (off2 + 2 ^ 64 - off1) % 2 ^ 64 = off2 - off1 := by
      have : off2 + 2 ^ 64 - off1 = (off2 - off1) + 2 ^ 64 := by omega
      rw [this, Nat.add_mod_right]
      exact Nat.mod_eq_of_lt (by omega)
    refine ⟨?_, ?_⟩
    · rw [hwrap]
      omega
    · intro fd' len cs st' hd
      rw [hfetch] at hd
      have := (cid_load_glyph_cidmap_data_lt env face fd off1 off2 st3 fd' len cs st' hd).2.2
      rw [this, hwrap]
      omega

/-- C10 (witness): a CIDMap whose offsets run backwards (12, then 9). -/
theorem cid_load_glyph_cidmap_offsets_witness :
    (cid_load_glyph (Sample.cid_env Sample.cid_stream_bad [] false) (Sample.cid_face none) 0
        Sample.cid_state).1 = FT_TS_Err_Invalid_Offset :=
  ((cid_load_glyph_cidmap_offsets (Sample.cid_env Sample.cid_stream_bad [] false)
    (Sample.cid_face none) 0 Sample.cid_state 5 12 9 _ rfl rfl).1 (Or.inl (by decide))).1

end CIDProofs3

theorem Emits.count_eq {q : Event → Bool} {t t' : List Event} (h : Emits q t t')
    (x : Event) (hx : q x = false) : t'.count x = t.count x := by
  obtain ⟨n, rfl, hn⟩ := h
  have : n.count x = 0 := by
    rw [List.count_eq_zero]
    intro hmem
    have := hn x hmem
    rw [hx] at this
    exact absurd this (by simp)
  simp [this]

section CIDProofs4

variable {W : Type}

theorem cid_load_glyph_glyph (env : CID_Env W) (face : CID_FaceRec W)
    (glyph_index : Nat) (st : CID_LoadState W) :
    (cid_load_glyph env face glyph_index st).2.glyph =
      { st.glyph with
        hint := (cid_load_glyph env face glyph_index st).2.glyph.hint
        scaled := (cid_load_glyph env face glyph_index st).2.glyph.scaled } := by
  have hf := cid_load_glyph_fetch_frame env face glyph_index st
  unfold cid_load_glyph
  cases hfetch : cid_load_glyph_fetch env face glyph_index st with
  | exit error st1 =>
    rw [hfetch] at hf
    simp only [CID_Fetch.state] at hf
    simp [cid_load_glyph_Exit, hf.1]
  | data fd_select glyph_length charstring st1 =>
    rw [hfetch] at hf
    simp only [CID_Fetch.state] at hf
    obtain ⟨ps, _, hshape⟩ :=
      cid_load_glyph_decode_shape env face fd_select glyph_length charstring st1
    have hm := cid_load_glyph_metrics_frame env (cid_inc env face) glyph_index
      (cid_load_glyph_decode env face fd_select glyph_length charstring st1).1
      (cid_load_glyph_decode env face fd_select glyph_length charstring st1).2.2
    simp only [cid_load_glyph_Exit, hm.1]
    rcases hshape with ⟨_, hg, _⟩ | ⟨_, hg, _⟩ <;> rw [hg, hf.1]

/-- C9 (as amended): when `cid_load_glyph` fails inside
`cid_slot_load_glyph`, the loader returns that error, the slot's metrics are
those it had before the call, and the decoder's `done` operation is invoked
exactly once, as the last step (at `Exit`, `must_finish_decoder` being set),
so that the slot's outline is the builder's base outline as the failed
decode left it. -/
theorem cid_slot_load_glyph_failure (env : CID_Env W) (face : CID_FaceRec W)
    (cidglyph : T1_GlyphSlotRec) (cidsize : FT_TS_Size_Metrics)
    (glyph_index load_flags : Nat) (w : W)
    (hidx : glyph_index < face.num_glyphs % 2 ^ 32)
    (hinit : (cid_slot_load_glyph_init env
      (cid_slot_load_glyph_reset cidglyph cidsize (load_flags_recurse load_flags)) cidsize
      (load_flags_recurse load_flags) w).1 = 0)
    (hfail : (cid_load_glyph env face glyph_index
      (cid_slot_load_glyph_init env
        (cid_slot_load_glyph_reset cidglyph cidsize (load_flags_recurse load_flags)) cidsize
        (load_flags_recurse load_flags) w).2).1 ≠ 0) :
    (cid_slot_load_glyph env face cidglyph cidsize glyph_index load_flags w).1 =
        (cid_load_glyph env face glyph_index
          (cid_slot_load_glyph_init env
            (cid_slot_load_glyph_reset cidglyph cidsize (load_flags_recurse load_flags)) cidsize
            (load_flags_recurse load_flags) w).2).1 ∧
      (cid_slot_load_glyph env face cidglyph cidsize glyph_index load_flags w).2.1.metrics =
        cidglyph.metrics ∧
      (cid_slot_load_glyph env face cidglyph cidsize glyph_index load_flags w).2.1.outline =
        (cid_load_glyph env face glyph_index
          (cid_slot_load_glyph_init env
            (cid_slot_load_glyph_reset cidglyph cidsize (load_flags_recurse load_flags)) cidsize
            (load_flags_recurse load_flags) w).2).2.decoder.builder.base ∧
      (cid_slot_load_glyph env face cidglyph cidsize glyph_index load_flags w).2.2.2.count
        Event.t1_decoder_done = 1 ∧
      (cid_slot_load_glyph env face cidglyph cidsize glyph_index load_flags w).2.2.2.getLast? =
        some Event.t1_decoder_done := by
  have hg := cid_load_glyph_glyph env face glyph_index
    (cid_slot_load_glyph_init env
      (cid_slot_load_glyph_reset cidglyph cidsize (load_flags_recurse load_flags)) cidsize
      (load_flags_recurse load_flags) w).2
  have hem := cid_load_glyph_emits env face glyph_index
    (cid_slot_load_glyph_init env
      (cid_slot_load_glyph_reset cidglyph cidsize (load_flags_recurse load_flags)) cidsize
      (load_flags_recurse load_flags) w).2
  have hcount := hem.count_eq Event.t1_decoder_done (by simp [Event.isCidLoad, Event.isCidFetch, Event.isT1Parse])
  unfold cid_slot_load_glyph
  rw [if_neg (by omega)]
  simp only []
  rw [if_neg (by simpa using hinit), if_pos hfail]
  refine ⟨rfl, ?_, rfl, ?_, ?_⟩
  · simp only [t1_decoder_done]
    rw [hg]
    simp [cid_slot_load_glyph_init, cid_slot_load_glyph_reset]
  · simp only [t1_decoder_done, List.count_append, hcount]
    simp [cid_slot_load_glyph_init]
  · simp [t1_decoder_done]

/-- C9 (witness): the sample decoder fails with error 3 on glyph 0. -/
theorem cid_slot_load_glyph_failure_witness :
    (cid_slot_load_glyph (Sample.cid_env Sample.cid_stream [3] false) (Sample.cid_face none)
        default Sample.size_metrics 0 0 { pos := 0, calls := 0 }).1 = 3 ∧
      (cid_slot_load_glyph (Sample.cid_env Sample.cid_stream [3] false) (Sample.cid_face none)
        default Sample.size_metrics 0 0 { pos := 0, calls := 0 }).2.2.2.count
          Event.t1_decoder_done = 1 := by
  have h := cid_slot_load_glyph_failure (Sample.cid_env Sample.cid_stream [3] false)
    (Sample.cid_face none) default Sample.size_metrics 0 0 { pos := 0, calls := 0 }
    (by decide) (by decide) (by decide)
  exact ⟨h.1.trans (by decide), h.2.2.2.1⟩

/-- C9 (counterexample): the sample decoder leaves the square in the builder
and fails with error 3.  `cid_slot_load_glyph` returns 3, the `done`
operation is invoked on this failure path, and the slot's outline has 4
points and 1 contour. -/
theorem cid_slot_load_glyph_failure_commits :
    (cid_slot_load_glyph (Sample.cid_env Sample.cid_stream [3] false) (Sample.cid_face none)
        default Sample.size_metrics 0 0 { pos := 0, calls := 0 }).1 = 3 ∧
      Event.t1_decoder_done ∈
        (cid_slot_load_glyph (Sample.cid_env Sample.cid_stream [3] false) (Sample.cid_face none)
          default Sample.size_metrics 0 0 { pos := 0, calls := 0 }).2.2.2 ∧
      (cid_slot_load_glyph (Sample.cid_env Sample.cid_stream [3] false) (Sample.cid_face none)
        default Sample.size_metrics 0 0 { pos := 0, calls := 0 }).2.1.outline.n_points = 4 ∧
      (cid_slot_load_glyph (Sample.cid_env Sample.cid_stream [3] false) (Sample.cid_face none)
        default Sample.size_metrics 0 0 { pos := 0, calls := 0 }).2.1.outline.n_contours = 1 := by
  decide

end CIDProofs4

section CFFProofs

variable {W : Type}

theorem cff_get_glyph_data_frame (env : CFF_Env W) (face : TT_FaceRec W) (glyph_index : Nat)
    (st : CFF_LoadState W) (n : Nat) :
    (cff_get_glyph_data env face glyph_index st).2.2.2.glyph = st.glyph ∧
      ∃ e, (cff_get_glyph_data env face glyph_index st).2.2.2.trace = st.trace ++ [e] ∧
        e.isCffOther n = true ∧ e.isCffKey = false := by
  unfold cff_get_glyph_data
  split
  · exact ⟨rfl, _, rfl, by simp [Event.isCffOther], by simp [Event.isCffKey, Event.isCffParse]⟩
  · exact ⟨rfl, _, rfl, by simp [Event.isCffOther], by simp [Event.isCffKey, Event.isCffParse]⟩

theorem cff_free_glyph_data_frame (env : CFF_Env W) (face : TT_FaceRec W) (pointer : List Nat)
    (length : Nat) (st : CFF_LoadState W) (n : Nat) :
    (cff_free_glyph_data env face pointer length st).glyph = st.glyph ∧
      ∃ e, (cff_free_glyph_data env face pointer length st).trace = st.trace ++ [e] ∧
        e.isCffOther n = true ∧ e.isCffKey = false := by
  unfold cff_free_glyph_data
  split
  · exact ⟨rfl, _, rfl, by simp [Event.isCffOther], by simp [Event.isCffKey, Event.isCffParse]⟩
  · exact ⟨rfl, _, rfl, by simp [Event.isCffOther], by simp [Event.isCffKey, Event.isCffParse]⟩

theorem cff_slot_load_parse_shape (env : CFF_Env W) (face : TT_FaceRec W)
    (charstring : List Nat) (charstring_len : Nat) (b : CFF_Build W) :
    (cff_slot_load_parse env face charstring charstring_len b).st.glyph =
        { b.st.glyph with
          hint := (cff_slot_load_parse env face charstring charstring_len b).st.glyph.hint } ∧
      ∃ ps, (cff_slot_load_parse env face charstring charstring_len b).st.trace =
          b.st.trace ++ ps ∧
        ps.filter Event.isCffKey = ps ∧
        CFF_ParseShape (cff_legacy env face) b.st.glyph.hint
          (cff_slot_load_parse env face charstring charstring_len b).st.glyph.hint
          (cff_slot_load_parse env face charstring charstring_len b).error ps := by
  unfold cff_slot_load_parse
  simp only []
  split_ifs with h1 h2
  · refine ⟨rfl, _, rfl, by simp [Event.isCffKey, Event.isCffParse], ?_⟩
    unfold CFF_ParseShape cff_legacy
    rw [if_pos (by simpa using h1)]
    exact ⟨charstring, charstring_len, rfl, rfl⟩
  · refine ⟨rfl, _, List.append_assoc _ _ _, by simp [Event.isCffKey, Event.isCffParse], ?_⟩
    unfold CFF_ParseShape cff_legacy
    rw [if_neg (by simpa using h1)]
    right
    exact ⟨charstring, charstring_len, _, rfl, h2, rfl⟩
  · refine ⟨rfl, _, rfl, by simp [Event.isCffKey, Event.isCffParse], ?_⟩
    unfold CFF_ParseShape cff_legacy
    rw [if_neg (by simpa using h1)]
    left
    exact ⟨charstring, charstring_len, rfl, by simpa using h2, rfl⟩

theorem cff_slot_load_finished_of_ne (env : CFF_Env W) (b : CFF_Build W) (h : b.error ≠ 0) :
    cff_slot_load_finished env b = b := by
  unfold cff_slot_load_finished
  rw [if_neg h]

theorem cff_slot_load_control_metrics (env : CFF_Env W) (face : TT_FaceRec W)
    (glyph_index charstring_len : Nat) (g : T1_GlyphSlotRec) :
    (cff_slot_load_control env face glyph_index charstring_len g).metrics = g.metrics ∧
      (cff_slot_load_control env face glyph_index charstring_len g).hint = g.hint := by
  unfold cff_slot_load_control
  split
  · exact ⟨rfl, rfl⟩
  · split <;> exact ⟨rfl, rfl⟩

theorem cff_slot_load_decode_shape (env : CFF_Env W) (face : TT_FaceRec W)
    (size : Option CFF_SizeRec) (glyph_index : Nat) (hinting force_scaling : Bool)
    (decoder0 : CFF_DecoderRec) (st : CFF_LoadState W) (n : Nat) :
    (cff_slot_load_decode env face size glyph_index hinting force_scaling decoder0 st).st.glyph.metrics =
        st.glyph.metrics ∧
      ∃ new,
        (cff_slot_load_decode env face size glyph_index hinting force_scaling decoder0 st).st.trace =
          st.trace ++ new ∧
        (∀ e ∈ new, e.isCffKey = true ∨ e.isCffOther n = true) ∧
        CFF_BuildShape (cff_legacy env face) glyph_index st.glyph.hint
          (cff_slot_load_decode env face size glyph_index hinting force_scaling decoder0 st).st.glyph.hint
          (cff_slot_load_decode env face size glyph_index hinting force_scaling decoder0 st).error
          (new.filter Event.isCffKey) := by
  unfold cff_slot_load_decode
  simp only []
  obtain ⟨hdg, e, hdt, heo, hek⟩ := cff_get_glyph_data_frame env face glyph_index st n
  generalize cff_get_glyph_data env face glyph_index st = d at hdg hdt ⊢
  obtain ⟨derr, dptr, dlen, dst⟩ := d
  simp only [] at hdg hdt ⊢
  have hkg : ∀ a b, (Event.cff_get_glyph_data a b).isCffKey = true := by
    intro a b; rfl
  have hkp : ∀ a b, (Event.cff_decoder_prepare a b).isCffKey = true := by
    intro a b; rfl
  split_ifs with h1 h2 h3
  · -- the fetch failed
    rw [cff_slot_load_finished_of_ne _ _ h1]
    refine ⟨by simp [hdg], [e, Event.cff_get_glyph_data glyph_index derr],
      by simp [hdt], ?_, ?_⟩
    · intro x hx
      simp only [List.mem_cons, List.mem_singleton, List.not_mem_nil, or_false] at hx
      rcases hx with rfl | rfl
      · right; exact heo
      · left; rfl
    · left
      refine ⟨h1, by simp [hdg], ?_⟩
      simp only [List.filter_cons, hek, hkg]
      simp
  · -- prepare failed
    rw [cff_slot_load_finished_of_ne _ _ h2]
    push_neg at h1
    subst h1
    refine ⟨by simp [hdg],
      [e, Event.cff_get_glyph_data glyph_index 0, Event.cff_decoder_prepare glyph_index
        (env.cff_decoder_prepare decoder0 size glyph_index dst.world).1],
      by simp [hdt], ?_, ?_⟩
    · intro x hx
      simp only [List.mem_cons, List.mem_singleton, List.not_mem_nil, or_false] at hx
      rcases hx with rfl | rfl | rfl
      · right; exact heo
      · left; rfl
      · left; rfl
    · right; left
      refine ⟨h2, by simp [hdg], ?_⟩
      simp only [List.filter_cons, hek, hkg, hkp]
      simp
  all_goals
    push_neg at h1 h2
    subst h1
    obtain ⟨hpg, ps, hpt, hpk, hps⟩ := cff_slot_load_parse_shape env face dptr dlen
      { error := (env.cff_decoder_prepare decoder0 size glyph_index dst.world).1
        hinting := hinting, force_scaling := force_scaling
        decoder := (env.cff_decoder_prepare decoder0 size glyph_index dst.world).2.1
        st :=
          { dst with
            world := (env.cff_decoder_prepare decoder0 size glyph_index dst.world).2.2
            trace := dst.trace ++ [Event.cff_get_glyph_data glyph_index 0] ++
              [Event.cff_decoder_prepare glyph_index
                (env.cff_decoder_prepare decoder0 size glyph_index dst.world).1] } }
    generalize cff_slot_load_parse env face dptr dlen _ = b at h3 hpg hpt hps ⊢
    simp only [] at hpg hpt hps
    have hpm : b.st.glyph.metrics = dst.glyph.metrics := by rw [hpg]
    clear hpg
    obtain ⟨hfg, e', hft, hfo, hfk⟩ := cff_free_glyph_data_frame env face dptr dlen
      { b.st with trace := b.st.trace ++ [Event.cff_free_glyph_data] } n
    generalize cff_free_glyph_data env face dptr dlen _ = st3 at hfg hft ⊢
    simp only [] at hfg hft
    have hpsall : ∀ x ∈ ps, x.isCffKey = true := by
      intro x hx
      rw [← hpk] at hx
      exact (List.mem_filter.mp hx).2
  · -- the parse failed
    rw [cff_slot_load_finished_of_ne env { b with st := st3 } h3]
    refine ⟨?_, [e, Event.cff_get_glyph_data glyph_index 0,
        Event.cff_decoder_prepare glyph_index 0] ++ ps ++ [Event.cff_free_glyph_data, e'],
      ?_, ?_, ?_⟩
    · simp only [hfg, hpm, hdg]
    · simp only [hft, hpt, hdt, h2]
      simp [List.append_assoc]
    · intro x hx
      simp only [List.mem_append, List.mem_cons, List.mem_singleton, List.not_mem_nil,
        or_false] at hx
      rcases hx with ((rfl | rfl | rfl) | hx) | (rfl | rfl)
      · right; exact heo
      · left; rfl
      · left; rfl
      · left; exact hpsall x hx
      · left; rfl
      · right; exact hfo
    · right; right
      refine ⟨ps, ?_, ?_⟩
      · simpa [hfg, hdg] using hps
      · simp only [List.filter_append, List.filter_cons, hek, hkg, hkp, hpk, hfk]
        simp [Event.isCffKey, h3]
  · -- success: the commit is made
    push_neg at h3
    refine ⟨?_, [e, Event.cff_get_glyph_data glyph_index 0,
        Event.cff_decoder_prepare glyph_index 0] ++ ps ++ [Event.cff_free_glyph_data, e'] ++
        [Event.cff_builder_done],
      ?_, ?_, ?_⟩
    · simp only [cff_slot_load_finished, h3, cff_builder_done, if_true]
      rw [(cff_slot_load_control_metrics env face glyph_index dlen st3.glyph).1, hfg, hpm, hdg]
    · simp only [cff_slot_load_finished, h3, cff_builder_done, hft, hpt, hdt, h2]
      simp [List.append_assoc]
    · intro x hx
      simp only [List.mem_append, List.mem_cons, List.mem_singleton, List.not_mem_nil,
        or_false] at hx
      rcases hx with (((rfl | rfl | rfl) | hx) | (rfl | rfl)) | rfl
      · right; exact heo
      · left; rfl
      · left; rfl
      · left; exact hpsall x hx
      · left; rfl
      · right; exact hfo
      · left; rfl
    · right; right
      refine ⟨ps, ?_, ?_⟩
      · simp only [cff_slot_load_finished, h3, cff_builder_done, if_true]
        rw [(cff_slot_load_control_metrics env face glyph_index dlen st3.glyph).2, hfg, ← hdg]
        rw [h3] at hps
        exact hps
      · simp only [List.filter_append, List.filter_cons, hek, hkg, hkp, hpk, hfk]
        simp [Event.isCffKey, cff_slot_load_finished, h3]

theorem cff_slot_load_build_shape (env : CFF_Env W) (face : TT_FaceRec W)
    (size : Option CFF_SizeRec) (glyph_index load_flags : Nat) (hinting force_scaling : Bool)
    (st : CFF_LoadState W) (n : Nat) :
    (cff_slot_load_build env face size glyph_index load_flags hinting force_scaling st).st.glyph.metrics =
        st.glyph.metrics ∧
      ∃ new,
        (cff_slot_load_build env face size glyph_index load_flags hinting force_scaling st).st.trace =
          st.trace ++ new ∧
        (∀ e ∈ new, e.isCffKey = true ∨ e.isCffOther n = true) ∧
        CFF_BuildShape (cff_legacy env face) glyph_index st.glyph.hint
          (cff_slot_load_build env face size glyph_index load_flags hinting force_scaling st).st.glyph.hint
          (cff_slot_load_build env face size glyph_index load_flags hinting force_scaling st).error
          (new.filter Event.isCffKey) := by
  unfold cff_slot_load_build
  simp only []
  obtain ⟨hm, new, htr, hall, hshape⟩ := cff_slot_load_decode_shape env face size glyph_index
    hinting force_scaling (cff_slot_load_init env size load_flags hinting st).1
    (cff_slot_load_init env size load_flags hinting st).2 n
  refine ⟨hm, Event.cff_decoder_init :: new, ?_, ?_, ?_⟩
  · rw [htr]
    simp [cff_slot_load_init]
  · intro e he
    rcases List.mem_cons.mp he with rfl | h
    · right; rfl
    · exact hall e h
  · have : (Event.cff_decoder_init :: new).filter Event.isCffKey = new.filter Event.isCffKey := by
      rw [List.filter_cons]
      simp [Event.isCffKey, Event.isCffParse]
    rw [this]
    exact hshape

end CFFProofs

theorem Event.isCffKey_of_isCffOther (n : Nat) (e : Event) (h : e.isCffOther n = true) :
    e.isCffKey = false := by
  cases e <;> simp [Event.isCffOther] at h <;> simp [Event.isCffKey, Event.isCffParse]

theorem filter_key_of_other (n : Nat) (l : List Event) (h : ∀ e ∈ l, e.isCffOther n = true) :
    l.filter Event.isCffKey = [] := by
  rw [List.filter_eq_nil_iff]
  intro e he
  simp [Event.isCffKey_of_isCffOther n e (h e he)]

section CFFProofs2

variable {W : Type}

theorem cff_slot_load_sbit_linear_frame (env : CFF_Env W) (face : TT_FaceRec W)
    (glyph_index : Nat) (st : CFF_LoadState W) (n : Nat) :
    Emits (Event.isCffOther n) st.trace
      (cff_slot_load_sbit_linear env face glyph_index st).trace := by
  unfold cff_slot_load_sbit_linear
  simp only []
  split_ifs <;> simp [Event.isCffOther]

theorem cff_slot_load_sbit_ret (env : CFF_Env W) (face : TT_FaceRec W)
    (size : Option CFF_SizeRec) (glyph_index load_flags : Nat) (st : CFF_LoadState W) (n : Nat)
    (error : FT_TS_Error) (st' : CFF_LoadState W)
    (h : cff_slot_load_sbit env face size glyph_index load_flags st = CFF_Step.ret error st') :
    error = 0 ∧ Emits (Event.isCffOther n) st.trace st'.trace := by
  unfold cff_slot_load_sbit at h
  split_ifs at h with h1
  split at h
  · exact absurd h (by simp)
  · simp only [] at h
    split_ifs at h with h2 h3
    all_goals
      simp only [CFF_Step.ret.injEq] at h
      obtain ⟨he, hst⟩ := h
      refine ⟨he ▸ h3, ?_⟩
      rw [← hst]
      refine Emits.trans ?_ (cff_slot_load_sbit_linear_frame env face glyph_index _ n)
      simp [Event.isCffOther]

theorem cff_slot_load_sbit_next (env : CFF_Env W) (face : TT_FaceRec W)
    (size : Option CFF_SizeRec) (glyph_index load_flags : Nat) (st : CFF_LoadState W) (n : Nat)
    (st' : CFF_LoadState W)
    (h : cff_slot_load_sbit env face size glyph_index load_flags st = CFF_Step.next st') :
    st'.glyph = { st.glyph with bitmap := st'.glyph.bitmap } ∧
      Emits (Event.isCffOther n) st.trace st'.trace := by
  unfold cff_slot_load_sbit at h
  split_ifs at h with h1
  · split at h
    · simp only [CFF_Step.next.injEq] at h
      rw [← h]
      exact ⟨rfl, Emits.refl _ _⟩
    · simp only [] at h
      split_ifs at h with h2 h3
      · simp only [CFF_Step.next.injEq] at h
        rw [← h]
        exact ⟨rfl, by simp [Event.isCffOther]⟩
      · simp only [CFF_Step.next.injEq] at h
        rw [← h]
        exact ⟨rfl, Emits.refl _ _⟩
  · simp only [CFF_Step.next.injEq] at h
    rw [← h]
    exact ⟨rfl, Emits.refl _ _⟩

theorem cff_slot_load_subfont_frame (env : CFF_Env W) (cff : CFF_FontRec) (glyph_index : Nat)
    (st : CFF_LoadState W) :
    (cff_slot_load_subfont env cff glyph_index st).2.2.2.glyph =
        { st.glyph with
          x_scale := (cff_slot_load_subfont env cff glyph_index st).2.2.2.glyph.x_scale
          y_scale := (cff_slot_load_subfont env cff glyph_index st).2.2.2.glyph.y_scale } ∧
      Emits (Event.isCffOther cff.num_subfonts) st.trace
        (cff_slot_load_subfont env cff glyph_index st).2.2.2.trace := by
  unfold cff_slot_load_subfont
  simp only []
  split_ifs with h1 h2 h3 h4
  all_goals refine ⟨rfl, ?_⟩
  all_goals simp [Event.isCffOther]
  all_goals
    have : (cff.num_subfonts - 1) % 256 ≤ cff.num_subfonts - 1 := Nat.mod_le _ _
    omega

theorem cff_slot_load_inc_metrics_cases (env : CFF_Env W) (face : TT_FaceRec W)
    (glyph_index : Nat) (b : CFF_Build W) :
    (cff_slot_load_inc_metrics env face glyph_index b).st.glyph = b.st.glyph ∧
      ((cff_slot_load_inc_metrics env face glyph_index b).error = b.error ∧
          (cff_slot_load_inc_metrics env face glyph_index b).st.trace = b.st.trace ∨
        b.error = 0 ∧
          (cff_slot_load_inc_metrics env face glyph_index b).st.trace = b.st.trace ++
            [Event.inc_get_glyph_metrics glyph_index
              (cff_slot_load_inc_metrics env face glyph_index b).error]) := by
  unfold cff_slot_load_inc_metrics
  split
  · exact ⟨rfl, Or.inl ⟨rfl, rfl⟩⟩
  · split
    · exact ⟨rfl, Or.inl ⟨rfl, rfl⟩⟩
    · split_ifs with h
      · exact ⟨rfl, Or.inl ⟨rfl, rfl⟩⟩
      · push_neg at h
        exact ⟨rfl, Or.inr ⟨h, rfl⟩⟩

theorem cff_slot_load_metrics_frame (env : CFF_Env W) (face : TT_FaceRec W)
    (size : Option CFF_SizeRec) (glyph_index load_flags : Nat) (hinting force_scaling : Bool)
    (font_matrix : FT_TS_Matrix) (font_offset : FT_TS_Vector) (decoder : CFF_DecoderRec)
    (st : CFF_LoadState W) (n : Nat) :
    (cff_slot_load_metrics env face size glyph_index load_flags hinting force_scaling
        font_matrix font_offset decoder st).glyph.hint = st.glyph.hint ∧
      Emits (Event.isCffOther n) st.trace
        (cff_slot_load_metrics env face size glyph_index load_flags hinting force_scaling
          font_matrix font_offset decoder st).trace := by
  unfold cff_slot_load_metrics
  by_cases h1 : load_flags &&& FT_TS_LOAD_NO_RECURSE ≠ 0
  · rw [if_pos h1]
    exact ⟨rfl, Emits.refl _ _⟩
  · rw [if_neg h1]
    refine ⟨rfl, ?_⟩
    show Emits (Event.isCffOther n) st.trace
      (st.trace ++
        (if decide (face.horizontal.number_Of_HMetrics ≠ 0) = true then
          [Event.sfnt_get_metrics false glyph_index] else []) ++
        (if (face.vertical_info && decide (face.vertical.number_Of_VMetrics > 0)) = true then
          [Event.sfnt_get_metrics true glyph_index] else []))
    simp only [List.append_assoc, emits_append_iff]
    intro e he
    rcases List.mem_append.mp he with h | h
    · split_ifs at h <;> simp at h
      rw [h]; rfl
    · split_ifs at h <;> simp at h
      rw [h]; rfl

end CFFProofs2

theorem filter_key_sandwich (n : Nat) (o1 b o2 : List Event)
    (h1 : ∀ e ∈ o1, e.isCffOther n = true) (h2 : ∀ e ∈ o2, e.isCffOther n = true) :
    (o1 ++ b ++ o2).filter Event.isCffKey = b.filter Event.isCffKey := by
  simp [List.filter_append, filter_key_of_other n o1 h1, filter_key_of_other n o2 h2]

section CFFProofs3

variable {W : Type}

/-- The possible courses of `cff_slot_load_from`: either it ends before the
glyph is built (a bitmap was loaded, or only bitmaps were wanted), or the
block that builds the glyph runs, with the steps described by
`CFF_BuildShape`; a non-zero error leaves the metrics of the slot alone, and
an error that follows a successful build is that of the metrics callback,
which is then the last step. -/
theorem cff_slot_load_from_cases (env : CFF_Env W) (face : TT_FaceRec W)
    (glyph : T1_GlyphSlotRec) (size : Option CFF_SizeRec) (glyph_index load_flags : Nat)
    (w : W) (tr : List Event) :
    ∃ new hint',
      (cff_slot_load_from env face glyph size glyph_index load_flags w tr).2.2.2 = tr ++ new ∧
      (∀ e ∈ new, e.isCffKey = true ∨ e.isCffOther face.cff.num_subfonts = true) ∧
      ((new.filter Event.isCffKey = [] ∧
          ((cff_slot_load_from env face glyph size glyph_index load_flags w tr).1 = 0 ∨
            (cff_slot_load_from env face glyph size glyph_index load_flags w tr).1 =
                FT_TS_Err_Invalid_Argument ∧
              (cff_slot_load_from env face glyph size glyph_index load_flags w tr).2.1.metrics =
                glyph.metrics)) ∨
        ∃ berr,
          CFF_BuildShape (cff_legacy env face) glyph_index
            (decide (load_flags_recurse load_flags &&& FT_TS_LOAD_NO_HINTING = 0)) hint' berr
            (new.filter Event.isCffKey) ∧
          (berr ≠ 0 →
            (cff_slot_load_from env face glyph size glyph_index load_flags w tr).1 = berr) ∧
          ((cff_slot_load_from env face glyph size glyph_index load_flags w tr).1 ≠ 0 →
            (cff_slot_load_from env face glyph size glyph_index load_flags w tr).2.1.metrics =
              glyph.metrics) ∧
          (berr = 0 →
            (cff_slot_load_from env face glyph size glyph_index load_flags w tr).1 ≠ 0 →
            new.getLast? = some (Event.inc_get_glyph_metrics glyph_index
              (cff_slot_load_from env face glyph size glyph_index load_flags w tr).1))) := by
  unfold cff_slot_load_from
  simp only []
  generalize hg1 : (match size with
    | some sz => ({ glyph with x_scale := sz.metrics.x_scale, y_scale := sz.metrics.y_scale } :
        T1_GlyphSlotRec)
    | none => { glyph with x_scale := 0x10000, y_scale := 0x10000 }) = glyph1
  have hm1 : glyph1.metrics = glyph.metrics := by
    rw [← hg1]
    cases size <;> rfl
  cases hs : cff_slot_load_sbit env face size glyph_index (load_flags_recurse load_flags)
      { glyph := glyph1, world := w, trace := tr } with
  | ret error st =>
    obtain ⟨he, o1, ho1, ho1all⟩ := cff_slot_load_sbit_ret env face size glyph_index _ _
      face.cff.num_subfonts error st hs
    simp only [] at ho1
    refine ⟨o1, false, ho1, fun e h => Or.inr (ho1all e h), Or.inl ⟨?_, Or.inl he⟩⟩
    exact filter_key_of_other _ o1 ho1all
  | next st =>
    obtain ⟨hsg, o1, ho1, ho1all⟩ := cff_slot_load_sbit_next env face size glyph_index _ _
      face.cff.num_subfonts st hs
    simp only [] at ho1 hsg
    have hsm : st.glyph.metrics = glyph.metrics := by rw [hsg, hm1]
    simp only []
    by_cases hsb : load_flags_recurse load_flags &&& FT_TS_LOAD_SBITS_ONLY ≠ 0
    · rw [if_pos hsb]
      refine ⟨o1, false, ho1, fun e h => Or.inr (ho1all e h),
        Or.inl ⟨filter_key_of_other _ o1 ho1all, Or.inr ⟨rfl, hsm⟩⟩⟩
    · rw [if_neg hsb]
      obtain ⟨hfg, o2, ho2, ho2all⟩ := cff_slot_load_subfont_frame env face.cff glyph_index st
      generalize cff_slot_load_subfont env face.cff glyph_index st = sf at hfg ho2 ⊢
      obtain ⟨fm, fo, fs, sst⟩ := sf
      simp only [] at hfg ho2 ⊢
      have hfm : sst.glyph.metrics = glyph.metrics := by rw [hfg, hsm]
      clear hfg
      generalize hst1 : ({ sst with
          glyph :=
            { sst.glyph with
              outline := { sst.glyph.outline with n_points := 0, n_contours := 0 }
              hint := decide (load_flags_recurse load_flags &&& FT_TS_LOAD_NO_HINTING = 0)
              scaled := decide (load_flags_recurse load_flags &&& FT_TS_LOAD_NO_SCALE = 0)
              format := FT_TS_GLYPH_FORMAT_OUTLINE } } : CFF_LoadState W) = st1
      have h1m : st1.glyph.metrics = glyph.metrics := by rw [← hst1]; exact hfm
      have h1h : st1.glyph.hint =
          decide (load_flags_recurse load_flags &&& FT_TS_LOAD_NO_HINTING = 0) := by
        rw [← hst1]
      have h1t : st1.trace = sst.trace := by rw [← hst1]
      obtain ⟨hbm, nb, hbt, hball, hbshape⟩ := cff_slot_load_build_shape env face size glyph_index
        (load_flags_recurse load_flags)
        (decide (load_flags_recurse load_flags &&& FT_TS_LOAD_NO_HINTING = 0)) fs st1
        face.cff.num_subfonts
      generalize cff_slot_load_build env face size glyph_index (load_flags_recurse load_flags)
        (decide (load_flags_recurse load_flags &&& FT_TS_LOAD_NO_HINTING = 0)) fs st1 = b
        at hbm hbt hbshape ⊢
      rw [h1h] at hbshape
      obtain ⟨hmg, hmc⟩ := cff_slot_load_inc_metrics_cases env face glyph_index b
      generalize cff_slot_load_inc_metrics env face glyph_index b = m at hmg hmc ⊢
      have hmm : m.st.glyph.metrics = glyph.metrics := by rw [hmg, hbm, h1m]
      have hbtr : b.st.trace = tr ++ (o1 ++ o2 ++ nb) := by
        rw [hbt, h1t, ho2, ho1]
        simp [List.append_assoc]
      have ho12 : ∀ e ∈ o1 ++ o2, e.isCffOther face.cff.num_subfonts = true := by
        intro e he
        rcases List.mem_append.mp he with h | h
        · exact ho1all e h
        · exact ho2all e h
      by_cases hme : m.error = 0
      · -- success: the metrics are computed
        rw [if_pos hme]
        obtain ⟨_, o3, ho3, ho3all⟩ := cff_slot_load_metrics_frame env face size glyph_index
          (load_flags_recurse load_flags) m.hinting m.force_scaling fm fo m.decoder m.st
          face.cff.num_subfonts
        generalize cff_slot_load_metrics env face size glyph_index
          (load_flags_recurse load_flags) m.hinting m.force_scaling fm fo m.decoder m.st = st2
          at ho3 ⊢
        simp only []
        rcases hmc with ⟨hmerr, hmt⟩ | ⟨hberr, hmt⟩
        · refine ⟨o1 ++ o2 ++ nb ++ o3, b.st.glyph.hint, ?_, ?_, Or.inr ⟨b.error, ?_, ?_, ?_, ?_⟩⟩
          · rw [ho3, hmt, hbtr]
            simp [List.append_assoc]
          · intro e he
            rcases List.mem_append.mp he with h | h
            · rcases List.mem_append.mp h with h' | h'
              · exact Or.inr (ho12 e h')
              · exact hball e h'
            · exact Or.inr (ho3all e h)
          · rw [filter_key_sandwich _ _ _ _ ho12 ho3all]
            exact hbshape
          · intro hb
            exact absurd (hmerr ▸ hme) hb
          · intro h
            exact absurd hme h
          · intro _ h
            exact absurd hme h
        · refine ⟨o1 ++ o2 ++ nb ++ ([Event.inc_get_glyph_metrics glyph_index m.error] ++ o3),
            b.st.glyph.hint, ?_, ?_, Or.inr ⟨b.error, ?_, ?_, ?_, ?_⟩⟩
          · rw [ho3, hmt, hbtr]
            simp [List.append_assoc]
          · intro e he
            rcases List.mem_append.mp he with h | h
            · rcases List.mem_append.mp h with h' | h'
              · exact Or.inr (ho12 e h')
              · exact hball e h'
            · rcases List.mem_append.mp h with h' | h'
              · simp only [List.mem_singleton] at h'
                rw [h']
                exact Or.inr rfl
              · exact Or.inr (ho3all e h')
          · rw [filter_key_sandwich _ _ _ _ ho12]
            · exact hbshape
            · intro e h
              rcases List.mem_append.mp h with h' | h'
              · simp only [List.mem_singleton] at h'
                rw [h']
                rfl
              · exact ho3all e h'
          · intro hb
            exact absurd hberr hb
          · intro h
            exact absurd hme h
          · intro _ h
            exact absurd hme h
      · -- failure
        rw [if_neg hme]
        simp only []
        rcases hmc with ⟨hmerr, hmt⟩ | ⟨hberr, hmt⟩
        · refine ⟨o1 ++ o2 ++ nb, b.st.glyph.hint, ?_, ?_, Or.inr ⟨b.error, ?_, ?_, ?_, ?_⟩⟩
          · rw [hmt, hbtr]
          · intro e he
            rcases List.mem_append.mp he with h | h
            · exact Or.inr (ho12 e h)
            · exact hball e h
          · have := filter_key_sandwich face.cff.num_subfonts (o1 ++ o2) nb [] ho12 (by simp)
            simp only [List.append_nil] at this
            rw [this]
            exact hbshape
          · intro _
            exact hmerr
          · intro _
            exact hmm
          · intro hb h
            exact absurd (hmerr.trans hb) hme
        · refine ⟨o1 ++ o2 ++ nb ++ [Event.inc_get_glyph_metrics glyph_index m.error],
            b.st.glyph.hint, ?_, ?_, Or.inr ⟨b.error, ?_, ?_, ?_, ?_⟩⟩
          · rw [hmt, hbtr]
            simp [List.append_assoc]
          · intro e he
            rcases List.mem_append.mp he with h | h
            · rcases List.mem_append.mp h with h' | h'
              · exact Or.inr (ho12 e h')
              · exact hball e h'
            · simp only [List.mem_singleton] at h
              rw [h]
              exact Or.inr rfl
          · rw [filter_key_sandwich _ _ _ _ ho12]
            · exact hbshape
            · intro e h
              simp only [List.mem_singleton] at h
              rw [h]
              rfl
          · intro hb
            exact absurd hberr hb
          · intro _
            exact hmm
          · intro _ _
            simp

end CFFProofs3

section CFFProofs4

variable {W : Type}

theorem cff_slot_load_index_events (env : CFF_Env W) (cff : CFF_FontRec) (glyph_index : Nat) :
    ∀ e ∈ (cff_slot_load_index env cff glyph_index).2, e.isCidMap = true := by
  unfold cff_slot_load_index
  simp only []
  split_ifs <;> simp [Event.isCidMap]

theorem cff_slot_load_index_error (env : CFF_Env W) (cff : CFF_FontRec) (glyph_index : Nat)
    (e : FT_TS_Error) (h : (cff_slot_load_index env cff glyph_index).1 = Except.error e) :
    e = FT_TS_Err_Invalid_Argument := by
  unfold cff_slot_load_index at h
  simp only [] at h
  split_ifs at h <;> simp only [Except.error.injEq, reduceCtorEq] at h <;> exact h.symm

/-- The possible courses of `cff_slot_load`: the trace starts with the
mapping of the CID, if any; then either the call returns `Invalid_Argument`
at once, or it goes on as `cff_slot_load_from` does. -/
theorem cff_slot_load_cases (env : CFF_Env W) (face : TT_FaceRec W)
    (glyph : T1_GlyphSlotRec) (size : Option CFF_SizeRec) (glyph_index load_flags : Nat)
    (w : W) :
    ∃ pre new hint',
      (cff_slot_load env face glyph size glyph_index load_flags w).2.2.2 = pre ++ new ∧
      (∀ e ∈ pre, e.isCidMap = true) ∧
      (∀ e ∈ new, e.isCffKey = true ∨ e.isCffOther face.cff.num_subfonts = true) ∧
      ((new.filter Event.isCffKey = [] ∧
          ((cff_slot_load env face glyph size glyph_index load_flags w).1 = 0 ∨
            (cff_slot_load env face glyph size glyph_index load_flags w).1 =
                FT_TS_Err_Invalid_Argument ∧
              (cff_slot_load env face glyph size glyph_index load_flags w).2.1.metrics =
                glyph.metrics)) ∨
        ∃ berr g,
          CFF_BuildShape (cff_legacy env face) g
            (decide (load_flags_recurse load_flags &&& FT_TS_LOAD_NO_HINTING = 0)) hint' berr
            (new.filter Event.isCffKey) ∧
          (berr ≠ 0 → (cff_slot_load env face glyph size glyph_index load_flags w).1 = berr) ∧
          ((cff_slot_load env face glyph size glyph_index load_flags w).1 ≠ 0 →
            (cff_slot_load env face glyph size glyph_index load_flags w).2.1.metrics =
              glyph.metrics) ∧
          (berr = 0 → (cff_slot_load env face glyph size glyph_index load_flags w).1 ≠ 0 →
            new.getLast? = some (Event.inc_get_glyph_metrics g
              (cff_slot_load env face glyph size glyph_index load_flags w).1))) := by
  have hix := cff_slot_load_index_events env face.cff glyph_index
  have hie := cff_slot_load_index_error env face.cff glyph_index
  unfold cff_slot_load
  simp only []
  generalize cff_slot_load_index env face.cff glyph_index = ix at hix hie ⊢
  obtain ⟨r, evs⟩ := ix
  cases r with
  | error e =>
    simp only [] at hix hie ⊢
    refine ⟨evs, [], false, by simp, hix, by simp, Or.inl ⟨rfl, Or.inr ⟨hie e rfl, trivial⟩⟩⟩
  | ok g =>
    simp only [] at hix ⊢
    obtain ⟨new, hint', h1, h2, h3⟩ :=
      cff_slot_load_from_cases env face glyph size g load_flags w evs
    refine ⟨evs, new, hint', h1, hix, h2, ?_⟩
    rcases h3 with h | ⟨berr, h⟩
    · exact Or.inl h
    · exact Or.inr ⟨berr, g, h⟩

end CFFProofs4

theorem filter_parse_of_filter_key (l : List Event) :
    l.filter Event.isCffParse = (l.filter Event.isCffKey).filter Event.isCffParse := by
  rw [List.filter_filter]
  congr 1
  funext e
  cases e <;> simp [Event.isCffKey, Event.isCffParse]

theorem filter_key_pre (pre new : List Event) (h : ∀ e ∈ pre, e.isCidMap = true) :
    (pre ++ new).filter Event.isCffKey = new.filter Event.isCffKey := by
  have : pre.filter Event.isCffKey = [] := by
    rw [List.filter_eq_nil_iff]
    intro e he
    have := h e he
    cases e <;> simp [Event.isCidMap] at this
    simp [Event.isCffKey, Event.isCffParse]
  simp [List.filter_append, this]

theorem mem_key_iff (l : List Event) (x : Event) (hx : x.isCffKey = true) :
    x ∈ l ↔ x ∈ l.filter Event.isCffKey := by
  simp [List.mem_filter, hx]

theorem count_key (l : List Event) (x : Event) (hx : x.isCffKey = true) :
    l.count x = (l.filter Event.isCffKey).count x := by
  rw [List.count_filter hx]

theorem getLast?_append_some (pre new : List Event) (x : Event) (h : new.getLast? = some x) :
    (pre ++ new).getLast? = some x := by
  cases new with
  | nil => simp at h
  | cons a l =>
    rw [List.getLast?_append]
    simp [h]

section CFFProofs5

variable {W : Type}

/-- The steps of `cff_slot_load` from the fetch of the charstring to the
commit (`isCffKey`): there are none when the call ends before the glyph is
built; otherwise they are as `CFF_BuildShape` says.  A non-zero error leaves
the metrics of the slot alone, and an error that follows a successful build
is that of the metrics callback, which is then the last step. -/
theorem cff_slot_load_key (env : CFF_Env W) (face : TT_FaceRec W)
    (glyph : T1_GlyphSlotRec) (size : Option CFF_SizeRec) (glyph_index load_flags : Nat)
    (w : W) :
    ((cff_slot_load env face glyph size glyph_index load_flags w).2.2.2.filter Event.isCffKey = [] ∧
        ((cff_slot_load env face glyph size glyph_index load_flags w).1 = 0 ∨
          (cff_slot_load env face glyph size glyph_index load_flags w).1 =
              FT_TS_Err_Invalid_Argument ∧
            (cff_slot_load env face glyph size glyph_index load_flags w).2.1.metrics =
              glyph.metrics)) ∨
      ∃ hint' berr g,
        CFF_BuildShape (cff_legacy env face) g
          (decide (load_flags_recurse load_flags &&& FT_TS_LOAD_NO_HINTING = 0)) hint' berr
          ((cff_slot_load env face glyph size glyph_index load_flags w).2.2.2.filter
            Event.isCffKey) ∧
        (berr ≠ 0 → (cff_slot_load env face glyph size glyph_index load_flags w).1 = berr) ∧
        ((cff_slot_load env face glyph size glyph_index load_flags w).1 ≠ 0 →
          (cff_slot_load env face glyph size glyph_index load_flags w).2.1.metrics =
            glyph.metrics) ∧
        (berr = 0 → (cff_slot_load env face glyph size glyph_index load_flags w).1 ≠ 0 →
          (cff_slot_load env face glyph size glyph_index load_flags w).2.2.2.getLast? =
            some (Event.inc_get_glyph_metrics g
              (cff_slot_load env face glyph size glyph_index load_flags w).1)) := by
  obtain ⟨pre, new, hint', htr, hpre, _, h⟩ :=
    cff_slot_load_cases env face glyph size glyph_index load_flags w
  rw [htr, filter_key_pre pre new hpre]
  rcases h with h | ⟨berr, g, h1, h2, h3, h4⟩
  · exact Or.inl h
  · exact Or.inr ⟨hint', berr, g, h1, h2, h3,
      fun hb hr => getLast?_append_some pre new _ (h4 hb hr)⟩

/-- Release of the charstring in `cff_slot_load`: when prepare succeeded,
`cff_free_glyph_data` is called exactly once; when prepare failed, the fetch
had succeeded and `cff_free_glyph_data` is not called. -/
theorem cff_slot_load_release (env : CFF_Env W) (face : TT_FaceRec W)
    (glyph : T1_GlyphSlotRec) (size : Option CFF_SizeRec) (glyph_index load_flags : Nat)
    (w : W) :
    (∀ g, Event.cff_decoder_prepare g 0 ∈
        (cff_slot_load env face glyph size glyph_index load_flags w).2.2.2 →
      (cff_slot_load env face glyph size glyph_index load_flags w).2.2.2.count
        Event.cff_free_glyph_data = 1) ∧
    (∀ g e, e ≠ 0 → Event.cff_decoder_prepare g e ∈
        (cff_slot_load env face glyph size glyph_index load_flags w).2.2.2 →
      Event.cff_get_glyph_data g 0 ∈
          (cff_slot_load env face glyph size glyph_index load_flags w).2.2.2 ∧
        (cff_slot_load env face glyph size glyph_index load_flags w).2.2.2.count
          Event.cff_free_glyph_data = 0) := by
  have hk := cff_slot_load_key env face glyph size glyph_index load_flags w
  generalize (cff_slot_load env face glyph size glyph_index load_flags w).2.2.2 = tr at hk ⊢
  simp only [mem_key_iff tr _ (rfl : (Event.cff_decoder_prepare _ _).isCffKey = true),
    mem_key_iff tr _ (rfl : (Event.cff_get_glyph_data _ _).isCffKey = true),
    count_key tr _ (rfl : Event.cff_free_glyph_data.isCffKey = true)]
  generalize tr.filter Event.isCffKey = key at hk ⊢
  rcases hk with ⟨hnil, _⟩ | ⟨hint', berr, g, hshape, _⟩
  · subst hnil
    simp
  · unfold CFF_BuildShape CFF_ParseShape at hshape
    rcases hshape with ⟨_, _, rfl⟩ | ⟨hb, _, rfl⟩ | ⟨ps, hps, rfl⟩
    · simp
    · simp only [List.mem_cons, Event.cff_decoder_prepare.injEq, reduceCtorEq, false_or,
        List.mem_singleton, List.not_mem_nil, or_false, true_or, true_and, and_imp]
      refine ⟨fun g' hg h0 => absurd h0.symm hb, fun g' e _ hg _ => ⟨by rw [hg], ?_⟩⟩
      simp
    · split_ifs at hps with hl
      · obtain ⟨b, l, rfl, _⟩ := hps
        constructor
        · split_ifs <;> simp
        · split_ifs <;> simp <;> intro _ _ h _ <;> exact h
      · rcases hps with ⟨b, l, rfl, _⟩ | ⟨b, l, e1, rfl, _⟩
        · constructor
          · split_ifs <;> simp
          · split_ifs <;> simp <;> intro _ _ h _ <;> exact h
        · constructor
          · split_ifs <;> simp
          · split_ifs <;> simp <;> intro _ _ h _ <;> exact h

end CFFProofs5

section CFFClaims

variable {W : Type}

/-- C2 (failing input): a simple font whose charstring is fetched
successfully and for which the decoder's prepare step fails with error 7.
`cff_slot_load` returns 7 and its trace ends with the failed prepare:
`cff_free_glyph_data` is never called. -/
theorem cff_slot_load_prepare_failure_no_release :
    (cff_slot_load (Sample.cff_env id id 7 [] false) (Sample.cff_face 0xFFFF none 0 none 1)
        default none 0 0 Sample.world).1 = 7 ∧
      (cff_slot_load (Sample.cff_env id id 7 [] false) (Sample.cff_face 0xFFFF none 0 none 1)
        default none 0 0 Sample.world).2.2.2 =
        [Event.cff_decoder_init, Event.cff_index_access_element 0 0,
          Event.cff_get_glyph_data 0 0, Event.cff_decoder_prepare 0 7] ∧
      (cff_slot_load (Sample.cff_env id id 7 [] false) (Sample.cff_face 0xFFFF none 0 none 1)
        default none 0 0 Sample.world).2.2.2.count Event.cff_free_glyph_data = 0 := by
  decide

/-- C3: in a CID-keyed font with a CID map, `cff_slot_load` on index 0 runs
the load with glyph index 0 and never calls `cff_charset_cid_to_gindex`; on
a non-zero index it calls the map once, returns `Invalid_Argument` with the
slot untouched when the map yields 0, and otherwise runs the load with the
map's result as glyph index. -/
theorem cff_slot_load_cid_map (env : CFF_Env W) (face : TT_FaceRec W)
    (glyph : T1_GlyphSlotRec) (size : Option CFF_SizeRec) (load_flags : Nat) (w : W)
    (hreg : face.cff.top_font.font_dict.cid_registry ≠ 0xFFFF)
    (hmap : face.cff.charset.cids ≠ none) :
    cff_slot_load env face glyph size 0 load_flags w =
        cff_slot_load_from env face glyph size 0 load_flags w [] ∧
      (∀ c g, Event.cff_charset_cid_to_gindex c g ∉
        (cff_slot_load env face glyph size 0 load_flags w).2.2.2) ∧
      ∀ glyph_index, glyph_index ≠ 0 →
        (env.cff_charset_cid_to_gindex face.cff.charset glyph_index % 2 ^ 32 = 0 →
          cff_slot_load env face glyph size glyph_index load_flags w =
            (FT_TS_Err_Invalid_Argument, glyph, w,
              [Event.cff_charset_cid_to_gindex glyph_index 0])) ∧
        (env.cff_charset_cid_to_gindex face.cff.charset glyph_index % 2 ^ 32 ≠ 0 →
          cff_slot_load env face glyph size glyph_index load_flags w =
            cff_slot_load_from env face glyph size
              (env.cff_charset_cid_to_gindex face.cff.charset glyph_index % 2 ^ 32)
              load_flags w
              [Event.cff_charset_cid_to_gindex glyph_index
                (env.cff_charset_cid_to_gindex face.cff.charset glyph_index % 2 ^ 32)]) := by
  have h0 : cff_slot_load env face glyph size 0 load_flags w =
      cff_slot_load_from env face glyph size 0 load_flags w [] := by
    unfold cff_slot_load cff_slot_load_index
    simp [hreg, hmap]
  refine ⟨h0, ?_, ?_⟩
  · intro c g hmem
    rw [h0] at hmem
    obtain ⟨new, _, htr, hall, _⟩ :=
      cff_slot_load_from_cases env face glyph size 0 load_flags w []
    rw [htr, List.nil_append] at hmem
    rcases hall _ hmem with h | h
    · simp [Event.isCffKey, Event.isCffParse] at h
    · simp [Event.isCffOther] at h
  · intro glyph_index hne
    constructor
    · intro hz
      unfold cff_slot_load cff_slot_load_index
      simp only []
      rw [if_pos ⟨hreg, hmap⟩, if_pos hne, if_pos hz, hz]
    · intro hnz
      unfold cff_slot_load cff_slot_load_index
      simp only []
      rw [if_pos ⟨hreg, hmap⟩, if_pos hne, if_neg hnz]

/-- C3 (witness): the sample CID-keyed font with the CID map `[0, 1]`. -/
theorem cff_slot_load_cid_map_witness :
    cff_slot_load (Sample.cff_env id id 0 [] false)
        (Sample.cff_face 0 (some [0, 1]) 0 none 1) default none 0 0 Sample.world =
      cff_slot_load_from (Sample.cff_env id id 0 [] false)
        (Sample.cff_face 0 (some [0, 1]) 0 none 1) default none 0 0 Sample.world [] :=
  (cff_slot_load_cid_map (Sample.cff_env id id 0 [] false)
    (Sample.cff_face 0 (some [0, 1]) 0 none 1) default none 0 Sample.world
    (by decide) (by decide)).1

/-- C4 (counterexample): a CID-keyed font with 2 glyphs whose CID map sends
CID 1 to glyph index 7.  `cff_slot_load` does not return `Invalid_Argument`:
it fetches the charstring of glyph 7, returns 0 and has written the scales
of the slot. -/
theorem cff_slot_load_cid_map_unchecked :
    (Sample.cff_face 0 (some [0, 1]) 0 none 1).cff.num_glyphs = 2 ∧
      (cff_slot_load (Sample.cff_env (fun _ => 7) id 0 [] false)
        (Sample.cff_face 0 (some [0, 1]) 0 none 1) default none 1 0 Sample.world).1 = 0 ∧
      Event.cff_get_glyph_data 7 0 ∈
        (cff_slot_load (Sample.cff_env (fun _ => 7) id 0 [] false)
          (Sample.cff_face 0 (some [0, 1]) 0 none 1) default none 1 0 Sample.world).2.2.2 ∧
      (default : T1_GlyphSlotRec).x_scale = 0 ∧
      (cff_slot_load (Sample.cff_env (fun _ => 7) id 0 [] false)
        (Sample.cff_face 0 (some [0, 1]) 0 none 1) default none 1 0 Sample.world).2.1.x_scale =
        0x10000 := by
  decide

/-- C4 (as amended): a requested index that is not below the number of
glyphs makes `cff_slot_load` return `Invalid_Argument` when the font is not
CID-keyed or has no CID map, and makes `cid_slot_load_glyph` return
`Invalid_Argument` for every font; in both cases the slot and the hidden
state are returned as they were and no call has been made. -/
theorem slot_load_index_out_of_range (env : CFF_Env W) (face : TT_FaceRec W)
    (glyph : T1_GlyphSlotRec) (size : Option CFF_SizeRec) (glyph_index load_flags : Nat) (w : W)
    (cenv : CID_Env W) (cface : CID_FaceRec W) (cidsize : FT_TS_Size_Metrics) :
    ((face.cff.top_font.font_dict.cid_registry = 0xFFFF ∨ face.cff.charset.cids = none) →
        glyph_index ≥ face.cff.num_glyphs →
        cff_slot_load env face glyph size glyph_index load_flags w =
          (FT_TS_Err_Invalid_Argument, glyph, w, [])) ∧
      (glyph_index < 2 ^ 32 → glyph_index ≥ cface.num_glyphs →
        cid_slot_load_glyph cenv cface glyph cidsize glyph_index load_flags w =
          (FT_TS_Err_Invalid_Argument, glyph, w, [])) := by
  constructor
  · intro hsimple hge
    have hc : ¬(face.cff.top_font.font_dict.cid_registry ≠ 0xFFFF ∧
        face.cff.charset.cids ≠ none) := by
      rintro ⟨h1, h2⟩
      rcases hsimple with h | h
      · exact h1 h
      · exact h2 h
    unfold cff_slot_load cff_slot_load_index
    simp only [if_neg hc, if_pos hge]
  · intro hlt hge
    have : glyph_index ≥ cface.num_glyphs % 2 ^ 32 :=
      le_trans (Nat.mod_le _ _) hge
    unfold cid_slot_load_glyph
    rw [if_pos this]

/-- C4 (witness): index 5 in the sample fonts, which have 2 glyphs. -/
theorem slot_load_index_out_of_range_witness :
    cff_slot_load (Sample.cff_env id id 0 [] false) (Sample.cff_face 0xFFFF none 0 none 1)
        default none 5 0 Sample.world = (FT_TS_Err_Invalid_Argument, default, Sample.world, []) ∧
      cid_slot_load_glyph (Sample.cid_env Sample.cid_stream [] false) (Sample.cid_face none)
        default Sample.size_metrics 5 0 Sample.world =
        (FT_TS_Err_Invalid_Argument, default, Sample.world, []) :=
  ⟨(slot_load_index_out_of_range (Sample.cff_env id id 0 [] false)
      (Sample.cff_face 0xFFFF none 0 none 1) default none 5 0 Sample.world
      (Sample.cid_env Sample.cid_stream [] false) (Sample.cid_face none)
      Sample.size_metrics).1 (Or.inl rfl) (by decide),
    (slot_load_index_out_of_range (Sample.cff_env id id 0 [] false)
      (Sample.cff_face 0xFFFF none 0 none 1) default none 5 0 Sample.world
      (Sample.cid_env Sample.cid_stream [] false) (Sample.cid_face none)
      Sample.size_metrics).2 (by decide) (by decide)⟩

end CFFClaims

section CFFClaims2

variable {W : Type}

/-- C5: every indexing of `cff->subfonts` made by `cff_slot_load` uses an
index below `num_subfonts`; and when the font has subfonts and the value
returned by `cff_fd_select_get` is not below `num_subfonts`, the block that
resolves the dictionary uses the index `num_subfonts - 1` instead, takes the
font matrix and offset of that last dictionary, and goes on without an
error. -/
theorem cff_slot_load_subfont_index (env : CFF_Env W) (face : TT_FaceRec W)
    (glyph : T1_GlyphSlotRec) (size : Option CFF_SizeRec) (glyph_index load_flags : Nat)
    (w : W) :
    (∀ e ∈ (cff_slot_load env face glyph size glyph_index load_flags w).2.2.2,
        e.isBadSubfontIndex face.cff.num_subfonts = false) ∧
      ∀ (st : CFF_LoadState W) (g : Nat), face.cff.num_subfonts ≠ 0 →
        env.cff_fd_select_get face.cff.fd_select g % 256 ≥ face.cff.num_subfonts →
        face.cff.num_subfonts - 1 < face.cff.num_subfonts ∧
          (cff_slot_load_subfont env face.cff g st).1 =
            (face.cff.subfonts.getD (face.cff.num_subfonts - 1) default).font_dict.font_matrix ∧
          (cff_slot_load_subfont env face.cff g st).2.1 =
            (face.cff.subfonts.getD (face.cff.num_subfonts - 1) default).font_dict.font_offset ∧
          (cff_slot_load_subfont env face.cff g st).2.2.2.trace = st.trace ++
            [Event.cff_fd_select_get g (env.cff_fd_select_get face.cff.fd_select g % 256),
              Event.index_subfonts (face.cff.num_subfonts - 1),
              Event.index_subfonts (face.cff.num_subfonts - 1),
              Event.index_subfonts (face.cff.num_subfonts - 1)] := by
  constructor
  · obtain ⟨pre, new, _, htr, hpre, hnew, _⟩ :=
      cff_slot_load_cases env face glyph size glyph_index load_flags w
    rw [htr]
    intro e he
    rcases List.mem_append.mp he with h | h
    · have := hpre e h
      cases e <;> simp [Event.isCidMap] at this
      rfl
    · rcases hnew e h with hk | ho
      · cases e <;> simp [Event.isCffKey, Event.isCffParse] at hk <;> rfl
      · cases e <;> simp [Event.isCffOther] at ho <;>
          simp [Event.isBadSubfontIndex]
        exact ho
  · intro st g hn hge
    have hlt : env.cff_fd_select_get face.cff.fd_select g % 256 < 256 :=
      Nat.mod_lt _ (by norm_num)
    have hmod : (face.cff.num_subfonts - 1) % 256 = face.cff.num_subfonts - 1 :=
      Nat.mod_eq_of_lt (by omega)
    refine ⟨by omega, ?_⟩
    unfold cff_slot_load_subfont
    simp only []
    rw [if_pos hn, if_pos hge, hmod]
    split_ifs <;> exact ⟨rfl, rfl, rfl⟩

/-- C5 (witness): the sample font with 2 subfonts and a selector that
answers 9: index 1 is used. -/
theorem cff_slot_load_subfont_index_witness :
    (cff_slot_load_subfont (Sample.cff_env id (fun _ => 9) 0 [] false)
        (Sample.cff_face 0 none 2 none 1).cff 0
        { glyph := default, world := Sample.world, trace := [] }).2.2.2.trace =
      [Event.cff_fd_select_get 0 9, Event.index_subfonts 1, Event.index_subfonts 1,
        Event.index_subfonts 1] :=
  ((cff_slot_load_subfont_index (Sample.cff_env id (fun _ => 9) 0 [] false)
    (Sample.cff_face 0 none 2 none 1) default none 0 0 Sample.world).2
    { glyph := default, world := Sample.world, trace := [] } 0 (by decide) (by decide)).2.2.2

end CFFClaims2

section CFFClaims3

variable {W : Type}

/-- C6: the parser invocations of a call of `cff_slot_load`, in order.  With
the high-precision engine there is none, or one that did not answer
`Glyph_Too_Big`, or two on the same bytes and length, the first of which
answered `Glyph_Too_Big` and the second of which was made with the slot's
hint flag cleared; never three.  With the legacy engine there is none or
one, whatever it answers.  A non-zero answer of the last invocation is the
error returned by the load.  There is no invocation exactly when the load
did not get past a successful prepare. -/
theorem cff_slot_load_retry (env : CFF_Env W) (face : TT_FaceRec W)
    (glyph : T1_GlyphSlotRec) (size : Option CFF_SizeRec) (glyph_index load_flags : Nat)
    (w : W) :
    (cff_legacy env face = false →
        (cff_slot_load env face glyph size glyph_index load_flags w).2.2.2.filter
            Event.isCffParse = [] ∨
          (∃ b l h e,
            (cff_slot_load env face glyph size glyph_index load_flags w).2.2.2.filter
                Event.isCffParse = [Event.cff_parse_charstrings b l h e] ∧
              FT_TS_ERR_EQ e FT_TS_Err_Glyph_Too_Big = false ∧
              (e ≠ 0 → (cff_slot_load env face glyph size glyph_index load_flags w).1 = e)) ∨
          ∃ b l h e1 e2,
            (cff_slot_load env face glyph size glyph_index load_flags w).2.2.2.filter
                Event.isCffParse =
                [Event.cff_parse_charstrings b l h e1,
                  Event.cff_parse_charstrings b l false e2] ∧
              FT_TS_ERR_EQ e1 FT_TS_Err_Glyph_Too_Big = true ∧
              (e2 ≠ 0 → (cff_slot_load env face glyph size glyph_index load_flags w).1 = e2)) ∧
      (cff_legacy env face = true →
        (cff_slot_load env face glyph size glyph_index load_flags w).2.2.2.filter
            Event.isCffParse = [] ∨
          ∃ b l e,
            (cff_slot_load env face glyph size glyph_index load_flags w).2.2.2.filter
                Event.isCffParse = [Event.cff_parse_charstrings_old b l e] ∧
              (e ≠ 0 → (cff_slot_load env face glyph size glyph_index load_flags w).1 = e)) ∧
      ((cff_slot_load env face glyph size glyph_index load_flags w).2.2.2.filter
          Event.isCffParse = [] ↔
        ¬∃ g, Event.cff_decoder_prepare g 0 ∈
          (cff_slot_load env face glyph size glyph_index load_flags w).2.2.2) := by
  have hk := cff_slot_load_key env face glyph size glyph_index load_flags w
  generalize (cff_slot_load env face glyph size glyph_index load_flags w).2.2.2 = tr at hk ⊢
  generalize (cff_slot_load env face glyph size glyph_index load_flags w).1 = err at hk ⊢
  simp only [mem_key_iff tr _ (rfl : (Event.cff_decoder_prepare _ _).isCffKey = true)]
  rw [filter_parse_of_filter_key tr]
  generalize tr.filter Event.isCffKey = key at hk ⊢
  rcases hk with ⟨hnil, _⟩ | ⟨hint', berr, g, hshape, herr, _⟩
  · subst hnil
    simp
  · unfold CFF_BuildShape CFF_ParseShape at hshape
    rcases hshape with ⟨_, _, rfl⟩ | ⟨hb, _, rfl⟩ | ⟨ps, hps, rfl⟩
    · simp [Event.isCffParse]
    · simp [Event.isCffParse]
      intro h
      exact hb h.symm
    · split_ifs at hps with hl
      · obtain ⟨b, l, rfl, _⟩ := hps
        refine ⟨fun h => absurd hl (by simp [h]), fun _ => Or.inr ⟨b, l, berr, ?_, herr⟩, ?_⟩
        · split_ifs <;> simp [Event.isCffParse]
        · split_ifs <;> simp [Event.isCffParse]
      · rcases hps with ⟨b, l, rfl, htb, _⟩ | ⟨b, l, e1, rfl, htb, _⟩
        · refine ⟨fun _ => Or.inr (Or.inl ⟨b, l,
            decide (load_flags_recurse load_flags &&& FT_TS_LOAD_NO_HINTING = 0), berr, ?_, htb,
            herr⟩),
            fun h => absurd h hl, ?_⟩
          · split_ifs <;> simp [Event.isCffParse]
          · split_ifs <;> simp [Event.isCffParse]
        · refine ⟨fun _ => Or.inr (Or.inr ⟨b, l,
            decide (load_flags_recurse load_flags &&& FT_TS_LOAD_NO_HINTING = 0), e1, berr, ?_,
            htb, herr⟩),
            fun h => absurd h hl, ?_⟩
          · split_ifs <;> simp [Event.isCffParse]
          · split_ifs <;> simp [Event.isCffParse]

/-- C6 (witness): the sample font with the high-precision engine, whose
parser answers `Glyph_Too_Big` and then 3: two invocations, the second with
the hint flag cleared, and the load returns 3. -/
theorem cff_slot_load_retry_witness :
    cff_legacy (Sample.cff_env id id 0 [0xA4, 3] false)
        (Sample.cff_face 0xFFFF none 0 none 1) = false ∧
      (cff_slot_load (Sample.cff_env id id 0 [0xA4, 3] false)
        (Sample.cff_face 0xFFFF none 0 none 1) default none 0 0 Sample.world).2.2.2.filter
          Event.isCffParse =
        [Event.cff_parse_charstrings [21, 22, 23] 3 true 0xA4,
          Event.cff_parse_charstrings [21, 22, 23] 3 false 3] ∧
      ((cff_slot_load (Sample.cff_env id id 0 [0xA4, 3] false)
          (Sample.cff_face 0xFFFF none 0 none 1) default none 0 0 Sample.world).2.2.2.filter
            Event.isCffParse = [] ↔
        ¬∃ g, Event.cff_decoder_prepare g 0 ∈
          (cff_slot_load (Sample.cff_env id id 0 [0xA4, 3] false)
            (Sample.cff_face 0xFFFF none 0 none 1) default none 0 0 Sample.world).2.2.2) :=
  ⟨by decide, by decide,
    (cff_slot_load_retry (Sample.cff_env id id 0 [0xA4, 3] false)
      (Sample.cff_face 0xFFFF none 0 none 1) default none 0 0 Sample.world).2.2⟩

/-- C8 (counterexample): an incremental font whose metrics callback fails
with error 5 after a successful decode.  `cff_slot_load` returns 5 although
the builder's commit operation has been invoked. -/
theorem cff_slot_load_callback_failure_commits :
    (cff_slot_load (Sample.cff_env id id 0 [] false)
        (Sample.cff_face 0xFFFF none 0 (some (Sample.cff_incremental 5)) 1) default none 0 0
        Sample.world).1 = 5 ∧
      (cff_slot_load (Sample.cff_env id id 0 [] false)
        (Sample.cff_face 0xFFFF none 0 (some (Sample.cff_incremental 5)) 1) default none 0 0
        Sample.world).2.2.2 =
        [Event.cff_decoder_init, Event.inc_get_glyph_data 0 0, Event.cff_get_glyph_data 0 0,
          Event.cff_decoder_prepare 0 0,
          Event.cff_parse_charstrings [21, 22, 23] 3 true 0,
          Event.cff_free_glyph_data, Event.inc_free_glyph_data, Event.cff_builder_done,
          Event.inc_get_glyph_metrics 0 5] := by
  decide

/-- C8 (as amended): when `cff_slot_load` returns a non-zero error, the
metrics record of the slot is the one it had before the call; the builder's
commit operation has been invoked at most once, and only when the error is
that of the incremental metrics callback, which is then the last step of the
call (it runs after the commit). -/
theorem cff_slot_load_failure (env : CFF_Env W) (face : TT_FaceRec W)
    (glyph : T1_GlyphSlotRec) (size : Option CFF_SizeRec) (glyph_index load_flags : Nat)
    (w : W)
    (herr : (cff_slot_load env face glyph size glyph_index load_flags w).1 ≠ 0) :
    (cff_slot_load env face glyph size glyph_index load_flags w).2.1.metrics = glyph.metrics ∧
      (cff_slot_load env face glyph size glyph_index load_flags w).2.2.2.count
        Event.cff_builder_done ≤ 1 ∧
      (Event.cff_builder_done ∈
          (cff_slot_load env face glyph size glyph_index load_flags w).2.2.2 →
        ∃ g, (cff_slot_load env face glyph size glyph_index load_flags w).2.2.2.getLast? =
          some (Event.inc_get_glyph_metrics g
            (cff_slot_load env face glyph size glyph_index load_flags w).1)) := by
  have hk := cff_slot_load_key env face glyph size glyph_index load_flags w
  generalize (cff_slot_load env face glyph size glyph_index load_flags w).2.2.2 = tr at hk ⊢
  generalize (cff_slot_load env face glyph size glyph_index load_flags w).1 = err at hk herr ⊢
  generalize (cff_slot_load env face glyph size glyph_index load_flags w).2.1 = slot at hk ⊢
  simp only [mem_key_iff tr _ (rfl : Event.cff_builder_done.isCffKey = true),
    count_key tr _ (rfl : Event.cff_builder_done.isCffKey = true)]
  generalize tr.filter Event.isCffKey = key at hk ⊢
  rcases hk with ⟨hnil, h⟩ | ⟨hint', berr, g, hshape, hberr, hmet, hlast⟩
  · subst hnil
    rcases h with h | ⟨_, h⟩
    · exact absurd h herr
    · exact ⟨h, by simp, by simp⟩
  · refine ⟨hmet herr, ?_, ?_⟩
    · unfold CFF_BuildShape CFF_ParseShape at hshape
      rcases hshape with ⟨_, _, rfl⟩ | ⟨hb, _, rfl⟩ | ⟨ps, hps, rfl⟩
      · simp
      · simp
      · split_ifs at hps with hl
        · obtain ⟨b, l, rfl, _⟩ := hps
          split_ifs <;> simp
        · rcases hps with ⟨b, l, rfl, _⟩ | ⟨b, l, e1, rfl, _⟩ <;> split_ifs <;> simp
    · intro hdone
      refine ⟨g, hlast ?_ herr⟩
      by_contra hb
      unfold CFF_BuildShape CFF_ParseShape at hshape
      rcases hshape with ⟨_, _, rfl⟩ | ⟨_, _, rfl⟩ | ⟨ps, hps, rfl⟩
      · simp at hdone
      · simp at hdone
      · rw [if_neg hb] at hdone
        split_ifs at hps with hl
        · obtain ⟨b, l, rfl, _⟩ := hps
          simp at hdone
        · rcases hps with ⟨b, l, rfl, _⟩ | ⟨b, l, e1, rfl, _⟩ <;> simp at hdone

/-- C8 (witness): the sample font whose prepare step fails with error 7. -/
theorem cff_slot_load_failure_witness :
    (cff_slot_load (Sample.cff_env id id 7 [] false) (Sample.cff_face 0xFFFF none 0 none 1)
        default none 0 0 Sample.world).2.1.metrics = (default : T1_GlyphSlotRec).metrics :=
  (cff_slot_load_failure (Sample.cff_env id id 7 [] false)
    (Sample.cff_face 0xFFFF none 0 none 1) default none 0 0 Sample.world (by decide)).1

end CFFClaims3

/-! ## The state that reaches the metrics -/

theorem Event.isCffTooBig_of_isCffOther (n : Nat) (e : Event) (h : e.isCffOther n = true) :
    e.isCffTooBig = false := by
  cases e <;> simp [Event.isCffOther] at h <;> simp [Event.isCffTooBig]

theorem Event.isCffTooBig_of_isCidMap (e : Event) (h : e.isCidMap = true) :
    e.isCffTooBig = false := by
  cases e <;> simp [Event.isCidMap] at h
  simp [Event.isCffTooBig]

theorem any_tooBig_of_other (n : Nat) (l : List Event) (h : ∀ e ∈ l, e.isCffOther n = true) :
    l.any Event.isCffTooBig = false := by
  rw [List.any_eq_false]
  intro e he
  simp [Event.isCffTooBig_of_isCffOther n e (h e he)]

theorem any_tooBig_of_cidMap (l : List Event) (h : ∀ e ∈ l, e.isCidMap = true) :
    l.any Event.isCffTooBig = false := by
  rw [List.any_eq_false]
  intro e he
  simp [Event.isCffTooBig_of_isCidMap e (h e he)]

theorem any_tooBig_emits {n : Nat} {t t' : List Event} (h : Emits (Event.isCffOther n) t t') :
    t'.any Event.isCffTooBig = t.any Event.isCffTooBig := by
  obtain ⟨new, rfl, hall⟩ := h
  rw [List.any_append, any_tooBig_of_other n new hall, Bool.or_false]

section CFFState

variable {W : Type}

/-- What the parser invocations of `cff_slot_load` do to the slot and to the
flags `hinting` and `force_scaling`. -/
theorem cff_slot_load_parse_state (env : CFF_Env W) (face : TT_FaceRec W)
    (charstring : List Nat) (charstring_len : Nat) (b : CFF_Build W) :
    (cff_slot_load_parse env face charstring charstring_len b).st.glyph =
        { b.st.glyph with
          hint := (cff_slot_load_parse env face charstring charstring_len b).st.glyph.hint } ∧
      (b.hinting = b.st.glyph.hint →
        (cff_slot_load_parse env face charstring charstring_len b).hinting =
          (cff_slot_load_parse env face charstring charstring_len b).st.glyph.hint) ∧
      ((cff_slot_load_parse env face charstring charstring_len b).hinting = true →
        b.hinting = true) ∧
      ∃ ps, (cff_slot_load_parse env face charstring charstring_len b).st.trace =
          b.st.trace ++ ps ∧
        (cff_slot_load_parse env face charstring charstring_len b).force_scaling =
          (b.force_scaling || ps.any Event.isCffTooBig) := by
  unfold cff_slot_load_parse
  simp only []
  split_ifs with h1 h2
  · exact ⟨rfl, fun h => h, fun h => h, _, rfl, by simp [Event.isCffTooBig]⟩
  · refine ⟨rfl, fun _ => rfl, fun h => absurd h (by simp), _, List.append_assoc _ _ _, ?_⟩
    simp [Event.isCffTooBig, h2]
  · refine ⟨rfl, fun h => h, fun h => h, _, rfl, ?_⟩
    simp [Event.isCffTooBig, h2]


theorem cff_slot_load_control_state (env : CFF_Env W) (face : TT_FaceRec W)
    (glyph_index charstring_len : Nat) (g : T1_GlyphSlotRec) :
    cff_slot_load_control env face glyph_index charstring_len g =
      { g with
        control_data := (cff_slot_load_control env face glyph_index charstring_len g).control_data
        control_len := (cff_slot_load_control env face glyph_index charstring_len g).control_len } := by
  unfold cff_slot_load_control
  split
  · rfl
  · split <;> rfl

/-- What the block that builds the glyph does to the slot and to the flags
`hinting` and `force_scaling`: the slot keeps everything but its hint flag,
its control data and, after a commit, its outline, which is then the
builder's; `force_scaling` is set exactly when it was set before or a parser
invocation answered `Glyph_Too_Big`. -/
theorem cff_slot_load_decode_state (env : CFF_Env W) (face : TT_FaceRec W)
    (size : Option CFF_SizeRec) (glyph_index : Nat) (hinting force_scaling : Bool)
    (decoder0 : CFF_DecoderRec) (st : CFF_LoadState W) :
    (cff_slot_load_decode env face size glyph_index hinting force_scaling decoder0 st).st.glyph =
        { st.glyph with
          hint := (cff_slot_load_decode env face size glyph_index hinting force_scaling
            decoder0 st).st.glyph.hint
          control_data := (cff_slot_load_decode env face size glyph_index hinting force_scaling
            decoder0 st).st.glyph.control_data
          control_len := (cff_slot_load_decode env face size glyph_index hinting force_scaling
            decoder0 st).st.glyph.control_len
          outline := (cff_slot_load_decode env face size glyph_index hinting force_scaling
            decoder0 st).st.glyph.outline } ∧
      ((cff_slot_load_decode env face size glyph_index hinting force_scaling decoder0 st).error = 0 →
        (cff_slot_load_decode env face size glyph_index hinting force_scaling
            decoder0 st).st.glyph.outline =
          (cff_slot_load_decode env face size glyph_index hinting force_scaling
            decoder0 st).decoder.builder.base) ∧
      (hinting = st.glyph.hint →
        (cff_slot_load_decode env face size glyph_index hinting force_scaling decoder0 st).hinting =
          (cff_slot_load_decode env face size glyph_index hinting force_scaling
            decoder0 st).st.glyph.hint) ∧
      ((cff_slot_load_decode env face size glyph_index hinting force_scaling decoder0 st).hinting =
          true → hinting = true) ∧
      ∃ new,
        (cff_slot_load_decode env face size glyph_index hinting force_scaling decoder0 st).st.trace =
          st.trace ++ new ∧
        (cff_slot_load_decode env face size glyph_index hinting force_scaling
            decoder0 st).force_scaling =
          (force_scaling || new.any Event.isCffTooBig) := by
  unfold cff_slot_load_decode
  simp only []
  obtain ⟨hdg, e, hdt, heo, -⟩ := cff_get_glyph_data_frame env face glyph_index st 0
  have het := Event.isCffTooBig_of_isCffOther 0 e heo
  have k1 : ∀ a b, (Event.cff_get_glyph_data a b).isCffTooBig = false := fun _ _ => rfl
  have k2 : ∀ a b, (Event.cff_decoder_prepare a b).isCffTooBig = false := fun _ _ => rfl
  have k3 : Event.cff_free_glyph_data.isCffTooBig = false := rfl
  have k4 : Event.cff_builder_done.isCffTooBig = false := rfl
  generalize cff_get_glyph_data env face glyph_index st = d at hdg hdt ⊢
  obtain ⟨derr, dptr, dlen, dst⟩ := d
  simp only [] at hdg hdt ⊢
  split_ifs with h1 h2 h3
  · rw [cff_slot_load_finished_of_ne _ _ h1]
    refine ⟨by simp [hdg], fun h => absurd h h1, fun h => by simpa [hdg] using h, fun h => h,
      [e, Event.cff_get_glyph_data glyph_index derr], by simp [hdt], ?_⟩
    simp only [List.any_cons, List.any_nil, het, k1, Bool.or_false]
  · rw [cff_slot_load_finished_of_ne _ _ h2]
    refine ⟨by simp [hdg], fun h => absurd h h2, fun h => by simpa [hdg] using h, fun h => h,
      [e, Event.cff_get_glyph_data glyph_index derr, Event.cff_decoder_prepare glyph_index
        (env.cff_decoder_prepare decoder0 size glyph_index dst.world).1], by simp [hdt], ?_⟩
    simp only [List.any_cons, List.any_nil, het, k1, k2, Bool.or_false]
  all_goals
    push_neg at h1 h2
    obtain ⟨hpg, hph, hph', ps, hpt, hpf⟩ := cff_slot_load_parse_state env face dptr dlen
      { error := (env.cff_decoder_prepare decoder0 size glyph_index dst.world).1
        hinting := hinting, force_scaling := force_scaling
        decoder := (env.cff_decoder_prepare decoder0 size glyph_index dst.world).2.1
        st :=
          { dst with
            world := (env.cff_decoder_prepare decoder0 size glyph_index dst.world).2.2
            trace := dst.trace ++ [Event.cff_get_glyph_data glyph_index derr] ++
              [Event.cff_decoder_prepare glyph_index
                (env.cff_decoder_prepare decoder0 size glyph_index dst.world).1] } }
    generalize cff_slot_load_parse env face dptr dlen _ = b at h3 hpg hph hph' hpt hpf ⊢
    simp only [] at hpg hph hph' hpt hpf
    obtain ⟨hfg, e', hft, hfo, -⟩ := cff_free_glyph_data_frame env face dptr dlen
      { b.st with trace := b.st.trace ++ [Event.cff_free_glyph_data] } 0
    have het' := Event.isCffTooBig_of_isCffOther 0 e' hfo
    generalize cff_free_glyph_data env face dptr dlen _ = st3 at hfg hft ⊢
    simp only [] at hfg hft
  · rw [cff_slot_load_finished_of_ne env { b with st := st3 } h3]
    refine ⟨?_, fun h => absurd h h3, ?_, hph', ?_⟩
    · show st3.glyph = _
      rw [hfg, hpg, hdg]
    · intro h
      show b.hinting = st3.glyph.hint
      rw [hfg]
      exact hph (by rw [hdg]; exact h)
    · refine ⟨[e, Event.cff_get_glyph_data glyph_index derr,
          Event.cff_decoder_prepare glyph_index
            (env.cff_decoder_prepare decoder0 size glyph_index dst.world).1] ++ ps ++
          [Event.cff_free_glyph_data, e'], ?_, ?_⟩
      · show st3.trace = _
        simp only [hft, hpt, hdt]
        simp [List.append_assoc]
      · show b.force_scaling = _
        rw [hpf]
        simp only [List.any_cons, List.any_nil, List.any_append, het, het', k1, k2, k3, k4,
          Bool.or_false, Bool.false_or]
  · push_neg at h3
    unfold cff_slot_load_finished
    rw [if_pos h3]
    refine ⟨?_, fun _ => rfl, ?_, hph', ?_⟩
    · show ({ cff_slot_load_control env face glyph_index dlen st3.glyph with
          outline := b.decoder.builder.base } : T1_GlyphSlotRec) = _
      have hc := cff_slot_load_control_state env face glyph_index dlen st3.glyph
      generalize cff_slot_load_control env face glyph_index dlen st3.glyph = c at hc ⊢
      rw [hfg] at hc
      rw [hdg] at hpg
      generalize b.st.glyph = g at hc hpg
      generalize st.glyph = g0 at hpg ⊢
      cases c
      cases g
      cases g0
      simp only [T1_GlyphSlotRec.mk.injEq] at hc hpg ⊢
      simp [hc, hpg, cff_builder_done]
    · intro h
      show b.hinting = (cff_slot_load_control env face glyph_index dlen st3.glyph).hint
      rw [(cff_slot_load_control_metrics env face glyph_index dlen st3.glyph).2, hfg]
      exact hph (by rw [hdg]; exact h)
    · refine ⟨[e, Event.cff_get_glyph_data glyph_index derr,
          Event.cff_decoder_prepare glyph_index
            (env.cff_decoder_prepare decoder0 size glyph_index dst.world).1] ++ ps ++
          [Event.cff_free_glyph_data, e'] ++ [Event.cff_builder_done], ?_, ?_⟩
      · show st3.trace ++ [Event.cff_builder_done] = _
        simp only [hft, hpt, hdt]
        simp [List.append_assoc]
      · show b.force_scaling = _
        rw [hpf]
        simp only [List.any_cons, List.any_nil, List.any_append, het, het', k1, k2, k3, k4,
          Bool.or_false, Bool.false_or]

end CFFState

section CFFState2

variable {W : Type}

/-- The metrics callback of an incremental font changes neither the slot nor
the flags, and of the decoder only the bearing and the advance. -/
theorem cff_slot_load_inc_metrics_state (env : CFF_Env W) (face : TT_FaceRec W)
    (glyph_index : Nat) (b : CFF_Build W) :
    (cff_slot_load_inc_metrics env face glyph_index b).st.glyph = b.st.glyph ∧
      (cff_slot_load_inc_metrics env face glyph_index b).hinting = b.hinting ∧
      (cff_slot_load_inc_metrics env face glyph_index b).force_scaling = b.force_scaling ∧
      (cff_slot_load_inc_metrics env face glyph_index b).decoder.builder.base =
        b.decoder.builder.base ∧
      ((cff_slot_load_inc_metrics env face glyph_index b).error = 0 → b.error = 0) ∧
      (cff_slot_load_inc_metrics env face glyph_index b).st.trace.any Event.isCffTooBig =
        b.st.trace.any Event.isCffTooBig := by
  unfold cff_slot_load_inc_metrics
  split
  · exact ⟨rfl, rfl, rfl, rfl, fun h => h, rfl⟩
  · split
    · exact ⟨rfl, rfl, rfl, rfl, fun h => h, rfl⟩
    · split_ifs with h
      · exact ⟨rfl, rfl, rfl, rfl, fun h => h, rfl⟩
      · push_neg at h
        refine ⟨rfl, rfl, rfl, rfl, fun _ => h, ?_⟩
        simp [Event.isCffTooBig]

/-- The subfont step of `cff_slot_load` in terms of the governing
dictionary: its matrix and offset are chosen, and the scales of the slot are
multiplied by the ratio of the units per em when these differ. -/
theorem cff_slot_load_subfont_state (env : CFF_Env W) (cff : CFF_FontRec) (glyph_index : Nat)
    (st : CFF_LoadState W) :
    (cff_slot_load_subfont env cff glyph_index st).1 =
        (cff_slot_load_dict env cff glyph_index).font_matrix ∧
      (cff_slot_load_subfont env cff glyph_index st).2.1 =
        (cff_slot_load_dict env cff glyph_index).font_offset ∧
      (cff_slot_load_subfont env cff glyph_index st).2.2.1 =
        decide (FT_TS_Long_of_ULong cff.top_font.font_dict.units_per_em ≠
          FT_TS_Long_of_ULong (cff_slot_load_dict env cff glyph_index).units_per_em) ∧
      (cff_slot_load_subfont env cff glyph_index st).2.2.2.glyph.x_scale =
        (if FT_TS_Long_of_ULong cff.top_font.font_dict.units_per_em ≠
            FT_TS_Long_of_ULong (cff_slot_load_dict env cff glyph_index).units_per_em then
          env.base.MulDiv st.glyph.x_scale
            (FT_TS_Long_of_ULong cff.top_font.font_dict.units_per_em)
            (FT_TS_Long_of_ULong (cff_slot_load_dict env cff glyph_index).units_per_em)
        else st.glyph.x_scale) ∧
      (cff_slot_load_subfont env cff glyph_index st).2.2.2.glyph.y_scale =
        (if FT_TS_Long_of_ULong cff.top_font.font_dict.units_per_em ≠
            FT_TS_Long_of_ULong (cff_slot_load_dict env cff glyph_index).units_per_em then
          env.base.MulDiv st.glyph.y_scale
            (FT_TS_Long_of_ULong cff.top_font.font_dict.units_per_em)
            (FT_TS_Long_of_ULong (cff_slot_load_dict env cff glyph_index).units_per_em)
        else st.glyph.y_scale) := by
  unfold cff_slot_load_subfont cff_slot_load_dict cff_slot_load_fd_index
  simp only []
  by_cases h1 : cff.num_subfonts ≠ 0
  · rw [if_pos h1, if_pos h1]
    generalize (if env.cff_fd_select_get cff.fd_select glyph_index % 256 ≥ cff.num_subfonts then
      (cff.num_subfonts - 1) % 256 else env.cff_fd_select_get cff.fd_select glyph_index % 256) = fd
    by_cases h3 : FT_TS_Long_of_ULong cff.top_font.font_dict.units_per_em ≠
        FT_TS_Long_of_ULong (cff.subfonts.getD fd default).font_dict.units_per_em
    · rw [if_pos h3, if_pos h3, if_pos h3]
      exact ⟨rfl, rfl, (decide_eq_true h3).symm, rfl, rfl⟩
    · rw [if_neg h3, if_neg h3, if_neg h3]
      exact ⟨rfl, rfl, (decide_eq_false h3).symm, rfl, rfl⟩
  · rw [if_neg h1, if_neg h1]
    have h3 : ¬ (FT_TS_Long_of_ULong cff.top_font.font_dict.units_per_em ≠
        FT_TS_Long_of_ULong cff.top_font.font_dict.units_per_em) := fun h => h rfl
    rw [if_neg h3, if_neg h3]
    exact ⟨rfl, rfl, (decide_eq_false h3).symm, rfl, rfl⟩

end CFFState2

section CFFReach

variable {W : Type}

/-- When `cff_slot_load` reaches line 523 it returns the error left by the
build, and on success the slot made by the metrics stage from the state
reached. -/
theorem cff_slot_load_of_built (env : CFF_Env W) (face : TT_FaceRec W)
    (glyph : T1_GlyphSlotRec) (size : Option CFF_SizeRec) (glyph_index load_flags : Nat)
    (w : W) (r : CFF_Built W)
    (h : cff_slot_load_built env face glyph size glyph_index load_flags w = some r) :
    cff_slot_load env face glyph size glyph_index load_flags w =
      if r.build.error = 0 then
        (r.build.error,
          (cff_slot_load_metrics env face size r.glyph_index r.load_flags r.build.hinting
            r.build.force_scaling r.font_matrix r.font_offset r.build.decoder r.build.st).glyph,
          (cff_slot_load_metrics env face size r.glyph_index r.load_flags r.build.hinting
            r.build.force_scaling r.font_matrix r.font_offset r.build.decoder r.build.st).world,
          (cff_slot_load_metrics env face size r.glyph_index r.load_flags r.build.hinting
            r.build.force_scaling r.font_matrix r.font_offset r.build.decoder r.build.st).trace)
      else (r.build.error, r.build.st.glyph, r.build.st.world, r.build.st.trace) := by
  unfold cff_slot_load_built at h
  unfold cff_slot_load cff_slot_load_from
  simp only [] at h ⊢
  generalize cff_slot_load_index env face.cff glyph_index = ix at h ⊢
  obtain ⟨res, evs⟩ := ix
  cases res with
  | error e => simp at h
  | ok g =>
    simp only [] at h ⊢
    generalize (match size with
      | some sz => ({ glyph with x_scale := sz.metrics.x_scale, y_scale := sz.metrics.y_scale } :
          T1_GlyphSlotRec)
      | none => { glyph with x_scale := 0x10000, y_scale := 0x10000 }) = glyph1 at h ⊢
    cases hs : cff_slot_load_sbit env face size g (load_flags_recurse load_flags)
        { glyph := glyph1, world := w, trace := evs } with
    | ret error st =>
      rw [hs] at h
      simp at h
    | next st =>
      rw [hs] at h
      simp only [] at h ⊢
      by_cases hsb : load_flags_recurse load_flags &&& FT_TS_LOAD_SBITS_ONLY ≠ 0
      · rw [if_pos hsb] at h
        simp at h
      · rw [if_neg hsb] at h
        rw [if_neg hsb]
        simp only [Option.some.injEq] at h
        subst h
        rfl

end CFFReach

section CFFReach2

variable {W : Type}

/-- The state in which `cff_slot_load` reaches line 523, in terms of the
arguments of the call: the flags, the governing dictionary, the scales of the
slot, its flags, its outline, and the flag `force_scaling`, which is set
exactly when the units per em of the governing dictionary differ from those
of the top dictionary or a parser invocation answered `Glyph_Too_Big`. -/
theorem cff_slot_load_built_state (env : CFF_Env W) (face : TT_FaceRec W)
    (glyph : T1_GlyphSlotRec) (size : Option CFF_SizeRec) (glyph_index load_flags : Nat)
    (w : W) (r : CFF_Built W)
    (h : cff_slot_load_built env face glyph size glyph_index load_flags w = some r) :
    (cff_slot_load_index env face.cff glyph_index).1 = Except.ok r.glyph_index ∧
      r.load_flags = load_flags_recurse load_flags ∧
      r.font_matrix = (cff_slot_load_dict env face.cff r.glyph_index).font_matrix ∧
      r.font_offset = (cff_slot_load_dict env face.cff r.glyph_index).font_offset ∧
      r.build.st.glyph.x_scale =
        (if FT_TS_Long_of_ULong face.cff.top_font.font_dict.units_per_em ≠
            FT_TS_Long_of_ULong (cff_slot_load_dict env face.cff r.glyph_index).units_per_em then
          env.base.MulDiv (cff_slot_load_scales size).1
            (FT_TS_Long_of_ULong face.cff.top_font.font_dict.units_per_em)
            (FT_TS_Long_of_ULong (cff_slot_load_dict env face.cff r.glyph_index).units_per_em)
        else (cff_slot_load_scales size).1) ∧
      r.build.st.glyph.y_scale =
        (if FT_TS_Long_of_ULong face.cff.top_font.font_dict.units_per_em ≠
            FT_TS_Long_of_ULong (cff_slot_load_dict env face.cff r.glyph_index).units_per_em then
          env.base.MulDiv (cff_slot_load_scales size).2
            (FT_TS_Long_of_ULong face.cff.top_font.font_dict.units_per_em)
            (FT_TS_Long_of_ULong (cff_slot_load_dict env face.cff r.glyph_index).units_per_em)
        else (cff_slot_load_scales size).2) ∧
      r.build.st.glyph.scaled = decide (r.load_flags &&& FT_TS_LOAD_NO_SCALE = 0) ∧
      r.build.st.glyph.hint = r.build.hinting ∧
      (r.build.hinting = true → r.load_flags &&& FT_TS_LOAD_NO_HINTING = 0) ∧
      r.build.st.glyph.metrics = glyph.metrics ∧
      r.build.st.glyph.internal = glyph.internal ∧
      r.build.st.glyph.format = FT_TS_GLYPH_FORMAT_OUTLINE ∧
      (r.build.error = 0 → r.build.st.glyph.outline = r.build.decoder.builder.base) ∧
      r.build.force_scaling =
        (decide (FT_TS_Long_of_ULong face.cff.top_font.font_dict.units_per_em ≠
            FT_TS_Long_of_ULong (cff_slot_load_dict env face.cff r.glyph_index).units_per_em) ||
          r.build.st.trace.any Event.isCffTooBig) := by
  have hix := cff_slot_load_index_events env face.cff glyph_index
  unfold cff_slot_load_built at h
  simp only [] at h
  generalize cff_slot_load_index env face.cff glyph_index = ix at h hix ⊢
  obtain ⟨res, evs⟩ := ix
  cases res with
  | error e => simp at h
  | ok g =>
    simp only [] at h hix ⊢
    generalize hg1 : (match size with
      | some sz => ({ glyph with x_scale := sz.metrics.x_scale, y_scale := sz.metrics.y_scale } :
          T1_GlyphSlotRec)
      | none => { glyph with x_scale := 0x10000, y_scale := 0x10000 }) = glyph1 at h
    have hg1' : glyph1.metrics = glyph.metrics ∧ glyph1.internal = glyph.internal ∧
        glyph1.x_scale = (cff_slot_load_scales size).1 ∧
        glyph1.y_scale = (cff_slot_load_scales size).2 := by
      rw [← hg1]
      cases size <;> exact ⟨rfl, rfl, rfl, rfl⟩
    obtain ⟨hgm, hgi, hgx, hgy⟩ := hg1'
    clear hg1
    cases hs : cff_slot_load_sbit env face size g (load_flags_recurse load_flags)
        { glyph := glyph1, world := w, trace := evs } with
    | ret error st =>
      rw [hs] at h
      simp at h
    | next st =>
      rw [hs] at h
      simp only [] at h
      by_cases hsb : load_flags_recurse load_flags &&& FT_TS_LOAD_SBITS_ONLY ≠ 0
      · rw [if_pos hsb] at h
        simp at h
      · rw [if_neg hsb] at h
        simp only [Option.some.injEq] at h
        obtain ⟨hsg, hse⟩ := cff_slot_load_sbit_next env face size g (load_flags_recurse load_flags)
          _ 0 st hs
        simp only [] at hsg hse
        obtain ⟨hf1, hf2, hf3, hf4, hf5⟩ := cff_slot_load_subfont_state env face.cff g st
        obtain ⟨hfg, hfe⟩ := cff_slot_load_subfont_frame env face.cff g st
        generalize cff_slot_load_subfont env face.cff g st = sf at h hf1 hf2 hf3 hf4 hf5 hfg hfe
        obtain ⟨fm, fo, fs, sst⟩ := sf
        simp only [] at h hf1 hf2 hf3 hf4 hf5 hfg hfe
        unfold cff_slot_load_build at h
        simp only [] at h
        obtain ⟨hd1, hd2, hd3, hd4, new, hd5, hd6⟩ := cff_slot_load_decode_state env face size g
          (decide (load_flags_recurse load_flags &&& FT_TS_LOAD_NO_HINTING = 0)) fs
          (cff_slot_load_init env size (load_flags_recurse load_flags)
            (decide (load_flags_recurse load_flags &&& FT_TS_LOAD_NO_HINTING = 0))
            { sst with
              glyph :=
                { sst.glyph with
                  outline := { sst.glyph.outline with n_points := 0, n_contours := 0 }
                  hint := decide (load_flags_recurse load_flags &&& FT_TS_LOAD_NO_HINTING = 0)
                  scaled := decide (load_flags_recurse load_flags &&& FT_TS_LOAD_NO_SCALE = 0)
                  format := FT_TS_GLYPH_FORMAT_OUTLINE } }).1
          (cff_slot_load_init env size (load_flags_recurse load_flags)
            (decide (load_flags_recurse load_flags &&& FT_TS_LOAD_NO_HINTING = 0))
            { sst with
              glyph :=
                { sst.glyph with
                  outline := { sst.glyph.outline with n_points := 0, n_contours := 0 }
                  hint := decide (load_flags_recurse load_flags &&& FT_TS_LOAD_NO_HINTING = 0)
                  scaled := decide (load_flags_recurse load_flags &&& FT_TS_LOAD_NO_SCALE = 0)
                  format := FT_TS_GLYPH_FORMAT_OUTLINE } }).2
        generalize cff_slot_load_decode env face size g _ fs _ _ = b at h hd1 hd2 hd3 hd4 hd5 hd6
        obtain ⟨hi1, hi2, hi3, hi4, hi5, hi6⟩ := cff_slot_load_inc_metrics_state env face g b
        generalize cff_slot_load_inc_metrics env face g b = m at h hi1 hi2 hi3 hi4 hi5 hi6
        subst h
        simp only [cff_slot_load_init] at hd1 hd2 hd3 hd4 hd5 hd6
        have hx : b.st.glyph.x_scale = sst.glyph.x_scale := by rw [hd1]
        have hy : b.st.glyph.y_scale = sst.glyph.y_scale := by rw [hd1]
        have hsc : b.st.glyph.scaled =
            decide (load_flags_recurse load_flags &&& FT_TS_LOAD_NO_SCALE = 0) := by rw [hd1]
        have hme : b.st.glyph.metrics = sst.glyph.metrics := by rw [hd1]
        have hin : b.st.glyph.internal = sst.glyph.internal := by rw [hd1]
        have hfo : b.st.glyph.format = FT_TS_GLYPH_FORMAT_OUTLINE := by rw [hd1]
        have hsm : sst.glyph.metrics = glyph.metrics := by rw [hfg, hsg]; exact hgm
        have hsi : sst.glyph.internal = glyph.internal := by rw [hfg, hsg]; exact hgi
        have hsx : st.glyph.x_scale = glyph1.x_scale := by rw [hsg]
        have hsy : st.glyph.y_scale = glyph1.y_scale := by rw [hsg]
        refine ⟨rfl, rfl, hf1, hf2, ?_, ?_, ?_, ?_, ?_, ?_, ?_, ?_, ?_, ?_⟩
        · show m.st.glyph.x_scale = _
          rw [hi1, hx, hf4, hsx, hgx]
        · show m.st.glyph.y_scale = _
          rw [hi1, hy, hf5, hsy, hgy]
        · show m.st.glyph.scaled = _
          rw [hi1, hsc]
        · show m.st.glyph.hint = m.hinting
          rw [hi1, hi2]
          exact (hd3 trivial).symm
        · intro hh
          show load_flags_recurse load_flags &&& FT_TS_LOAD_NO_HINTING = 0
          have := hd4 (by rw [← hi2]; exact hh)
          simpa using this
        · show m.st.glyph.metrics = _
          rw [hi1, hme, hsm]
        · show m.st.glyph.internal = _
          rw [hi1, hin, hsi]
        · show m.st.glyph.format = _
          rw [hi1, hfo]
        · intro he
          show m.st.glyph.outline = m.decoder.builder.base
          rw [hi1, hi4]
          exact hd2 (hi5 he)
        · show m.force_scaling = _
          rw [hi3, hd6, hi6, hd5, hf3]
          have h1 := any_tooBig_emits hfe
          have h2 := any_tooBig_emits hse
          simp only [] at h2
          rw [List.any_append, List.any_append, h1, h2, any_tooBig_of_cidMap evs hix]
          simp [Event.isCffTooBig]

end CFFReach2

section CFFReach3

variable {W : Type}

theorem cff_slot_load_sbit_ret_format (env : CFF_Env W) (face : TT_FaceRec W)
    (size : Option CFF_SizeRec) (glyph_index load_flags : Nat) (st : CFF_LoadState W)
    (error : FT_TS_Error) (st' : CFF_LoadState W)
    (h : cff_slot_load_sbit env face size glyph_index load_flags st = CFF_Step.ret error st') :
    st'.glyph.format = FT_TS_GLYPH_FORMAT_BITMAP := by
  unfold cff_slot_load_sbit at h
  split_ifs at h with h1
  split at h
  · exact absurd h (by simp)
  · simp only [] at h
    split_ifs at h with h2 h3
    all_goals
      simp only [CFF_Step.ret.injEq] at h
      obtain ⟨-, hst⟩ := h
      rw [← hst]
      unfold cff_slot_load_sbit_linear
      simp only []
      split_ifs <;> rfl

/-- A call of `cff_slot_load` that succeeds and does not leave a bitmap in
the slot has reached line 523 without error. -/
theorem cff_slot_load_built_of_outline (env : CFF_Env W) (face : TT_FaceRec W)
    (glyph : T1_GlyphSlotRec) (size : Option CFF_SizeRec) (glyph_index load_flags : Nat)
    (w : W)
    (h0 : (cff_slot_load env face glyph size glyph_index load_flags w).1 = 0)
    (hf : (cff_slot_load env face glyph size glyph_index load_flags w).2.1.format ≠
      FT_TS_GLYPH_FORMAT_BITMAP) :
    ∃ r, cff_slot_load_built env face glyph size glyph_index load_flags w = some r ∧
      r.build.error = 0 := by
  have hie := cff_slot_load_index_error env face.cff glyph_index
  unfold cff_slot_load_built
  unfold cff_slot_load cff_slot_load_from at h0 hf
  simp only [] at h0 hf ⊢
  generalize cff_slot_load_index env face.cff glyph_index = ix at h0 hf hie ⊢
  obtain ⟨res, evs⟩ := ix
  cases res with
  | error e =>
    simp only [] at h0 hie
    rw [hie e rfl] at h0
    exact absurd h0 (by decide)
  | ok g =>
    simp only [] at h0 hf ⊢
    generalize (match size with
      | some sz => ({ glyph with x_scale := sz.metrics.x_scale, y_scale := sz.metrics.y_scale } :
          T1_GlyphSlotRec)
      | none => { glyph with x_scale := 0x10000, y_scale := 0x10000 }) = glyph1 at h0 hf ⊢
    cases hs : cff_slot_load_sbit env face size g (load_flags_recurse load_flags)
        { glyph := glyph1, world := w, trace := evs } with
    | ret error st =>
      rw [hs] at hf
      exact absurd (cff_slot_load_sbit_ret_format env face size g _ _ error st hs) hf
    | next st =>
      rw [hs] at h0
      simp only [] at h0 ⊢
      by_cases hsb : load_flags_recurse load_flags &&& FT_TS_LOAD_SBITS_ONLY ≠ 0
      · rw [if_pos hsb] at h0
        have h0' : FT_TS_Err_Invalid_Argument = 0 := h0
        exact absurd h0' (by decide)
      · rw [if_neg hsb] at h0
        rw [if_neg hsb]
        refine ⟨_, rfl, ?_⟩
        split_ifs at h0 with hm
        · exact hm
        · exact absurd h0 hm

end CFFReach3

section CFFTail

variable {W : Type}

/-- The slot that lines 543-676 of `cff_slot_load` leave, in terms of the
steps shared by the two loaders. -/
theorem cff_slot_load_metrics_outline (env : CFF_Env W) (face : TT_FaceRec W)
    (size : Option CFF_SizeRec) (glyph_index load_flags : Nat) (hinting force_scaling : Bool)
    (font_matrix : FT_TS_Matrix) (font_offset : FT_TS_Vector) (decoder : CFF_DecoderRec)
    (st : CFF_LoadState W) (h : load_flags &&& FT_TS_LOAD_NO_RECURSE = 0) :
    (cff_slot_load_metrics env face size glyph_index load_flags hinting force_scaling
        font_matrix font_offset decoder st).glyph =
      { st.glyph with
        metrics :=
          if cff_has_vertical_info face then
            { cff_slot_load_box_metrics env face size glyph_index load_flags hinting
                force_scaling font_matrix font_offset decoder st.glyph with
              vertBearingX :=
                (cff_slot_load_box_metrics env face size glyph_index load_flags hinting
                  force_scaling font_matrix font_offset decoder st.glyph).horiBearingX -
                Int.tdiv (cff_slot_load_box_metrics env face size glyph_index load_flags hinting
                  force_scaling font_matrix font_offset decoder st.glyph).horiAdvance 2
              vertBearingY :=
                env.base.MulFix (cff_slot_load_box_metrics env face size glyph_index load_flags
                  hinting force_scaling font_matrix font_offset decoder st.glyph).vertBearingY
                  st.glyph.y_scale }
          else if load_flags &&& FT_TS_LOAD_VERTICAL_LAYOUT ≠ 0 then
            env.base.synthesize_vertical_metrics
              (cff_slot_load_box_metrics env face size glyph_index load_flags hinting
                force_scaling font_matrix font_offset decoder st.glyph)
              (cff_slot_load_box_metrics env face size glyph_index load_flags hinting
                force_scaling font_matrix font_offset decoder st.glyph).vertAdvance
          else
            cff_slot_load_box_metrics env face size glyph_index load_flags hinting
              force_scaling font_matrix font_offset decoder st.glyph
        linearHoriAdvance := cff_slot_load_horiAdvance env face glyph_index decoder
        linearVertAdvance := cff_slot_load_vertAdvance env face glyph_index
        internal := { st.glyph.internal with glyph_transformed := false }
        format := FT_TS_GLYPH_FORMAT_OUTLINE
        outline :=
          (cff_slot_load_geometry env face size glyph_index load_flags hinting force_scaling
            font_matrix font_offset decoder st.glyph).outline } := by
  unfold cff_slot_load_metrics
  rw [if_neg (not_not.mpr h)]
  unfold cff_slot_load_box_metrics cff_slot_load_geometry cff_slot_load_unscaled
    compute_other_metrics scale_outline_metrics apply_font_offset apply_font_matrix cff_slot_load_horiAdvance
    cff_slot_load_vertAdvance cff_slot_load_outline_flags cff_has_vertical_info
  by_cases hm : font_matrix.xx ≠ 0x10000 ∨ font_matrix.yy ≠ 0x10000 ∨
      font_matrix.xy ≠ 0 ∨ font_matrix.yx ≠ 0 <;>
  by_cases ho : font_offset.x ≠ 0 ∨ font_offset.y ≠ 0 <;>
  by_cases hs : load_flags &&& FT_TS_LOAD_NO_SCALE = 0 ∨ force_scaling = true <;>
  by_cases hp : hinting = false ∨ decoder.builder.hints_funcs = false <;>
  by_cases hh : face.horizontal.number_Of_HMetrics ≠ 0 <;>
  by_cases hv : (face.vertical_info && decide (face.vertical.number_Of_VMetrics > 0)) = true <;>
  simp [hm, ho, hs, hp, hh, hv]

end CFFTail

section CIDTail

variable {W : Type}

/-- The slot that lines 431-514 of `cid_slot_load_glyph` leave, in terms of
the steps shared by the two loaders. -/
theorem cid_slot_load_glyph_metrics_outline (env : CID_Env W) (face : CID_FaceRec W)
    (cidsize : FT_TS_Size_Metrics) (load_flags : Nat) (hinting scaled : Bool)
    (font_matrix : FT_TS_Matrix) (font_offset : FT_TS_Vector) (decoder : T1_DecoderRec)
    (g : T1_GlyphSlotRec) (h : load_flags &&& FT_TS_LOAD_NO_RECURSE = 0) :
    cid_slot_load_glyph_metrics env face cidsize load_flags hinting scaled font_matrix
        font_offset decoder g =
      { g with
        metrics :=
          if load_flags &&& FT_TS_LOAD_VERTICAL_LAYOUT ≠ 0 then
            env.base.synthesize_vertical_metrics
              (compute_other_metrics env.base
                (cid_slot_load_glyph_geometry env face cidsize load_flags hinting scaled
                  font_matrix font_offset decoder g).outline
                { g.metrics with
                  horiAdvance := (cid_slot_load_glyph_geometry env face cidsize load_flags
                    hinting scaled font_matrix font_offset decoder g).horiAdvance
                  vertAdvance := (cid_slot_load_glyph_geometry env face cidsize load_flags
                    hinting scaled font_matrix font_offset decoder g).vertAdvance })
              (cid_slot_load_glyph_geometry env face cidsize load_flags hinting scaled
                font_matrix font_offset decoder g).vertAdvance
          else
            compute_other_metrics env.base
              (cid_slot_load_glyph_geometry env face cidsize load_flags hinting scaled
                font_matrix font_offset decoder g).outline
              { g.metrics with
                horiAdvance := (cid_slot_load_glyph_geometry env face cidsize load_flags
                  hinting scaled font_matrix font_offset decoder g).horiAdvance
                vertAdvance := (cid_slot_load_glyph_geometry env face cidsize load_flags
                  hinting scaled font_matrix font_offset decoder g).vertAdvance }
        linearHoriAdvance := env.base.FIXED_TO_INT decoder.builder.advance.x
        linearVertAdvance := (face.cid.font_bbox.yMax - face.cid.font_bbox.yMin) >>> 16
        internal := { g.internal with glyph_transformed := false }
        format := FT_TS_GLYPH_FORMAT_OUTLINE
        outline :=
          (cid_slot_load_glyph_geometry env face cidsize load_flags hinting scaled
            font_matrix font_offset decoder g).outline } := by
  unfold cid_slot_load_glyph_metrics
  rw [if_neg (not_not.mpr h)]
  unfold cid_slot_load_glyph_geometry cid_slot_load_glyph_unscaled compute_other_metrics
    scale_outline_metrics apply_font_offset apply_font_matrix cid_slot_load_glyph_flags
  by_cases hm : font_matrix.xx ≠ 0x10000 ∨ font_matrix.yy ≠ 0x10000 ∨
      font_matrix.xy ≠ 0 ∨ font_matrix.yx ≠ 0 <;>
  by_cases ho : font_offset.x ≠ 0 ∨ font_offset.y ≠ 0 <;>
  by_cases hs : load_flags &&& FT_TS_LOAD_NO_SCALE = 0 ∨ scaled = true <;>
  by_cases hp : hinting = false ∨ decoder.builder.hints_funcs = false <;>
  by_cases hv : load_flags &&& FT_TS_LOAD_VERTICAL_LAYOUT ≠ 0 <;>
  simp [hm, ho, hs, hp, hv]

end CIDTail

section CIDReach

variable {W : Type}

/-- When `cid_slot_load_glyph` gets as far as calling `cid_load_glyph` it
returns the error of that call, and on success the slot made by the metrics
stage from the state the call left, after `done`. -/
theorem cid_slot_load_glyph_of_loaded (env : CID_Env W) (face : CID_FaceRec W)
    (cidglyph : T1_GlyphSlotRec) (cidsize : FT_TS_Size_Metrics)
    (glyph_index load_flags : Nat) (w : W) (r : FT_TS_Error × CID_LoadState W)
    (h : cid_slot_load_glyph_loaded env face cidglyph cidsize glyph_index load_flags w =
      some r) :
    cid_slot_load_glyph env face cidglyph cidsize glyph_index load_flags w =
      if r.1 ≠ 0 then
        (r.1, (t1_decoder_done env r.2).glyph, (t1_decoder_done env r.2).world,
          (t1_decoder_done env r.2).trace)
      else
        (r.1,
          cid_slot_load_glyph_metrics env face cidsize (load_flags_recurse load_flags)
            r.2.glyph.hint r.2.glyph.scaled r.2.decoder.font_matrix r.2.decoder.font_offset
            (t1_decoder_done env r.2).decoder (t1_decoder_done env r.2).glyph,
          (t1_decoder_done env r.2).world, (t1_decoder_done env r.2).trace) := by
  unfold cid_slot_load_glyph_loaded at h
  unfold cid_slot_load_glyph
  by_cases h1 : glyph_index ≥ face.num_glyphs % 2 ^ 32
  · rw [if_pos h1] at h
    simp at h
  · rw [if_neg h1] at h
    rw [if_neg h1]
    simp only [] at h ⊢
    by_cases h2 : (cid_slot_load_glyph_init env
        (cid_slot_load_glyph_reset cidglyph cidsize (load_flags_recurse load_flags)) cidsize
        (load_flags_recurse load_flags) w).1 ≠ 0
    · rw [if_pos h2] at h
      simp at h
    · rw [if_neg h2] at h
      rw [if_neg h2]
      simp only [Option.some.injEq] at h
      subst h
      rfl

/-- A successful call of `cid_slot_load_glyph` has called `cid_load_glyph`,
which has succeeded. -/
theorem cid_slot_load_glyph_loaded_of_ok (env : CID_Env W) (face : CID_FaceRec W)
    (cidglyph : T1_GlyphSlotRec) (cidsize : FT_TS_Size_Metrics)
    (glyph_index load_flags : Nat) (w : W)
    (h0 : (cid_slot_load_glyph env face cidglyph cidsize glyph_index load_flags w).1 = 0) :
    ∃ r, cid_slot_load_glyph_loaded env face cidglyph cidsize glyph_index load_flags w =
        some r ∧ r.1 = 0 := by
  unfold cid_slot_load_glyph at h0
  unfold cid_slot_load_glyph_loaded
  by_cases h1 : glyph_index ≥ face.num_glyphs % 2 ^ 32
  · rw [if_pos h1] at h0
    have h0' : FT_TS_Err_Invalid_Argument = 0 := h0
    exact absurd h0' (by decide)
  · rw [if_neg h1] at h0
    rw [if_neg h1]
    simp only [] at h0 ⊢
    by_cases h2 : (cid_slot_load_glyph_init env
        (cid_slot_load_glyph_reset cidglyph cidsize (load_flags_recurse load_flags)) cidsize
        (load_flags_recurse load_flags) w).1 ≠ 0
    · rw [if_pos h2] at h0
      exact absurd h0 h2
    · rw [if_neg h2] at h0
      rw [if_neg h2]
      refine ⟨_, rfl, ?_⟩
      split_ifs at h0 with h3
      · exact absurd h0 h3
      · exact h0

end CIDReach

theorem scale_outline_metrics_advance (base : FT_TS_Base) (load_flags : Nat)
    (forced hinting hints_funcs : Bool) (n : Int) (x_scale y_scale : Int) (s : Slot_Geometry) :
    (scale_outline_metrics base load_flags forced hinting hints_funcs n x_scale y_scale
        s).horiAdvance =
        (if load_flags &&& FT_TS_LOAD_NO_SCALE = 0 ∨ forced = true then
          base.MulFix s.horiAdvance x_scale
        else s.horiAdvance) ∧
      (scale_outline_metrics base load_flags forced hinting hints_funcs n x_scale y_scale
        s).vertAdvance =
        (if load_flags &&& FT_TS_LOAD_NO_SCALE = 0 ∨ forced = true then
          base.MulFix s.vertAdvance y_scale
        else s.vertAdvance) := by
  unfold scale_outline_metrics
  split_ifs <;> exact ⟨rfl, rfl⟩

theorem load_flags_recurse_of_clear (load_flags : Nat)
    (h : load_flags &&& FT_TS_LOAD_NO_RECURSE = 0) : load_flags_recurse load_flags = load_flags := by
  unfold load_flags_recurse
  rw [if_neg (not_not.mpr h)]

section CFFTail2

variable {W : Type}

/-- The horizontal metrics and the vertical advance that lines 543-676 of
`cff_slot_load` leave are those found after line 662, when the synthesis of
vertical metrics writes vertical fields only, respectively when it does not
take place. -/
theorem cff_slot_load_metrics_final (env : CFF_Env W) (face : TT_FaceRec W)
    (size : Option CFF_SizeRec) (glyph_index load_flags : Nat) (hinting force_scaling : Bool)
    (font_matrix : FT_TS_Matrix) (font_offset : FT_TS_Vector) (decoder : CFF_DecoderRec)
    (st : CFF_LoadState W) (h : load_flags &&& FT_TS_LOAD_NO_RECURSE = 0) :
    (env.base.synthesizes_vertical →
        (cff_slot_load_metrics env face size glyph_index load_flags hinting force_scaling
            font_matrix font_offset decoder st).glyph.metrics.horiAdvance =
          (cff_slot_load_geometry env face size glyph_index load_flags hinting force_scaling
            font_matrix font_offset decoder st.glyph).horiAdvance ∧
        (cff_slot_load_metrics env face size glyph_index load_flags hinting force_scaling
            font_matrix font_offset decoder st).glyph.metrics =
          { compute_other_metrics env.base
              (cff_slot_load_geometry env face size glyph_index load_flags hinting
                force_scaling font_matrix font_offset decoder st.glyph).outline
              (cff_slot_load_metrics env face size glyph_index load_flags hinting force_scaling
                font_matrix font_offset decoder st).glyph.metrics with
            horiAdvance :=
              (cff_slot_load_geometry env face size glyph_index load_flags hinting force_scaling
                font_matrix font_offset decoder st.glyph).horiAdvance }) ∧
      (cff_has_vertical_info face = true ∨ load_flags &&& FT_TS_LOAD_VERTICAL_LAYOUT = 0 →
        (cff_slot_load_metrics env face size glyph_index load_flags hinting force_scaling
            font_matrix font_offset decoder st).glyph.metrics.vertAdvance =
          (cff_slot_load_geometry env face size glyph_index load_flags hinting force_scaling
            font_matrix font_offset decoder st.glyph).vertAdvance) := by
  rw [cff_slot_load_metrics_outline env face size glyph_index load_flags hinting force_scaling
    font_matrix font_offset decoder st h]
  simp only []
  refine ⟨fun hsyn => ?_, fun hv => ?_⟩
  · by_cases h1 : cff_has_vertical_info face = true
    · rw [if_pos h1]
      exact ⟨rfl, rfl⟩
    · rw [if_neg h1]
      by_cases h2 : load_flags &&& FT_TS_LOAD_VERTICAL_LAYOUT ≠ 0
      · rw [if_pos h2]
        constructor
        · rw [hsyn]
          rfl
        · rw [hsyn]
          rfl
      · rw [if_neg h2]
        exact ⟨rfl, rfl⟩
  · by_cases h1 : cff_has_vertical_info face = true
    · rw [if_pos h1]
      rfl
    · rw [if_neg h1]
      rcases hv with hv | hv
      · exact absurd hv h1
      · rw [if_neg (not_not.mpr hv)]
        rfl

end CFFTail2

section CFFClaims4

variable {W : Type}

/-- C11 (counterexample): a font without subfonts, loaded unhinted with
`no_scale` at a size with scales 2.0, whose high-precision parser answers
`Glyph_Too_Big` and then succeeds.  The slot scales are those of the size,
the decoder's width is 500, and yet the advance returned is 1000: the scaling
step has run although `no_scale` is set. -/
theorem cff_slot_load_no_scale_retry_scales :
    (Sample.cff_face 0xFFFF none 0 none 1).cff.num_subfonts = 0 ∧
      (FT_TS_LOAD_NO_SCALE ||| FT_TS_LOAD_NO_HINTING) &&& FT_TS_LOAD_NO_SCALE ≠ 0 ∧
      (cff_slot_load (Sample.cff_env id id 0 [0xA4, 0] false)
        (Sample.cff_face 0xFFFF none 0 none 1) default (some Sample.cff_size) 0
        (FT_TS_LOAD_NO_SCALE ||| FT_TS_LOAD_NO_HINTING) Sample.world).1 = 0 ∧
      (cff_slot_load (Sample.cff_env id id 0 [0xA4, 0] false)
        (Sample.cff_face 0xFFFF none 0 none 1) default (some Sample.cff_size) 0
        (FT_TS_LOAD_NO_SCALE ||| FT_TS_LOAD_NO_HINTING) Sample.world).2.1.x_scale = 0x20000 ∧
      (cff_slot_load (Sample.cff_env id id 0 [0xA4, 0] false)
        (Sample.cff_face 0xFFFF none 0 none 1) default (some Sample.cff_size) 0
        (FT_TS_LOAD_NO_SCALE ||| FT_TS_LOAD_NO_HINTING) Sample.world).2.1.linearHoriAdvance =
        500 ∧
      (cff_slot_load (Sample.cff_env id id 0 [0xA4, 0] false)
        (Sample.cff_face 0xFFFF none 0 none 1) default (some Sample.cff_size) 0
        (FT_TS_LOAD_NO_SCALE ||| FT_TS_LOAD_NO_HINTING) Sample.world).2.1.metrics.horiAdvance =
        1000 := by
  decide

/-- C11 (as amended): in a load by `cff_slot_load` without `no_recurse` that
reaches the metrics without error, both slot scales are
`FT_MulDiv( size scale, top_upm, sub_upm )` when the units per em of the
governing dictionary differ from those of the top dictionary, and the scales
of the size (`0x10000` without a size) when they are equal, in particular
when the font has no subfonts.  The advances are multiplied by the slot
scales exactly when `no_scale` is clear, or the units per em differ, or a
parser invocation answered `Glyph_Too_Big`; otherwise they are left as the
matrix and offset steps made them. -/
theorem cff_slot_load_units_per_em (env : CFF_Env W) (face : TT_FaceRec W)
    (glyph : T1_GlyphSlotRec) (size : Option CFF_SizeRec) (glyph_index load_flags : Nat)
    (w : W) (r : CFF_Built W)
    (hr : cff_slot_load_built env face glyph size glyph_index load_flags w = some r)
    (hok : r.build.error = 0)
    (hnr : load_flags &&& FT_TS_LOAD_NO_RECURSE = 0)
    (hsyn : env.base.synthesizes_vertical) :
    (face.cff.num_subfonts = 0 →
        FT_TS_Long_of_ULong (cff_slot_load_dict env face.cff r.glyph_index).units_per_em =
          FT_TS_Long_of_ULong face.cff.top_font.font_dict.units_per_em) ∧
      (cff_slot_load env face glyph size glyph_index load_flags w).2.1.x_scale =
        (if FT_TS_Long_of_ULong face.cff.top_font.font_dict.units_per_em ≠
            FT_TS_Long_of_ULong (cff_slot_load_dict env face.cff r.glyph_index).units_per_em then
          env.base.MulDiv (cff_slot_load_scales size).1
            (FT_TS_Long_of_ULong face.cff.top_font.font_dict.units_per_em)
            (FT_TS_Long_of_ULong (cff_slot_load_dict env face.cff r.glyph_index).units_per_em)
        else (cff_slot_load_scales size).1) ∧
      (cff_slot_load env face glyph size glyph_index load_flags w).2.1.y_scale =
        (if FT_TS_Long_of_ULong face.cff.top_font.font_dict.units_per_em ≠
            FT_TS_Long_of_ULong (cff_slot_load_dict env face.cff r.glyph_index).units_per_em then
          env.base.MulDiv (cff_slot_load_scales size).2
            (FT_TS_Long_of_ULong face.cff.top_font.font_dict.units_per_em)
            (FT_TS_Long_of_ULong (cff_slot_load_dict env face.cff r.glyph_index).units_per_em)
        else (cff_slot_load_scales size).2) ∧
      (cff_slot_load env face glyph size glyph_index load_flags w).2.1.metrics.horiAdvance =
        (if load_flags &&& FT_TS_LOAD_NO_SCALE = 0 ∨
            FT_TS_Long_of_ULong face.cff.top_font.font_dict.units_per_em ≠
              FT_TS_Long_of_ULong (cff_slot_load_dict env face.cff r.glyph_index).units_per_em ∨
            (cff_slot_load env face glyph size glyph_index load_flags w).2.2.2.any
              Event.isCffTooBig = true then
          env.base.MulFix
            (cff_slot_load_unscaled env face size r.glyph_index r.font_matrix r.font_offset
              r.build.decoder r.build.st.glyph).horiAdvance
            (cff_slot_load env face glyph size glyph_index load_flags w).2.1.x_scale
        else
          (cff_slot_load_unscaled env face size r.glyph_index r.font_matrix r.font_offset
            r.build.decoder r.build.st.glyph).horiAdvance) ∧
      (cff_has_vertical_info face = true ∨ load_flags &&& FT_TS_LOAD_VERTICAL_LAYOUT = 0 →
        (cff_slot_load env face glyph size glyph_index load_flags w).2.1.metrics.vertAdvance =
          (if load_flags &&& FT_TS_LOAD_NO_SCALE = 0 ∨
              FT_TS_Long_of_ULong face.cff.top_font.font_dict.units_per_em ≠
                FT_TS_Long_of_ULong
                  (cff_slot_load_dict env face.cff r.glyph_index).units_per_em ∨
              (cff_slot_load env face glyph size glyph_index load_flags w).2.2.2.any
                Event.isCffTooBig = true then
            env.base.MulFix
              (cff_slot_load_unscaled env face size r.glyph_index r.font_matrix r.font_offset
                r.build.decoder r.build.st.glyph).vertAdvance
              (cff_slot_load env face glyph size glyph_index load_flags w).2.1.y_scale
          else
            (cff_slot_load_unscaled env face size r.glyph_index r.font_matrix r.font_offset
              r.build.decoder r.build.st.glyph).vertAdvance)) := by
  obtain ⟨-, hlf, -, -, hx, hy, -, -, -, -, -, -, -, hfs⟩ :=
    cff_slot_load_built_state env face glyph size glyph_index load_flags w r hr
  rw [load_flags_recurse_of_clear load_flags hnr] at hlf
  have hnr' : r.load_flags &&& FT_TS_LOAD_NO_RECURSE = 0 := by rw [hlf]; exact hnr
  have hout := cff_slot_load_metrics_outline env face size r.glyph_index r.load_flags
    r.build.hinting r.build.force_scaling r.font_matrix r.font_offset r.build.decoder r.build.st
    hnr'
  obtain ⟨hfin1, hfin2⟩ := cff_slot_load_metrics_final env face size r.glyph_index r.load_flags
    r.build.hinting r.build.force_scaling r.font_matrix r.font_offset r.build.decoder r.build.st
    hnr'
  have htr := (cff_slot_load_metrics_frame env face size r.glyph_index r.load_flags
    r.build.hinting r.build.force_scaling r.font_matrix r.font_offset r.build.decoder r.build.st
    0).2
  have hany := any_tooBig_emits htr
  rw [cff_slot_load_of_built env face glyph size glyph_index load_flags w r hr, if_pos hok]
  simp only []
  have hxs : (cff_slot_load_metrics env face size r.glyph_index r.load_flags r.build.hinting
      r.build.force_scaling r.font_matrix r.font_offset r.build.decoder r.build.st).glyph.x_scale =
      r.build.st.glyph.x_scale := by rw [hout]
  have hys : (cff_slot_load_metrics env face size r.glyph_index r.load_flags r.build.hinting
      r.build.force_scaling r.font_matrix r.font_offset r.build.decoder r.build.st).glyph.y_scale =
      r.build.st.glyph.y_scale := by rw [hout]
  obtain ⟨hsa, hsv⟩ := scale_outline_metrics_advance env.base r.load_flags r.build.force_scaling
    r.build.hinting r.build.decoder.builder.hints_funcs
    (cff_slot_load_unscaled env face size r.glyph_index r.font_matrix r.font_offset
      r.build.decoder r.build.st.glyph).outline.n_points
    r.build.st.glyph.x_scale r.build.st.glyph.y_scale
    (cff_slot_load_unscaled env face size r.glyph_index r.font_matrix r.font_offset
      r.build.decoder r.build.st.glyph)
  have hcond : (r.load_flags &&& FT_TS_LOAD_NO_SCALE = 0 ∨ r.build.force_scaling = true) ↔
      (load_flags &&& FT_TS_LOAD_NO_SCALE = 0 ∨
        FT_TS_Long_of_ULong face.cff.top_font.font_dict.units_per_em ≠
          FT_TS_Long_of_ULong (cff_slot_load_dict env face.cff r.glyph_index).units_per_em ∨
        (cff_slot_load_metrics env face size r.glyph_index r.load_flags r.build.hinting
          r.build.force_scaling r.font_matrix r.font_offset r.build.decoder
          r.build.st).trace.any Event.isCffTooBig = true) := by
    rw [hany, hfs, hlf]
    simp
  refine ⟨?_, ?_, ?_, ?_, ?_⟩
  · intro h0
    unfold cff_slot_load_dict
    rw [if_neg (not_not.mpr h0)]
  · rw [hxs, hx]
  · rw [hys, hy]
  · rw [(hfin1 hsyn).1, hxs]
    unfold cff_slot_load_geometry
    rw [hsa]
    by_cases hc : r.load_flags &&& FT_TS_LOAD_NO_SCALE = 0 ∨ r.build.force_scaling = true
    · rw [if_pos hc, if_pos (hcond.mp hc)]
    · rw [if_neg hc, if_neg (fun h => hc (hcond.mpr h))]
  · intro hv
    rw [hfin2 (by rw [hlf]; exact hv), hys]
    unfold cff_slot_load_geometry
    rw [hsv]
    by_cases hc : r.load_flags &&& FT_TS_LOAD_NO_SCALE = 0 ∨ r.build.force_scaling = true
    · rw [if_pos hc, if_pos (hcond.mp hc)]
    · rw [if_neg hc, if_neg (fun h => hc (hcond.mpr h))]

/-- The sample font whose subfont has 2000 units per em reaches the metrics
when loaded with `no_scale`. -/
theorem Sample.cff_face_upm_built :
    (cff_slot_load_built (Sample.cff_env id id 0 [] false) Sample.cff_face_upm default none 0
        FT_TS_LOAD_NO_SCALE Sample.world).isSome = true := by
  decide

/-- C11 (witness): the sample font whose subfont has 2000 units per em
against 1000 for the top dictionary, loaded with `no_scale` and no size: the
slot scale is `0x8000` and the width 500 of the decoder is returned as
250. -/
theorem cff_slot_load_units_per_em_witness :
    (cff_slot_load (Sample.cff_env id id 0 [] false) Sample.cff_face_upm default none 0
        FT_TS_LOAD_NO_SCALE Sample.world).2.1.x_scale = 0x8000 ∧
      (cff_slot_load (Sample.cff_env id id 0 [] false) Sample.cff_face_upm default none 0
        FT_TS_LOAD_NO_SCALE Sample.world).2.1.metrics.horiAdvance = 250 :=
  have h := cff_slot_load_units_per_em (Sample.cff_env id id 0 [] false) Sample.cff_face_upm
    default none 0 FT_TS_LOAD_NO_SCALE Sample.world
    ((cff_slot_load_built (Sample.cff_env id id 0 [] false) Sample.cff_face_upm
      default none 0 FT_TS_LOAD_NO_SCALE Sample.world).get Sample.cff_face_upm_built)
    (Option.some_get Sample.cff_face_upm_built).symm (by decide) (by decide) (fun _ _ => rfl)
  ⟨h.2.1.trans (by decide), h.2.2.2.1.trans (by decide)⟩

end CFFClaims4

theorem any_t1TooBig_filter (l : List Event) :
    l.any Event.isT1TooBig = (l.filter Event.isT1Parse).any Event.isT1TooBig := by
  induction l with
  | nil => rfl
  | cons e l ih =>
    rw [List.any_cons, List.filter_cons, ih]
    cases e <;> simp [Event.isT1Parse, Event.isT1TooBig]

theorem cid_retryShape_tooBig (g g' : T1_GlyphSlotRec) (fs : Bool) (error : FT_TS_Error)
    (ps : List Event) (h : CID_RetryShape g g' fs error ps) :
    ps.any Event.isT1TooBig = fs ∧ (g'.hint = true → g.hint = true) ∧
      g' = { g with hint := g'.hint } := by
  rcases h with ⟨hfs, hg, b, l, e1, hps, htb⟩ | ⟨hfs, hg, -, hno⟩
  · rw [hfs, hps, hg]
    refine ⟨by simp [Event.isT1TooBig, htb], fun h => absurd h (by simp), rfl⟩
  · rw [hfs, hg]
    refine ⟨?_, fun h => h, rfl⟩
    rw [List.any_eq_false]
    intro e he
    cases e <;> simp [Event.isT1TooBig]
    exact hno _ _ _ _ he

section CIDState

variable {W : Type}

/-- What `cid_load_glyph` does to the flags of the slot: the hint flag can
only be cleared, and the `scaled` flag is set exactly when a high-precision
parser invocation of the call answered `Glyph_Too_Big`. -/
theorem cid_load_glyph_flags (env : CID_Env W) (face : CID_FaceRec W)
    (glyph_index : Nat) (st : CID_LoadState W) :
    ((cid_load_glyph env face glyph_index st).2.glyph.hint = true → st.glyph.hint = true) ∧
      ∃ ps,
        (cid_load_glyph env face glyph_index st).2.trace.filter Event.isT1Parse =
          st.trace.filter Event.isT1Parse ++ ps ∧
        (cid_load_glyph env face glyph_index st).2.glyph.scaled = ps.any Event.isT1TooBig := by
  have hf := cid_load_glyph_fetch_frame env face glyph_index st
  have he := cid_load_glyph_fetch_emits env face glyph_index st
  unfold cid_load_glyph
  cases hfetch : cid_load_glyph_fetch env face glyph_index st with
  | exit error st1 =>
    rw [hfetch] at hf he
    simp only [CID_Fetch.state] at hf he
    refine ⟨?_, [], ?_, ?_⟩
    · simp [cid_load_glyph_Exit, hf.1]
    · have := he.filter_eq (p := Event.isT1Parse)
        (by intro e; cases e <;> simp [Event.isCidFetch, Event.isT1Parse])
      simp [cid_load_glyph_Exit, this, Event.isT1Parse]
    · simp [cid_load_glyph_Exit]
  | data fd_select glyph_length charstring st1 =>
    rw [hfetch] at hf he
    simp only [CID_Fetch.state] at hf he
    obtain ⟨ps, hps, hshape⟩ :=
      cid_load_glyph_decode_shape env face fd_select glyph_length charstring st1
    have hm := cid_load_glyph_metrics_frame env (cid_inc env face) glyph_index
      (cid_load_glyph_decode env face fd_select glyph_length charstring st1).1
      (cid_load_glyph_decode env face fd_select glyph_length charstring st1).2.2
    have h1 := he.filter_eq (p := Event.isT1Parse)
      (by intro e; cases e <;> simp [Event.isCidFetch, Event.isT1Parse])
    have h2 := hm.2.filter_eq (p := Event.isT1Parse)
      (by intro e; cases e <;> simp [Event.isIncMetrics, Event.isT1Parse])
    obtain ⟨ha, hh, -⟩ := cid_retryShape_tooBig _ _ _ _ _ hshape
    rw [hf.1] at hh
    refine ⟨?_, ps, ?_, ?_⟩
    · simp only [cid_load_glyph_Exit, hm.1]
      exact hh
    · simp only [cid_load_glyph_Exit, List.filter_append, h2, hps, h1]
      simp [Event.isT1Parse]
    · simp only [cid_load_glyph_Exit]
      exact ha.symm

/-- The state in which `cid_slot_load_glyph` comes back from
`cid_load_glyph`, in terms of the arguments of the call: the slot is the one
prepared at lines 359-371 but for its hint flag, which can only have been
cleared, and its `scaled` flag, which is set exactly when a high-precision
parser invocation answered `Glyph_Too_Big`. -/
theorem cid_slot_load_glyph_loaded_state (env : CID_Env W) (face : CID_FaceRec W)
    (cidglyph : T1_GlyphSlotRec) (cidsize : FT_TS_Size_Metrics)
    (glyph_index load_flags : Nat) (w : W) (r : FT_TS_Error × CID_LoadState W)
    (h : cid_slot_load_glyph_loaded env face cidglyph cidsize glyph_index load_flags w =
      some r) :
    r.2.glyph =
        { cid_slot_load_glyph_reset cidglyph cidsize (load_flags_recurse load_flags) with
          hint := r.2.glyph.hint
          scaled := r.2.glyph.scaled } ∧
      (r.2.glyph.hint = true →
        load_flags_recurse load_flags &&& FT_TS_LOAD_NO_SCALE = 0 ∧
          load_flags_recurse load_flags &&& FT_TS_LOAD_NO_HINTING = 0) ∧
      r.2.glyph.scaled = r.2.trace.any Event.isT1TooBig := by
  unfold cid_slot_load_glyph_loaded at h
  by_cases h1 : glyph_index ≥ face.num_glyphs % 2 ^ 32
  · rw [if_pos h1] at h
    simp at h
  · rw [if_neg h1] at h
    simp only [] at h
    by_cases h2 : (cid_slot_load_glyph_init env
        (cid_slot_load_glyph_reset cidglyph cidsize (load_flags_recurse load_flags)) cidsize
        (load_flags_recurse load_flags) w).1 ≠ 0
    · rw [if_pos h2] at h
      simp at h
    · rw [if_neg h2] at h
      simp only [Option.some.injEq] at h
      subst h
      have hg := cid_load_glyph_glyph env face glyph_index
        (cid_slot_load_glyph_init env
          (cid_slot_load_glyph_reset cidglyph cidsize (load_flags_recurse load_flags)) cidsize
          (load_flags_recurse load_flags) w).2
      obtain ⟨hh, ps, hps, hsc⟩ := cid_load_glyph_flags env face glyph_index
        (cid_slot_load_glyph_init env
          (cid_slot_load_glyph_reset cidglyph cidsize (load_flags_recurse load_flags)) cidsize
          (load_flags_recurse load_flags) w).2
      refine ⟨hg, ?_, ?_⟩
      · intro hhint
        have := hh hhint
        simpa [cid_slot_load_glyph_init, cid_slot_load_glyph_reset] using this
      · rw [hsc, any_t1TooBig_filter
          (cid_load_glyph env face glyph_index _).2.trace, hps]
        simp [cid_slot_load_glyph_init, Event.isT1Parse]

end CIDState

theorem ne_zero_of_testBit (y i : Nat) (h : y.testBit i = true) : y ≠ 0 := by
  intro h0
  rw [h0] at h
  simp at h

theorem load_flags_recurse_of_set (load_flags : Nat)
    (h : load_flags &&& FT_TS_LOAD_NO_RECURSE ≠ 0) :
    load_flags_recurse load_flags &&& FT_TS_LOAD_NO_RECURSE ≠ 0 ∧
      load_flags_recurse load_flags &&& FT_TS_LOAD_NO_SCALE ≠ 0 ∧
      load_flags_recurse load_flags &&& FT_TS_LOAD_NO_HINTING ≠ 0 := by
  unfold load_flags_recurse
  rw [if_pos h]
  refine ⟨?_, ?_, ?_⟩
  · obtain ⟨i, hi⟩ := Nat.ne_zero_implies_bit_true h
    apply ne_zero_of_testBit _ i
    rw [Nat.testBit_and] at hi ⊢
    rw [Nat.testBit_or]
    simp only [Bool.and_eq_true] at hi ⊢
    exact ⟨by simp [hi.1], hi.2⟩
  · apply ne_zero_of_testBit _ 0
    rw [Nat.testBit_and, Nat.testBit_or]
    have : (FT_TS_LOAD_NO_SCALE ||| FT_TS_LOAD_NO_HINTING).testBit 0 = true := by decide
    have h2 : FT_TS_LOAD_NO_SCALE.testBit 0 = true := by decide
    simp [this, h2]
  · apply ne_zero_of_testBit _ 1
    rw [Nat.testBit_and, Nat.testBit_or]
    have : (FT_TS_LOAD_NO_SCALE ||| FT_TS_LOAD_NO_HINTING).testBit 1 = true := by decide
    have h2 : FT_TS_LOAD_NO_HINTING.testBit 1 = true := by decide
    simp [this, h2]

section NoRecurseClaims

variable {W : Type}

/-- C12 (counterexample): a load by `cid_slot_load_glyph` with `no_recurse`
whose high-precision parser answers `Glyph_Too_Big` and then succeeds.  The
load succeeds and the slot's `scaled` flag is true, although `no_recurse`
has forced `no_scale`. -/
theorem cid_slot_load_glyph_no_recurse_scaled :
    FT_TS_LOAD_NO_RECURSE &&& FT_TS_LOAD_NO_RECURSE ≠ 0 ∧
      (cid_slot_load_glyph (Sample.cid_env Sample.cid_stream [0xA4, 0] false)
        (Sample.cid_face none) default Sample.size_metrics 0 FT_TS_LOAD_NO_RECURSE
        Sample.world).1 = 0 ∧
      (cid_slot_load_glyph (Sample.cid_env Sample.cid_stream [0xA4, 0] false)
        (Sample.cid_face none) default Sample.size_metrics 0 FT_TS_LOAD_NO_RECURSE
        Sample.world).2.1.scaled = true := by
  decide

/-- C12 (as amended): a load with `no_recurse` that reaches the metrics
without error succeeds and changes, of the slot's metrics, the horizontal
bearing and advance only.  In `cff_slot_load` these are the builder's left
side bearing and the decoder's width, the matrix and offset stored are those
of the governing dictionary, the outline is the builder's as committed, and
the `hint` and `scaled` flags are false.  In `cid_slot_load_glyph` they are
the builder's left side bearing and advance converted by `FIXED_TO_INT`, the
matrix and offset stored are those the decoder holds, the outline is the
builder's as committed, with its owner flag kept and the reverse-fill flag
set, the `hint` flag is false, and the `scaled` flag is true exactly when a
high-precision parser invocation answered `Glyph_Too_Big`.  In both,
`glyph_transformed` is set and neither matrix, nor offset, nor scale is
applied. -/
theorem slot_load_no_recurse (env : CFF_Env W) (face : TT_FaceRec W)
    (glyph : T1_GlyphSlotRec) (size : Option CFF_SizeRec) (glyph_index load_flags : Nat)
    (w : W) (cenv : CID_Env W) (cface : CID_FaceRec W) (cidglyph : T1_GlyphSlotRec)
    (cidsize : FT_TS_Size_Metrics) (cid_index : Nat)
    (hnr : load_flags &&& FT_TS_LOAD_NO_RECURSE ≠ 0) :
    (∀ r, cff_slot_load_built env face glyph size glyph_index load_flags w = some r →
        r.build.error = 0 →
        (cff_slot_load env face glyph size glyph_index load_flags w).1 = 0 ∧
          (cff_slot_load env face glyph size glyph_index load_flags w).2.1.metrics =
            { glyph.metrics with
              horiBearingX := r.build.decoder.builder.left_bearing.x
              horiAdvance := r.build.decoder.glyph_width } ∧
          (cff_slot_load env face glyph size glyph_index load_flags w).2.1.internal =
            { glyph_matrix := (cff_slot_load_dict env face.cff r.glyph_index).font_matrix
              glyph_delta := (cff_slot_load_dict env face.cff r.glyph_index).font_offset
              glyph_transformed := true } ∧
          (cff_slot_load env face glyph size glyph_index load_flags w).2.1.outline =
            r.build.decoder.builder.base ∧
          (cff_slot_load env face glyph size glyph_index load_flags w).2.1.hint = false ∧
          (cff_slot_load env face glyph size glyph_index load_flags w).2.1.scaled = false) ∧
      (∀ r, cid_slot_load_glyph_loaded cenv cface cidglyph cidsize cid_index load_flags w =
          some r →
        r.1 = 0 →
        (cid_slot_load_glyph cenv cface cidglyph cidsize cid_index load_flags w).1 = 0 ∧
          (cid_slot_load_glyph cenv cface cidglyph cidsize cid_index load_flags w).2.1.metrics =
            { cidglyph.metrics with
              horiBearingX := cenv.base.FIXED_TO_INT r.2.decoder.builder.left_bearing.x
              horiAdvance := cenv.base.FIXED_TO_INT r.2.decoder.builder.advance.x } ∧
          (cid_slot_load_glyph cenv cface cidglyph cidsize cid_index load_flags w).2.1.internal =
            { glyph_matrix := r.2.decoder.font_matrix
              glyph_delta := r.2.decoder.font_offset
              glyph_transformed := true } ∧
          (cid_slot_load_glyph cenv cface cidglyph cidsize cid_index load_flags w).2.1.outline =
            { r.2.decoder.builder.base with
              flags := (r.2.decoder.builder.base.flags &&& FT_TS_OUTLINE_OWNER) |||
                FT_TS_OUTLINE_REVERSE_FILL } ∧
          (cid_slot_load_glyph cenv cface cidglyph cidsize cid_index load_flags w).2.1.hint =
            false ∧
          (cid_slot_load_glyph cenv cface cidglyph cidsize cid_index load_flags w).2.1.scaled =
            (cid_slot_load_glyph cenv cface cidglyph cidsize cid_index load_flags
              w).2.2.2.any Event.isT1TooBig) := by
  obtain ⟨hr1, hr2, hr3⟩ := load_flags_recurse_of_set load_flags hnr
  constructor
  · intro r hr hok
    obtain ⟨-, hlf, hfm, hfo, -, -, hsc, hhint, hhint', hme, -, -, hol, -⟩ :=
      cff_slot_load_built_state env face glyph size glyph_index load_flags w r hr
    rw [cff_slot_load_of_built env face glyph size glyph_index load_flags w r hr, if_pos hok]
    simp only []
    unfold cff_slot_load_metrics
    rw [if_pos (by rw [hlf]; exact hr1)]
    refine ⟨hok, ?_, ?_, ?_, ?_, ?_⟩
    · show ({ r.build.st.glyph.metrics with
          horiBearingX := r.build.decoder.builder.left_bearing.x
          horiAdvance := r.build.decoder.glyph_width } : FT_TS_Glyph_Metrics) = _
      rw [hme]
    · show (FT_TS_Slot_InternalRec.mk true r.font_matrix r.font_offset) = _
      rw [hfm, hfo]
    · exact hol hok
    · show r.build.st.glyph.hint = false
      rw [hhint]
      cases hb : r.build.hinting
      · rfl
      · exact absurd (hhint' hb) (by rw [hlf]; exact hr3)
    · show r.build.st.glyph.scaled = false
      rw [hsc, hlf]
      exact decide_eq_false hr2
  · intro r hr hok
    obtain ⟨hg, hhint, hsc⟩ :=
      cid_slot_load_glyph_loaded_state cenv cface cidglyph cidsize cid_index load_flags w r hr
    rw [cid_slot_load_glyph_of_loaded cenv cface cidglyph cidsize cid_index load_flags w r hr,
      if_neg (not_not.mpr hok)]
    simp only []
    unfold cid_slot_load_glyph_metrics
    rw [if_pos hr1]
    have hme : r.2.glyph.metrics = cidglyph.metrics := by
      rw [hg]
      rfl
    refine ⟨hok, ?_, rfl, rfl, ?_, ?_⟩
    · show ({ r.2.glyph.metrics with
          horiBearingX := cenv.base.FIXED_TO_INT r.2.decoder.builder.left_bearing.x
          horiAdvance := cenv.base.FIXED_TO_INT r.2.decoder.builder.advance.x } :
          FT_TS_Glyph_Metrics) = _
      rw [hme]
    · show r.2.glyph.hint = false
      cases hb : r.2.glyph.hint
      · rfl
      · exact absurd (hhint hb).1 hr2
    · show r.2.glyph.scaled = (r.2.trace ++ [Event.t1_decoder_done]).any Event.isT1TooBig
      rw [hsc, List.any_append]
      simp [Event.isT1TooBig]

/-- The sample CFF font reaches the metrics when loaded with `no_recurse`. -/
theorem Sample.cff_face_no_recurse_built :
    (cff_slot_load_built (Sample.cff_env id id 0 [] false)
        (Sample.cff_face 0xFFFF none 0 none 1) default (some Sample.cff_size) 0
        FT_TS_LOAD_NO_RECURSE Sample.world).isSome = true := by
  decide

/-- The sample CID font gets as far as `cid_load_glyph` when loaded with
`no_recurse`. -/
theorem Sample.cid_face_no_recurse_loaded :
    (cid_slot_load_glyph_loaded (Sample.cid_env Sample.cid_stream [] false)
        (Sample.cid_face none) default Sample.size_metrics 0 FT_TS_LOAD_NO_RECURSE
        Sample.world).isSome = true := by
  decide

/-- C12 (witness): the sample fonts loaded with `no_recurse` at a size with
scales 2.0: the advance returned is the unscaled 500 in both loaders and the
flags are false. -/
theorem slot_load_no_recurse_witness :
    ((cff_slot_load (Sample.cff_env id id 0 [] false) (Sample.cff_face 0xFFFF none 0 none 1)
          default (some Sample.cff_size) 0 FT_TS_LOAD_NO_RECURSE Sample.world).2.1.hint = false ∧
        (cff_slot_load (Sample.cff_env id id 0 [] false) (Sample.cff_face 0xFFFF none 0 none 1)
          default (some Sample.cff_size) 0 FT_TS_LOAD_NO_RECURSE Sample.world).2.1.scaled =
          false) ∧
      (cid_slot_load_glyph (Sample.cid_env Sample.cid_stream [] false) (Sample.cid_face none)
        default Sample.size_metrics 0 FT_TS_LOAD_NO_RECURSE Sample.world).2.1.hint = false :=
  have h := slot_load_no_recurse (Sample.cff_env id id 0 [] false)
    (Sample.cff_face 0xFFFF none 0 none 1) default (some Sample.cff_size) 0
    FT_TS_LOAD_NO_RECURSE Sample.world (Sample.cid_env Sample.cid_stream [] false)
    (Sample.cid_face none) default Sample.size_metrics 0 (by decide)
  ⟨(h.1 _ (Option.some_get Sample.cff_face_no_recurse_built).symm (by decide)).2.2.2.2,
    (h.2 _ (Option.some_get Sample.cid_face_no_recurse_loaded).symm (by decide)).2.2.2.2.1⟩

end NoRecurseClaims

section CFFReach4

variable {W : Type}

/-- A load by `cff_slot_load` without `no_recurse` that reaches the metrics
without error succeeds, and its slot is the one the metrics stage makes. -/
theorem cff_slot_load_outline_slot (env : CFF_Env W) (face : TT_FaceRec W)
    (glyph : T1_GlyphSlotRec) (size : Option CFF_SizeRec) (glyph_index load_flags : Nat)
    (w : W) (r : CFF_Built W)
    (hr : cff_slot_load_built env face glyph size glyph_index load_flags w = some r)
    (hok : r.build.error = 0)
    (hnr : load_flags &&& FT_TS_LOAD_NO_RECURSE = 0) :
    (cff_slot_load env face glyph size glyph_index load_flags w).1 = 0 ∧
      (cff_slot_load env face glyph size glyph_index load_flags w).2.1 =
        (cff_slot_load_metrics env face size r.glyph_index load_flags r.build.hinting
          r.build.force_scaling r.font_matrix r.font_offset r.build.decoder r.build.st).glyph := by
  have hlf := (cff_slot_load_built_state env face glyph size glyph_index load_flags w r hr).2.1
  rw [load_flags_recurse_of_clear load_flags hnr] at hlf
  rw [cff_slot_load_of_built env face glyph size glyph_index load_flags w r hr, if_pos hok, hlf]
  exact ⟨hok, rfl⟩

end CFFReach4

section CIDReach2

variable {W : Type}

/-- A load by `cid_slot_load_glyph` without `no_recurse` in which
`cid_load_glyph` succeeds is successful, and its slot is the one the metrics
stage makes. -/
theorem cid_slot_load_glyph_outline_slot (env : CID_Env W) (face : CID_FaceRec W)
    (cidglyph : T1_GlyphSlotRec) (cidsize : FT_TS_Size_Metrics)
    (glyph_index load_flags : Nat) (w : W) (r : FT_TS_Error × CID_LoadState W)
    (hr : cid_slot_load_glyph_loaded env face cidglyph cidsize glyph_index load_flags w =
      some r)
    (hok : r.1 = 0)
    (hnr : load_flags &&& FT_TS_LOAD_NO_RECURSE = 0) :
    (cid_slot_load_glyph env face cidglyph cidsize glyph_index load_flags w).1 = 0 ∧
      (cid_slot_load_glyph env face cidglyph cidsize glyph_index load_flags w).2.1 =
        cid_slot_load_glyph_metrics env face cidsize load_flags r.2.glyph.hint r.2.glyph.scaled
          r.2.decoder.font_matrix r.2.decoder.font_offset r.2.decoder
          { r.2.glyph with outline := r.2.decoder.builder.base } := by
  rw [cid_slot_load_glyph_of_loaded env face cidglyph cidsize glyph_index load_flags w r hr,
    if_neg (not_not.mpr hok), load_flags_recurse_of_clear load_flags hnr]
  exact ⟨hok, rfl⟩

end CIDReach2

/-- The advances that the matrix, offset and scaling steps leave, spelled
out: the matrix entry multiplies the advance when the matrix is not the
identity, the offset is added when it is not zero, and the scale multiplies
the sum when scaling takes place. -/
theorem steps_advance (base : FT_TS_Base) (load_flags : Nat) (forced hinting hints_funcs : Bool)
    (n x_scale y_scale : Int) (font_matrix : FT_TS_Matrix) (font_offset : FT_TS_Vector)
    (s : Slot_Geometry) :
    (scale_outline_metrics base load_flags forced hinting hints_funcs n x_scale y_scale
        (apply_font_offset base font_offset (apply_font_matrix base font_matrix s))).horiAdvance =
        (if load_flags &&& FT_TS_LOAD_NO_SCALE = 0 ∨ forced = true then
          base.MulFix
            ((if font_matrix.xx ≠ 0x10000 ∨ font_matrix.yy ≠ 0x10000 ∨
                font_matrix.xy ≠ 0 ∨ font_matrix.yx ≠ 0 then
              base.MulFix s.horiAdvance font_matrix.xx else s.horiAdvance) +
              (if font_offset.x ≠ 0 ∨ font_offset.y ≠ 0 then font_offset.x else 0))
            x_scale
        else
          (if font_matrix.xx ≠ 0x10000 ∨ font_matrix.yy ≠ 0x10000 ∨
              font_matrix.xy ≠ 0 ∨ font_matrix.yx ≠ 0 then
            base.MulFix s.horiAdvance font_matrix.xx else s.horiAdvance) +
            (if font_offset.x ≠ 0 ∨ font_offset.y ≠ 0 then font_offset.x else 0)) ∧
      (scale_outline_metrics base load_flags forced hinting hints_funcs n x_scale y_scale
        (apply_font_offset base font_offset (apply_font_matrix base font_matrix s))).vertAdvance =
        (if load_flags &&& FT_TS_LOAD_NO_SCALE = 0 ∨ forced = true then
          base.MulFix
            ((if font_matrix.xx ≠ 0x10000 ∨ font_matrix.yy ≠ 0x10000 ∨
                font_matrix.xy ≠ 0 ∨ font_matrix.yx ≠ 0 then
              base.MulFix s.vertAdvance font_matrix.yy else s.vertAdvance) +
              (if font_offset.x ≠ 0 ∨ font_offset.y ≠ 0 then font_offset.y else 0))
            y_scale
        else
          (if font_matrix.xx ≠ 0x10000 ∨ font_matrix.yy ≠ 0x10000 ∨
              font_matrix.xy ≠ 0 ∨ font_matrix.yx ≠ 0 then
            base.MulFix s.vertAdvance font_matrix.yy else s.vertAdvance) +
            (if font_offset.x ≠ 0 ∨ font_offset.y ≠ 0 then font_offset.y else 0)) := by
  unfold scale_outline_metrics apply_font_offset apply_font_matrix
  by_cases hm : font_matrix.xx ≠ 0x10000 ∨ font_matrix.yy ≠ 0x10000 ∨
      font_matrix.xy ≠ 0 ∨ font_matrix.yx ≠ 0 <;>
  by_cases ho : font_offset.x ≠ 0 ∨ font_offset.y ≠ 0 <;>
  by_cases hs : load_flags &&& FT_TS_LOAD_NO_SCALE = 0 ∨ forced = true <;>
  simp [hm, ho, hs]

section CFFReach5

variable {W : Type}

/-- The slot returned by a load by `cff_slot_load` without `no_recurse` that
reaches the metrics without error, field by field. -/
theorem cff_slot_load_outline_facts (env : CFF_Env W) (face : TT_FaceRec W)
    (glyph : T1_GlyphSlotRec) (size : Option CFF_SizeRec) (glyph_index load_flags : Nat)
    (w : W) (r : CFF_Built W)
    (hr : cff_slot_load_built env face glyph size glyph_index load_flags w = some r)
    (hok : r.build.error = 0)
    (hnr : load_flags &&& FT_TS_LOAD_NO_RECURSE = 0) :
    (cff_slot_load env face glyph size glyph_index load_flags w).2.1.outline =
        (cff_slot_load_geometry env face size r.glyph_index load_flags r.build.hinting
          r.build.force_scaling r.font_matrix r.font_offset r.build.decoder
          r.build.st.glyph).outline ∧
      (cff_slot_load env face glyph size glyph_index load_flags w).2.1.linearHoriAdvance =
        cff_slot_load_horiAdvance env face r.glyph_index r.build.decoder ∧
      (cff_slot_load env face glyph size glyph_index load_flags w).2.1.linearVertAdvance =
        cff_slot_load_vertAdvance env face r.glyph_index ∧
      (cff_slot_load env face glyph size glyph_index load_flags w).2.1.x_scale =
        r.build.st.glyph.x_scale ∧
      (cff_slot_load env face glyph size glyph_index load_flags w).2.1.y_scale =
        r.build.st.glyph.y_scale ∧
      (env.base.synthesizes_vertical ∨ cff_has_vertical_info face = true ∨
          load_flags &&& FT_TS_LOAD_VERTICAL_LAYOUT = 0 →
        (cff_slot_load env face glyph size glyph_index load_flags w).2.1.metrics.horiAdvance =
            (cff_slot_load_geometry env face size r.glyph_index load_flags r.build.hinting
              r.build.force_scaling r.font_matrix r.font_offset r.build.decoder
              r.build.st.glyph).horiAdvance ∧
          (cff_slot_load env face glyph size glyph_index load_flags w).2.1.metrics.width =
            (env.base.Outline_Get_CBox
              (cff_slot_load env face glyph size glyph_index load_flags w).2.1.outline).xMax -
            (env.base.Outline_Get_CBox
              (cff_slot_load env face glyph size glyph_index load_flags w).2.1.outline).xMin ∧
          (cff_slot_load env face glyph size glyph_index load_flags w).2.1.metrics.height =
            (env.base.Outline_Get_CBox
              (cff_slot_load env face glyph size glyph_index load_flags w).2.1.outline).yMax -
            (env.base.Outline_Get_CBox
              (cff_slot_load env face glyph size glyph_index load_flags w).2.1.outline).yMin ∧
          (cff_slot_load env face glyph size glyph_index load_flags w).2.1.metrics.horiBearingX =
            (env.base.Outline_Get_CBox
              (cff_slot_load env face glyph size glyph_index load_flags w).2.1.outline).xMin ∧
          (cff_slot_load env face glyph size glyph_index load_flags w).2.1.metrics.horiBearingY =
            (env.base.Outline_Get_CBox
              (cff_slot_load env face glyph size glyph_index load_flags w).2.1.outline).yMax) ∧
      (cff_has_vertical_info face = true ∨ load_flags &&& FT_TS_LOAD_VERTICAL_LAYOUT = 0 →
        (cff_slot_load env face glyph size glyph_index load_flags w).2.1.metrics.vertAdvance =
          (cff_slot_load_geometry env face size r.glyph_index load_flags r.build.hinting
            r.build.force_scaling r.font_matrix r.font_offset r.build.decoder
            r.build.st.glyph).vertAdvance) ∧
      (cff_has_vertical_info face = true →
        (cff_slot_load env face glyph size glyph_index load_flags w).2.1.metrics.vertBearingX =
            (cff_slot_load env face glyph size glyph_index load_flags w).2.1.metrics.horiBearingX -
              Int.tdiv
                (cff_slot_load env face glyph size glyph_index load_flags
                  w).2.1.metrics.horiAdvance 2 ∧
          (cff_slot_load env face glyph size glyph_index load_flags w).2.1.metrics.vertBearingY =
            env.base.MulFix (env.get_metrics true r.glyph_index).1 r.build.st.glyph.y_scale) ∧
      (cff_has_vertical_info face = false → load_flags &&& FT_TS_LOAD_VERTICAL_LAYOUT = 0 →
        (cff_slot_load env face glyph size glyph_index load_flags w).2.1.metrics.vertBearingX =
            glyph.metrics.vertBearingX ∧
          (cff_slot_load env face glyph size glyph_index load_flags w).2.1.metrics.vertBearingY =
            glyph.metrics.vertBearingY) ∧
      (cff_has_vertical_info face = false → load_flags &&& FT_TS_LOAD_VERTICAL_LAYOUT ≠ 0 →
        (cff_slot_load env face glyph size glyph_index load_flags w).2.1.metrics =
          env.base.synthesize_vertical_metrics
            (cff_slot_load_box_metrics env face size r.glyph_index load_flags r.build.hinting
              r.build.force_scaling r.font_matrix r.font_offset r.build.decoder r.build.st.glyph)
            (cff_slot_load_box_metrics env face size r.glyph_index load_flags r.build.hinting
              r.build.force_scaling r.font_matrix r.font_offset r.build.decoder
              r.build.st.glyph).vertAdvance) := by
  have hme := (cff_slot_load_built_state env face glyph size glyph_index load_flags w r
    hr).2.2.2.2.2.2.2.2.2.1
  obtain ⟨-, hslot⟩ :=
    cff_slot_load_outline_slot env face glyph size glyph_index load_flags w r hr hok hnr
  have hout := cff_slot_load_metrics_outline env face size r.glyph_index load_flags
    r.build.hinting r.build.force_scaling r.font_matrix r.font_offset r.build.decoder r.build.st
    hnr
  rw [hslot, hout]
  refine ⟨rfl, rfl, rfl, rfl, rfl, ?_, ?_, ?_, ?_, ?_⟩
  · intro hsyn
    by_cases h1 : cff_has_vertical_info face = true
    · rw [if_pos h1]
      exact ⟨rfl, rfl, rfl, rfl, rfl⟩
    · rw [if_neg h1]
      by_cases h2 : load_flags &&& FT_TS_LOAD_VERTICAL_LAYOUT ≠ 0
      · rcases hsyn with hsyn | hsyn | hsyn
        · rw [if_pos h2, hsyn]
          exact ⟨rfl, rfl, rfl, rfl, rfl⟩
        · exact absurd hsyn h1
        · exact absurd hsyn h2
      · rw [if_neg h2]
        exact ⟨rfl, rfl, rfl, rfl, rfl⟩
  · intro hv
    by_cases h1 : cff_has_vertical_info face = true
    · rw [if_pos h1]
      rfl
    · rw [if_neg h1]
      rcases hv with hv | hv
      · exact absurd hv h1
      · rw [if_neg (not_not.mpr hv)]
        rfl
  · intro h1
    rw [if_pos h1]
    refine ⟨rfl, ?_⟩
    show env.base.MulFix
      (if cff_has_vertical_info face = true then (env.get_metrics true r.glyph_index).1
        else r.build.st.glyph.metrics.vertBearingY) r.build.st.glyph.y_scale = _
    rw [if_pos h1]
  · intro h1 h2
    rw [if_neg (by simp [h1]), if_neg (not_not.mpr h2)]
    refine ⟨?_, ?_⟩
    · show r.build.st.glyph.metrics.vertBearingX = _
      rw [hme]
    · show (if cff_has_vertical_info face = true then (env.get_metrics true r.glyph_index).1
        else r.build.st.glyph.metrics.vertBearingY) = _
      rw [if_neg (by simp [h1]), hme]
  · intro h1 h2
    rw [if_neg (by simp [h1]), if_pos h2]

end CFFReach5

section CFFMetricsClaims

variable {W : Type}

/-- C13 (counterexample): a face with a horizontal metrics table that
answers a bearing of 7 and an advance of 601 for glyph 0, whose outline is
the square with corner at the origin, loaded unhinted with `no_scale`.  The
load succeeds with the advance of the table and with a horizontal bearing of
0, the left edge of the outline, not the 7 of the table. -/
theorem cff_slot_load_bearing_from_box :
    Sample.cff_face_metrics.horizontal.number_Of_HMetrics ≠ 0 ∧
      Sample.cff_env_model.get_metrics false 0 = (7, 601) ∧
      (cff_slot_load Sample.cff_env_model Sample.cff_face_metrics default none 0
        (FT_TS_LOAD_NO_SCALE ||| FT_TS_LOAD_NO_HINTING) Sample.world).1 = 0 ∧
      (cff_slot_load Sample.cff_env_model Sample.cff_face_metrics default none 0
        (FT_TS_LOAD_NO_SCALE ||| FT_TS_LOAD_NO_HINTING) Sample.world).2.1.metrics.horiAdvance =
        601 ∧
      (cff_slot_load Sample.cff_env_model Sample.cff_face_metrics default none 0
        (FT_TS_LOAD_NO_SCALE ||| FT_TS_LOAD_NO_HINTING) Sample.world).2.1.metrics.horiBearingX =
        0 := by
  decide

/-- C13 (as amended): in a load by `cff_slot_load` without `no_recurse` that
reaches the metrics without error, `linearHoriAdvance` is the advance of the
horizontal metrics table when the face has one (`number_Of_HMetrics != 0`)
and the decoder's unscaled width otherwise; the horizontal advance returned
is that value taken through the matrix, offset and scaling steps; and the
horizontal bearing returned is the left edge of the control box of the
outline returned, whatever the table answers. -/
theorem cff_slot_load_horizontal_metrics (env : CFF_Env W) (face : TT_FaceRec W)
    (glyph : T1_GlyphSlotRec) (size : Option CFF_SizeRec) (glyph_index load_flags : Nat)
    (w : W) (r : CFF_Built W)
    (hr : cff_slot_load_built env face glyph size glyph_index load_flags w = some r)
    (hok : r.build.error = 0)
    (hnr : load_flags &&& FT_TS_LOAD_NO_RECURSE = 0)
    (hsyn : env.base.synthesizes_vertical) :
    (face.horizontal.number_Of_HMetrics ≠ 0 →
        (cff_slot_load env face glyph size glyph_index load_flags w).2.1.linearHoriAdvance =
          ((env.get_metrics false r.glyph_index).2 : Int)) ∧
      (face.horizontal.number_Of_HMetrics = 0 →
        (cff_slot_load env face glyph size glyph_index load_flags w).2.1.linearHoriAdvance =
          r.build.decoder.glyph_width) ∧
      (cff_slot_load env face glyph size glyph_index load_flags w).2.1.metrics.horiAdvance =
        (if load_flags &&& FT_TS_LOAD_NO_SCALE = 0 ∨ r.build.force_scaling = true then
          env.base.MulFix
            ((if r.font_matrix.xx ≠ 0x10000 ∨ r.font_matrix.yy ≠ 0x10000 ∨
                r.font_matrix.xy ≠ 0 ∨ r.font_matrix.yx ≠ 0 then
              env.base.MulFix
                (cff_slot_load env face glyph size glyph_index load_flags w).2.1.linearHoriAdvance
                r.font_matrix.xx
              else
                (cff_slot_load env face glyph size glyph_index load_flags
                  w).2.1.linearHoriAdvance) +
              (if r.font_offset.x ≠ 0 ∨ r.font_offset.y ≠ 0 then r.font_offset.x else 0))
            (cff_slot_load env face glyph size glyph_index load_flags w).2.1.x_scale
        else
          (if r.font_matrix.xx ≠ 0x10000 ∨ r.font_matrix.yy ≠ 0x10000 ∨
              r.font_matrix.xy ≠ 0 ∨ r.font_matrix.yx ≠ 0 then
            env.base.MulFix
              (cff_slot_load env face glyph size glyph_index load_flags w).2.1.linearHoriAdvance
              r.font_matrix.xx
            else
              (cff_slot_load env face glyph size glyph_index load_flags
                w).2.1.linearHoriAdvance) +
            (if r.font_offset.x ≠ 0 ∨ r.font_offset.y ≠ 0 then r.font_offset.x else 0)) ∧
      (cff_slot_load env face glyph size glyph_index load_flags w).2.1.metrics.horiBearingX =
        (env.base.Outline_Get_CBox
          (cff_slot_load env face glyph size glyph_index load_flags w).2.1.outline).xMin := by
  obtain ⟨-, hlin, -, hxs, -, hh, -⟩ :=
    cff_slot_load_outline_facts env face glyph size glyph_index load_flags w r hr hok hnr
  obtain ⟨hadv, -, -, hbx, -⟩ := hh (Or.inl hsyn)
  refine ⟨?_, ?_, ?_, hbx⟩
  · intro h
    rw [hlin]
    unfold cff_slot_load_horiAdvance
    rw [if_pos h]
  · intro h
    rw [hlin]
    unfold cff_slot_load_horiAdvance
    rw [if_neg (not_not.mpr h)]
  · rw [hadv, hlin, hxs]
    unfold cff_slot_load_geometry cff_slot_load_unscaled
    rw [(steps_advance _ _ _ _ _ _ _ _ _ _ _).1]

/-- The sample font with metrics tables reaches the metrics when loaded with
`no_scale`. -/
theorem Sample.cff_face_metrics_built :
    (cff_slot_load_built Sample.cff_env_model Sample.cff_face_metrics default none 0
        FT_TS_LOAD_NO_SCALE Sample.world).isSome = true := by
  decide

/-- C13 (witness): the sample font with a horizontal metrics table, loaded
with `no_scale`: the unscaled advance is the 601 of the table. -/
theorem cff_slot_load_horizontal_metrics_witness :
    (cff_slot_load Sample.cff_env_model Sample.cff_face_metrics default none 0
        FT_TS_LOAD_NO_SCALE Sample.world).2.1.linearHoriAdvance = 601 :=
  ((cff_slot_load_horizontal_metrics Sample.cff_env_model Sample.cff_face_metrics default none 0
    FT_TS_LOAD_NO_SCALE Sample.world _ (Option.some_get Sample.cff_face_metrics_built).symm
    (by decide) (by decide) (fun _ _ => rfl)).1 (by decide)).trans (by decide)

end CFFMetricsClaims

section CFFVerticalClaims

variable {W : Type}

/-- C14: in a load by `cff_slot_load` without `no_recurse` that reaches the
metrics without error, when the face has usable vertical metrics
(`vertical_info` set and `number_Of_VMetrics > 0`) the unscaled vertical
advance is the advance of the vertical metrics table and the vertical bearing
Y returned is the bearing of that table multiplied by the slot's vertical
scale; otherwise the unscaled vertical advance is
`sTypoAscender - sTypoDescender` when `os2.version != 0xFFFF` and
`Ascender - Descender` of the horizontal header when `os2.version = 0xFFFF`.
In all cases `linearVertAdvance` is that unscaled value, and the vertical
advance returned is that value taken through the matrix, offset and scaling
steps, unless vertical metrics are synthesized. -/
theorem cff_slot_load_vertical_metrics (env : CFF_Env W) (face : TT_FaceRec W)
    (glyph : T1_GlyphSlotRec) (size : Option CFF_SizeRec) (glyph_index load_flags : Nat)
    (w : W) (r : CFF_Built W)
    (hr : cff_slot_load_built env face glyph size glyph_index load_flags w = some r)
    (hok : r.build.error = 0)
    (hnr : load_flags &&& FT_TS_LOAD_NO_RECURSE = 0) :
    (face.vertical_info = true ∧ face.vertical.number_Of_VMetrics > 0 →
        (cff_slot_load env face glyph size glyph_index load_flags w).2.1.linearVertAdvance =
            ((env.get_metrics true r.glyph_index).2 : Int) ∧
          (cff_slot_load env face glyph size glyph_index load_flags w).2.1.metrics.vertBearingY =
            env.base.MulFix (env.get_metrics true r.glyph_index).1
              (cff_slot_load env face glyph size glyph_index load_flags w).2.1.y_scale) ∧
      (¬(face.vertical_info = true ∧ face.vertical.number_Of_VMetrics > 0) →
        (face.os2.version ≠ 0xFFFF →
          (cff_slot_load env face glyph size glyph_index load_flags w).2.1.linearVertAdvance =
            face.os2.sTypoAscender - face.os2.sTypoDescender) ∧
        (face.os2.version = 0xFFFF →
          (cff_slot_load env face glyph size glyph_index load_flags w).2.1.linearVertAdvance =
            face.horizontal.Ascender - face.horizontal.Descender)) ∧
      ((face.vertical_info = true ∧ face.vertical.number_Of_VMetrics > 0) ∨
          load_flags &&& FT_TS_LOAD_VERTICAL_LAYOUT = 0 →
        (cff_slot_load env face glyph size glyph_index load_flags w).2.1.metrics.vertAdvance =
          (if load_flags &&& FT_TS_LOAD_NO_SCALE = 0 ∨ r.build.force_scaling = true then
            env.base.MulFix
              ((if r.font_matrix.xx ≠ 0x10000 ∨ r.font_matrix.yy ≠ 0x10000 ∨
                  r.font_matrix.xy ≠ 0 ∨ r.font_matrix.yx ≠ 0 then
                env.base.MulFix
                  (cff_slot_load env face glyph size glyph_index load_flags
                    w).2.1.linearVertAdvance
                  r.font_matrix.yy
                else
                  (cff_slot_load env face glyph size glyph_index load_flags
                    w).2.1.linearVertAdvance) +
                (if r.font_offset.x ≠ 0 ∨ r.font_offset.y ≠ 0 then r.font_offset.y else 0))
              (cff_slot_load env face glyph size glyph_index load_flags w).2.1.y_scale
          else
            (if r.font_matrix.xx ≠ 0x10000 ∨ r.font_matrix.yy ≠ 0x10000 ∨
                r.font_matrix.xy ≠ 0 ∨ r.font_matrix.yx ≠ 0 then
              env.base.MulFix
                (cff_slot_load env face glyph size glyph_index load_flags
                  w).2.1.linearVertAdvance
                r.font_matrix.yy
              else
                (cff_slot_load env face glyph size glyph_index load_flags
                  w).2.1.linearVertAdvance) +
              (if r.font_offset.x ≠ 0 ∨ r.font_offset.y ≠ 0 then r.font_offset.y else 0))) := by
  obtain ⟨-, -, hlin, -, hys, -, hva, hvb, -⟩ :=
    cff_slot_load_outline_facts env face glyph size glyph_index load_flags w r hr hok hnr
  have hiff : cff_has_vertical_info face = true ↔
      (face.vertical_info = true ∧ face.vertical.number_Of_VMetrics > 0) := by
    unfold cff_has_vertical_info
    simp
  refine ⟨?_, ?_, ?_⟩
  · intro h
    have h' := hiff.mpr h
    refine ⟨?_, ?_⟩
    · rw [hlin]
      unfold cff_slot_load_vertAdvance
      rw [if_pos h']
    · rw [(hvb h').2, hys]
  · intro h
    have h' : ¬ cff_has_vertical_info face = true := fun hc => h (hiff.mp hc)
    refine ⟨?_, ?_⟩
    · intro hos
      rw [hlin]
      unfold cff_slot_load_vertAdvance
      rw [if_neg h', if_pos hos]
    · intro hos
      rw [hlin]
      unfold cff_slot_load_vertAdvance
      rw [if_neg h', if_neg (not_not.mpr hos)]
  · intro h
    have h' : cff_has_vertical_info face = true ∨
        load_flags &&& FT_TS_LOAD_VERTICAL_LAYOUT = 0 := h.imp hiff.mpr id
    rw [hva h', hlin, hys]
    unfold cff_slot_load_geometry cff_slot_load_unscaled
    rw [(steps_advance _ _ _ _ _ _ _ _ _ _ _).2]

/-- C14 (witness): the sample font with a vertical metrics table that answers
a bearing of 30 and an advance of 900, loaded with `no_scale` and no size:
the unscaled vertical advance is 900 and the bearing returned is 30. -/
theorem cff_slot_load_vertical_metrics_witness :
    (cff_slot_load Sample.cff_env_model Sample.cff_face_metrics default none 0
        FT_TS_LOAD_NO_SCALE Sample.world).2.1.linearVertAdvance = 900 ∧
      (cff_slot_load Sample.cff_env_model Sample.cff_face_metrics default none 0
        FT_TS_LOAD_NO_SCALE Sample.world).2.1.metrics.vertBearingY = 30 :=
  have h := (cff_slot_load_vertical_metrics Sample.cff_env_model Sample.cff_face_metrics
    default none 0 FT_TS_LOAD_NO_SCALE Sample.world _
    (Option.some_get Sample.cff_face_metrics_built).symm (by decide) (by decide)).1 (by decide)
  ⟨h.1.trans (by decide), h.2.trans (by decide)⟩

end CFFVerticalClaims

section CFFVerticalBearingClaims

variable {W : Type}

end CFFVerticalBearingClaims

/-! ## The modelled base helpers -/

theorem FT_TS_MulFix_one (a : Int) : FT_TS_MulFix a 0x10000 = a := by
  unfold FT_TS_MulFix
  split_ifs <;> omega

theorem FT_TS_MulFix_zero (a : Int) : FT_TS_MulFix a 0 = 0 := by
  unfold FT_TS_MulFix
  simp

theorem FT_TS_Outline_Transform_identity (o : FT_TS_Outline) (m : FT_TS_Matrix)
    (h : ¬(m.xx ≠ 0x10000 ∨ m.yy ≠ 0x10000 ∨ m.xy ≠ 0 ∨ m.yx ≠ 0)) :
    FT_TS_Outline_Transform o m = o := by
  push_neg at h
  obtain ⟨hxx, hyy, hxy, hyx⟩ := h
  unfold FT_TS_Outline_Transform
  rw [hxx, hyy, hxy, hyx]
  simp only [FT_TS_MulFix_one, FT_TS_MulFix_zero, add_zero, zero_add]
  simp

theorem FT_TS_Outline_Translate_zero (o : FT_TS_Outline) : FT_TS_Outline_Translate o 0 0 = o := by
  unfold FT_TS_Outline_Translate
  simp

section SkipClaims

variable {W : Type}

/-- C16: with the modelled product, transform and translation, the matrix
step and the offset step of the two loaders give the same outline and the
same advances as the steps that apply the matrix and the offset whatever they
are: `FT_MulFix( a, 0x10000 ) = a`, the transform by the identity matrix and
the translation by the zero offset leave the outline as it is, and adding 0
leaves the advances as they are.  Hence the outline and the advances that
`cff_slot_load` and `cid_slot_load_glyph` hand to the scaling step are those
the unconditional steps make. -/
theorem apply_font_matrix_offset_always (env : CFF_Env W) (cenv : CID_Env W)
    (hmul : env.base.MulFix = FT_TS_MulFix)
    (htr : env.base.Outline_Transform = FT_TS_Outline_Transform)
    (htl : env.base.Outline_Translate = FT_TS_Outline_Translate)
    (hbase : cenv.base = env.base)
    (font_matrix : FT_TS_Matrix) (font_offset : FT_TS_Vector) (s : Slot_Geometry)
    (face : TT_FaceRec W) (size : Option CFF_SizeRec) (glyph_index : Nat)
    (decoder : CFF_DecoderRec) (g : T1_GlyphSlotRec)
    (cface : CID_FaceRec W) (cidsize : FT_TS_Size_Metrics) (cdecoder : T1_DecoderRec) :
    (∀ a, env.base.MulFix a 0x10000 = a) ∧
      apply_font_matrix env.base font_matrix s =
        apply_font_matrix_always env.base font_matrix s ∧
      apply_font_offset env.base font_offset s =
        apply_font_offset_always env.base font_offset s ∧
      cff_slot_load_unscaled env face size glyph_index font_matrix font_offset decoder g =
        apply_font_offset_always env.base font_offset
          (apply_font_matrix_always env.base font_matrix
            { outline := { g.outline with flags := cff_slot_load_outline_flags size }
              horiAdvance := cff_slot_load_horiAdvance env face glyph_index decoder
              vertAdvance := cff_slot_load_vertAdvance env face glyph_index }) ∧
      cid_slot_load_glyph_unscaled cenv cface cidsize font_matrix font_offset cdecoder g =
        apply_font_offset_always cenv.base font_offset
          (apply_font_matrix_always cenv.base font_matrix
            { outline :=
                { (cid_slot_load_glyph_flags g).outline with
                  flags :=
                    if cidsize.y_ppem < 24 then
                      (cid_slot_load_glyph_flags g).outline.flags |||
                        FT_TS_OUTLINE_HIGH_PRECISION
                    else (cid_slot_load_glyph_flags g).outline.flags }
              horiAdvance := cenv.base.FIXED_TO_INT cdecoder.builder.advance.x
              vertAdvance := (cface.cid.font_bbox.yMax - cface.cid.font_bbox.yMin) >>> 16 }) := by
  have hm : ∀ t : Slot_Geometry,
      apply_font_matrix env.base font_matrix t = apply_font_matrix_always env.base font_matrix t := by
    intro t
    unfold apply_font_matrix apply_font_matrix_always
    by_cases h : font_matrix.xx ≠ 0x10000 ∨ font_matrix.yy ≠ 0x10000 ∨
        font_matrix.xy ≠ 0 ∨ font_matrix.yx ≠ 0
    · rw [if_pos h]
    · rw [if_neg h, hmul, htr, FT_TS_Outline_Transform_identity _ _ h]
      push_neg at h
      rw [h.1, h.2.1, FT_TS_MulFix_one, FT_TS_MulFix_one]
  have ho : ∀ t : Slot_Geometry,
      apply_font_offset env.base font_offset t = apply_font_offset_always env.base font_offset t := by
    intro t
    unfold apply_font_offset apply_font_offset_always
    by_cases h : font_offset.x ≠ 0 ∨ font_offset.y ≠ 0
    · rw [if_pos h]
    · rw [if_neg h, htl]
      push_neg at h
      rw [h.1, h.2, FT_TS_Outline_Translate_zero, add_zero, add_zero]
  refine ⟨?_, hm s, ho s, ?_, ?_⟩
  · intro a
    rw [hmul, FT_TS_MulFix_one]
  · unfold cff_slot_load_unscaled
    rw [hm, ho]
  · unfold cid_slot_load_glyph_unscaled
    rw [hbase, hm, ho]

/-- C16 (witness): with the modelled helpers, the identity matrix and the
zero offset, the steps leave the square and the advances 500 and 1000 as they
are, whether they test for the identity or not. -/
theorem apply_font_matrix_offset_always_witness :
    apply_font_matrix_always Sample.base_model { xx := 0x10000, xy := 0, yx := 0, yy := 0x10000 }
        { outline := Sample.square, horiAdvance := 500, vertAdvance := 1000 } =
      { outline := Sample.square, horiAdvance := 500, vertAdvance := 1000 } ∧
    apply_font_offset_always Sample.base_model { x := 0, y := 0 }
        { outline := Sample.square, horiAdvance := 500, vertAdvance := 1000 } =
      { outline := Sample.square, horiAdvance := 500, vertAdvance := 1000 } :=
  have h := apply_font_matrix_offset_always Sample.cff_env_model Sample.cid_env_model rfl rfl rfl
    rfl { xx := 0x10000, xy := 0, yx := 0, yy := 0x10000 } { x := 0, y := 0 }
    { outline := Sample.square, horiAdvance := 500, vertAdvance := 1000 }
    Sample.cff_face_metrics none 0 default default (Sample.cid_face none) Sample.size_metrics
    default
  ⟨h.2.1.symm.trans (by decide), h.2.2.1.symm.trans (by decide)⟩

end SkipClaims

section CIDReach3

variable {W : Type}

/-- The slot returned by a load by `cid_slot_load_glyph` without
`no_recurse` in which `cid_load_glyph` succeeds, field by field. -/
theorem cid_slot_load_glyph_outline_facts (env : CID_Env W) (face : CID_FaceRec W)
    (cidglyph : T1_GlyphSlotRec) (cidsize : FT_TS_Size_Metrics)
    (glyph_index load_flags : Nat) (w : W) (r : FT_TS_Error × CID_LoadState W)
    (hr : cid_slot_load_glyph_loaded env face cidglyph cidsize glyph_index load_flags w =
      some r)
    (hok : r.1 = 0)
    (hnr : load_flags &&& FT_TS_LOAD_NO_RECURSE = 0) :
    (cid_slot_load_glyph env face cidglyph cidsize glyph_index load_flags w).2.1.outline =
        (cid_slot_load_glyph_geometry env face cidsize load_flags r.2.glyph.hint
          r.2.glyph.scaled r.2.decoder.font_matrix r.2.decoder.font_offset r.2.decoder
          { r.2.glyph with outline := r.2.decoder.builder.base }).outline ∧
      (cid_slot_load_glyph env face cidglyph cidsize glyph_index load_flags
          w).2.1.linearHoriAdvance =
        env.base.FIXED_TO_INT r.2.decoder.builder.advance.x ∧
      (cid_slot_load_glyph env face cidglyph cidsize glyph_index load_flags
          w).2.1.linearVertAdvance =
        (face.cid.font_bbox.yMax - face.cid.font_bbox.yMin) >>> 16 ∧
      (cid_slot_load_glyph env face cidglyph cidsize glyph_index load_flags w).2.1.x_scale =
        cidsize.x_scale ∧
      (cid_slot_load_glyph env face cidglyph cidsize glyph_index load_flags w).2.1.y_scale =
        cidsize.y_scale ∧
      r.2.glyph.x_scale = cidsize.x_scale ∧
      r.2.glyph.y_scale = cidsize.y_scale ∧
      (env.base.synthesizes_vertical ∨ load_flags &&& FT_TS_LOAD_VERTICAL_LAYOUT = 0 →
        (cid_slot_load_glyph env face cidglyph cidsize glyph_index load_flags
            w).2.1.metrics.horiAdvance =
            (cid_slot_load_glyph_geometry env face cidsize load_flags r.2.glyph.hint
              r.2.glyph.scaled r.2.decoder.font_matrix r.2.decoder.font_offset r.2.decoder
              { r.2.glyph with outline := r.2.decoder.builder.base }).horiAdvance ∧
          (cid_slot_load_glyph env face cidglyph cidsize glyph_index load_flags
            w).2.1.metrics.width =
            (env.base.Outline_Get_CBox
              (cid_slot_load_glyph env face cidglyph cidsize glyph_index load_flags
                w).2.1.outline).xMax -
            (env.base.Outline_Get_CBox
              (cid_slot_load_glyph env face cidglyph cidsize glyph_index load_flags
                w).2.1.outline).xMin ∧
          (cid_slot_load_glyph env face cidglyph cidsize glyph_index load_flags
            w).2.1.metrics.height =
            (env.base.Outline_Get_CBox
              (cid_slot_load_glyph env face cidglyph cidsize glyph_index load_flags
                w).2.1.outline).yMax -
            (env.base.Outline_Get_CBox
              (cid_slot_load_glyph env face cidglyph cidsize glyph_index load_flags
                w).2.1.outline).yMin ∧
          (cid_slot_load_glyph env face cidglyph cidsize glyph_index load_flags
            w).2.1.metrics.horiBearingX =
            (env.base.Outline_Get_CBox
              (cid_slot_load_glyph env face cidglyph cidsize glyph_index load_flags
                w).2.1.outline).xMin ∧
          (cid_slot_load_glyph env face cidglyph cidsize glyph_index load_flags
            w).2.1.metrics.horiBearingY =
            (env.base.Outline_Get_CBox
              (cid_slot_load_glyph env face cidglyph cidsize glyph_index load_flags
                w).2.1.outline).yMax) ∧
      (load_flags &&& FT_TS_LOAD_VERTICAL_LAYOUT = 0 →
        (cid_slot_load_glyph env face cidglyph cidsize glyph_index load_flags
            w).2.1.metrics.vertAdvance =
          (cid_slot_load_glyph_geometry env face cidsize load_flags r.2.glyph.hint
            r.2.glyph.scaled r.2.decoder.font_matrix r.2.decoder.font_offset r.2.decoder
            { r.2.glyph with outline := r.2.decoder.builder.base }).vertAdvance) := by
  have hg := (cid_slot_load_glyph_loaded_state env face cidglyph cidsize glyph_index load_flags
    w r hr).1
  have hx : r.2.glyph.x_scale = cidsize.x_scale := by rw [hg]; rfl
  have hy : r.2.glyph.y_scale = cidsize.y_scale := by rw [hg]; rfl
  obtain ⟨-, hslot⟩ :=
    cid_slot_load_glyph_outline_slot env face cidglyph cidsize glyph_index load_flags w r hr
      hok hnr
  have hout := cid_slot_load_glyph_metrics_outline env face cidsize load_flags r.2.glyph.hint
    r.2.glyph.scaled r.2.decoder.font_matrix r.2.decoder.font_offset r.2.decoder
    { r.2.glyph with outline := r.2.decoder.builder.base } hnr
  rw [hslot, hout]
  refine ⟨rfl, rfl, rfl, hx, hy, hx, hy, ?_, ?_⟩
  · intro hsyn
    by_cases h2 : load_flags &&& FT_TS_LOAD_VERTICAL_LAYOUT ≠ 0
    · rcases hsyn with hsyn | hsyn
      · simp only []
        rw [if_pos h2, hsyn]
        exact ⟨rfl, rfl, rfl, rfl, rfl⟩
      · exact absurd hsyn h2
    · simp only []
      rw [if_neg h2]
      exact ⟨rfl, rfl, rfl, rfl, rfl⟩
  · intro hv
    simp only []
    rw [if_neg (not_not.mpr hv)]
    rfl

end CIDReach3

theorem scale_points_all (MulFix : Int → Int → Int) (n x_scale y_scale : Int)
    (points : List FT_TS_Vector) (h : points.length ≤ n.toNat) :
    scale_points MulFix n x_scale y_scale points =
      points.map (fun v => ({ x := MulFix v.x x_scale, y := MulFix v.y y_scale } : FT_TS_Vector)) := by
  unfold scale_points
  rw [List.take_of_length_le h, List.drop_of_length_le h, List.append_nil]

theorem scale_outline_metrics_outline (base : FT_TS_Base) (load_flags : Nat)
    (forced hinting hints_funcs : Bool) (n : Int) (x_scale y_scale : Int) (s : Slot_Geometry) :
    (scale_outline_metrics base load_flags forced hinting hints_funcs n x_scale y_scale
        s).outline =
      (if (load_flags &&& FT_TS_LOAD_NO_SCALE = 0 ∨ forced = true) ∧
          (hinting = false ∨ hints_funcs = false) then
        { s.outline with points := scale_points base.MulFix n x_scale y_scale s.outline.points }
      else s.outline) := by
  unfold scale_outline_metrics
  by_cases h1 : load_flags &&& FT_TS_LOAD_NO_SCALE = 0 ∨ forced = true <;>
  by_cases h2 : hinting = false ∨ hints_funcs = false <;>
  simp [h1, h2]

section ScalingClaims

variable {W : Type}

/-- C17: in a load without `no_recurse` that reaches the metrics without
error, by `cff_slot_load` or by `cid_slot_load_glyph`, the scaling step runs
exactly when `no_scale` is clear or scaling was forced (`force_scaling` in
the first, the slot's `scaled` flag as `cid_load_glyph` left it in the
second).  When it runs, both advances are multiplied by the slot's scales
with `FT_MulFix`, and the points of the outline are multiplied, x by the
horizontal and y by the vertical scale, exactly when hinting is off or the
builder has no hinter; all the points are, when the point count of the
outline covers them.  When it does not run, outline and advances are those
the matrix and offset steps left. -/
theorem slot_load_scaling (env : CFF_Env W) (face : TT_FaceRec W)
    (glyph : T1_GlyphSlotRec) (size : Option CFF_SizeRec) (glyph_index load_flags : Nat)
    (w : W) (cenv : CID_Env W) (cface : CID_FaceRec W) (cidglyph : T1_GlyphSlotRec)
    (cidsize : FT_TS_Size_Metrics) (cid_index : Nat)
    (hnr : load_flags &&& FT_TS_LOAD_NO_RECURSE = 0) :
    (∀ r, cff_slot_load_built env face glyph size glyph_index load_flags w = some r →
        r.build.error = 0 →
        (cff_slot_load env face glyph size glyph_index load_flags w).2.1.outline =
            (if (load_flags &&& FT_TS_LOAD_NO_SCALE = 0 ∨ r.build.force_scaling = true) ∧
                (r.build.hinting = false ∨ r.build.decoder.builder.hints_funcs = false) then
              { (cff_slot_load_unscaled env face size r.glyph_index r.font_matrix r.font_offset
                    r.build.decoder r.build.st.glyph).outline with
                points :=
                  scale_points env.base.MulFix
                    (cff_slot_load_unscaled env face size r.glyph_index r.font_matrix
                      r.font_offset r.build.decoder r.build.st.glyph).outline.n_points
                    (cff_slot_load env face glyph size glyph_index load_flags w).2.1.x_scale
                    (cff_slot_load env face glyph size glyph_index load_flags w).2.1.y_scale
                    (cff_slot_load_unscaled env face size r.glyph_index r.font_matrix
                      r.font_offset r.build.decoder r.build.st.glyph).outline.points }
            else
              (cff_slot_load_unscaled env face size r.glyph_index r.font_matrix r.font_offset
                r.build.decoder r.build.st.glyph).outline) ∧
          (env.base.synthesizes_vertical ∨ cff_has_vertical_info face = true ∨
              load_flags &&& FT_TS_LOAD_VERTICAL_LAYOUT = 0 →
            (cff_slot_load env face glyph size glyph_index load_flags w).2.1.metrics.horiAdvance =
              (if load_flags &&& FT_TS_LOAD_NO_SCALE = 0 ∨ r.build.force_scaling = true then
                env.base.MulFix
                  (cff_slot_load_unscaled env face size r.glyph_index r.font_matrix
                    r.font_offset r.build.decoder r.build.st.glyph).horiAdvance
                  (cff_slot_load env face glyph size glyph_index load_flags w).2.1.x_scale
              else
                (cff_slot_load_unscaled env face size r.glyph_index r.font_matrix r.font_offset
                  r.build.decoder r.build.st.glyph).horiAdvance)) ∧
          (cff_has_vertical_info face = true ∨ load_flags &&& FT_TS_LOAD_VERTICAL_LAYOUT = 0 →
            (cff_slot_load env face glyph size glyph_index load_flags w).2.1.metrics.vertAdvance =
              (if load_flags &&& FT_TS_LOAD_NO_SCALE = 0 ∨ r.build.force_scaling = true then
                env.base.MulFix
                  (cff_slot_load_unscaled env face size r.glyph_index r.font_matrix
                    r.font_offset r.build.decoder r.build.st.glyph).vertAdvance
                  (cff_slot_load env face glyph size glyph_index load_flags w).2.1.y_scale
              else
                (cff_slot_load_unscaled env face size r.glyph_index r.font_matrix r.font_offset
                  r.build.decoder r.build.st.glyph).vertAdvance))) ∧
      (∀ r, cid_slot_load_glyph_loaded cenv cface cidglyph cidsize cid_index load_flags w =
          some r →
        r.1 = 0 →
        (cid_slot_load_glyph cenv cface cidglyph cidsize cid_index load_flags w).2.1.outline =
            (if (load_flags &&& FT_TS_LOAD_NO_SCALE = 0 ∨ r.2.glyph.scaled = true) ∧
                (r.2.glyph.hint = false ∨ r.2.decoder.builder.hints_funcs = false) then
              { (cid_slot_load_glyph_unscaled cenv cface cidsize r.2.decoder.font_matrix
                    r.2.decoder.font_offset r.2.decoder
                    { r.2.glyph with outline := r.2.decoder.builder.base }).outline with
                points :=
                  scale_points cenv.base.MulFix r.2.decoder.builder.base.n_points
                    (cid_slot_load_glyph cenv cface cidglyph cidsize cid_index load_flags
                      w).2.1.x_scale
                    (cid_slot_load_glyph cenv cface cidglyph cidsize cid_index load_flags
                      w).2.1.y_scale
                    (cid_slot_load_glyph_unscaled cenv cface cidsize r.2.decoder.font_matrix
                      r.2.decoder.font_offset r.2.decoder
                      { r.2.glyph with outline := r.2.decoder.builder.base }).outline.points }
            else
              (cid_slot_load_glyph_unscaled cenv cface cidsize r.2.decoder.font_matrix
                r.2.decoder.font_offset r.2.decoder
                { r.2.glyph with outline := r.2.decoder.builder.base }).outline) ∧
          (cenv.base.synthesizes_vertical ∨ load_flags &&& FT_TS_LOAD_VERTICAL_LAYOUT = 0 →
            (cid_slot_load_glyph cenv cface cidglyph cidsize cid_index load_flags
                w).2.1.metrics.horiAdvance =
              (if load_flags &&& FT_TS_LOAD_NO_SCALE = 0 ∨ r.2.glyph.scaled = true then
                cenv.base.MulFix
                  (cid_slot_load_glyph_unscaled cenv cface cidsize r.2.decoder.font_matrix
                    r.2.decoder.font_offset r.2.decoder
                    { r.2.glyph with outline := r.2.decoder.builder.base }).horiAdvance
                  (cid_slot_load_glyph cenv cface cidglyph cidsize cid_index load_flags
                    w).2.1.x_scale
              else
                (cid_slot_load_glyph_unscaled cenv cface cidsize r.2.decoder.font_matrix
                  r.2.decoder.font_offset r.2.decoder
                  { r.2.glyph with outline := r.2.decoder.builder.base }).horiAdvance)) ∧
          (load_flags &&& FT_TS_LOAD_VERTICAL_LAYOUT = 0 →
            (cid_slot_load_glyph cenv cface cidglyph cidsize cid_index load_flags
                w).2.1.metrics.vertAdvance =
              (if load_flags &&& FT_TS_LOAD_NO_SCALE = 0 ∨ r.2.glyph.scaled = true then
                cenv.base.MulFix
                  (cid_slot_load_glyph_unscaled cenv cface cidsize r.2.decoder.font_matrix
                    r.2.decoder.font_offset r.2.decoder
                    { r.2.glyph with outline := r.2.decoder.builder.base }).vertAdvance
                  (cid_slot_load_glyph cenv cface cidglyph cidsize cid_index load_flags
                    w).2.1.y_scale
              else
                (cid_slot_load_glyph_unscaled cenv cface cidsize r.2.decoder.font_matrix
                  r.2.decoder.font_offset r.2.decoder
                  { r.2.glyph with outline := r.2.decoder.builder.base }).vertAdvance))) ∧
      (∀ (n x_scale y_scale : Int) (points : List FT_TS_Vector), points.length ≤ n.toNat →
        scale_points env.base.MulFix n x_scale y_scale points =
          points.map (fun v =>
            ({ x := env.base.MulFix v.x x_scale, y := env.base.MulFix v.y y_scale } :
              FT_TS_Vector))) := by
  refine ⟨?_, ?_, fun n xs ys pts h => scale_points_all _ n xs ys pts h⟩
  · intro r hr hok
    obtain ⟨hol, -, -, hxs, hys, hh, hva, -⟩ :=
      cff_slot_load_outline_facts env face glyph size glyph_index load_flags w r hr hok hnr
    refine ⟨?_, ?_, ?_⟩
    · rw [hol, hxs, hys]
      unfold cff_slot_load_geometry
      rw [scale_outline_metrics_outline]
    · intro hs
      rw [(hh hs).1, hxs]
      unfold cff_slot_load_geometry
      rw [(scale_outline_metrics_advance _ _ _ _ _ _ _ _ _).1]
    · intro hs
      rw [hva hs, hys]
      unfold cff_slot_load_geometry
      rw [(scale_outline_metrics_advance _ _ _ _ _ _ _ _ _).2]
  · intro r hr hok
    obtain ⟨hol, -, -, hxs, hys, hx, hy, hh, hva⟩ :=
      cid_slot_load_glyph_outline_facts cenv cface cidglyph cidsize cid_index load_flags w r hr
        hok hnr
    refine ⟨?_, ?_, ?_⟩
    · rw [hol, hxs, hys, ← hx, ← hy]
      unfold cid_slot_load_glyph_geometry
      rw [scale_outline_metrics_outline]
    · intro hs
      rw [(hh hs).1, hxs, ← hx]
      unfold cid_slot_load_glyph_geometry
      rw [(scale_outline_metrics_advance _ _ _ _ _ _ _ _ _).1]
    · intro hs
      rw [hva hs, hys, ← hy]
      unfold cid_slot_load_glyph_geometry
      rw [(scale_outline_metrics_advance _ _ _ _ _ _ _ _ _).2]

/-- The sample CFF font reaches the metrics when loaded unhinted at scales
2.0 with the modelled helpers. -/
theorem Sample.cff_face_scaled_built :
    (cff_slot_load_built Sample.cff_env_model (Sample.cff_face 0xFFFF none 0 none 1) default
        (some Sample.cff_size) 0 FT_TS_LOAD_NO_HINTING Sample.world).isSome = true := by
  decide

/-- The sample CID font gets as far as `cid_load_glyph` when loaded unhinted
at scales 2.0 with the modelled helpers. -/
theorem Sample.cid_face_scaled_loaded :
    (cid_slot_load_glyph_loaded Sample.cid_env_model (Sample.cid_face none) default
        Sample.size_metrics 0 FT_TS_LOAD_NO_HINTING Sample.world).isSome = true := by
  decide

/-- C17 (witness): the sample fonts loaded unhinted at scales 2.0: the square
of side 100 comes back with side 200 from both loaders, and the width 500 of
the CFF decoder as the advance 1000. -/
theorem slot_load_scaling_witness :
    ((cff_slot_load Sample.cff_env_model (Sample.cff_face 0xFFFF none 0 none 1) default
          (some Sample.cff_size) 0 FT_TS_LOAD_NO_HINTING Sample.world).2.1.outline.points =
          [{ x := 0, y := 0 }, { x := 200, y := 0 }, { x := 200, y := 200 },
            { x := 0, y := 200 }] ∧
        (cff_slot_load Sample.cff_env_model (Sample.cff_face 0xFFFF none 0 none 1) default
          (some Sample.cff_size) 0 FT_TS_LOAD_NO_HINTING Sample.world).2.1.metrics.horiAdvance =
          1000) ∧
      (cid_slot_load_glyph Sample.cid_env_model (Sample.cid_face none) default
        Sample.size_metrics 0 FT_TS_LOAD_NO_HINTING Sample.world).2.1.outline.points =
        [{ x := 0, y := 0 }, { x := 200, y := 0 }, { x := 200, y := 200 },
          { x := 0, y := 200 }] :=
  have h := slot_load_scaling Sample.cff_env_model (Sample.cff_face 0xFFFF none 0 none 1)
    default (some Sample.cff_size) 0 FT_TS_LOAD_NO_HINTING Sample.world Sample.cid_env_model
    (Sample.cid_face none) default Sample.size_metrics 0 (by decide)
  have h1 := h.1 _ (Option.some_get Sample.cff_face_scaled_built).symm (by decide)
  have h2 := h.2.1 _ (Option.some_get Sample.cid_face_scaled_loaded).symm (by decide)
  ⟨⟨(congrArg FT_TS_Outline.points h1.1).trans (by decide),
      (h1.2.1 (Or.inl (fun _ _ => rfl))).trans (by decide)⟩,
    (congrArg FT_TS_Outline.points h2.1).trans (by decide)⟩

end ScalingClaims

theorem FT_TS_MulFix_nearest (a b : Int) :
    |FT_TS_MulFix a b * 0x10000 - a * b| ≤ 0x8000 := by
  unfold FT_TS_MulFix
  generalize a * b = p
  rw [abs_le]
  split_ifs <;> constructor <;> omega

/-- With a product for which `0x10000` is neutral, the advance that the
matrix, offset and scaling steps leave when scaling takes place is the
product by the scale of the sum of the offset and of the product by the
matrix entry, whether or not the matrix and offset steps were skipped. -/
theorem steps_advance_formula (base : FT_TS_Base) (hone : ∀ a, base.MulFix a 0x10000 = a)
    (font_matrix : FT_TS_Matrix) (font_offset : FT_TS_Vector) (a : Int) :
    ((if font_matrix.xx ≠ 0x10000 ∨ font_matrix.yy ≠ 0x10000 ∨
          font_matrix.xy ≠ 0 ∨ font_matrix.yx ≠ 0 then
        base.MulFix a font_matrix.xx else a) +
        (if font_offset.x ≠ 0 ∨ font_offset.y ≠ 0 then font_offset.x else 0) =
        base.MulFix a font_matrix.xx + font_offset.x) ∧
      ((if font_matrix.xx ≠ 0x10000 ∨ font_matrix.yy ≠ 0x10000 ∨
          font_matrix.xy ≠ 0 ∨ font_matrix.yx ≠ 0 then
        base.MulFix a font_matrix.yy else a) +
        (if font_offset.x ≠ 0 ∨ font_offset.y ≠ 0 then font_offset.y else 0) =
        base.MulFix a font_matrix.yy + font_offset.y) := by
  by_cases hm : font_matrix.xx ≠ 0x10000 ∨ font_matrix.yy ≠ 0x10000 ∨
      font_matrix.xy ≠ 0 ∨ font_matrix.yx ≠ 0 <;>
  by_cases ho : font_offset.x ≠ 0 ∨ font_offset.y ≠ 0
  · rw [if_pos hm, if_pos ho, if_pos hm, if_pos ho]
    exact ⟨rfl, rfl⟩
  · rw [if_pos hm, if_neg ho, if_pos hm, if_neg ho]
    push_neg at ho
    rw [ho.1, ho.2]
    exact ⟨rfl, rfl⟩
  · rw [if_neg hm, if_pos ho, if_neg hm, if_pos ho]
    push_neg at hm
    rw [hm.1, hm.2.1, hone]
    exact ⟨rfl, rfl⟩
  · rw [if_neg hm, if_neg ho, if_neg hm, if_neg ho]
    push_neg at hm ho
    rw [hm.1, hm.2.1, ho.1, ho.2, hone]
    exact ⟨rfl, rfl⟩

section AdvanceClaims

variable {W : Type}

/-- C18: with the modelled product `FT_MulFix`, which rounds to the nearest
16.16 number, a load without `no_recurse` that reaches the metrics without
error and in which scaling takes place returns, for the unscaled advance `A`
(`linearHoriAdvance`) and the slot's horizontal scale `S`, the horizontal
advance `FT_MulFix( FT_MulFix( A, matrix.xx ) + offset.x, S )`, which is
`FT_MulFix( A, S )` when the font matrix is the identity and the offset is
zero; the vertical advance is likewise made from `linearVertAdvance`,
`matrix.yy`, `offset.y` and the vertical scale, unless vertical metrics are
synthesized.  This holds in `cff_slot_load` and in `cid_slot_load_glyph`. -/
theorem slot_load_scaled_advance (env : CFF_Env W) (face : TT_FaceRec W)
    (glyph : T1_GlyphSlotRec) (size : Option CFF_SizeRec) (glyph_index load_flags : Nat)
    (w : W) (cenv : CID_Env W) (cface : CID_FaceRec W) (cidglyph : T1_GlyphSlotRec)
    (cidsize : FT_TS_Size_Metrics) (cid_index : Nat)
    (hnr : load_flags &&& FT_TS_LOAD_NO_RECURSE = 0)
    (hmul : env.base.MulFix = FT_TS_MulFix) (hcmul : cenv.base.MulFix = FT_TS_MulFix) :
    (∀ a b : Int, |FT_TS_MulFix a b * 0x10000 - a * b| ≤ 0x8000) ∧
      (∀ r, cff_slot_load_built env face glyph size glyph_index load_flags w = some r →
        r.build.error = 0 →
        load_flags &&& FT_TS_LOAD_NO_SCALE = 0 ∨ r.build.force_scaling = true →
        (env.base.synthesizes_vertical ∨ cff_has_vertical_info face = true ∨
            load_flags &&& FT_TS_LOAD_VERTICAL_LAYOUT = 0 →
          (cff_slot_load env face glyph size glyph_index load_flags w).2.1.metrics.horiAdvance =
              FT_TS_MulFix
                (FT_TS_MulFix
                  (cff_slot_load env face glyph size glyph_index load_flags
                    w).2.1.linearHoriAdvance
                  r.font_matrix.xx + r.font_offset.x)
                (cff_slot_load env face glyph size glyph_index load_flags w).2.1.x_scale ∧
            (r.font_matrix = { xx := 0x10000, xy := 0, yx := 0, yy := 0x10000 } →
              r.font_offset = { x := 0, y := 0 } →
              (cff_slot_load env face glyph size glyph_index load_flags
                  w).2.1.metrics.horiAdvance =
                FT_TS_MulFix
                  (cff_slot_load env face glyph size glyph_index load_flags
                    w).2.1.linearHoriAdvance
                  (cff_slot_load env face glyph size glyph_index load_flags w).2.1.x_scale)) ∧
        (cff_has_vertical_info face = true ∨ load_flags &&& FT_TS_LOAD_VERTICAL_LAYOUT = 0 →
          (cff_slot_load env face glyph size glyph_index load_flags w).2.1.metrics.vertAdvance =
            FT_TS_MulFix
              (FT_TS_MulFix
                (cff_slot_load env face glyph size glyph_index load_flags
                  w).2.1.linearVertAdvance
                r.font_matrix.yy + r.font_offset.y)
              (cff_slot_load env face glyph size glyph_index load_flags w).2.1.y_scale)) ∧
      (∀ r, cid_slot_load_glyph_loaded cenv cface cidglyph cidsize cid_index load_flags w =
          some r →
        r.1 = 0 →
        load_flags &&& FT_TS_LOAD_NO_SCALE = 0 ∨ r.2.glyph.scaled = true →
        (cenv.base.synthesizes_vertical ∨ load_flags &&& FT_TS_LOAD_VERTICAL_LAYOUT = 0 →
          (cid_slot_load_glyph cenv cface cidglyph cidsize cid_index load_flags
              w).2.1.metrics.horiAdvance =
              FT_TS_MulFix
                (FT_TS_MulFix
                  (cid_slot_load_glyph cenv cface cidglyph cidsize cid_index load_flags
                    w).2.1.linearHoriAdvance
                  r.2.decoder.font_matrix.xx + r.2.decoder.font_offset.x)
                (cid_slot_load_glyph cenv cface cidglyph cidsize cid_index load_flags
                  w).2.1.x_scale ∧
            (r.2.decoder.font_matrix = { xx := 0x10000, xy := 0, yx := 0, yy := 0x10000 } →
              r.2.decoder.font_offset = { x := 0, y := 0 } →
              (cid_slot_load_glyph cenv cface cidglyph cidsize cid_index load_flags
                  w).2.1.metrics.horiAdvance =
                FT_TS_MulFix
                  (cid_slot_load_glyph cenv cface cidglyph cidsize cid_index load_flags
                    w).2.1.linearHoriAdvance
                  (cid_slot_load_glyph cenv cface cidglyph cidsize cid_index load_flags
                    w).2.1.x_scale)) ∧
        (load_flags &&& FT_TS_LOAD_VERTICAL_LAYOUT = 0 →
          (cid_slot_load_glyph cenv cface cidglyph cidsize cid_index load_flags
              w).2.1.metrics.vertAdvance =
            FT_TS_MulFix
              (FT_TS_MulFix
                (cid_slot_load_glyph cenv cface cidglyph cidsize cid_index load_flags
                  w).2.1.linearVertAdvance
                r.2.decoder.font_matrix.yy + r.2.decoder.font_offset.y)
              (cid_slot_load_glyph cenv cface cidglyph cidsize cid_index load_flags
                w).2.1.y_scale)) := by
  have hone : ∀ a, env.base.MulFix a 0x10000 = a := by
    intro a
    rw [hmul, FT_TS_MulFix_one]
  have hcone : ∀ a, cenv.base.MulFix a 0x10000 = a := by
    intro a
    rw [hcmul, FT_TS_MulFix_one]
  refine ⟨FT_TS_MulFix_nearest, ?_, ?_⟩
  · intro r hr hok hrun
    obtain ⟨-, hlh, hlv, hxs, hys, hh, hva, -⟩ :=
      cff_slot_load_outline_facts env face glyph size glyph_index load_flags w r hr hok hnr
    have key : (env.base.synthesizes_vertical ∨ cff_has_vertical_info face = true ∨
        load_flags &&& FT_TS_LOAD_VERTICAL_LAYOUT = 0) →
        (cff_slot_load env face glyph size glyph_index load_flags
        w).2.1.metrics.horiAdvance =
        FT_TS_MulFix
          (FT_TS_MulFix
            (cff_slot_load env face glyph size glyph_index load_flags w).2.1.linearHoriAdvance
            r.font_matrix.xx + r.font_offset.x)
          (cff_slot_load env face glyph size glyph_index load_flags w).2.1.x_scale := by
      intro hs
      rw [(hh hs).1, hlh, hxs]
      unfold cff_slot_load_geometry cff_slot_load_unscaled
      rw [(steps_advance _ _ _ _ _ _ _ _ _ _ _).1, if_pos hrun,
        (steps_advance_formula env.base hone r.font_matrix r.font_offset _).1, hmul]
    refine ⟨fun hs => ⟨key hs, ?_⟩, ?_⟩
    · intro hfm hfo
      rw [key hs, hfm, hfo, FT_TS_MulFix_one, add_zero]
    · intro hs
      rw [hva hs, hlv, hys]
      unfold cff_slot_load_geometry cff_slot_load_unscaled
      rw [(steps_advance _ _ _ _ _ _ _ _ _ _ _).2, if_pos hrun,
        (steps_advance_formula env.base hone r.font_matrix r.font_offset _).2, hmul]
  · intro r hr hok hrun
    obtain ⟨-, hlh, hlv, hxs, hys, hx, hy, hh, hva⟩ :=
      cid_slot_load_glyph_outline_facts cenv cface cidglyph cidsize cid_index load_flags w r hr
        hok hnr
    have key : (cenv.base.synthesizes_vertical ∨
        load_flags &&& FT_TS_LOAD_VERTICAL_LAYOUT = 0) →
        (cid_slot_load_glyph cenv cface cidglyph cidsize cid_index load_flags
        w).2.1.metrics.horiAdvance =
        FT_TS_MulFix
          (FT_TS_MulFix
            (cid_slot_load_glyph cenv cface cidglyph cidsize cid_index load_flags
              w).2.1.linearHoriAdvance
            r.2.decoder.font_matrix.xx + r.2.decoder.font_offset.x)
          (cid_slot_load_glyph cenv cface cidglyph cidsize cid_index load_flags
            w).2.1.x_scale := by
      intro hs
      rw [(hh hs).1, hlh, hxs, ← hx]
      unfold cid_slot_load_glyph_geometry cid_slot_load_glyph_unscaled
      rw [(steps_advance _ _ _ _ _ _ _ _ _ _ _).1, if_pos hrun,
        (steps_advance_formula cenv.base hcone r.2.decoder.font_matrix r.2.decoder.font_offset
          _).1, hcmul]
    refine ⟨fun hs => ⟨key hs, ?_⟩, ?_⟩
    · intro hfm hfo
      rw [key hs, hfm, hfo, FT_TS_MulFix_one, add_zero]
    · intro hs
      rw [hva hs, hlv, hys, ← hy]
      unfold cid_slot_load_glyph_geometry cid_slot_load_glyph_unscaled
      rw [(steps_advance _ _ _ _ _ _ _ _ _ _ _).2, if_pos hrun,
        (steps_advance_formula cenv.base hcone r.2.decoder.font_matrix r.2.decoder.font_offset
          _).2, hcmul]

/-- C18 (witness): the sample fonts loaded unhinted at scales 2.0 with the
modelled product: the unscaled advance 500 comes back as 1000 from both
loaders. -/
theorem slot_load_scaled_advance_witness :
    (cff_slot_load Sample.cff_env_model (Sample.cff_face 0xFFFF none 0 none 1) default
        (some Sample.cff_size) 0 FT_TS_LOAD_NO_HINTING Sample.world).2.1.metrics.horiAdvance =
        1000 ∧
      (cid_slot_load_glyph Sample.cid_env_model (Sample.cid_face none) default
        Sample.size_metrics 0 FT_TS_LOAD_NO_HINTING Sample.world).2.1.metrics.horiAdvance =
        1000 :=
  have h := slot_load_scaled_advance Sample.cff_env_model (Sample.cff_face 0xFFFF none 0 none 1)
    default (some Sample.cff_size) 0 FT_TS_LOAD_NO_HINTING Sample.world Sample.cid_env_model
    (Sample.cid_face none) default Sample.size_metrics 0 (by decide) rfl rfl
  ⟨((h.2.1 _ (Option.some_get Sample.cff_face_scaled_built).symm (by decide) (by decide)).1
      (Or.inl (fun _ _ => rfl))).1.trans (by decide),
    ((h.2.2 _ (Option.some_get Sample.cid_face_scaled_loaded).symm (by decide) (by decide)).1
      (Or.inl (fun _ _ => rfl))).1.trans (by decide)⟩

end AdvanceClaims

theorem foldl_min_le (f : FT_TS_Vector → Int) (vs : List FT_TS_Vector) (a : Int) :
    vs.foldl (fun a u => min a (f u)) a ≤ a := by
  induction vs generalizing a with
  | nil => exact le_refl _
  | cons v vs ih => exact le_trans (ih _) (min_le_left _ _)

theorem le_foldl_max (f : FT_TS_Vector → Int) (vs : List FT_TS_Vector) (a : Int) :
    a ≤ vs.foldl (fun a u => max a (f u)) a := by
  induction vs generalizing a with
  | nil => exact le_refl _
  | cons v vs ih => exact le_trans (le_max_left _ _) (ih _)

/-- The modelled control box is a box: its left edge is not to the right of
its right edge, nor its bottom above its top; and it is the box at the
origin for an outline without points. -/
theorem FT_TS_Outline_Get_CBox_box (o : FT_TS_Outline) :
    (FT_TS_Outline_Get_CBox o).xMin ≤ (FT_TS_Outline_Get_CBox o).xMax ∧
      (FT_TS_Outline_Get_CBox o).yMin ≤ (FT_TS_Outline_Get_CBox o).yMax ∧
      (o.points = [] →
        FT_TS_Outline_Get_CBox o = { xMin := 0, yMin := 0, xMax := 0, yMax := 0 }) := by
  unfold FT_TS_Outline_Get_CBox
  cases h : o.points with
  | nil => exact ⟨le_refl _, le_refl _, fun _ => rfl⟩
  | cons v vs =>
    refine ⟨?_, ?_, fun hc => absurd hc (by simp)⟩
    · exact le_trans (foldl_min_le (fun u => u.x) vs v.x) (le_foldl_max (fun u => u.x) vs v.x)
    · exact le_trans (foldl_min_le (fun u => u.y) vs v.y) (le_foldl_max (fun u => u.y) vs v.y)

section SquareClaims

variable {W : Type}

/-- C20: a load by `cff_slot_load`, with the modelled product and control
box, of a glyph for which the decoder leaves the square
(0,0),(100,0),(100,100),(0,100), four points in one contour, and the width
500, the font matrix being the identity, the offset zero, the face without
horizontal metrics table and the builder without hinter.  With `no_scale`
(and scaling not forced) the slot holds 4 points in 1 contour, the advance
500 and the box (0,0)-(100,100); with `no_scale` clear and both scales
`0x20000` it holds the advance 1000 and the box (0,0)-(200,200). -/
theorem cff_slot_load_square (env : CFF_Env W) (face : TT_FaceRec W)
    (glyph : T1_GlyphSlotRec) (size : Option CFF_SizeRec) (glyph_index load_flags : Nat)
    (w : W) (r : CFF_Built W)
    (hr : cff_slot_load_built env face glyph size glyph_index load_flags w = some r)
    (hok : r.build.error = 0)
    (hnr : load_flags &&& FT_TS_LOAD_NO_RECURSE = 0)
    (hmul : env.base.MulFix = FT_TS_MulFix)
    (hcb : env.base.Outline_Get_CBox = FT_TS_Outline_Get_CBox)
    (hsyn : env.base.synthesizes_vertical)
    (hsq : r.build.decoder.builder.base = Sample.square)
    (hwd : r.build.decoder.glyph_width = 500)
    (hfm : r.font_matrix = { xx := 0x10000, xy := 0, yx := 0, yy := 0x10000 })
    (hfo : r.font_offset = { x := 0, y := 0 })
    (hhm : face.horizontal.number_Of_HMetrics = 0)
    (hhf : r.build.decoder.builder.hints_funcs = false) :
    (load_flags &&& FT_TS_LOAD_NO_SCALE ≠ 0 → r.build.force_scaling = false →
        (cff_slot_load env face glyph size glyph_index load_flags w).1 = 0 ∧
          (cff_slot_load env face glyph size glyph_index load_flags w).2.1.outline.n_points = 4 ∧
          (cff_slot_load env face glyph size glyph_index load_flags w).2.1.outline.n_contours =
            1 ∧
          (cff_slot_load env face glyph size glyph_index load_flags w).2.1.outline.points =
            [{ x := 0, y := 0 }, { x := 100, y := 0 }, { x := 100, y := 100 },
              { x := 0, y := 100 }] ∧
          (cff_slot_load env face glyph size glyph_index load_flags w).2.1.metrics.horiAdvance =
            500 ∧
          env.base.Outline_Get_CBox
              (cff_slot_load env face glyph size glyph_index load_flags w).2.1.outline =
            { xMin := 0, yMin := 0, xMax := 100, yMax := 100 } ∧
          (cff_slot_load env face glyph size glyph_index load_flags w).2.1.metrics.width = 100 ∧
          (cff_slot_load env face glyph size glyph_index load_flags w).2.1.metrics.height = 100 ∧
          (cff_slot_load env face glyph size glyph_index load_flags w).2.1.metrics.horiBearingX =
            0 ∧
          (cff_slot_load env face glyph size glyph_index load_flags w).2.1.metrics.horiBearingY =
            100) ∧
      (load_flags &&& FT_TS_LOAD_NO_SCALE = 0 →
        (cff_slot_load env face glyph size glyph_index load_flags w).2.1.x_scale = 0x20000 →
        (cff_slot_load env face glyph size glyph_index load_flags w).2.1.y_scale = 0x20000 →
        (cff_slot_load env face glyph size glyph_index load_flags w).1 = 0 ∧
          (cff_slot_load env face glyph size glyph_index load_flags w).2.1.outline.n_points = 4 ∧
          (cff_slot_load env face glyph size glyph_index load_flags w).2.1.outline.n_contours =
            1 ∧
          (cff_slot_load env face glyph size glyph_index load_flags w).2.1.outline.points =
            [{ x := 0, y := 0 }, { x := 200, y := 0 }, { x := 200, y := 200 },
              { x := 0, y := 200 }] ∧
          (cff_slot_load env face glyph size glyph_index load_flags w).2.1.metrics.horiAdvance =
            1000 ∧
          env.base.Outline_Get_CBox
              (cff_slot_load env face glyph size glyph_index load_flags w).2.1.outline =
            { xMin := 0, yMin := 0, xMax := 200, yMax := 200 } ∧
          (cff_slot_load env face glyph size glyph_index load_flags w).2.1.metrics.width = 200 ∧
          (cff_slot_load env face glyph size glyph_index load_flags w).2.1.metrics.height = 200 ∧
          (cff_slot_load env face glyph size glyph_index load_flags w).2.1.metrics.horiBearingX =
            0 ∧
          (cff_slot_load env face glyph size glyph_index load_flags w).2.1.metrics.horiBearingY =
            200) := by
  have hst := cff_slot_load_built_state env face glyph size glyph_index load_flags w r hr
  have hol0 : r.build.st.glyph.outline = Sample.square := by
    rw [hst.2.2.2.2.2.2.2.2.2.2.2.2.1 hok, hsq]
  obtain ⟨herr, -⟩ :=
    cff_slot_load_outline_slot env face glyph size glyph_index load_flags w r hr hok hnr
  obtain ⟨hol, -, -, hxs, hys, hh, -⟩ :=
    cff_slot_load_outline_facts env face glyph size glyph_index load_flags w r hr hok hnr
  obtain ⟨hadv, hw, hht, hbx, hby⟩ := hh (Or.inl hsyn)
  have hU : cff_slot_load_unscaled env face size r.glyph_index r.font_matrix r.font_offset
      r.build.decoder r.build.st.glyph =
      { outline := { Sample.square with flags := cff_slot_load_outline_flags size }
        horiAdvance := 500
        vertAdvance := cff_slot_load_vertAdvance env face r.glyph_index } := by
    unfold cff_slot_load_unscaled apply_font_offset apply_font_matrix cff_slot_load_horiAdvance
    rw [hfm, hfo, hol0, hwd, if_neg (not_not.mpr hhm)]
    simp
  constructor
  · intro hns hfs
    have hG : cff_slot_load_geometry env face size r.glyph_index load_flags r.build.hinting
        r.build.force_scaling r.font_matrix r.font_offset r.build.decoder r.build.st.glyph =
        { outline := { Sample.square with flags := cff_slot_load_outline_flags size }
          horiAdvance := 500
          vertAdvance := cff_slot_load_vertAdvance env face r.glyph_index } := by
      unfold cff_slot_load_geometry scale_outline_metrics
      rw [hU, hfs, if_neg (by simp [hns])]
    rw [hw, hht, hbx, hby, hadv, hol, hG, hcb]
    exact ⟨herr, rfl, rfl, rfl, rfl, rfl, rfl, rfl, rfl, rfl⟩
  · intro hsc hx hy
    rw [hxs] at hx
    rw [hys] at hy
    have hG : cff_slot_load_geometry env face size r.glyph_index load_flags r.build.hinting
        r.build.force_scaling r.font_matrix r.font_offset r.build.decoder r.build.st.glyph =
        { outline :=
            { Sample.square with
              flags := cff_slot_load_outline_flags size
              points := [{ x := 0, y := 0 }, { x := 200, y := 0 }, { x := 200, y := 200 },
                { x := 0, y := 200 }] }
          horiAdvance := 1000
          vertAdvance := FT_TS_MulFix (cff_slot_load_vertAdvance env face r.glyph_index)
            0x20000 } := by
      unfold cff_slot_load_geometry scale_outline_metrics
      rw [hU, hx, hy, hhf, hmul, if_pos (Or.inl hsc), if_pos (Or.inr rfl)]
      have h1 : scale_points FT_TS_MulFix Sample.square.n_points 0x20000 0x20000
          Sample.square.points =
          [{ x := 0, y := 0 }, { x := 200, y := 0 }, { x := 200, y := 200 },
            { x := 0, y := 200 }] := by decide
      have h2 : FT_TS_MulFix 500 0x20000 = 1000 := by decide
      simp only []
      rw [h2]
      rw [h1]
    rw [hw, hht, hbx, hby, hadv, hol, hG, hcb]
    exact ⟨herr, rfl, rfl, rfl, rfl, rfl, rfl, rfl, rfl, rfl⟩

/-- The sample CFF font reaches the metrics when loaded unhinted with
`no_scale` and the modelled helpers. -/
theorem Sample.cff_face_unscaled_built :
    (cff_slot_load_built Sample.cff_env_model (Sample.cff_face 0xFFFF none 0 none 1) default
        (some Sample.cff_size) 0 (FT_TS_LOAD_NO_SCALE ||| FT_TS_LOAD_NO_HINTING)
        Sample.world).isSome = true := by
  decide

/-- C20 (witness): the sample font, whose decoder leaves the square and the
width 500, loaded unhinted with `no_scale` and then at scales 2.0: advance
500 and box (0,0)-(100,100), then advance 1000 and box (0,0)-(200,200). -/
theorem cff_slot_load_square_witness :
    ((cff_slot_load Sample.cff_env_model (Sample.cff_face 0xFFFF none 0 none 1) default
          (some Sample.cff_size) 0 (FT_TS_LOAD_NO_SCALE ||| FT_TS_LOAD_NO_HINTING)
          Sample.world).2.1.metrics.horiAdvance = 500 ∧
        Sample.cff_env_model.base.Outline_Get_CBox
            (cff_slot_load Sample.cff_env_model (Sample.cff_face 0xFFFF none 0 none 1) default
              (some Sample.cff_size) 0 (FT_TS_LOAD_NO_SCALE ||| FT_TS_LOAD_NO_HINTING)
              Sample.world).2.1.outline =
          { xMin := 0, yMin := 0, xMax := 100, yMax := 100 }) ∧
      (cff_slot_load Sample.cff_env_model (Sample.cff_face 0xFFFF none 0 none 1) default
          (some Sample.cff_size) 0 FT_TS_LOAD_NO_HINTING Sample.world).2.1.metrics.horiAdvance =
          1000 ∧
        Sample.cff_env_model.base.Outline_Get_CBox
            (cff_slot_load Sample.cff_env_model (Sample.cff_face 0xFFFF none 0 none 1) default
              (some Sample.cff_size) 0 FT_TS_LOAD_NO_HINTING Sample.world).2.1.outline =
          { xMin := 0, yMin := 0, xMax := 200, yMax := 200 } :=
  have h1 := (cff_slot_load_square Sample.cff_env_model (Sample.cff_face 0xFFFF none 0 none 1)
    default (some Sample.cff_size) 0 (FT_TS_LOAD_NO_SCALE ||| FT_TS_LOAD_NO_HINTING)
    Sample.world _ (Option.some_get Sample.cff_face_unscaled_built).symm (by decide) (by decide)
    rfl rfl (fun _ _ => rfl) (by decide) (by decide) (by decide) (by decide) (by decide)
    (by decide)).1 (by decide) (by decide)
  have h2 := (cff_slot_load_square Sample.cff_env_model (Sample.cff_face 0xFFFF none 0 none 1)
    default (some Sample.cff_size) 0 FT_TS_LOAD_NO_HINTING
    Sample.world _ (Option.some_get Sample.cff_face_scaled_built).symm (by decide) (by decide)
    rfl rfl (fun _ _ => rfl) (by decide) (by decide) (by decide) (by decide) (by decide)
    (by decide)).2 (by decide) (by decide) (by decide)
  ⟨⟨h1.2.2.2.2.1, h1.2.2.2.2.2.1⟩, h2.2.2.2.2.1, h2.2.2.2.2.2.1⟩

end SquareClaims

/-! ## The monochrome renderer -/

theorem FT_TS_Outline_Translate_back (o : FT_TS_Outline) (dx dy : Int) :
    FT_TS_Outline_Translate (FT_TS_Outline_Translate o dx dy) (-dx) (-dy) = o := by
  cases o
  simp only [FT_TS_Outline_Translate, List.map_map, FT_TS_Outline.mk.injEq, true_and, and_true]
  simp [Function.comp_def]

section RasterProofs

variable {W : Type}

theorem ft_raster1_render_release_facts (env : Raster_Env W) (slot : FT_TS_GlyphSlotRec) (w : W)
    (tr : List Raster_Event) :
    (ft_raster1_render_release env slot w tr).1.outline = slot.outline ∧
      (ft_raster1_render_release env slot w tr).1.format = slot.format ∧
      (ft_raster1_render_release env slot w tr).2.2 = tr ++ [Raster_Event.mem_free] :=
  ⟨rfl, rfl, rfl⟩

/-- What `Exit` does to the outline and to the trace. -/
theorem ft_raster1_render_Exit_facts (env : Raster_Env W) (error : FT_TS_Error)
    (x_shift y_shift : Int) (slot : FT_TS_GlyphSlotRec) (w : W) (tr : List Raster_Event) :
    (ft_raster1_render_Exit env error x_shift y_shift slot w tr).1 = error ∧
      (ft_raster1_render_Exit env error x_shift y_shift slot w tr).2.1.outline =
        (if x_shift ≠ 0 ∨ y_shift ≠ 0 then
          env.base.Outline_Translate slot.outline (-x_shift) (-y_shift)
        else slot.outline) ∧
      ∃ fr, (∀ e ∈ fr, e = Raster_Event.mem_free) ∧
        (ft_raster1_render_Exit env error x_shift y_shift slot w tr).2.2.2 =
          tr ++ fr ++
            (if x_shift ≠ 0 ∨ y_shift ≠ 0 then
              [Raster_Event.outline_translate (-x_shift) (-y_shift)]
            else []) := by
  by_cases hs : x_shift ≠ 0 ∨ y_shift ≠ 0
  · by_cases he : error = 0
    · refine ⟨?_, ?_, [], by simp, ?_⟩ <;> simp [ft_raster1_render_Exit, hs, he]
    · by_cases ho : slot.internal_flags &&& FT_TS_GLYPH_OWN_BITMAP ≠ 0
      · refine ⟨?_, ?_, [Raster_Event.mem_free], by simp, ?_⟩ <;>
          simp [ft_raster1_render_Exit, hs, he, ho, ft_raster1_render_release]
      · refine ⟨?_, ?_, [], by simp, ?_⟩ <;> simp [ft_raster1_render_Exit, hs, he, ho]
  · by_cases he : error = 0
    · refine ⟨?_, ?_, [], by simp, ?_⟩ <;> simp [ft_raster1_render_Exit, hs, he]
    · by_cases ho : slot.internal_flags &&& FT_TS_GLYPH_OWN_BITMAP ≠ 0
      · refine ⟨?_, ?_, [Raster_Event.mem_free], by simp, ?_⟩ <;>
          simp [ft_raster1_render_Exit, hs, he, ho, ft_raster1_render_release]
      · refine ⟨?_, ?_, [], by simp, ?_⟩ <;> simp [ft_raster1_render_Exit, hs, he, ho]

/-- What lines 142-160 do to the outline and to the trace. -/
theorem ft_raster1_render_draw_facts (env : Raster_Env W) (slot : FT_TS_GlyphSlotRec)
    (origin : Option FT_TS_Vector) (w : W) (tr : List Raster_Event) :
    (ft_raster1_render_draw env slot origin w tr).2.2.2.1.outline =
        (if (ft_raster1_render_draw env slot origin w tr).2.1 ≠ 0 ∨
            (ft_raster1_render_draw env slot origin w tr).2.2.1 ≠ 0 then
          env.base.Outline_Translate slot.outline
            (ft_raster1_render_draw env slot origin w tr).2.1
            (ft_raster1_render_draw env slot origin w tr).2.2.1
        else slot.outline) ∧
      (ft_raster1_render_draw env slot origin w tr).2.2.2.2.2 =
        tr ++
          (if (ft_raster1_render_draw env slot origin w tr).2.1 ≠ 0 ∨
              (ft_raster1_render_draw env slot origin w tr).2.2.1 ≠ 0 then
            [Raster_Event.outline_translate (ft_raster1_render_draw env slot origin w tr).2.1
              (ft_raster1_render_draw env slot origin w tr).2.2.1]
          else []) ++
          [Raster_Event.raster_render (ft_raster1_render_draw env slot origin w tr).1] := by
  unfold ft_raster1_render_draw
  simp only []
  constructor
  · split_ifs <;> rfl
  · split_ifs <;> simp

end RasterProofs

section RasterClaims

variable {W : Type}

/-- C28: `ft_raster1_render` leaves the outline of the slot as it found it,
provided `ft_glyphslot_preset_bitmap` does not touch the outline and
`FT_TS_Outline_Translate` adds the offset to every point.  The translations
it makes are either none, or one by `(x_shift, y_shift)` before the call of
the rasterizer and one by `(-x_shift, -y_shift)` after it; on the paths that
leave before the shift is computed (format mismatch, mode other than mono,
preset overflow, failed allocation) there is no translation at all. -/
theorem ft_raster1_render_outline (env : Raster_Env W) (render : FT_TS_RendererRec)
    (slot : FT_TS_GlyphSlotRec) (mode : Nat) (origin : Option FT_TS_Vector) (w : W)
    (hpreset : ∀ s m o, (env.ft_glyphslot_preset_bitmap s m o).2.outline = s.outline)
    (htranslate : env.base.Outline_Translate = FT_TS_Outline_Translate) :
    (ft_raster1_render env render slot mode origin w).2.1.outline = slot.outline ∧
      ((ft_raster1_render env render slot mode origin w).2.2.2.filter
            Raster_Event.isTranslate = [] ∨
        ∃ x y, (x ≠ 0 ∨ y ≠ 0) ∧
          (ft_raster1_render env render slot mode origin w).2.2.2.filter
              (fun e => e.isTranslate || e.isRender) =
            [Raster_Event.outline_translate x y,
              Raster_Event.raster_render (ft_raster1_render env render slot mode origin w).1,
              Raster_Event.outline_translate (-x) (-y)]) ∧
      ((slot.format ≠ render.glyph_format ∨ mode ≠ FT_TS_RENDER_MODE_MONO ∨
          Raster_Event.preset_bitmap true ∈
            (ft_raster1_render env render slot mode origin w).2.2.2 ∨
          (∃ rows pitch e, e ≠ 0 ∧ Raster_Event.alloc_mult rows pitch e ∈
            (ft_raster1_render env render slot mode origin w).2.2.2)) →
        (ft_raster1_render env render slot mode origin w).2.2.2.filter
          Raster_Event.isTranslate = []) := by
  have hfr : ∀ fr : List Raster_Event, (∀ e ∈ fr, e = Raster_Event.mem_free) →
      fr.filter Raster_Event.isTranslate = [] ∧
        fr.filter (fun e => e.isTranslate || e.isRender) = [] := by
    intro fr h
    constructor <;>
    · rw [List.filter_eq_nil_iff]
      intro e he
      rw [h e he]
      simp [Raster_Event.isTranslate, Raster_Event.isRender]
  have kt : ∀ x y, ((Raster_Event.outline_translate x y).isTranslate = true) := fun _ _ => rfl
  have kr : ∀ e, ((Raster_Event.raster_render e).isTranslate = false ∧
      (Raster_Event.raster_render e).isRender = true) := fun _ => ⟨rfl, rfl⟩
  have kp : ∀ b, ((Raster_Event.preset_bitmap b).isTranslate = false ∧
      (Raster_Event.preset_bitmap b).isRender = false) := fun _ => ⟨rfl, rfl⟩
  have ka : ∀ r q e, ((Raster_Event.alloc_mult r q e).isTranslate = false ∧
      (Raster_Event.alloc_mult r q e).isRender = false) := fun _ _ _ => ⟨rfl, rfl⟩
  unfold ft_raster1_render
  by_cases hf : slot.format ≠ render.glyph_format
  · rw [if_pos hf]
    obtain ⟨-, h2, fr, hfr1, h3⟩ :=
      ft_raster1_render_Exit_facts env FT_TS_Err_Invalid_Argument 0 0 slot w []
    rw [h2, h3]
    simp [(hfr fr hfr1).1]
  · rw [if_neg hf]
    by_cases hm : mode ≠ FT_TS_RENDER_MODE_MONO
    · rw [if_pos hm]
      simp
    · rw [if_neg hm]
      simp only []
      have hs1 : ∀ s1 : FT_TS_GlyphSlotRec × W × List Raster_Event,
          s1 = (if slot.internal_flags &&& FT_TS_GLYPH_OWN_BITMAP ≠ 0 then
            ft_raster1_render_release env slot w [] else (slot, w, [])) →
          s1.1.outline = slot.outline ∧ ∀ e ∈ s1.2.2, e = Raster_Event.mem_free := by
        intro s1 h
        subst h
        by_cases ho : slot.internal_flags &&& FT_TS_GLYPH_OWN_BITMAP ≠ 0
        · rw [if_pos ho]
          simp [ft_raster1_render_release]
        · rw [if_neg ho]
          simp
      generalize (if slot.internal_flags &&& FT_TS_GLYPH_OWN_BITMAP ≠ 0 then
        ft_raster1_render_release env slot w [] else (slot, w, [])) = s1 at hs1 ⊢
      obtain ⟨hs1o, hs1t⟩ := hs1 s1 rfl
      have hpo := hpreset s1.1 mode origin
      generalize env.ft_glyphslot_preset_bitmap s1.1 mode origin = p at hpo ⊢
      by_cases hp : p.1 = true
      · rw [if_pos hp]
        obtain ⟨-, h2, fr, hfr1, h3⟩ :=
          ft_raster1_render_Exit_facts env FT_TS_Err_Raster_Overflow 0 0 p.2 s1.2.1
            (s1.2.2 ++ [Raster_Event.preset_bitmap p.1])
        rw [h2, h3]
        simp [(hfr fr hfr1).1, (hfr _ hs1t).1, hpo, hs1o, Raster_Event.isTranslate]
      · rw [if_neg hp]
        generalize ha' : env.alloc_mult p.2.bitmap.rows p.2.bitmap.pitch s1.2.1 = a
        by_cases ha : a.1 ≠ 0
        · rw [if_pos ha]
          obtain ⟨-, h2, fr, hfr1, h3⟩ :=
            ft_raster1_render_Exit_facts env a.1 0 0
              { p.2 with bitmap := { p.2.bitmap with buffer := a.2.1 } } a.2.2
              (s1.2.2 ++ [Raster_Event.preset_bitmap p.1] ++
                [Raster_Event.alloc_mult p.2.bitmap.rows p.2.bitmap.pitch a.1])
          rw [h2, h3]
          simp [(hfr fr hfr1).1, (hfr _ hs1t).1, hpo, hs1o, Raster_Event.isTranslate]
        · rw [if_neg ha]
          have ha0 : a.1 = 0 := not_not.mp ha
          have hp0 : p.1 = false := by simpa using hp
          obtain ⟨hd1, hd2⟩ := ft_raster1_render_draw_facts env
            { p.2 with bitmap := { p.2.bitmap with buffer := a.2.1 } } origin a.2.2
            (s1.2.2 ++ [Raster_Event.preset_bitmap p.1] ++
              [Raster_Event.alloc_mult p.2.bitmap.rows p.2.bitmap.pitch a.1])
          generalize ft_raster1_render_draw env
            { p.2 with bitmap := { p.2.bitmap with buffer := a.2.1 } } origin a.2.2
            (s1.2.2 ++ [Raster_Event.preset_bitmap p.1] ++
              [Raster_Event.alloc_mult p.2.bitmap.rows p.2.bitmap.pitch a.1]) = d at hd1 hd2 ⊢
          obtain ⟨h1, h2, fr, hfr1, h3⟩ :=
            ft_raster1_render_Exit_facts env d.1 d.2.1 d.2.2.1 d.2.2.2.1 d.2.2.2.2.1 d.2.2.2.2.2
          rw [h1, h2, h3, hd1, hd2]
          have hmem : ∀ e ∈ s1.2.2 ++ fr, e = Raster_Event.mem_free := by
            intro e he
            rcases List.mem_append.mp he with he | he
            · exact hs1t e he
            · exact hfr1 e he
          by_cases hs : d.2.1 ≠ 0 ∨ d.2.2.1 ≠ 0
          · simp only [if_pos hs, htranslate, FT_TS_Outline_Translate_back]
            refine ⟨by rw [hpo, hs1o], Or.inr ⟨d.2.1, d.2.2.1, hs, ?_⟩, ?_⟩
            · simp only [List.filter_append, List.filter_cons, List.filter_nil,
                (hfr fr hfr1).2, (hfr _ hs1t).2, kt, kr, kp, ka, Bool.or_false, Bool.or_true,
                Bool.false_or, Bool.true_or, if_true, if_false, List.nil_append, List.append_nil,
                List.cons_append, List.singleton_append, Bool.false_eq_true]
            · intro h
              rcases h with h | h | h | ⟨rows, pitch, e, he, h⟩
              · exact absurd h hf
              · exact absurd h hm
              · simp [hp0] at h
                rcases h with h | h
                · exact absurd (hs1t _ h) (by simp)
                · exact absurd (hfr1 _ h) (by simp)
              · simp at h
                rcases h with h | h | h
                · exact absurd (hs1t _ h) (by simp)
                · exact absurd (h.2.2.trans ha0) he
                · exact absurd (hfr1 _ h) (by simp)
          · simp only [if_neg hs]
            refine ⟨by rw [hpo, hs1o], Or.inl ?_, fun _ => ?_⟩ <;>
              simp [(hfr fr hfr1).1, (hfr _ hs1t).1, Raster_Event.isTranslate]

end RasterClaims

section RasterClaims2

variable {W : Type}

/-- C28 (witness): the sample slot is rendered with a shift of -64, and the
square comes back as it was. -/
theorem ft_raster1_render_outline_witness :
    (ft_raster1_render (Sample.raster_env false 0 0) Sample.raster1 Sample.raster_slot
        FT_TS_RENDER_MODE_MONO none Sample.world).2.1.outline = Sample.raster_slot.outline ∧
      (ft_raster1_render (Sample.raster_env false 0 0) Sample.raster1 Sample.raster_slot
        FT_TS_RENDER_MODE_MONO none Sample.world).2.2.2.filter Raster_Event.isTranslate =
        [Raster_Event.outline_translate (-64) 0, Raster_Event.outline_translate 64 0] :=
  ⟨(ft_raster1_render_outline (Sample.raster_env false 0 0) Sample.raster1 Sample.raster_slot
      FT_TS_RENDER_MODE_MONO none Sample.world (fun _ _ _ => rfl) rfl).1, by decide⟩

theorem own_bitmap_set (x : Nat) : (x ||| FT_TS_GLYPH_OWN_BITMAP) &&& FT_TS_GLYPH_OWN_BITMAP ≠ 0 := by
  apply ne_zero_of_testBit _ 0
  simp [FT_TS_GLYPH_OWN_BITMAP, Nat.testBit_and, Nat.testBit_or]

theorem ft_raster1_render_draw_flags (env : Raster_Env W) (slot : FT_TS_GlyphSlotRec)
    (origin : Option FT_TS_Vector) (w : W) (tr : List Raster_Event) :
    (ft_raster1_render_draw env slot origin w tr).2.2.2.1.internal_flags =
      slot.internal_flags ||| FT_TS_GLYPH_OWN_BITMAP := by
  unfold ft_raster1_render_draw
  simp only []
  split_ifs <;> rfl

/-- What `Exit` does to the format and to the flags of the slot. -/
theorem ft_raster1_render_Exit_ok (env : Raster_Env W) (error : FT_TS_Error)
    (x_shift y_shift : Int) (slot : FT_TS_GlyphSlotRec) (w : W) (tr : List Raster_Event)
    (h : (ft_raster1_render_Exit env error x_shift y_shift slot w tr).1 = 0) :
    (ft_raster1_render_Exit env error x_shift y_shift slot w tr).2.1.format =
        FT_TS_GLYPH_FORMAT_BITMAP ∧
      (ft_raster1_render_Exit env error x_shift y_shift slot w tr).2.1.internal_flags =
        slot.internal_flags := by
  have he : error = 0 := by
    rw [(ft_raster1_render_Exit_facts env error x_shift y_shift slot w tr).1] at h
    exact h
  subst he
  unfold ft_raster1_render_Exit
  by_cases hs : x_shift ≠ 0 ∨ y_shift ≠ 0
  · simp [hs]
  · simp [hs]

/-- C29 (as amended): a request in a mode other than mono, for a slot of the
renderer's format, is answered `Cannot_Render_Glyph` and the slot is left as
it was.  A slot whose format differs from the renderer's is answered
`Invalid_Argument` whatever the mode, and keeps its format and its outline;
its bitmap buffer and its ownership flag are left alone only when the slot
did not own its bitmap: a bitmap the slot owns is released at `Exit` and the
ownership flag is cleared.  When the call succeeds the slot's format is
bitmap and the ownership flag is set. -/
theorem ft_raster1_render_rejects (env : Raster_Env W) (render : FT_TS_RendererRec)
    (slot : FT_TS_GlyphSlotRec) (mode : Nat) (origin : Option FT_TS_Vector) (w : W) :
    (slot.format = render.glyph_format → mode ≠ FT_TS_RENDER_MODE_MONO →
        ft_raster1_render env render slot mode origin w =
          (FT_TS_Err_Cannot_Render_Glyph, slot, w, [])) ∧
      (slot.format ≠ render.glyph_format →
        (ft_raster1_render env render slot mode origin w).1 = FT_TS_Err_Invalid_Argument ∧
        (slot.internal_flags &&& FT_TS_GLYPH_OWN_BITMAP = 0 →
          ft_raster1_render env render slot mode origin w =
            (FT_TS_Err_Invalid_Argument, slot, w, [])) ∧
        (slot.internal_flags &&& FT_TS_GLYPH_OWN_BITMAP ≠ 0 →
          (ft_raster1_render env render slot mode origin w).2.1 =
            { slot with
              bitmap := { slot.bitmap with buffer := [] }
              internal_flags :=
                slot.internal_flags &&& (0xFFFFFFFF ^^^ FT_TS_GLYPH_OWN_BITMAP) } ∧
          (ft_raster1_render env render slot mode origin w).2.2.2 = [Raster_Event.mem_free])) ∧
      ((ft_raster1_render env render slot mode origin w).1 = 0 →
        (ft_raster1_render env render slot mode origin w).2.1.format =
          FT_TS_GLYPH_FORMAT_BITMAP ∧
        (ft_raster1_render env render slot mode origin w).2.1.internal_flags &&&
          FT_TS_GLYPH_OWN_BITMAP ≠ 0) := by
  refine ⟨?_, ?_, ?_⟩
  · intro hf hm
    unfold ft_raster1_render
    rw [if_neg (not_not.mpr hf), if_pos hm]
  · intro hf
    unfold ft_raster1_render
    rw [if_pos hf]
    refine ⟨(ft_raster1_render_Exit_facts _ _ _ _ _ _ _).1, ?_, ?_⟩
    · intro ho
      simp [ft_raster1_render_Exit, ho, FT_TS_Err_Invalid_Argument]
    · intro ho
      simp [ft_raster1_render_Exit, ho, FT_TS_Err_Invalid_Argument, ft_raster1_render_release]
  · unfold ft_raster1_render
    by_cases hf : slot.format ≠ render.glyph_format
    · rw [if_pos hf]
      intro h
      rw [(ft_raster1_render_Exit_facts _ _ _ _ _ _ _).1] at h
      exact absurd h (by decide)
    · rw [if_neg hf]
      by_cases hm : mode ≠ FT_TS_RENDER_MODE_MONO
      · rw [if_pos hm]
        intro h
        have h0 : FT_TS_Err_Cannot_Render_Glyph = 0 := h
        exact absurd h0 (by decide)
      · rw [if_neg hm]
        simp only []
        generalize (if slot.internal_flags &&& FT_TS_GLYPH_OWN_BITMAP ≠ 0 then
          ft_raster1_render_release env slot w [] else (slot, w, [])) = s1
        generalize env.ft_glyphslot_preset_bitmap s1.1 mode origin = p
        by_cases hp : p.1 = true
        · rw [if_pos hp]
          intro h
          rw [(ft_raster1_render_Exit_facts _ _ _ _ _ _ _).1] at h
          exact absurd h (by decide)
        · rw [if_neg hp]
          generalize env.alloc_mult p.2.bitmap.rows p.2.bitmap.pitch s1.2.1 = a
          by_cases ha : a.1 ≠ 0
          · rw [if_pos ha]
            intro h
            rw [(ft_raster1_render_Exit_facts _ _ _ _ _ _ _).1] at h
            exact absurd h ha
          · rw [if_neg ha]
            intro h
            obtain ⟨h1, h2⟩ := ft_raster1_render_Exit_ok _ _ _ _ _ _ _ h
            rw [h1, h2, ft_raster1_render_draw_flags]
            exact ⟨rfl, own_bitmap_set _⟩

/-- C29 (witness): a request in the normal mode (0) for the sample outline
slot. -/
theorem ft_raster1_render_rejects_witness :
    ft_raster1_render (Sample.raster_env false 0 0) Sample.raster1 Sample.raster_slot 0 none
        Sample.world = (FT_TS_Err_Cannot_Render_Glyph, Sample.raster_slot, Sample.world, []) :=
  (ft_raster1_render_rejects (Sample.raster_env false 0 0) Sample.raster1 Sample.raster_slot 0
    none Sample.world).1 (by decide) (by decide)

/-- C29 (counterexample): a slot that holds a bitmap glyph and owns its
bitmap is handed to the renderer of outline glyphs.  The request is rejected
with `Invalid_Argument`, the format is unchanged, but the bitmap buffer has
been released and the ownership flag is cleared. -/
theorem ft_raster1_render_mismatch_releases :
    Sample.raster_slot_bitmap.format ≠ Sample.raster1.glyph_format ∧
      Sample.raster_slot_bitmap.bitmap.buffer = [255] ∧
      Sample.raster_slot_bitmap.internal_flags &&& FT_TS_GLYPH_OWN_BITMAP ≠ 0 ∧
      (ft_raster1_render (Sample.raster_env false 0 0) Sample.raster1 Sample.raster_slot_bitmap
        FT_TS_RENDER_MODE_MONO none Sample.world).1 = FT_TS_Err_Invalid_Argument ∧
      (ft_raster1_render (Sample.raster_env false 0 0) Sample.raster1 Sample.raster_slot_bitmap
        FT_TS_RENDER_MODE_MONO none Sample.world).2.1.format = FT_TS_GLYPH_FORMAT_BITMAP ∧
      (ft_raster1_render (Sample.raster_env false 0 0) Sample.raster1 Sample.raster_slot_bitmap
        FT_TS_RENDER_MODE_MONO none Sample.world).2.1.bitmap.buffer = [] ∧
      (ft_raster1_render (Sample.raster_env false 0 0) Sample.raster1 Sample.raster_slot_bitmap
        FT_TS_RENDER_MODE_MONO none Sample.world).2.1.internal_flags &&&
          FT_TS_GLYPH_OWN_BITMAP = 0 ∧
      (ft_raster1_render (Sample.raster_env false 0 0) Sample.raster1 Sample.raster_slot_bitmap
        FT_TS_RENDER_MODE_MONO none Sample.world).2.2.2 = [Raster_Event.mem_free] := by
  decide

end RasterClaims2

/-! ## The validator of the `lcar` table -/

section GXVClaims

variable {W : Type}

/-- The loop of `gxv_lcar_LookupValue_validate` validates the values at
`p`, `p + 2`, ... one after the other and stops at the first that is
refused. -/
theorem gxv_lcar_LookupValue_loop_eq (env : GXV_Env W) (root : List Nat) (format glyph : Nat) :
    ∀ (n p : Nat) (w : W),
      gxv_lcar_LookupValue_loop env root format glyph n p w =
        (List.range n).foldlM
          (fun w1 i =>
            gxv_lcar_partial_validate env format (FT_TS_NEXT_SHORT (root.drop (p + 2 * i)))
              glyph w1) w := by
  intro n
  induction n with
  | zero =>
    intro p w
    rfl
  | succ n ih =>
    intro p w
    rw [List.range_succ_eq_map, List.foldlM_cons]
    unfold gxv_lcar_LookupValue_loop
    have hp : ∀ i, p + 2 * (i + 1) = p + 2 + 2 * i := fun i => by omega
    simp only [List.foldlM_map, Nat.mul_zero, Nat.add_zero, Nat.succ_eq_add_one, hp]
    cases gxv_lcar_partial_validate env format (FT_TS_NEXT_SHORT (root.drop p)) glyph w with
    | error e => rfl
    | ok w1 => exact ih (p + 2) w1

/-- When the format is not 1 the loop accepts every value without a check. -/
theorem gxv_lcar_LookupValue_loop_unchecked (env : GXV_Env W) (root : List Nat)
    (format glyph : Nat) (hf : format ≠ 1) :
    ∀ (n p : Nat) (w : W), gxv_lcar_LookupValue_loop env root format glyph n p w = Except.ok w := by
  intro n
  induction n with
  | zero =>
    intro p w
    rfl
  | succ n ih =>
    intro p w
    unfold gxv_lcar_LookupValue_loop gxv_lcar_partial_validate
    rw [if_pos hf]
    exact ih (p + 2) w

/-- C30: `gxv_lcar_validate` gives up with "too short" when fewer than 6
bytes lie between the table and the limit, gives up with "invalid format"
when the 32-bit version read is not `0x00010000` or the 16-bit format read
exceeds 1, and otherwise hands the rest of the table to
`gxv_LookupTable_validate` with its own value callback, set up for the format
read.  A partial value is checked by `gxv_ctlPoint_validate` when the format
is 1 and is accepted without any check when the format is 0.  The value
callback `gxv_lcar_LookupValue_validate` gives up with "too short" when the
count, or the `count` partial values that follow it, do not fit before the
limit; otherwise, when the format is 1, it checks the partial values of the
glyph as control points one after the other, in the order of the table, and
gives up at the first that is refused, and when the format is 0 it accepts
them all without a check. -/
theorem gxv_lcar_validate_cases (env : GXV_Env W) (root : List Nat) (table : Nat) (w : W) :
    (root.length < table + 6 →
        gxv_lcar_validate env root table w = Except.error FT_TS_Invalid.TOO_SHORT) ∧
      (table + 6 ≤ root.length →
        (FT_TS_NEXT_LONG (root.drop table) ≠ 0x00010000 ∨
          FT_TS_NEXT_USHORT (root.drop (table + 4)) > 1) →
        gxv_lcar_validate env root table w = Except.error FT_TS_Invalid.FORMAT) ∧
      (table + 6 ≤ root.length → FT_TS_NEXT_LONG (root.drop table) = 0x00010000 →
        FT_TS_NEXT_USHORT (root.drop (table + 4)) ≤ 1 →
        gxv_lcar_validate env root table w =
          env.gxv_LookupTable_validate root (table + 6) none GXV_LOOKUPVALUE_UNSIGNED
            (gxv_lcar_LookupValue_validate env root (FT_TS_NEXT_USHORT (root.drop (table + 4))))
            (gxv_lcar_LookupFmt4_transit root) w) ∧
      (∀ (value : Int) (glyph : Nat) (w1 : W),
        gxv_lcar_partial_validate env 1 value glyph w1 =
          env.gxv_ctlPoint_validate glyph (value % 2 ^ 16).toNat w1) ∧
      (∀ (value : Int) (glyph : Nat) (w1 : W),
        gxv_lcar_partial_validate env 0 value glyph w1 = Except.ok w1) ∧
      (∀ (format glyph value_u : Nat) (w1 : W),
        (root.length < value_u + 2 ∨
          root.length < value_u + 2 + 2 * FT_TS_NEXT_USHORT (root.drop value_u)) →
        gxv_lcar_LookupValue_validate env root format glyph value_u w1 =
          Except.error FT_TS_Invalid.TOO_SHORT) ∧
      (∀ (glyph value_u : Nat) (w1 : W),
        value_u + 2 + 2 * FT_TS_NEXT_USHORT (root.drop value_u) ≤ root.length →
        gxv_lcar_LookupValue_validate env root 1 glyph value_u w1 =
          (List.range (FT_TS_NEXT_USHORT (root.drop value_u))).foldlM
            (fun w2 i =>
              env.gxv_ctlPoint_validate glyph
                (FT_TS_NEXT_SHORT (root.drop (value_u + 2 + 2 * i)) % 2 ^ 16).toNat w2) w1) ∧
      (∀ (glyph value_u : Nat) (w1 : W),
        value_u + 2 + 2 * FT_TS_NEXT_USHORT (root.drop value_u) ≤ root.length →
        gxv_lcar_LookupValue_validate env root 0 glyph value_u w1 = Except.ok w1) := by
  refine ⟨?_, ?_, ?_, fun _ _ _ => rfl, fun _ _ _ => rfl, ?_, ?_, ?_⟩
  · intro h
    have h1 : GXV_LIMIT_CHECK root.length none table (4 + 2) = true := by
      simp only [GXV_LIMIT_CHECK, decide_eq_true_eq]
      omega
    unfold gxv_lcar_validate
    simp only [h1, if_true]
  · intro h hv
    have h1 : GXV_LIMIT_CHECK root.length none table (4 + 2) = false := by
      simp only [GXV_LIMIT_CHECK, decide_eq_false_iff_not]
      omega
    unfold gxv_lcar_validate
    simp only [h1, Bool.false_eq_true, if_false]
    by_cases hv1 : FT_TS_NEXT_LONG (root.drop table) ≠ 0x00010000
    · rw [if_pos hv1]
    · rw [if_neg hv1]
      rcases hv with hv | hv
      · exact absurd hv hv1
      · rw [if_pos hv]
  · intro h hv hf
    have h1 : GXV_LIMIT_CHECK root.length none table (4 + 2) = false := by
      simp only [GXV_LIMIT_CHECK, decide_eq_false_iff_not]
      omega
    unfold gxv_lcar_validate
    simp only [h1, Bool.false_eq_true, if_false]
    rw [if_neg (not_not.mpr hv), if_neg (Nat.not_lt.mpr hf)]
  · intro format glyph value_u w1 h
    unfold gxv_lcar_LookupValue_validate
    simp only []
    by_cases h1 : GXV_LIMIT_CHECK root.length (some root.length) value_u 2 = true
    · rw [if_pos h1]
    · rw [if_neg h1]
      have h2 : GXV_LIMIT_CHECK root.length (some root.length) (value_u + 2)
          (2 * FT_TS_NEXT_USHORT (root.drop value_u)) = true := by
        simp only [GXV_LIMIT_CHECK, decide_eq_true_eq] at h1 ⊢
        omega
      rw [if_pos h2]
  · intro glyph value_u w1 h
    have h1 : GXV_LIMIT_CHECK root.length (some root.length) value_u 2 = false := by
      simp only [GXV_LIMIT_CHECK, decide_eq_false_iff_not]
      omega
    have h2 : GXV_LIMIT_CHECK root.length (some root.length) (value_u + 2)
        (2 * FT_TS_NEXT_USHORT (root.drop value_u)) = false := by
      simp only [GXV_LIMIT_CHECK, decide_eq_false_iff_not]
      omega
    unfold gxv_lcar_LookupValue_validate
    simp only [h1, h2, Bool.false_eq_true, if_false]
    rw [gxv_lcar_LookupValue_loop_eq]
    rfl
  · intro glyph value_u w1 h
    have h1 : GXV_LIMIT_CHECK root.length (some root.length) value_u 2 = false := by
      simp only [GXV_LIMIT_CHECK, decide_eq_false_iff_not]
      omega
    have h2 : GXV_LIMIT_CHECK root.length (some root.length) (value_u + 2)
        (2 * FT_TS_NEXT_USHORT (root.drop value_u)) = false := by
      simp only [GXV_LIMIT_CHECK, decide_eq_false_iff_not]
      omega
    unfold gxv_lcar_LookupValue_validate
    simp only [h1, h2, Bool.false_eq_true, if_false]
    exact gxv_lcar_LookupValue_loop_unchecked env root 0 glyph (by decide) _ _ _

/-- C30 (witness): a table of 14 bytes with version `0x00010000` and format
2 is refused for its format; with format 1 the partial value 200 of glyph 3
is refused as a control point; with format 0 it is accepted. -/
theorem gxv_lcar_validate_cases_witness :
    gxv_lcar_validate Sample.gxv_env (Sample.lcar_table 1 0 2) 0 Sample.world =
        Except.error FT_TS_Invalid.FORMAT ∧
      gxv_lcar_LookupValue_validate Sample.gxv_env (Sample.lcar_table 1 0 1) 1 3 8
          Sample.world = Except.error (FT_TS_Invalid.other 1) ∧
      gxv_lcar_LookupValue_validate Sample.gxv_env (Sample.lcar_table 1 0 0) 0 3 8
          Sample.world = Except.ok Sample.world :=
  ⟨(gxv_lcar_validate_cases Sample.gxv_env (Sample.lcar_table 1 0 2) 0 Sample.world).2.1
      (by decide) (Or.inr (by decide)),
    ((gxv_lcar_validate_cases Sample.gxv_env (Sample.lcar_table 1 0 1) 0
      Sample.world).2.2.2.2.2.2.1 3 8 Sample.world (by decide)).trans rfl,
    (gxv_lcar_validate_cases Sample.gxv_env (Sample.lcar_table 1 0 0) 0
      Sample.world).2.2.2.2.2.2.2 3 8 Sample.world (by decide)⟩

end GXVClaims

/-! ## Only bitmaps wanted -/

theorem load_flags_recurse_other_bit (load_flags b : Nat)
    (hb : b &&& (FT_TS_LOAD_NO_SCALE ||| FT_TS_LOAD_NO_HINTING) = 0) :
    load_flags_recurse load_flags &&& b = load_flags &&& b := by
  unfold load_flags_recurse
  split_ifs
  · rw [Nat.and_comm, Nat.and_or_distrib_left, hb, Nat.or_zero, Nat.and_comm]
  · rfl

section SbitsClaims

variable {W : Type}

theorem cff_slot_load_sbit_linear_trace (env : CFF_Env W) (face : TT_FaceRec W)
    (glyph_index : Nat) (st : CFF_LoadState W) :
    ∃ new, (cff_slot_load_sbit_linear env face glyph_index st).trace = st.trace ++ new ∧
      ∀ e ∈ new, e.isCffSbit = true := by
  unfold cff_slot_load_sbit_linear
  simp only []
  by_cases hv : (face.vertical_info && decide (face.vertical.number_Of_VMetrics > 0)) = true
  · rw [if_pos hv]
    exact ⟨[Event.sfnt_get_metrics false glyph_index, Event.sfnt_get_metrics true glyph_index],
      rfl, by simp [Event.isCffSbit]⟩
  · rw [if_neg hv]
    exact ⟨[Event.sfnt_get_metrics false glyph_index], rfl, by simp [Event.isCffSbit]⟩

/-- What the bitmap-strike block leaves when it returns: no error, a bitmap
glyph, and the successful strike lookup in the trace. -/
theorem cff_slot_load_sbit_ret_trace (env : CFF_Env W) (face : TT_FaceRec W)
    (size : Option CFF_SizeRec) (glyph_index load_flags : Nat) (st : CFF_LoadState W)
    (error : FT_TS_Error) (st' : CFF_LoadState W)
    (h : cff_slot_load_sbit env face size glyph_index load_flags st = CFF_Step.ret error st') :
    env.TT_CONFIG_OPTION_EMBEDDED_BITMAPS = true ∧
      (∃ sz, size = some sz ∧ sz.strike_index ≠ 0xFFFFFFFF ∧ face.load_eblc = true ∧
        load_flags &&& FT_TS_LOAD_NO_BITMAP = 0) ∧
      ∃ new, st'.trace = st.trace ++ Event.load_sbit_image glyph_index 0 :: new ∧
        ∀ e ∈ new, e.isCffSbit = true := by
  unfold cff_slot_load_sbit at h
  split_ifs at h with h1
  split at h
  · exact absurd h (by simp)
  · rename_i sz
    simp only [] at h
    split_ifs at h with h2 h3
    all_goals
      simp only [CFF_Step.ret.injEq] at h
      obtain ⟨-, hst⟩ := h
      refine ⟨h1, ⟨sz, rfl, h2⟩, ?_⟩
      rw [← hst]
      obtain ⟨new, hn, hall⟩ := cff_slot_load_sbit_linear_trace env face glyph_index _
      refine ⟨new, ?_, hall⟩
      rw [hn, h3]
      simp

/-- What the bitmap-strike block leaves when it falls through: either no
call at all, or a strike lookup that failed. -/
theorem cff_slot_load_sbit_next_trace (env : CFF_Env W) (face : TT_FaceRec W)
    (size : Option CFF_SizeRec) (glyph_index load_flags : Nat) (st : CFF_LoadState W)
    (st' : CFF_LoadState W)
    (h : cff_slot_load_sbit env face size glyph_index load_flags st = CFF_Step.next st') :
    st'.trace = st.trace ∨
      ∃ e, e ≠ 0 ∧ st'.trace = st.trace ++ [Event.load_sbit_image glyph_index e] := by
  unfold cff_slot_load_sbit at h
  split_ifs at h with h1
  · split at h
    · simp only [CFF_Step.next.injEq] at h
      rw [← h]
      exact Or.inl rfl
    · simp only [] at h
      split_ifs at h with h2 h3
      · simp only [CFF_Step.next.injEq] at h
        rw [← h]
        exact Or.inr ⟨_, h3, rfl⟩
      · simp only [CFF_Step.next.injEq] at h
        rw [← h]
        exact Or.inl rfl
  · simp only [CFF_Step.next.injEq] at h
    rw [← h]
    exact Or.inl rfl

/-- The bitmap-strike block does nothing when bitmaps are not compiled in,
there is no size, the size has no strike, the face has no bitmap table, or
bitmaps are disallowed. -/
theorem cff_slot_load_sbit_skipped (env : CFF_Env W) (face : TT_FaceRec W)
    (size : Option CFF_SizeRec) (glyph_index load_flags : Nat) (st : CFF_LoadState W)
    (h : env.TT_CONFIG_OPTION_EMBEDDED_BITMAPS = false ∨ size = none ∨
      (∃ sz, size = some sz ∧ (sz.strike_index = 0xFFFFFFFF ∨ face.load_eblc = false)) ∨
      load_flags &&& FT_TS_LOAD_NO_BITMAP ≠ 0) :
    cff_slot_load_sbit env face size glyph_index load_flags st = CFF_Step.next st := by
  unfold cff_slot_load_sbit
  by_cases h1 : env.TT_CONFIG_OPTION_EMBEDDED_BITMAPS = true
  · rw [if_pos h1]
    cases size with
    | none => rfl
    | some sz =>
      simp only []
      rw [if_neg]
      rintro ⟨h2, h3, h4⟩
      rcases h with h | h | ⟨sz', hsz', h⟩ | h
      · rw [h1] at h
        exact absurd h (by simp)
      · exact absurd h (by simp)
      · simp only [Option.some.injEq] at hsz'
        subst hsz'
        rcases h with h | h
        · exact h2 h
        · rw [h3] at h
          exact absurd h (by simp)
      · exact h h4
  · rw [if_neg h1]

end SbitsClaims

section SbitsClaims2

variable {W : Type}

/-- C22 (as amended): when `cff_slot_load` is called with `sbits_only`, every
step it makes is the mapping of the CID or a step of the bitmap-strike block:
the charstring is not fetched and the decoder is neither initialised nor run.
When no embedded bitmap is loaded (the strike lookup is not in the trace with
answer 0; in particular when bitmaps are not compiled in, there is no size,
the size has no strike, the face has no bitmap table, or bitmaps are
disallowed) the call returns `Invalid_Argument`; when one is loaded the call
succeeds with a bitmap glyph. -/
theorem cff_slot_load_sbits_only (env : CFF_Env W) (face : TT_FaceRec W)
    (glyph : T1_GlyphSlotRec) (size : Option CFF_SizeRec) (glyph_index load_flags : Nat) (w : W)
    (hs : load_flags &&& FT_TS_LOAD_SBITS_ONLY ≠ 0) :
    (∀ e ∈ (cff_slot_load env face glyph size glyph_index load_flags w).2.2.2,
        e.isCidMap = true ∨ e.isCffSbit = true) ∧
      ((∀ g, Event.load_sbit_image g 0 ∉
          (cff_slot_load env face glyph size glyph_index load_flags w).2.2.2) →
        (cff_slot_load env face glyph size glyph_index load_flags w).1 =
          FT_TS_Err_Invalid_Argument) ∧
      ((env.TT_CONFIG_OPTION_EMBEDDED_BITMAPS = false ∨ size = none ∨
          (∃ sz, size = some sz ∧ (sz.strike_index = 0xFFFFFFFF ∨ face.load_eblc = false)) ∨
          load_flags &&& FT_TS_LOAD_NO_BITMAP ≠ 0) →
        (cff_slot_load env face glyph size glyph_index load_flags w).1 =
            FT_TS_Err_Invalid_Argument ∧
          ∀ e ∈ (cff_slot_load env face glyph size glyph_index load_flags w).2.2.2,
            e.isCidMap = true) ∧
      ((∃ g, Event.load_sbit_image g 0 ∈
          (cff_slot_load env face glyph size glyph_index load_flags w).2.2.2) →
        (cff_slot_load env face glyph size glyph_index load_flags w).1 = 0 ∧
          (cff_slot_load env face glyph size glyph_index load_flags w).2.1.format =
            FT_TS_GLYPH_FORMAT_BITMAP) := by
  have hs' : load_flags_recurse load_flags &&& FT_TS_LOAD_SBITS_ONLY ≠ 0 := by
    rw [load_flags_recurse_other_bit _ _ (by decide)]
    exact hs
  have hnb : load_flags_recurse load_flags &&& FT_TS_LOAD_NO_BITMAP =
      load_flags &&& FT_TS_LOAD_NO_BITMAP := load_flags_recurse_other_bit _ _ (by decide)
  have hix := cff_slot_load_index_events env face.cff glyph_index
  have hie := cff_slot_load_index_error env face.cff glyph_index
  have hnot : ∀ (evs : List Event), (∀ e ∈ evs, e.isCidMap = true) →
      ∀ g x, Event.load_sbit_image g x ∉ evs := by
    intro evs h g x hm
    have := h _ hm
    simp [Event.isCidMap] at this
  unfold cff_slot_load
  simp only []
  generalize cff_slot_load_index env face.cff glyph_index = ix at hix hie ⊢
  obtain ⟨r, evs⟩ := ix
  cases r with
  | error e =>
    simp only [] at hix hie ⊢
    refine ⟨fun e he => Or.inl (hix e he), fun _ => hie e rfl, fun _ => ⟨hie e rfl, hix⟩, ?_⟩
    rintro ⟨g, hg⟩
    exact absurd hg (hnot evs hix g 0)
  | ok g =>
    simp only [] at hix ⊢
    unfold cff_slot_load_from
    simp only []
    generalize (match size with
      | some sz => ({ glyph with x_scale := sz.metrics.x_scale, y_scale := sz.metrics.y_scale } :
          T1_GlyphSlotRec)
      | none => { glyph with x_scale := 0x10000, y_scale := 0x10000 }) = glyph1
    cases hsb : cff_slot_load_sbit env face size g (load_flags_recurse load_flags)
        { glyph := glyph1, world := w, trace := evs } with
    | ret error st =>
      obtain ⟨he, -⟩ := cff_slot_load_sbit_ret env face size g _ _ 0 error st hsb
      have hfmt := cff_slot_load_sbit_ret_format env face size g _ _ error st hsb
      obtain ⟨hopt, ⟨sz, hsz, hstrike, heblc, hbm⟩, new, hnew, hall⟩ :=
        cff_slot_load_sbit_ret_trace env face size g _ _ error st hsb
      simp only [] at hnew ⊢
      refine ⟨?_, ?_, ?_, fun _ => ⟨he, hfmt⟩⟩
      · intro e hmem
        rw [hnew] at hmem
        rcases List.mem_append.mp hmem with hm | hm
        · exact Or.inl (hix e hm)
        · rcases List.mem_cons.mp hm with hm | hm
          · rw [hm]
            exact Or.inr rfl
          · exact Or.inr (hall e hm)
      · intro hno
        exact absurd (by rw [hnew]; simp) (hno g)
      · intro hc
        exfalso
        rcases hc with hc | hc | ⟨sz', hsz', hc⟩ | hc
        · rw [hopt] at hc
          exact absurd hc (by simp)
        · rw [hc] at hsz
          exact absurd hsz (by simp)
        · rw [hsz'] at hsz
          simp only [Option.some.injEq] at hsz
          subst hsz
          rcases hc with hc | hc
          · exact hstrike hc
          · rw [heblc] at hc
            exact absurd hc (by simp)
        · rw [hnb] at hbm
          exact hc hbm
    | next st =>
      simp only [if_pos hs']
      have htr := cff_slot_load_sbit_next_trace env face size g _ _ st hsb
      simp only [] at htr
      refine ⟨?_, fun _ => trivial, ?_, ?_⟩
      · intro e hmem
        rcases htr with htr | ⟨x, hx, htr⟩
        · rw [htr] at hmem
          exact Or.inl (hix e hmem)
        · rw [htr] at hmem
          rcases List.mem_append.mp hmem with hm | hm
          · exact Or.inl (hix e hm)
          · rw [List.mem_singleton.mp hm]
            exact Or.inr rfl
      · intro hc
        have hsk := cff_slot_load_sbit_skipped env face size g (load_flags_recurse load_flags)
          { glyph := glyph1, world := w, trace := evs } (by rw [hnb]; exact hc)
        rw [hsk] at hsb
        simp only [CFF_Step.next.injEq] at hsb
        rw [← hsb]
        exact ⟨trivial, hix⟩
      · rintro ⟨g', hg'⟩
        exfalso
        rcases htr with htr | ⟨x, hx, htr⟩
        · rw [htr] at hg'
          exact hnot evs hix g' 0 hg'
        · rw [htr] at hg'
          rcases List.mem_append.mp hg' with hm | hm
          · exact hnot evs hix g' 0 hm
          · simp only [List.mem_singleton, Event.load_sbit_image.injEq] at hm
            exact hx hm.2.symm

end SbitsClaims2

/-- C22 (witness): the simple sample font, no size, only bitmaps wanted. -/
theorem cff_slot_load_sbits_only_witness :
    (cff_slot_load (Sample.cff_env id id 0 [] false) (Sample.cff_face 0xFFFF none 0 none 1)
        default none 0 FT_TS_LOAD_SBITS_ONLY Sample.world).1 = FT_TS_Err_Invalid_Argument :=
  ((cff_slot_load_sbits_only (Sample.cff_env id id 0 [] false)
    (Sample.cff_face 0xFFFF none 0 none 1) default none 0 FT_TS_LOAD_SBITS_ONLY Sample.world
    (by decide)).2.2.1 (Or.inr (Or.inl rfl))).1

/-- C22 (counterexample): the simple sample font has no bitmap strike.  With
`sbits_only` the load of glyph 0 at the sample size makes no call at all and
returns `Invalid_Argument` (0x06), which is not `Cannot_Render_Glyph`
(0x13). -/
theorem cff_slot_load_sbits_only_invalid_argument :
    (cff_slot_load (Sample.cff_env id id 0 [] false) (Sample.cff_face 0xFFFF none 0 none 1)
        default (some Sample.cff_size) 0 FT_TS_LOAD_SBITS_ONLY Sample.world).1 =
        FT_TS_Err_Invalid_Argument ∧
      FT_TS_ERR_EQ
        (cff_slot_load (Sample.cff_env id id 0 [] false) (Sample.cff_face 0xFFFF none 0 none 1)
          default (some Sample.cff_size) 0 FT_TS_LOAD_SBITS_ONLY Sample.world).1
        FT_TS_Err_Cannot_Render_Glyph = false ∧
      (cff_slot_load (Sample.cff_env id id 0 [] false) (Sample.cff_face 0xFFFF none 0 none 1)
        default (some Sample.cff_size) 0 FT_TS_LOAD_SBITS_ONLY Sample.world).2.2.2 = [] := by
  decide

/-! ## The bytes handed to the Type 1 parsers -/

section CIDBytes

variable {W : Type}

/-- The parser invocations of lines 191-222: one or two, all on the bytes
and the length given; the error returned is the answer of the last one. -/
theorem cid_load_glyph_parse_input (env : CID_Env W) (dict : CID_FaceDictRec)
    (bytes : List Nat) (len : Nat) (st : CID_LoadState W) :
    ∃ ps, ps ≠ [] ∧ (cid_load_glyph_parse env dict bytes len st).2.2.trace = st.trace ++ ps ∧
      (∀ e ∈ ps, e.parseInput = some (bytes, len)) ∧
      ps.getLast?.bind Event.parseAnswer = some (cid_load_glyph_parse env dict bytes len st).1 := by
  unfold cid_load_glyph_parse
  simp only []
  split_ifs
  · exact ⟨[Event.t1_parse_charstrings bytes len st.glyph.hint
        (env.parse_charstrings st.decoder dict.private_dict st.glyph bytes len st.world).1,
      Event.t1_parse_charstrings bytes len false
        (env.parse_charstrings
          (env.parse_charstrings st.decoder dict.private_dict st.glyph bytes len st.world).2.1
          dict.private_dict { st.glyph with hint := false } bytes len
          (env.parse_charstrings st.decoder dict.private_dict st.glyph bytes len
            st.world).2.2).1],
      by simp, by simp, by simp [Event.parseInput], by simp [Event.parseAnswer]⟩
  · exact ⟨[Event.t1_parse_charstrings bytes len st.glyph.hint
        (env.parse_charstrings st.decoder dict.private_dict st.glyph bytes len st.world).1],
      by simp, rfl, by simp [Event.parseInput], by simp [Event.parseAnswer]⟩

/-- The parser invocations of lines 173-223, whatever the engine. -/
theorem cid_load_glyph_engine_input (env : CID_Env W) (face : CID_FaceRec W)
    (dict : CID_FaceDictRec) (bytes : List Nat) (len : Nat) (st : CID_LoadState W) :
    ∃ ps, ps ≠ [] ∧
      (cid_load_glyph_engine env face dict bytes len st).2.2.trace = st.trace ++ ps ∧
      (∀ e ∈ ps, e.parseInput = some (bytes, len)) ∧
      ps.getLast?.bind Event.parseAnswer =
        some (cid_load_glyph_engine env face dict bytes len st).1 := by
  unfold cid_load_glyph_engine
  split_ifs
  · exact ⟨[Event.t1_parse_charstrings_old bytes len
        (env.parse_charstrings_old st.decoder st.glyph bytes len st.world).1],
      by simp, rfl, by simp [Event.parseInput], by simp [Event.parseAnswer]⟩
  · exact cid_load_glyph_parse_input env dict bytes len st
  · exact ⟨[Event.t1_parse_metrics bytes len
        (env.parse_metrics st.decoder st.glyph bytes len st.world).1],
      by simp, rfl, by simp [Event.parseInput], by simp [Event.parseAnswer]⟩
  · exact cid_load_glyph_parse_input env dict bytes len st

/-- What lines 139-224 of `cid_load_glyph` do with the charstring, for the
value `lenIV` of dictionary `fd_select`: nothing but the two indexings when
the seed bytes exceed the charstring; otherwise a decryption exactly when
`lenIV` is not negative, and then the parser invocations, all on the bytes
from `cs_offset` on and on the length `glyph_length - cs_offset`. -/
theorem cid_load_glyph_decode_input (env : CID_Env W) (face : CID_FaceRec W)
    (fd_select glyph_length : Nat) (charstring : List Nat) (st : CID_LoadState W)
    (hlen : (face.cid.font_dicts.getD fd_select default).private_dict.lenIV < 2 ^ 32) :
    ((face.cid.font_dicts.getD fd_select default).private_dict.lenIV > glyph_length →
        cid_load_glyph_decode env face fd_select glyph_length charstring st =
          (FT_TS_Err_Invalid_Offset, false,
            { st with
              decoder := (cid_load_glyph_decode env face fd_select glyph_length charstring
                st).2.2.decoder
              trace := st.trace ++
                [Event.index_subrs fd_select, Event.index_font_dicts fd_select] })) ∧
      ((face.cid.font_dicts.getD fd_select default).private_dict.lenIV ≤ glyph_length →
        ∃ ps, ps ≠ [] ∧
          (cid_load_glyph_decode env face fd_select glyph_length charstring st).2.2.trace =
            st.trace ++ [Event.index_subrs fd_select, Event.index_font_dicts fd_select] ++
              (if (face.cid.font_dicts.getD fd_select default).private_dict.lenIV ≥ 0 then
                [Event.t1_decrypt glyph_length] else []) ++ ps ∧
          (∀ e ∈ ps, e.parseInput = some
            ((if (face.cid.font_dicts.getD fd_select default).private_dict.lenIV ≥ 0 then
                env.t1_decrypt charstring glyph_length 4330 else charstring).drop
              (face.cid.font_dicts.getD fd_select default).private_dict.lenIV.toNat,
              glyph_length -
                (face.cid.font_dicts.getD fd_select default).private_dict.lenIV.toNat)) ∧
          ps.getLast?.bind Event.parseAnswer =
            some (cid_load_glyph_decode env face fd_select glyph_length charstring st).1) := by
  generalize hl : (face.cid.font_dicts.getD fd_select default).private_dict.lenIV = lenIV at hlen ⊢
  constructor
  · intro hgt
    have h0 : lenIV ≥ 0 := by omega
    have hcs : lenIV.toNat % 2 ^ 32 > glyph_length := by
      rw [Nat.mod_eq_of_lt (by omega)]
      omega
    unfold cid_load_glyph_decode
    simp only [hl, if_pos h0, if_pos hcs]
  · intro hle
    unfold cid_load_glyph_decode
    simp only [hl]
    by_cases h0 : lenIV ≥ 0
    · have hcs : ¬ lenIV.toNat % 2 ^ 32 > glyph_length := by
        rw [Nat.mod_eq_of_lt (by omega)]
        omega
      simp only [if_pos h0, if_neg hcs]
      rw [Nat.mod_eq_of_lt (by omega)]
      obtain ⟨ps, h1, h2, h3, h4⟩ := cid_load_glyph_engine_input env face
        (face.cid.font_dicts.getD fd_select default)
        ((env.t1_decrypt charstring glyph_length 4330).drop lenIV.toNat)
        (glyph_length - lenIV.toNat)
        { decoder :=
            { st.decoder with
              num_subrs := (face.subrs.getD fd_select default).num_subrs
              subrs := (face.subrs.getD fd_select default).code
              subrs_len := none
              subrs_hash := none
              font_matrix := (face.cid.font_dicts.getD fd_select default).font_matrix
              font_offset := (face.cid.font_dicts.getD fd_select default).font_offset
              lenIV := lenIV }
          glyph := st.glyph
          world := st.world
          trace := st.trace ++ [Event.index_subrs fd_select, Event.index_font_dicts fd_select] ++
            [Event.t1_decrypt glyph_length] }
      exact ⟨ps, h1, h2, h3, h4⟩
    · have hcs : ¬ (0 : Nat) > glyph_length := by omega
      simp only [if_neg h0, if_neg hcs]
      have ht : lenIV.toNat = 0 := by omega
      rw [ht]
      obtain ⟨ps, h1, h2, h3, h4⟩ := cid_load_glyph_engine_input env face
        (face.cid.font_dicts.getD fd_select default) (charstring.drop 0) (glyph_length - 0)
        { decoder :=
            { st.decoder with
              num_subrs := (face.subrs.getD fd_select default).num_subrs
              subrs := (face.subrs.getD fd_select default).code
              subrs_len := none
              subrs_hash := none
              font_matrix := (face.cid.font_dicts.getD fd_select default).font_matrix
              font_offset := (face.cid.font_dicts.getD fd_select default).font_offset
              lenIV := lenIV }
          glyph := st.glyph
          world := st.world
          trace := st.trace ++ [Event.index_subrs fd_select, Event.index_font_dicts fd_select] }
      exact ⟨ps, h1, by simpa using h2, h3, h4⟩

end CIDBytes

section CIDBytes2

variable {W : Type}

theorem cid_load_glyph_metrics_of_error (env : CID_Env W)
    (inc : Option (FT_TS_Incremental_FuncsRec W)) (glyph_index : Nat) (error : FT_TS_Error)
    (st : CID_LoadState W) (h : error ≠ 0) :
    cid_load_glyph_metrics env inc glyph_index error st = (error, st) := by
  unfold cid_load_glyph_metrics
  cases inc with
  | none => rfl
  | some i =>
    simp only []
    cases i.get_glyph_metrics with
    | none => rfl
    | some f =>
      simp only []
      rw [if_pos h]

/-- How `cid_load_glyph` goes on once a charstring has been fetched. -/
theorem cid_load_glyph_of_data (env : CID_Env W) (face : CID_FaceRec W)
    (glyph_index : Nat) (st : CID_LoadState W) (fd glyph_length : Nat) (charstring : List Nat)
    (st1 : CID_LoadState W)
    (hfetch : cid_load_glyph_fetch env face glyph_index st =
      CID_Fetch.data fd glyph_length charstring st1) :
    cid_load_glyph env face glyph_index st =
      cid_load_glyph_Exit env
        (cid_load_glyph_metrics env (cid_inc env face) glyph_index
          (cid_load_glyph_decode env face fd glyph_length charstring st1).1
          (cid_load_glyph_decode env face fd glyph_length charstring st1).2.2).1
        (cid_load_glyph_decode env face fd glyph_length charstring st1).2.1
        (cid_load_glyph_metrics env (cid_inc env face) glyph_index
          (cid_load_glyph_decode env face fd glyph_length charstring st1).1
          (cid_load_glyph_decode env face fd glyph_length charstring st1).2.2).2 := by
  unfold cid_load_glyph
  rw [hfetch]

/-- How `cid_load_glyph` ends when no charstring has been fetched. -/
theorem cid_load_glyph_of_exit (env : CID_Env W) (face : CID_FaceRec W)
    (glyph_index : Nat) (st : CID_LoadState W) (error : FT_TS_Error) (st1 : CID_LoadState W)
    (hfetch : cid_load_glyph_fetch env face glyph_index st = CID_Fetch.exit error st1) :
    cid_load_glyph env face glyph_index st = cid_load_glyph_Exit env error false st1 := by
  unfold cid_load_glyph
  rw [hfetch]

/-- C25: once `cid_load_glyph` has fetched a charstring of `glyph_length`
bytes for dictionary `fd`, whose `lenIV` is in the range of an `FT_TS_Int`:
when `lenIV` exceeds `glyph_length` the call returns `Invalid_Offset` and
makes no decryption and no parser invocation; otherwise the buffer is
decrypted (seed 4330, over `glyph_length` bytes) exactly when `lenIV` is not
negative, the parser is invoked at least once, and every invocation receives
the bytes from `cs_offset` on and the length `glyph_length - cs_offset`, where
`cs_offset` is `lenIV` when `lenIV` is not negative and 0 otherwise; that
length is the true difference. -/
theorem cid_load_glyph_charstring_bytes (env : CID_Env W) (face : CID_FaceRec W)
    (glyph_index : Nat) (st : CID_LoadState W) (fd glyph_length : Nat) (charstring : List Nat)
    (st1 : CID_LoadState W)
    (hfetch : cid_load_glyph_fetch env face glyph_index st =
      CID_Fetch.data fd glyph_length charstring st1)
    (hlen : (face.cid.font_dicts.getD fd default).private_dict.lenIV < 2 ^ 31) :
    ((face.cid.font_dicts.getD fd default).private_dict.lenIV > glyph_length →
        (cid_load_glyph env face glyph_index st).1 = FT_TS_Err_Invalid_Offset ∧
        (cid_load_glyph env face glyph_index st).2.trace = st1.trace ++
          [Event.index_subrs fd, Event.index_font_dicts fd, Event.mem_free]) ∧
      ((face.cid.font_dicts.getD fd default).private_dict.lenIV ≤ glyph_length →
        ∃ ps ms, ps ≠ [] ∧
          (cid_load_glyph env face glyph_index st).2.trace =
            st1.trace ++ [Event.index_subrs fd, Event.index_font_dicts fd] ++
              (if (face.cid.font_dicts.getD fd default).private_dict.lenIV ≥ 0 then
                [Event.t1_decrypt glyph_length] else []) ++ ps ++ ms ++ [Event.mem_free] ∧
          (∀ e ∈ ps, e.parseInput = some
            ((if (face.cid.font_dicts.getD fd default).private_dict.lenIV ≥ 0 then
                env.t1_decrypt charstring glyph_length 4330 else charstring).drop
              (face.cid.font_dicts.getD fd default).private_dict.lenIV.toNat,
              glyph_length - (face.cid.font_dicts.getD fd default).private_dict.lenIV.toNat)) ∧
          (∀ e ∈ ms, e.isIncMetrics = true) ∧
          ((glyph_length - (face.cid.font_dicts.getD fd default).private_dict.lenIV.toNat :
              Nat) : Int) =
            (glyph_length : Int) -
              (if (face.cid.font_dicts.getD fd default).private_dict.lenIV ≥ 0 then
                (face.cid.font_dicts.getD fd default).private_dict.lenIV else 0)) := by
  have hlen' : (face.cid.font_dicts.getD fd default).private_dict.lenIV < 2 ^ 32 := by omega
  obtain ⟨hd1, hd2⟩ := cid_load_glyph_decode_input env face fd glyph_length charstring st1 hlen'
  rw [cid_load_glyph_of_data env face glyph_index st fd glyph_length charstring st1 hfetch]
  constructor
  · intro hgt
    have hd := hd1 hgt
    have he : (cid_load_glyph_decode env face fd glyph_length charstring st1).1 =
        FT_TS_Err_Invalid_Offset := by rw [hd]
    have ht : (cid_load_glyph_decode env face fd glyph_length charstring st1).2.2.trace =
        st1.trace ++ [Event.index_subrs fd, Event.index_font_dicts fd] := by rw [hd]
    rw [cid_load_glyph_metrics_of_error _ _ _ _ _ (by rw [he]; decide)]
    refine ⟨he, ?_⟩
    rw [(cid_load_glyph_Exit_result _ _ _ _).2.2.2, ht]
    simp
  · intro hle
    obtain ⟨ps, hps, htr, hin, -⟩ := hd2 hle
    obtain ⟨-, ms, hms, hmsall⟩ := cid_load_glyph_metrics_frame env (cid_inc env face) glyph_index
      (cid_load_glyph_decode env face fd glyph_length charstring st1).1
      (cid_load_glyph_decode env face fd glyph_length charstring st1).2.2
    refine ⟨ps, ms, hps, ?_, hin, hmsall, ?_⟩
    · rw [(cid_load_glyph_Exit_result _ _ _ _).2.2.2, hms, htr]
    · split_ifs <;> omega

/-- C25 (witness): glyph 0 of the sample font, whose charstring has 3 bytes
and whose dictionary has `lenIV = -1`. -/
theorem cid_load_glyph_charstring_bytes_witness :
    ∃ ps ms, ps ≠ [] ∧
      (cid_load_glyph (Sample.cid_env Sample.cid_stream [] false) (Sample.cid_face none) 0
        Sample.cid_state).2.trace =
        [Event.stream_seek 0 0, Event.frame_enter 6 0, Event.frame_exit, Event.qalloc 3 0,
          Event.stream_read_at 9 3 0] ++ [Event.index_subrs 0, Event.index_font_dicts 0] ++
          [] ++ ps ++ ms ++ [Event.mem_free] ∧
      (∀ e ∈ ps, e.parseInput = some ([21, 22, 23], 3)) :=
  have h := (cid_load_glyph_charstring_bytes (Sample.cid_env Sample.cid_stream [] false)
    (Sample.cid_face none) 0 Sample.cid_state 0 3 [21, 22, 23]
    { Sample.cid_state with
      trace := [Event.stream_seek 0 0, Event.frame_enter 6 0, Event.frame_exit,
        Event.qalloc 3 0, Event.stream_read_at 9 3 0] }
    rfl (by decide)).2 (by decide)
  h.elim fun ps h => h.elim fun ms h => ⟨ps, ms, h.1, h.2.1, h.2.2.1⟩

end CIDBytes2

/-! ## When `cid_load_glyph` succeeds -/

section CIDSuccess

variable {W : Type}

/-- The incremental fetch leaves with error 0 only when the callback answered
0 with fewer than `fd_bytes` bytes; the data is then not released. -/
theorem cid_load_glyph_incremental_exit_ok (env : CID_Env W) (face : CID_FaceRec W)
    (inc : FT_TS_Incremental_FuncsRec W) (glyph_index : Nat) (st st1 : CID_LoadState W)
    (h : cid_load_glyph_incremental env face inc glyph_index st = CID_Fetch.exit 0 st1) :
    (inc.get_glyph_data glyph_index st.world).1 = 0 ∧
      (inc.get_glyph_data glyph_index st.world).2.1.length < face.cid.fd_bytes ∧
      st1.trace = st.trace ++ [Event.inc_get_glyph_data glyph_index 0] := by
  unfold cid_load_glyph_incremental at h
  simp only [] at h
  split_ifs at h with h1 h2
  · simp only [CID_Fetch.exit.injEq] at h
    obtain ⟨he, hst⟩ := h
    rcases h1 with h1 | h1
    · exact absurd he h1
    · refine ⟨he, h1, ?_⟩
      rw [← hst, he]
  · simp only [CID_Fetch.exit.injEq] at h
    exact absurd h.1 h2

/-- The incremental fetch does leave with error 0 in that case. -/
theorem cid_load_glyph_incremental_short (env : CID_Env W) (face : CID_FaceRec W)
    (inc : FT_TS_Incremental_FuncsRec W) (glyph_index : Nat) (st : CID_LoadState W)
    (h0 : (inc.get_glyph_data glyph_index st.world).1 = 0)
    (hshort : (inc.get_glyph_data glyph_index st.world).2.1.length < face.cid.fd_bytes) :
    cid_load_glyph_incremental env face inc glyph_index st =
      CID_Fetch.exit 0
        { st with
          world := (inc.get_glyph_data glyph_index st.world).2.2
          trace := st.trace ++ [Event.inc_get_glyph_data glyph_index 0] } := by
  unfold cid_load_glyph_incremental
  simp only []
  rw [if_pos (Or.inr hshort), h0]

/-- The check of the CIDMap entry leaves with error 0 only for an entry of
length 0. -/
theorem cid_load_glyph_cidmap_data_exit_ok (env : CID_Env W) (face : CID_FaceRec W)
    (fd_select off1 off2 : Nat) (st3 st1 : CID_LoadState W) (h2 : off2 < 2 ^ 64)
    (h : cid_load_glyph_cidmap_data env face fd_select off1 off2 st3 = CID_Fetch.exit 0 st1) :
    fd_select < face.cid.num_dicts ∧ off2 ≤ face.stream_size ∧ off1 = off2 ∧ st1 = st3 := by
  unfold cid_load_glyph_cidmap_data at h
  simp only [] at h
  split_ifs at h with hv hz ha hr
  · simp only [CID_Fetch.exit.injEq] at h
    exact absurd h.1 (by decide)
  · simp only [CID_Fetch.exit.injEq] at h
    refine ⟨by omega, by omega, ?_, h.2.symm⟩
    have h3 : off1 ≤ off2 := by omega
    have : (off2 + 2 ^ 64 - off1) % 2 ^ 64 = off2 - off1 := by
      rw [show off2 + 2 ^ 64 - off1 = (off2 - off1) + 2 ^ 64 by omega, Nat.add_mod_right,
        Nat.mod_eq_of_lt (by omega)]
    omega
  · simp only [CID_Fetch.exit.injEq] at h
    exact absurd h.1 ha
  · simp only [CID_Fetch.exit.injEq] at h
    exact absurd h.1 hr

/-- The check of the CIDMap entry does leave with error 0 for a valid entry
of length 0, without any allocation or read. -/
theorem cid_load_glyph_cidmap_data_empty (env : CID_Env W) (face : CID_FaceRec W)
    (fd_select off : Nat) (st3 : CID_LoadState W) (hfd : fd_select < face.cid.num_dicts)
    (hoff : off ≤ face.stream_size) :
    cid_load_glyph_cidmap_data env face fd_select off off st3 = CID_Fetch.exit 0 st3 := by
  unfold cid_load_glyph_cidmap_data
  simp only []
  rw [if_neg (by omega), if_pos (by rw [show off + 2 ^ 64 - off = 2 ^ 64 by omega]; rfl)]
  rfl

end CIDSuccess

theorem Event.isT1Parse_of_parseInput (e : Event) (x : List Nat × Nat)
    (h : e.parseInput = some x) : e.isT1Parse = true := by
  cases e
  all_goals first | rfl | simp [Event.parseInput] at h

theorem Event.isT1Parse_of_isIncMetrics (e : Event) (h : e.isIncMetrics = true) :
    e.isT1Parse = false := by
  cases e
  all_goals first | rfl | simp [Event.isIncMetrics] at h

theorem Event.isT1Parse_of_isCidFetch (e : Event) (h : e.isCidFetch = true) :
    e.isT1Parse = false := by
  cases e
  all_goals first | rfl | simp [Event.isCidFetch] at h

section CIDSuccess2

variable {W : Type}

theorem cid_load_glyph_cidmap_read_exit (env : CID_Env W) (face : CID_FaceRec W)
    (glyph_index : Nat) (st st1 : CID_LoadState W) (e : FT_TS_Error)
    (h : cid_load_glyph_cidmap_read env face glyph_index st = CID_MapEntry.exit e st1) :
    e ≠ 0 := by
  unfold cid_load_glyph_cidmap_read at h
  simp only [] at h
  split_ifs at h with h1 h2
  · simp only [CID_MapEntry.exit.injEq] at h
    rw [← h.1]
    exact h1
  · simp only [CID_MapEntry.exit.injEq] at h
    rw [← h.1]
    exact h2

/-- A decode that ends without error has invoked a parser, and the last
invocation answered 0. -/
theorem cid_load_glyph_decode_ran (env : CID_Env W) (face : CID_FaceRec W)
    (fd_select glyph_length : Nat) (charstring : List Nat) (st : CID_LoadState W)
    (h0 : (cid_load_glyph_decode env face fd_select glyph_length charstring st).1 = 0) :
    ∃ ps, ps ≠ [] ∧
      (cid_load_glyph_decode env face fd_select glyph_length charstring st).2.2.trace.filter
        Event.isT1Parse = st.trace.filter Event.isT1Parse ++ ps ∧
      ps.getLast?.bind Event.parseAnswer = some 0 := by
  have key : ∀ (dict : CID_FaceDictRec) (bytes : List Nat) (len : Nat) (s : CID_LoadState W)
      (pre : List Event), s.trace = st.trace ++ pre → (∀ e ∈ pre, e.isT1Parse = false) →
      (cid_load_glyph_engine env face dict bytes len s).1 = 0 →
      ∃ ps, ps ≠ [] ∧
        (cid_load_glyph_engine env face dict bytes len s).2.2.trace.filter Event.isT1Parse =
          st.trace.filter Event.isT1Parse ++ ps ∧
        ps.getLast?.bind Event.parseAnswer = some 0 := by
    intro dict bytes len s pre hs hpre he
    obtain ⟨ps, hps, htr, hin, hans⟩ := cid_load_glyph_engine_input env face dict bytes len s
    refine ⟨ps, hps, ?_, by rw [hans, he]⟩
    have h1 : ps.filter Event.isT1Parse = ps :=
      List.filter_eq_self.mpr (fun e he => Event.isT1Parse_of_parseInput e _ (hin e he))
    have h2 : pre.filter Event.isT1Parse = [] :=
      List.filter_eq_nil_iff.mpr (fun e he => by simp [hpre e he])
    rw [htr, hs]
    simp only [List.filter_append, h1, h2, List.append_nil]
  unfold cid_load_glyph_decode at h0 ⊢
  simp only [] at h0 ⊢
  by_cases hl : (face.cid.font_dicts.getD fd_select default).private_dict.lenIV ≥ 0
  · simp only [if_pos hl] at h0 ⊢
    by_cases hcs : (face.cid.font_dicts.getD fd_select default).private_dict.lenIV.toNat %
        2 ^ 32 > glyph_length
    · simp only [if_pos hcs] at h0
      exact absurd (h0 : FT_TS_Err_Invalid_Offset = 0) (by decide)
    · simp only [if_neg hcs] at h0 ⊢
      exact key _ _ _ _
        [Event.index_subrs fd_select, Event.index_font_dicts fd_select,
          Event.t1_decrypt glyph_length]
        (by simp) (by simp [Event.isT1Parse]) h0
  · simp only [if_neg hl] at h0 ⊢
    by_cases hcs : 0 > glyph_length
    · simp only [if_pos hcs] at h0
      exact absurd (h0 : FT_TS_Err_Invalid_Offset = 0) (by decide)
    · simp only [if_neg hcs] at h0 ⊢
      exact key _ _ _ _ [Event.index_subrs fd_select, Event.index_font_dicts fd_select]
        (by simp) (by simp [Event.isT1Parse]) h0

/-- C26 (as amended): `cid_load_glyph` returns 0 in three situations only.
Either a charstring was fetched and the parser was invoked, the last
invocation answering 0.  Or, on the CIDMap path, the entry of the glyph is
valid and its two offsets are equal: no allocation, read or decoding is made,
and the call still returns 0.  Or, on the incremental path, the callback
answered 0 with fewer than `fd_bytes` bytes: nothing is decoded (and the data
is not released), and the call still returns 0.  In the last two situations
the call does return 0 and its trace holds no parser invocation. -/
theorem cid_load_glyph_success (env : CID_Env W) (face : CID_FaceRec W)
    (glyph_index : Nat) (st : CID_LoadState W) :
    ((cid_load_glyph env face glyph_index st).1 = 0 →
        (∃ ps, ps ≠ [] ∧
          (cid_load_glyph env face glyph_index st).2.trace.filter Event.isT1Parse =
            st.trace.filter Event.isT1Parse ++ ps ∧
          ps.getLast?.bind Event.parseAnswer = some 0) ∨
        (cid_inc env face = none ∧
          ∃ fd off st3, cid_load_glyph_cidmap_read env face glyph_index st =
              CID_MapEntry.entry fd off off st3 ∧
            fd < face.cid.num_dicts ∧ off ≤ face.stream_size) ∨
        (∃ inc, cid_inc env face = some inc ∧
          (inc.get_glyph_data glyph_index st.world).1 = 0 ∧
          (inc.get_glyph_data glyph_index st.world).2.1.length < face.cid.fd_bytes)) ∧
      (cid_inc env face = none →
        ∀ fd off st3, cid_load_glyph_cidmap_read env face glyph_index st =
            CID_MapEntry.entry fd off off st3 →
          fd < face.cid.num_dicts → off ≤ face.stream_size →
          (cid_load_glyph env face glyph_index st).1 = 0 ∧
            (cid_load_glyph env face glyph_index st).2.trace = st3.trace ++ [Event.mem_free] ∧
            (cid_load_glyph env face glyph_index st).2.trace.filter Event.isT1Parse =
              st.trace.filter Event.isT1Parse) ∧
      (∀ inc, cid_inc env face = some inc →
        (inc.get_glyph_data glyph_index st.world).1 = 0 →
        (inc.get_glyph_data glyph_index st.world).2.1.length < face.cid.fd_bytes →
        (cid_load_glyph env face glyph_index st).1 = 0 ∧
          (cid_load_glyph env face glyph_index st).2.trace =
            st.trace ++ [Event.inc_get_glyph_data glyph_index 0, Event.mem_free]) := by
  refine ⟨?_, ?_, ?_⟩
  · intro h0
    cases hf : cid_load_glyph_fetch env face glyph_index st with
    | data fd len cs st1 =>
      left
      rw [cid_load_glyph_of_data env face glyph_index st fd len cs st1 hf] at h0 ⊢
      rw [(cid_load_glyph_Exit_result _ _ _ _).1] at h0
      have hd0 : (cid_load_glyph_decode env face fd len cs st1).1 = 0 := by
        by_contra hne
        rw [cid_load_glyph_metrics_of_error _ _ _ _ _ hne] at h0
        exact hne h0
      obtain ⟨ps, hps, htr, hans⟩ := cid_load_glyph_decode_ran env face fd len cs st1 hd0
      obtain ⟨-, hms⟩ := cid_load_glyph_metrics_frame env (cid_inc env face) glyph_index
        (cid_load_glyph_decode env face fd len cs st1).1
        (cid_load_glyph_decode env face fd len cs st1).2.2
      have hfe := cid_load_glyph_fetch_emits env face glyph_index st
      rw [hf] at hfe
      have hfe' : st1.trace.filter Event.isT1Parse = st.trace.filter Event.isT1Parse :=
        hfe.filter_eq Event.isT1Parse_of_isCidFetch
      refine ⟨ps, hps, ?_, hans⟩
      rw [(cid_load_glyph_Exit_result _ _ _ _).2.2.2, List.filter_append,
        hms.filter_eq Event.isT1Parse_of_isIncMetrics, htr, hfe']
      simp [Event.isT1Parse]
    | exit e st1 =>
      right
      rw [cid_load_glyph_of_exit env face glyph_index st e st1 hf,
        (cid_load_glyph_Exit_result _ _ _ _).1] at h0
      subst h0
      unfold cid_load_glyph_fetch at hf
      cases hi : cid_inc env face with
      | some inc =>
        right
        rw [hi] at hf
        simp only [] at hf
        obtain ⟨h1, h2, -⟩ := cid_load_glyph_incremental_exit_ok env face inc glyph_index st st1 hf
        exact ⟨inc, rfl, h1, h2⟩
      | none =>
        left
        rw [hi] at hf
        simp only [] at hf
        unfold cid_load_glyph_cidmap at hf
        cases hr : cid_load_glyph_cidmap_read env face glyph_index st with
        | exit e' st' =>
          rw [hr] at hf
          simp only [CID_Fetch.exit.injEq] at hf
          exact absurd hf.1.symm (by
            intro h
            exact cid_load_glyph_cidmap_read_exit env face glyph_index st st' e' hr h.symm)
        | entry fd off1 off2 st3 =>
          rw [hr] at hf
          simp only [] at hf
          obtain ⟨-, ho2, -⟩ := cid_load_glyph_cidmap_read_entry env face glyph_index st fd off1
            off2 st3 hr
          obtain ⟨h1, h2, h3, -⟩ := cid_load_glyph_cidmap_data_exit_ok env face fd off1 off2 st3
            st1 ho2 hf
          subst h3
          exact ⟨rfl, fd, off1, st3, rfl, h1, h2⟩
  · intro hi fd off st3 hr hfd hoff
    have hf : cid_load_glyph_fetch env face glyph_index st = CID_Fetch.exit 0 st3 := by
      unfold cid_load_glyph_fetch
      rw [hi]
      simp only []
      unfold cid_load_glyph_cidmap
      rw [hr]
      exact cid_load_glyph_cidmap_data_empty env face fd off st3 hfd hoff
    rw [cid_load_glyph_of_exit env face glyph_index st 0 st3 hf]
    obtain ⟨h1, -, -, h4⟩ := cid_load_glyph_Exit_result env 0 false st3
    refine ⟨h1, h4, ?_⟩
    have hfe := cid_load_glyph_fetch_emits env face glyph_index st
    rw [hf] at hfe
    have hfe' : st3.trace.filter Event.isT1Parse = st.trace.filter Event.isT1Parse :=
      hfe.filter_eq Event.isT1Parse_of_isCidFetch
    rw [h4, List.filter_append, hfe']
    simp [Event.isT1Parse]
  · intro inc hi h0 hshort
    have hf := cid_load_glyph_incremental_short env face inc glyph_index st h0 hshort
    have hf' : cid_load_glyph_fetch env face glyph_index st =
        CID_Fetch.exit 0
          { st with
            world := (inc.get_glyph_data glyph_index st.world).2.2
            trace := st.trace ++ [Event.inc_get_glyph_data glyph_index 0] } := by
      unfold cid_load_glyph_fetch
      rw [hi]
      exact hf
    rw [cid_load_glyph_of_exit env face glyph_index st 0 _ hf']
    obtain ⟨h1, -, -, h4⟩ := cid_load_glyph_Exit_result env 0 false
      { st with
        world := (inc.get_glyph_data glyph_index st.world).2.2
        trace := st.trace ++ [Event.inc_get_glyph_data glyph_index 0] }
    refine ⟨h1, ?_⟩
    rw [h4]
    simp

/-- C26 (witness): glyph 1 of the sample font has an entry of length 0
(offsets 12 and 12). -/
theorem cid_load_glyph_success_witness :
    (cid_load_glyph (Sample.cid_env Sample.cid_stream [] false) (Sample.cid_face none) 1
        Sample.cid_state).1 = 0 ∧
      (cid_load_glyph (Sample.cid_env Sample.cid_stream [] false) (Sample.cid_face none) 1
        Sample.cid_state).2.trace.filter Event.isT1Parse = [] :=
  have h := (cid_load_glyph_success (Sample.cid_env Sample.cid_stream [] false)
    (Sample.cid_face none) 1 Sample.cid_state).2.1 rfl 0 12
    { Sample.cid_state with
      world := { pos := 3, calls := 0 }
      trace := [Event.stream_seek 3 0, Event.frame_enter 6 0, Event.frame_exit] }
    rfl (by decide) (by decide)
  ⟨h.1, h.2.2⟩

/-- C26 (counterexample): glyph 1 of the sample font has an entry of length 0
(offsets 12 and 12).  `cid_load_glyph` returns 0 although no charstring was
read and no parser was invoked. -/
theorem cid_load_glyph_empty_entry_succeeds :
    (cid_load_glyph (Sample.cid_env Sample.cid_stream [] false) (Sample.cid_face none) 1
        Sample.cid_state).1 = FT_TS_Err_Ok ∧
      (cid_load_glyph (Sample.cid_env Sample.cid_stream [] false) (Sample.cid_face none) 1
        Sample.cid_state).2.trace =
        [Event.stream_seek 3 0, Event.frame_enter 6 0, Event.frame_exit, Event.mem_free] := by
  decide

end CIDSuccess2

/-! ## One dictionary per charstring -/

section OneDict

variable {W : Type}

/-- The fetch of `cid_load_glyph` reads neither `face->subrs` nor
`cid->font_dicts`. -/
theorem cid_load_glyph_fetch_dicts (env : CID_Env W) (face : CID_FaceRec W)
    (subrs' : List CID_SubrsRec) (dicts' : List CID_FaceDictRec) (glyph_index : Nat)
    (st : CID_LoadState W) :
    cid_load_glyph_fetch env
        { face with subrs := subrs', cid := { face.cid with font_dicts := dicts' } }
        glyph_index st =
      cid_load_glyph_fetch env face glyph_index st := rfl

/-- The decode of `cid_load_glyph` reads `face->subrs` and `cid->font_dicts`
at index `fd_select` only. -/
theorem cid_load_glyph_decode_dicts (env : CID_Env W) (face : CID_FaceRec W)
    (subrs' : List CID_SubrsRec) (dicts' : List CID_FaceDictRec)
    (fd_select glyph_length : Nat) (charstring : List Nat) (st : CID_LoadState W)
    (hs : subrs'.getD fd_select default = face.subrs.getD fd_select default)
    (hd : dicts'.getD fd_select default = face.cid.font_dicts.getD fd_select default) :
    cid_load_glyph_decode env
        { face with subrs := subrs', cid := { face.cid with font_dicts := dicts' } }
        fd_select glyph_length charstring st =
      cid_load_glyph_decode env face fd_select glyph_length charstring st := by
  unfold cid_load_glyph_decode
  simp only [hs, hd]
  rfl

theorem cff_slot_load_subfont_subfonts (env : CFF_Env W) (cff : CFF_FontRec)
    (subfonts' : List CFF_SubFontRec) (glyph_index : Nat) (st : CFF_LoadState W)
    (h : cff.num_subfonts ≠ 0 →
      subfonts'.getD (cff_slot_load_fd_index env cff glyph_index) default =
        cff.subfonts.getD (cff_slot_load_fd_index env cff glyph_index) default) :
    cff_slot_load_subfont env { cff with subfonts := subfonts' } glyph_index st =
      cff_slot_load_subfont env cff glyph_index st := by
  unfold cff_slot_load_subfont
  by_cases h1 : cff.num_subfonts ≠ 0
  · have h2 := h h1
    unfold cff_slot_load_fd_index at h2
    simp only [] at h2 ⊢
    rw [if_pos h1, if_pos h1, h2]
  · simp only []
    rw [if_neg h1, if_neg h1]

theorem cff_slot_load_from_subfonts (env : CFF_Env W) (face : TT_FaceRec W)
    (subfonts' : List CFF_SubFontRec) (glyph : T1_GlyphSlotRec) (size : Option CFF_SizeRec)
    (glyph_index load_flags : Nat) (w : W) (tr : List Event)
    (h : face.cff.num_subfonts ≠ 0 →
      subfonts'.getD (cff_slot_load_fd_index env face.cff glyph_index) default =
        face.cff.subfonts.getD (cff_slot_load_fd_index env face.cff glyph_index) default) :
    cff_slot_load_from env { face with cff := { face.cff with subfonts := subfonts' } } glyph
        size glyph_index load_flags w tr =
      cff_slot_load_from env face glyph size glyph_index load_flags w tr := by
  have hsf := fun st => cff_slot_load_subfont_subfonts env face.cff subfonts' glyph_index st h
  unfold cff_slot_load_from
  simp only [hsf]
  rfl

end OneDict

section OneDictClaims

variable {W : Type}

theorem cid_load_glyph_index_events (env : CID_Env W) (face : CID_FaceRec W)
    (glyph_index : Nat) (st : CID_LoadState W) (fd len : Nat) (cs : List Nat)
    (st1 : CID_LoadState W)
    (hfetch : cid_load_glyph_fetch env face glyph_index st = CID_Fetch.data fd len cs st1) :
    ∃ new, (cid_load_glyph env face glyph_index st).2.trace = st.trace ++ new ∧
      ∀ i, (Event.index_subrs i ∈ new ∨ Event.index_font_dicts i ∈ new) → i = fd := by
  rw [cid_load_glyph_of_data env face glyph_index st fd len cs st1 hfetch]
  have hfe := cid_load_glyph_fetch_emits env face glyph_index st
  rw [hfetch] at hfe
  obtain ⟨f, hf, hfall⟩ := hfe
  obtain ⟨d, hd, hdall⟩ := cid_load_glyph_decode_emits env face fd len cs st1
  obtain ⟨-, m, hm, hmall⟩ := cid_load_glyph_metrics_frame env (cid_inc env face) glyph_index
    (cid_load_glyph_decode env face fd len cs st1).1
    (cid_load_glyph_decode env face fd len cs st1).2.2
  have hf' : st1.trace = st.trace ++ f := hf
  refine ⟨f ++ d ++ m ++ [Event.mem_free], ?_, ?_⟩
  · rw [(cid_load_glyph_Exit_result _ _ _ _).2.2.2, hm, hd, hf']
    simp
  · intro i hi
    have key : ∀ e, e ∈ f ++ d ++ m ++ [Event.mem_free] →
        (e = Event.index_subrs i ∨ e = Event.index_font_dicts i) → i = fd := by
      intro e he hei
      simp only [List.mem_append, List.mem_singleton] at he
      rcases he with ((he | he) | he) | he
      · have := hfall e he
        rcases hei with hei | hei <;> rw [hei] at this <;> simp [Event.isCidFetch] at this
      · have := hdall e he
        rcases hei with hei | hei <;> rw [hei] at this <;>
          simpa [Event.isCidDecode] using this
      · have := hmall e he
        rcases hei with hei | hei <;> rw [hei] at this <;> simp [Event.isIncMetrics] at this
      · rcases hei with hei | hei <;> rw [hei] at he <;> simp at he
    rcases hi with hi | hi
    · exact key _ hi (Or.inl rfl)
    · exact key _ hi (Or.inr rfl)

/-- C24: once `cid_load_glyph` has read the dictionary index `fd` of the
glyph, every indexing of `face->subrs` and of `cid->font_dicts` it makes uses
`fd`, and its result (error, decoder, slot, calls) stays the same when every
other entry of the two arrays is replaced: subroutines, font matrix, font
offset, `lenIV` and the private dictionary handed to the decoder all come
from entry `fd`.  In `cff_slot_load` the font matrix, the font offset and the
units per em (which decide the forced scaling and the rescaling of the
scales) are those of one dictionary, the subfont at the resolved index when
the font has subfonts, and the result of the call stays the same when every
other subfont is replaced. -/
theorem slot_load_one_dictionary (cenv : CID_Env W) (cface : CID_FaceRec W) (cid_index : Nat)
    (st : CID_LoadState W) (env : CFF_Env W) (face : TT_FaceRec W) (glyph : T1_GlyphSlotRec)
    (size : Option CFF_SizeRec) (glyph_index load_flags : Nat) (w : W) :
    (∀ fd len cs st1,
        cid_load_glyph_fetch cenv cface cid_index st = CID_Fetch.data fd len cs st1 →
        (∃ new, (cid_load_glyph cenv cface cid_index st).2.trace = st.trace ++ new ∧
          ∀ i, (Event.index_subrs i ∈ new ∨ Event.index_font_dicts i ∈ new) → i = fd) ∧
        ∀ (subrs' : List CID_SubrsRec) (dicts' : List CID_FaceDictRec),
          subrs'.getD fd default = cface.subrs.getD fd default →
          dicts'.getD fd default = cface.cid.font_dicts.getD fd default →
          cid_load_glyph cenv
              { cface with subrs := subrs', cid := { cface.cid with font_dicts := dicts' } }
              cid_index st =
            cid_load_glyph cenv cface cid_index st) ∧
      (∀ g, (cff_slot_load_index env face.cff glyph_index).1 = Except.ok g →
        (face.cff.num_subfonts ≠ 0 →
          cff_slot_load_dict env face.cff g =
            (face.cff.subfonts.getD (cff_slot_load_fd_index env face.cff g) default).font_dict) ∧
        (∀ r, cff_slot_load_built env face glyph size glyph_index load_flags w = some r →
          r.glyph_index = g ∧
          r.font_matrix = (cff_slot_load_dict env face.cff g).font_matrix ∧
          r.font_offset = (cff_slot_load_dict env face.cff g).font_offset ∧
          r.build.force_scaling =
            (decide (FT_TS_Long_of_ULong face.cff.top_font.font_dict.units_per_em ≠
                FT_TS_Long_of_ULong (cff_slot_load_dict env face.cff g).units_per_em) ||
              r.build.st.trace.any Event.isCffTooBig) ∧
          r.build.st.glyph.x_scale =
            (if FT_TS_Long_of_ULong face.cff.top_font.font_dict.units_per_em ≠
                FT_TS_Long_of_ULong (cff_slot_load_dict env face.cff g).units_per_em then
              env.base.MulDiv (cff_slot_load_scales size).1
                (FT_TS_Long_of_ULong face.cff.top_font.font_dict.units_per_em)
                (FT_TS_Long_of_ULong (cff_slot_load_dict env face.cff g).units_per_em)
            else (cff_slot_load_scales size).1)) ∧
        ∀ subfonts' : List CFF_SubFontRec,
          (face.cff.num_subfonts ≠ 0 →
            subfonts'.getD (cff_slot_load_fd_index env face.cff g) default =
              face.cff.subfonts.getD (cff_slot_load_fd_index env face.cff g) default) →
          cff_slot_load env { face with cff := { face.cff with subfonts := subfonts' } } glyph
              size glyph_index load_flags w =
            cff_slot_load env face glyph size glyph_index load_flags w) := by
  constructor
  · intro fd len cs st1 hfetch
    refine ⟨cid_load_glyph_index_events cenv cface cid_index st fd len cs st1 hfetch, ?_⟩
    intro subrs' dicts' hs hd
    have hfetch' := hfetch
    rw [← cid_load_glyph_fetch_dicts cenv cface subrs' dicts' cid_index st] at hfetch'
    rw [cid_load_glyph_of_data _ _ _ _ _ _ _ _ hfetch', cid_load_glyph_of_data _ _ _ _ _ _ _ _ hfetch,
      cid_load_glyph_decode_dicts cenv cface subrs' dicts' fd len cs st1 hs hd]
    rfl
  · intro g hg
    refine ⟨?_, ?_, ?_⟩
    · intro h
      unfold cff_slot_load_dict
      rw [if_pos h]
    · intro r hr
      obtain ⟨h1, -, h3, h4, h5, -, -, -, -, -, -, -, -, h14⟩ :=
        cff_slot_load_built_state env face glyph size glyph_index load_flags w r hr
      have hgi : r.glyph_index = g := by
        rw [hg] at h1
        simp only [Except.ok.injEq] at h1
        exact h1.symm
      rw [hgi] at h3 h4 h5 h14
      exact ⟨hgi, h3, h4, h14, h5⟩
    · intro subfonts' hsub
      unfold cff_slot_load
      have hix : cff_slot_load_index env
          ({ face with cff := { face.cff with subfonts := subfonts' } } : TT_FaceRec W).cff
          glyph_index = cff_slot_load_index env face.cff glyph_index := rfl
      simp only [hix]
      generalize cff_slot_load_index env face.cff glyph_index = ix at hg ⊢
      obtain ⟨res, evs⟩ := ix
      simp only [] at hg
      subst hg
      simp only []
      exact cff_slot_load_from_subfonts env face subfonts' glyph size g load_flags w evs hsub

/-- C24 (witness): the sample CID font with a second, different dictionary
and a second subroutine table added; glyph 0 belongs to dictionary 0. -/
theorem slot_load_one_dictionary_witness :
    cid_load_glyph (Sample.cid_env Sample.cid_stream [] false)
        { Sample.cid_face none with
          subrs := [{ num_subrs := 0, code := [] }, { num_subrs := 7, code := [[11]] }]
          cid :=
            { (Sample.cid_face none).cid with
              font_dicts := (Sample.cid_face none).cid.font_dicts ++ [default] } }
        0 Sample.cid_state =
      cid_load_glyph (Sample.cid_env Sample.cid_stream [] false) (Sample.cid_face none) 0
        Sample.cid_state :=
  ((slot_load_one_dictionary (Sample.cid_env Sample.cid_stream [] false) (Sample.cid_face none)
    0 Sample.cid_state (Sample.cff_env id id 0 [] false) (Sample.cff_face 0xFFFF none 0 none 1)
    default none 0 0 Sample.world).1 0 3 [21, 22, 23]
    { Sample.cid_state with
      trace := [Event.stream_seek 0 0, Event.frame_enter 6 0, Event.frame_exit,
        Event.qalloc 3 0, Event.stream_read_at 9 3 0] }
    rfl).2 _ _ rfl rfl

end OneDictClaims

/-! ## Advance only -/

section AdvanceOnly

variable {W : Type}

/-- How the state that reaches line 523 is made: the metrics callback after
the build, on the flags after line 234. -/
theorem cff_slot_load_built_build (env : CFF_Env W) (face : TT_FaceRec W)
    (glyph : T1_GlyphSlotRec) (size : Option CFF_SizeRec) (glyph_index load_flags : Nat)
    (w : W) (r : CFF_Built W)
    (h : cff_slot_load_built env face glyph size glyph_index load_flags w = some r) :
    ∃ (fs : Bool) (st1 : CFF_LoadState W),
      r.build = cff_slot_load_inc_metrics env face r.glyph_index
        (cff_slot_load_build env face size r.glyph_index r.load_flags
          (decide (r.load_flags &&& FT_TS_LOAD_NO_HINTING = 0)) fs st1) ∧
      st1.glyph.outline.n_points = 0 ∧ st1.glyph.outline.n_contours = 0 := by
  unfold cff_slot_load_built at h
  simp only [] at h
  generalize cff_slot_load_index env face.cff glyph_index = ix at h
  obtain ⟨res, evs⟩ := ix
  cases res with
  | error e => simp at h
  | ok g =>
    simp only [] at h
    generalize (match size with
      | some sz => ({ glyph with x_scale := sz.metrics.x_scale, y_scale := sz.metrics.y_scale } :
          T1_GlyphSlotRec)
      | none => { glyph with x_scale := 0x10000, y_scale := 0x10000 }) = glyph1 at h
    cases hs : cff_slot_load_sbit env face size g (load_flags_recurse load_flags)
        { glyph := glyph1, world := w, trace := evs } with
    | ret error st =>
      rw [hs] at h
      simp at h
    | next st =>
      rw [hs] at h
      simp only [] at h
      by_cases hsb : load_flags_recurse load_flags &&& FT_TS_LOAD_SBITS_ONLY ≠ 0
      · rw [if_pos hsb] at h
        simp at h
      · rw [if_neg hsb] at h
        simp only [Option.some.injEq] at h
        subst h
        exact ⟨_, _, rfl, rfl, rfl⟩

theorem cff_slot_load_finished_fields (env : CFF_Env W) (b : CFF_Build W) :
    (cff_slot_load_finished env b).error = b.error ∧
      (cff_slot_load_finished env b).decoder = b.decoder := by
  unfold cff_slot_load_finished
  split_ifs <;> exact ⟨rfl, rfl⟩

theorem cff_slot_load_parse_width_only (env : CFF_Env W) (face : TT_FaceRec W)
    (charstring : List Nat) (charstring_len : Nat) (b : CFF_Build W)
    (hmode : env.width_only_mode) (hw : b.decoder.width_only = true) :
    (cff_slot_load_parse env face charstring charstring_len b).decoder.width_only = true ∧
      (cff_slot_load_parse env face charstring charstring_len b).decoder.builder.base.n_points =
        0 ∧
      (cff_slot_load_parse env face charstring charstring_len b).decoder.builder.base.n_contours =
        0 := by
  obtain ⟨-, hnew, hold⟩ := hmode
  unfold cff_slot_load_parse
  simp only []
  split_ifs
  · exact hold _ _ _ _ _ hw
  · exact hnew _ _ _ _ _ (hnew _ _ _ _ _ hw).1
  · exact hnew _ _ _ _ _ hw

theorem cff_slot_load_decode_width_only (env : CFF_Env W) (face : TT_FaceRec W)
    (size : Option CFF_SizeRec) (glyph_index : Nat) (hinting force_scaling : Bool)
    (decoder0 : CFF_DecoderRec) (st : CFF_LoadState W)
    (hmode : env.width_only_mode) (hw : decoder0.width_only = true)
    (hok : (cff_slot_load_decode env face size glyph_index hinting force_scaling decoder0
      st).error = 0) :
    (cff_slot_load_decode env face size glyph_index hinting force_scaling decoder0
        st).decoder.width_only = true ∧
      (cff_slot_load_decode env face size glyph_index hinting force_scaling decoder0
        st).decoder.builder.base.n_points = 0 ∧
      (cff_slot_load_decode env face size glyph_index hinting force_scaling decoder0
        st).decoder.builder.base.n_contours = 0 := by
  unfold cff_slot_load_decode at hok ⊢
  simp only [] at hok ⊢
  split_ifs at hok ⊢ with h1 h2 h3
  · rw [(cff_slot_load_finished_fields _ _).1] at hok
    exact absurd hok h1
  · rw [(cff_slot_load_finished_fields _ _).1] at hok
    exact absurd hok h2
  · rw [(cff_slot_load_finished_fields _ _).1] at hok
    exact absurd hok h3
  · rw [(cff_slot_load_finished_fields _ _).2]
    exact cff_slot_load_parse_width_only env face _ _ _ hmode
      (by rw [hmode.1]; exact hw)

theorem cff_slot_load_inc_metrics_width_only (env : CFF_Env W) (face : TT_FaceRec W)
    (glyph_index : Nat) (b : CFF_Build W) :
    (cff_slot_load_inc_metrics env face glyph_index b).decoder.width_only =
        b.decoder.width_only ∧
      (cff_slot_load_inc_metrics env face glyph_index b).decoder.glyph_width =
        b.decoder.glyph_width := by
  unfold cff_slot_load_inc_metrics
  cases cff_inc env face with
  | none => exact ⟨rfl, rfl⟩
  | some i =>
    simp only []
    cases i.get_glyph_metrics with
    | none => exact ⟨rfl, rfl⟩
    | some f =>
      simp only []
      split_ifs <;> exact ⟨rfl, rfl⟩

theorem cff_slot_load_init_width_only (env : CFF_Env W) (size : Option CFF_SizeRec)
    (load_flags : Nat) (hinting : Bool) (st : CFF_LoadState W)
    (h : load_flags &&& FT_TS_LOAD_ADVANCE_ONLY ≠ 0) :
    (cff_slot_load_init env size load_flags hinting st).1.width_only = true := by
  unfold cff_slot_load_init
  simp only []
  rw [if_pos h]

/-- The matrix, offset and scaling steps keep the numbers of points and of
contours of the outline. -/
theorem cff_slot_load_geometry_counts (env : CFF_Env W) (face : TT_FaceRec W)
    (size : Option CFF_SizeRec) (glyph_index load_flags : Nat) (hinting force_scaling : Bool)
    (font_matrix : FT_TS_Matrix) (font_offset : FT_TS_Vector) (decoder : CFF_DecoderRec)
    (g : T1_GlyphSlotRec)
    (hT : env.base.Outline_Transform = FT_TS_Outline_Transform)
    (hL : env.base.Outline_Translate = FT_TS_Outline_Translate) :
    (cff_slot_load_geometry env face size glyph_index load_flags hinting force_scaling
        font_matrix font_offset decoder g).outline.n_points = g.outline.n_points ∧
      (cff_slot_load_geometry env face size glyph_index load_flags hinting force_scaling
        font_matrix font_offset decoder g).outline.n_contours = g.outline.n_contours := by
  unfold cff_slot_load_geometry scale_outline_metrics cff_slot_load_unscaled apply_font_offset
    apply_font_matrix
  rw [hT, hL]
  split_ifs <;> exact ⟨rfl, rfl⟩

end AdvanceOnly

section AdvanceOnlyClaims

variable {W : Type}

/-- What the metrics stage of `cff_slot_load` does under `no_recurse`. -/
theorem cff_slot_load_metrics_no_recurse (env : CFF_Env W) (face : TT_FaceRec W)
    (size : Option CFF_SizeRec) (glyph_index load_flags : Nat) (hinting force_scaling : Bool)
    (font_matrix : FT_TS_Matrix) (font_offset : FT_TS_Vector) (decoder : CFF_DecoderRec)
    (st : CFF_LoadState W) (h : load_flags &&& FT_TS_LOAD_NO_RECURSE ≠ 0) :
    (cff_slot_load_metrics env face size glyph_index load_flags hinting force_scaling
        font_matrix font_offset decoder st).glyph =
      { st.glyph with
        metrics :=
          { st.glyph.metrics with
            horiBearingX := decoder.builder.left_bearing.x
            horiAdvance := decoder.glyph_width }
        internal :=
          { glyph_matrix := font_matrix
            glyph_delta := font_offset
            glyph_transformed := true } } := by
  unfold cff_slot_load_metrics
  rw [if_pos h]

/-- C23: a load by `cff_slot_load` with `advance_only` that reaches the
metrics without error succeeds.  The decoder is initialised with its
`width_only` flag set and still has it set after the parse.  With decoders
that skip the accumulation of points and contours in that mode, and base
helpers that transform and translate point by point, the outline of the slot
has no point and no contour.  The horizontal advance is written: under
`no_recurse` it is the width found by the decoder; otherwise it is the
advance of the horizontal metrics table, or the width found by the decoder
when the face has no such table, carried through the matrix, offset and
scaling steps. -/
theorem cff_slot_load_advance_only (env : CFF_Env W) (face : TT_FaceRec W)
    (glyph : T1_GlyphSlotRec) (size : Option CFF_SizeRec) (glyph_index load_flags : Nat)
    (w : W) (r : CFF_Built W)
    (hadv : load_flags &&& FT_TS_LOAD_ADVANCE_ONLY ≠ 0)
    (hr : cff_slot_load_built env face glyph size glyph_index load_flags w = some r)
    (hok : r.build.error = 0)
    (hmode : env.width_only_mode)
    (hT : env.base.Outline_Transform = FT_TS_Outline_Transform)
    (hL : env.base.Outline_Translate = FT_TS_Outline_Translate) :
    (cff_slot_load env face glyph size glyph_index load_flags w).1 = 0 ∧
      (∀ hinting st, (cff_slot_load_init env size r.load_flags hinting st).1.width_only = true) ∧
      r.build.decoder.width_only = true ∧
      (cff_slot_load env face glyph size glyph_index load_flags w).2.1.outline.n_points = 0 ∧
      (cff_slot_load env face glyph size glyph_index load_flags w).2.1.outline.n_contours = 0 ∧
      (load_flags &&& FT_TS_LOAD_NO_RECURSE ≠ 0 →
        (cff_slot_load env face glyph size glyph_index load_flags w).2.1.metrics.horiAdvance =
          r.build.decoder.glyph_width) ∧
      (load_flags &&& FT_TS_LOAD_NO_RECURSE = 0 →
        env.base.synthesizes_vertical ∨ cff_has_vertical_info face = true ∨
          load_flags &&& FT_TS_LOAD_VERTICAL_LAYOUT = 0 →
        (cff_slot_load env face glyph size glyph_index load_flags w).2.1.metrics.horiAdvance =
          (scale_outline_metrics env.base load_flags r.build.force_scaling r.build.hinting
            r.build.decoder.builder.hints_funcs 0
            (cff_slot_load env face glyph size glyph_index load_flags w).2.1.x_scale
            (cff_slot_load env face glyph size glyph_index load_flags w).2.1.y_scale
            (apply_font_offset env.base r.font_offset
              (apply_font_matrix env.base r.font_matrix
                { outline := default
                  horiAdvance :=
                    if face.horizontal.number_Of_HMetrics ≠ 0 then
                      ((env.get_metrics false r.glyph_index).2 : Int)
                    else r.build.decoder.glyph_width
                  vertAdvance := 0 }))).horiAdvance) := by
  have hadv' : r.load_flags &&& FT_TS_LOAD_ADVANCE_ONLY ≠ 0 := by
    rw [(cff_slot_load_built_state env face glyph size glyph_index load_flags w r hr).2.1,
      load_flags_recurse_other_bit _ _ (by decide)]
    exact hadv
  obtain ⟨fs, st1, hb, -, -⟩ :=
    cff_slot_load_built_build env face glyph size glyph_index load_flags w r hr
  have hbase13 := (cff_slot_load_built_state env face glyph size glyph_index load_flags w r
    hr).2.2.2.2.2.2.2.2.2.2.2.2.1 hok
  have hdec : r.build.decoder.width_only = true ∧ r.build.decoder.builder.base.n_points = 0 ∧
      r.build.decoder.builder.base.n_contours = 0 := by
    rw [hb]
    obtain ⟨-, -, -, hi4, hi5, -⟩ := cff_slot_load_inc_metrics_state env face r.glyph_index
      (cff_slot_load_build env face size r.glyph_index r.load_flags
        (decide (r.load_flags &&& FT_TS_LOAD_NO_HINTING = 0)) fs st1)
    rw [(cff_slot_load_inc_metrics_width_only _ _ _ _).1, hi4]
    have hok' := hi5 (by rw [← hb]; exact hok)
    unfold cff_slot_load_build at hok' ⊢
    exact cff_slot_load_decode_width_only env face size r.glyph_index _ fs _ _ hmode
      (cff_slot_load_init_width_only env size r.load_flags _ st1 hadv') hok'
  have hres := cff_slot_load_of_built env face glyph size glyph_index load_flags w r hr
  rw [if_pos hok] at hres
  refine ⟨by rw [hres]; exact hok,
    fun hinting st => cff_slot_load_init_width_only env size r.load_flags hinting st hadv',
    hdec.1, ?_⟩
  by_cases hnr : load_flags &&& FT_TS_LOAD_NO_RECURSE = 0
  · obtain ⟨h1, -, -, h4, h5, h6, -⟩ :=
      cff_slot_load_outline_facts env face glyph size glyph_index load_flags w r hr hok hnr
    obtain ⟨hc1, hc2⟩ := cff_slot_load_geometry_counts env face size r.glyph_index load_flags
      r.build.hinting r.build.force_scaling r.font_matrix r.font_offset r.build.decoder
      r.build.st.glyph hT hL
    refine ⟨by rw [h1, hc1, hbase13]; exact hdec.2.1, by rw [h1, hc2, hbase13]; exact hdec.2.2,
      fun h => absurd hnr h, fun _ hs => ?_⟩
    rw [(h6 hs).1, h4, h5]
    unfold cff_slot_load_geometry cff_slot_load_unscaled cff_slot_load_horiAdvance
      scale_outline_metrics apply_font_offset apply_font_matrix
    split_ifs <;> rfl
  · have hnr' : r.load_flags &&& FT_TS_LOAD_NO_RECURSE ≠ 0 := by
      rw [(cff_slot_load_built_state env face glyph size glyph_index load_flags w r hr).2.1]
      exact (load_flags_recurse_of_set load_flags hnr).1
    have hg := cff_slot_load_metrics_no_recurse env face size r.glyph_index r.load_flags
      r.build.hinting r.build.force_scaling r.font_matrix r.font_offset r.build.decoder
      r.build.st hnr'
    have hslot : (cff_slot_load env face glyph size glyph_index load_flags w).2.1 = _ :=
      (congrArg (fun p => p.2.1) hres).trans hg
    refine ⟨?_, ?_, fun _ => ?_, fun h => absurd h hnr⟩
    · rw [hslot]
      show r.build.st.glyph.outline.n_points = 0
      rw [hbase13]
      exact hdec.2.1
    · rw [hslot]
      show r.build.st.glyph.outline.n_contours = 0
      rw [hbase13]
      exact hdec.2.2
    · rw [hslot]

end AdvanceOnlyClaims

theorem Sample.cff_env_width_mode : Sample.cff_env_width.width_only_mode := by
  refine ⟨fun _ _ _ _ => rfl, fun d _ _ _ _ h => ?_, fun d _ _ _ _ h => ?_⟩
  · show (Sample.cff_parsed_width d).width_only = true ∧
      (Sample.cff_parsed_width d).builder.base.n_points = 0 ∧
      (Sample.cff_parsed_width d).builder.base.n_contours = 0
    unfold Sample.cff_parsed_width
    rw [if_pos h]
    exact ⟨h, rfl, rfl⟩
  · show (Sample.cff_parsed_width d).width_only = true ∧
      (Sample.cff_parsed_width d).builder.base.n_points = 0 ∧
      (Sample.cff_parsed_width d).builder.base.n_contours = 0
    unfold Sample.cff_parsed_width
    rw [if_pos h]
    exact ⟨h, rfl, rfl⟩

theorem Sample.cff_face_width_built :
    (cff_slot_load_built Sample.cff_env_width (Sample.cff_face 0xFFFF none 0 none 1) default
      (some Sample.cff_size) 0 FT_TS_LOAD_ADVANCE_ONLY Sample.world).isSome = true := by
  decide

/-- C23 (witness): glyph 0 of the simple sample font, loaded for its advance
only at the sample size with decoders that have a metrics-only mode: no
point, no contour, and an advance of 1000 (the width 500 at scale 2.0). -/
theorem cff_slot_load_advance_only_witness :
    (cff_slot_load Sample.cff_env_width (Sample.cff_face 0xFFFF none 0 none 1) default
        (some Sample.cff_size) 0 FT_TS_LOAD_ADVANCE_ONLY Sample.world).2.1.outline.n_points = 0 ∧
      (cff_slot_load Sample.cff_env_width (Sample.cff_face 0xFFFF none 0 none 1) default
        (some Sample.cff_size) 0 FT_TS_LOAD_ADVANCE_ONLY
        Sample.world).2.1.metrics.horiAdvance = 1000 :=
  have h := cff_slot_load_advance_only Sample.cff_env_width
    (Sample.cff_face 0xFFFF none 0 none 1) default (some Sample.cff_size) 0
    FT_TS_LOAD_ADVANCE_ONLY Sample.world
    ((cff_slot_load_built Sample.cff_env_width (Sample.cff_face 0xFFFF none 0 none 1) default
      (some Sample.cff_size) 0 FT_TS_LOAD_ADVANCE_ONLY Sample.world).get
      Sample.cff_face_width_built)
    (by decide) (Option.some_get Sample.cff_face_width_built).symm (by decide)
    Sample.cff_env_width_mode rfl rfl
  ⟨h.2.2.2.1, (h.2.2.2.2.2.2 (by decide) (Or.inr (Or.inr (by decide)))).trans (by decide)⟩

/-! ## Unscaled loads -/

/-- C27 (failing input): the sample face with vertical metrics (top side
bearing 30) is loaded with `no_scale` and `no_hinting`, once at a size whose
scales are 2.0 and once at a size whose scales are 1.0.  Both loads succeed
without forced scaling, and they agree on the outline, on the advances, on
the box metrics and on `vertBearingX`; but `vertBearingY` is 60 in the first
and 30 in the second: line 668 multiplies it by `y_scale` whatever the
flags. -/
theorem cff_slot_load_no_scale_vertBearingY :
    (cff_slot_load Sample.cff_env_model Sample.cff_face_metrics default
        (some Sample.cff_size) 0 (FT_TS_LOAD_NO_SCALE ||| FT_TS_LOAD_NO_HINTING)
        Sample.world).1 = 0 ∧
      (cff_slot_load Sample.cff_env_model Sample.cff_face_metrics default
        (some Sample.cff_size_unit) 0 (FT_TS_LOAD_NO_SCALE ||| FT_TS_LOAD_NO_HINTING)
        Sample.world).1 = 0 ∧
      (cff_slot_load Sample.cff_env_model Sample.cff_face_metrics default
        (some Sample.cff_size) 0 (FT_TS_LOAD_NO_SCALE ||| FT_TS_LOAD_NO_HINTING)
        Sample.world).2.2.2.any Event.isCffTooBig = false ∧
      (cff_slot_load Sample.cff_env_model Sample.cff_face_metrics default
        (some Sample.cff_size) 0 (FT_TS_LOAD_NO_SCALE ||| FT_TS_LOAD_NO_HINTING)
        Sample.world).2.1.outline =
        (cff_slot_load Sample.cff_env_model Sample.cff_face_metrics default
          (some Sample.cff_size_unit) 0 (FT_TS_LOAD_NO_SCALE ||| FT_TS_LOAD_NO_HINTING)
          Sample.world).2.1.outline ∧
      { (cff_slot_load Sample.cff_env_model Sample.cff_face_metrics default
          (some Sample.cff_size) 0 (FT_TS_LOAD_NO_SCALE ||| FT_TS_LOAD_NO_HINTING)
          Sample.world).2.1.metrics with vertBearingY := 0 } =
        { (cff_slot_load Sample.cff_env_model Sample.cff_face_metrics default
            (some Sample.cff_size_unit) 0 (FT_TS_LOAD_NO_SCALE ||| FT_TS_LOAD_NO_HINTING)
            Sample.world).2.1.metrics with vertBearingY := 0 } ∧
      (cff_slot_load Sample.cff_env_model Sample.cff_face_metrics default
        (some Sample.cff_size) 0 (FT_TS_LOAD_NO_SCALE ||| FT_TS_LOAD_NO_HINTING)
        Sample.world).2.1.metrics.vertBearingY = 60 ∧
      (cff_slot_load Sample.cff_env_model Sample.cff_face_metrics default
        (some Sample.cff_size_unit) 0 (FT_TS_LOAD_NO_SCALE ||| FT_TS_LOAD_NO_HINTING)
        Sample.world).2.1.metrics.vertBearingY = 30 := by
  decide

/-! ## Loading the same glyph twice -/

section CFFSim

variable {W : Type}

theorem cff_get_glyph_data_sim (env : CFF_Env W) (face : TT_FaceRec W)
    (hdet : env.deterministic) (hinc : ∀ i, cff_inc env face = some i → i.deterministic)
    (glyph_index : Nat) (st st' : CFF_LoadState W) (h : st.sim st') :
    (cff_get_glyph_data env face glyph_index st).1 =
        (cff_get_glyph_data env face glyph_index st').1 ∧
      (cff_get_glyph_data env face glyph_index st).2.1 =
        (cff_get_glyph_data env face glyph_index st').2.1 ∧
      (cff_get_glyph_data env face glyph_index st).2.2.1 =
        (cff_get_glyph_data env face glyph_index st').2.2.1 ∧
      (cff_get_glyph_data env face glyph_index st).2.2.2.sim
        (cff_get_glyph_data env face glyph_index st').2.2.2 := by
  obtain ⟨hk, ht⟩ := h
  unfold cff_get_glyph_data
  cases hi : cff_inc env face with
  | some inc =>
    obtain ⟨h1, h2⟩ := (hinc inc hi).1 glyph_index st.world st'.world
    simp only [CFF_LoadState.sim]
    rw [h1, h2, ht]
    exact ⟨rfl, rfl, rfl, hk, rfl⟩
  | none =>
    obtain ⟨h1, h2, h3⟩ := hdet.2.1 face.cff.charstrings_index glyph_index st.world st'.world
    simp only [CFF_LoadState.sim]
    rw [h1, h2, h3, ht]
    exact ⟨rfl, rfl, rfl, hk, rfl⟩

theorem cff_free_glyph_data_sim (env : CFF_Env W) (face : TT_FaceRec W)
    (pointer : List Nat) (length : Nat) (st st' : CFF_LoadState W) (h : st.sim st') :
    (cff_free_glyph_data env face pointer length st).sim
      (cff_free_glyph_data env face pointer length st') := by
  obtain ⟨hk, ht⟩ := h
  unfold cff_free_glyph_data
  cases cff_inc env face with
  | some inc =>
    simp only [CFF_LoadState.sim]
    rw [ht]
    exact ⟨hk, rfl⟩
  | none =>
    simp only [CFF_LoadState.sim]
    rw [ht]
    exact ⟨hk, rfl⟩

theorem key_hint_false (g g' : T1_GlyphSlotRec) (h : g.key = g'.key) :
    ({ g with hint := false } : T1_GlyphSlotRec).key =
      ({ g' with hint := false } : T1_GlyphSlotRec).key := by
  simp only [T1_GlyphSlotRec.key, Prod.mk.injEq] at h ⊢
  exact ⟨trivial, h.2⟩

theorem cff_slot_load_parse_sim (env : CFF_Env W) (face : TT_FaceRec W)
    (hdet : env.deterministic) (charstring : List Nat) (charstring_len : Nat)
    (b b' : CFF_Build W) (h : b.sim b') :
    (cff_slot_load_parse env face charstring charstring_len b).sim
      (cff_slot_load_parse env face charstring charstring_len b') := by
  obtain ⟨e, hi, fs, d, ⟨g, w, t⟩⟩ := b
  obtain ⟨e', hi', fs', d', ⟨g', w', t'⟩⟩ := b'
  obtain ⟨he, hh, hf, hd, hk, ht⟩ := h
  simp only at he hh hf hd hk ht
  subst he hh hf hd ht
  have hkey : g.hint = g'.hint := congrArg Prod.fst hk
  unfold cff_slot_load_parse
  simp only []
  by_cases hl : env.CFF_CONFIG_OPTION_OLD_ENGINE = true ∧
      face.hinting_engine = FT_TS_HINTING_FREETYPE
  · rw [if_pos hl, if_pos hl]
    obtain ⟨h1, h2⟩ := hdet.2.2.2.2.1 d g g' charstring charstring_len w w' hk
    generalize env.parse_charstrings_old d g charstring charstring_len w = r at h1 h2 ⊢
    generalize env.parse_charstrings_old d g' charstring charstring_len w' = r' at h1 h2 ⊢
    obtain ⟨r1, r2, r3⟩ := r
    obtain ⟨r1', r2', r3'⟩ := r'
    simp only at h1 h2
    subst h1 h2
    exact ⟨rfl, rfl, rfl, rfl, hk, rfl⟩
  · rw [if_neg hl, if_neg hl]
    obtain ⟨h1, h2⟩ := hdet.2.2.2.2.2.1 d g g' charstring charstring_len w w' hk
    generalize env.parse_charstrings d g charstring charstring_len w = r at h1 h2 ⊢
    generalize env.parse_charstrings d g' charstring charstring_len w' = r' at h1 h2 ⊢
    obtain ⟨r1, r2, r3⟩ := r
    obtain ⟨r1', r2', r3'⟩ := r'
    simp only at h1 h2
    subst h1 h2
    simp only []
    by_cases hb : FT_TS_ERR_EQ r1 FT_TS_Err_Glyph_Too_Big = true
    · rw [if_pos hb, if_pos hb]
      obtain ⟨h3, h4⟩ := hdet.2.2.2.2.2.1 r2 { g with hint := false } { g' with hint := false }
        charstring charstring_len r3 r3' (key_hint_false g g' hk)
      generalize env.parse_charstrings r2 { g with hint := false } charstring charstring_len
        r3 = q at h3 h4 ⊢
      generalize env.parse_charstrings r2 { g' with hint := false } charstring charstring_len
        r3' = q' at h3 h4 ⊢
      obtain ⟨q1, q2, q3⟩ := q
      obtain ⟨q1', q2', q3'⟩ := q'
      simp only at h3 h4
      subst h3 h4
      refine ⟨rfl, rfl, rfl, rfl, key_hint_false g g' hk, ?_⟩
      simp only [hkey]
    · rw [if_neg hb, if_neg hb]
      refine ⟨rfl, rfl, rfl, rfl, hk, ?_⟩
      simp only [hkey]

end CFFSim

section CFFSim2

variable {W : Type}

theorem cff_slot_load_control_key (env : CFF_Env W) (face : TT_FaceRec W)
    (glyph_index charstring_len : Nat) (g : T1_GlyphSlotRec) :
    (cff_slot_load_control env face glyph_index charstring_len g).key = g.key ∧
      (cff_slot_load_control env face glyph_index charstring_len g).outline = g.outline := by
  unfold cff_slot_load_control
  cases cff_inc env face with
  | some i => exact ⟨rfl, rfl⟩
  | none =>
    simp only []
    cases face.cff.charstrings_index.offsets with
    | some o => exact ⟨rfl, rfl⟩
    | none => exact ⟨rfl, rfl⟩

theorem cff_slot_load_finished_sim (env : CFF_Env W) (b b' : CFF_Build W) (h : b.sim b') :
    (cff_slot_load_finished env b).sim (cff_slot_load_finished env b') := by
  obtain ⟨e, hi, fs, d, ⟨g, w, t⟩⟩ := b
  obtain ⟨e', hi', fs', d', ⟨g', w', t'⟩⟩ := b'
  obtain ⟨he, hh, hf, hd, hk, ht⟩ := h
  simp only at he hh hf hd hk ht
  subst he hh hf hd ht
  unfold cff_slot_load_finished
  simp only []
  by_cases h0 : e = 0
  · rw [if_pos h0, if_pos h0]
    exact ⟨rfl, rfl, rfl, rfl, hk, rfl⟩
  · rw [if_neg h0, if_neg h0]
    exact ⟨rfl, rfl, rfl, rfl, hk, rfl⟩

theorem cff_slot_load_init_sim (env : CFF_Env W) (hdet : env.deterministic)
    (size : Option CFF_SizeRec) (load_flags : Nat) (hinting : Bool)
    (st st' : CFF_LoadState W) (h : st.sim st') :
    (cff_slot_load_init env size load_flags hinting st).1 =
        (cff_slot_load_init env size load_flags hinting st').1 ∧
      (cff_slot_load_init env size load_flags hinting st).2.sim
        (cff_slot_load_init env size load_flags hinting st').2 := by
  obtain ⟨g, w, t⟩ := st
  obtain ⟨g', w', t'⟩ := st'
  obtain ⟨hk, ht⟩ := h
  simp only at hk ht
  subst ht
  have h1 := hdet.2.2.1 g g' size hinting (FT_TS_LOAD_TARGET_MODE load_flags) w w' hk
  unfold cff_slot_load_init
  simp only []
  rw [h1]
  exact ⟨rfl, hk, rfl⟩

theorem cff_slot_load_decode_sim (env : CFF_Env W) (face : TT_FaceRec W)
    (hdet : env.deterministic) (hinc : ∀ i, cff_inc env face = some i → i.deterministic)
    (size : Option CFF_SizeRec) (glyph_index : Nat) (hinting force_scaling : Bool)
    (decoder0 : CFF_DecoderRec) (st st' : CFF_LoadState W) (h : st.sim st') :
    (cff_slot_load_decode env face size glyph_index hinting force_scaling decoder0 st).sim
      (cff_slot_load_decode env face size glyph_index hinting force_scaling decoder0 st') := by
  obtain ⟨hg1, hg2, hg3, hg4⟩ := cff_get_glyph_data_sim env face hdet hinc glyph_index st st' h
  unfold cff_slot_load_decode
  simp only []
  generalize cff_get_glyph_data env face glyph_index st = d at hg1 hg2 hg3 hg4 ⊢
  generalize cff_get_glyph_data env face glyph_index st' = d' at hg1 hg2 hg3 hg4 ⊢
  obtain ⟨d1, d2, d3, ⟨dg, dw, dt⟩⟩ := d
  obtain ⟨d1', d2', d3', ⟨dg', dw', dt'⟩⟩ := d'
  obtain ⟨hk, ht⟩ := hg4
  simp only at hg1 hg2 hg3 hk ht
  subst hg1 hg2 hg3 ht
  simp only []
  by_cases h1 : d1 ≠ 0
  · rw [if_pos h1, if_pos h1]
    exact cff_slot_load_finished_sim env _ _ ⟨rfl, rfl, rfl, rfl, hk, rfl⟩
  · rw [if_neg h1, if_neg h1]
    obtain ⟨hp1, hp2⟩ := hdet.2.2.2.1 decoder0 size glyph_index dw dw'
    generalize env.cff_decoder_prepare decoder0 size glyph_index dw = p at hp1 hp2 ⊢
    generalize env.cff_decoder_prepare decoder0 size glyph_index dw' = p' at hp1 hp2 ⊢
    obtain ⟨p1, p2, p3⟩ := p
    obtain ⟨p1', p2', p3'⟩ := p'
    simp only at hp1 hp2
    subst hp1 hp2
    simp only []
    by_cases h2 : p1 ≠ 0
    · rw [if_pos h2, if_pos h2]
      exact cff_slot_load_finished_sim env _ _ ⟨rfl, rfl, rfl, rfl, hk, rfl⟩
    · rw [if_neg h2, if_neg h2]
      have hps := cff_slot_load_parse_sim env face hdet d2 d3
        { error := p1, hinting := hinting, force_scaling := force_scaling, decoder := p2
          st := { glyph := dg, world := p3,
                  trace := dt ++ [Event.cff_get_glyph_data glyph_index d1] ++
                    [Event.cff_decoder_prepare glyph_index p1] } }
        { error := p1, hinting := hinting, force_scaling := force_scaling, decoder := p2
          st := { glyph := dg', world := p3',
                  trace := dt ++ [Event.cff_get_glyph_data glyph_index d1] ++
                    [Event.cff_decoder_prepare glyph_index p1] } }
        ⟨rfl, rfl, rfl, rfl, hk, rfl⟩
      generalize cff_slot_load_parse env face d2 d3 _ = b at hps ⊢
      generalize cff_slot_load_parse env face d2 d3 _ = b' at hps ⊢
      obtain ⟨he, hh, hf, hd, hst⟩ := hps
      have hfr := cff_free_glyph_data_sim env face d2 d3
        { b.st with trace := b.st.trace ++ [Event.cff_free_glyph_data] }
        { b'.st with trace := b'.st.trace ++ [Event.cff_free_glyph_data] }
        ⟨hst.1, by rw [hst.2]⟩
      rw [he]
      by_cases h3 : b'.error ≠ 0
      · rw [if_pos h3, if_pos h3]
        exact cff_slot_load_finished_sim env _ _ ⟨rfl, hh, hf, hd, hfr⟩
      · rw [if_neg h3, if_neg h3]
        refine cff_slot_load_finished_sim env _ _ ⟨rfl, hh, hf, hd, ?_, hfr.2⟩
        show (cff_slot_load_control env face glyph_index d3 _).key =
          (cff_slot_load_control env face glyph_index d3 _).key
        rw [(cff_slot_load_control_key _ _ _ _ _).1, (cff_slot_load_control_key _ _ _ _ _).1]
        exact hfr.1

theorem cff_slot_load_build_sim (env : CFF_Env W) (face : TT_FaceRec W)
    (hdet : env.deterministic) (hinc : ∀ i, cff_inc env face = some i → i.deterministic)
    (size : Option CFF_SizeRec) (glyph_index load_flags : Nat) (hinting force_scaling : Bool)
    (st st' : CFF_LoadState W) (h : st.sim st') :
    (cff_slot_load_build env face size glyph_index load_flags hinting force_scaling st).sim
      (cff_slot_load_build env face size glyph_index load_flags hinting force_scaling st') := by
  obtain ⟨h1, h2⟩ := cff_slot_load_init_sim env hdet size load_flags hinting st st' h
  unfold cff_slot_load_build
  simp only []
  rw [h1]
  exact cff_slot_load_decode_sim env face hdet hinc size glyph_index hinting force_scaling _ _ _ h2

theorem cff_slot_load_inc_metrics_sim (env : CFF_Env W) (face : TT_FaceRec W)
    (hinc : ∀ i, cff_inc env face = some i → i.deterministic)
    (glyph_index : Nat) (b b' : CFF_Build W) (h : b.sim b') :
    (cff_slot_load_inc_metrics env face glyph_index b).sim
      (cff_slot_load_inc_metrics env face glyph_index b') := by
  obtain ⟨e, hi, fs, d, ⟨g, w, t⟩⟩ := b
  obtain ⟨e', hi', fs', d', ⟨g', w', t'⟩⟩ := b'
  obtain ⟨he, hh, hf, hd, hk, ht⟩ := h
  simp only at he hh hf hd hk ht
  subst he hh hf hd ht
  unfold cff_slot_load_inc_metrics
  cases hi : cff_inc env face with
  | none => exact ⟨rfl, rfl, rfl, rfl, hk, rfl⟩
  | some i =>
    simp only []
    cases hf : i.get_glyph_metrics with
    | none => exact ⟨rfl, rfl, rfl, rfl, hk, rfl⟩
    | some f =>
      simp only []
      by_cases h0 : e ≠ 0
      · rw [if_pos h0, if_pos h0]
        exact ⟨rfl, rfl, rfl, rfl, hk, rfl⟩
      · rw [if_neg h0, if_neg h0]
        obtain ⟨h1, h2⟩ := (hinc i hi).2 f hf glyph_index false
          { bearing_x := d.builder.left_bearing.x, bearing_y := 0
            advance := d.builder.advance.x, advance_v := d.builder.advance.y } w w'
        generalize f glyph_index false _ w = r at h1 h2 ⊢
        generalize f glyph_index false _ w' = r' at h1 h2 ⊢
        obtain ⟨r1, r2, r3⟩ := r
        obtain ⟨r1', r2', r3'⟩ := r'
        simp only at h1 h2
        subst h1 h2
        exact ⟨rfl, rfl, rfl, rfl, hk, rfl⟩

end CFFSim2

section CFFSim3

variable {W : Type}

/-- From line 353 on, `cff_slot_load` is the subfont selection, the reset of
the slot and the tail. -/
theorem cff_slot_load_from_next (env : CFF_Env W) (face : TT_FaceRec W)
    (glyph : T1_GlyphSlotRec) (size : Option CFF_SizeRec) (glyph_index load_flags : Nat)
    (w : W) (tr : List Event) (st : CFF_LoadState W)
    (hs : cff_slot_load_sbit env face size glyph_index (load_flags_recurse load_flags)
      { glyph :=
          { glyph with
            x_scale := (cff_slot_load_scales size).1
            y_scale := (cff_slot_load_scales size).2 }
        world := w, trace := tr } = CFF_Step.next st)
    (hsb : load_flags_recurse load_flags &&& FT_TS_LOAD_SBITS_ONLY = 0) :
    cff_slot_load_from env face glyph size glyph_index load_flags w tr =
      ((cff_slot_load_tail env face size glyph_index (load_flags_recurse load_flags)
          (decide (load_flags_recurse load_flags &&& FT_TS_LOAD_NO_HINTING = 0))
          (cff_slot_load_subfont env face.cff glyph_index st).2.2.1
          (cff_slot_load_subfont env face.cff glyph_index st).1
          (cff_slot_load_subfont env face.cff glyph_index st).2.1
          (cff_slot_load_reset (load_flags_recurse load_flags)
            (cff_slot_load_subfont env face.cff glyph_index st).2.2.2)).1,
        (cff_slot_load_tail env face size glyph_index (load_flags_recurse load_flags)
          (decide (load_flags_recurse load_flags &&& FT_TS_LOAD_NO_HINTING = 0))
          (cff_slot_load_subfont env face.cff glyph_index st).2.2.1
          (cff_slot_load_subfont env face.cff glyph_index st).1
          (cff_slot_load_subfont env face.cff glyph_index st).2.1
          (cff_slot_load_reset (load_flags_recurse load_flags)
            (cff_slot_load_subfont env face.cff glyph_index st).2.2.2)).2.glyph,
        (cff_slot_load_tail env face size glyph_index (load_flags_recurse load_flags)
          (decide (load_flags_recurse load_flags &&& FT_TS_LOAD_NO_HINTING = 0))
          (cff_slot_load_subfont env face.cff glyph_index st).2.2.1
          (cff_slot_load_subfont env face.cff glyph_index st).1
          (cff_slot_load_subfont env face.cff glyph_index st).2.1
          (cff_slot_load_reset (load_flags_recurse load_flags)
            (cff_slot_load_subfont env face.cff glyph_index st).2.2.2)).2.world,
        (cff_slot_load_tail env face size glyph_index (load_flags_recurse load_flags)
          (decide (load_flags_recurse load_flags &&& FT_TS_LOAD_NO_HINTING = 0))
          (cff_slot_load_subfont env face.cff glyph_index st).2.2.1
          (cff_slot_load_subfont env face.cff glyph_index st).1
          (cff_slot_load_subfont env face.cff glyph_index st).2.1
          (cff_slot_load_reset (load_flags_recurse load_flags)
            (cff_slot_load_subfont env face.cff glyph_index st).2.2.2)).2.trace) := by
  have hg : (match size with
      | some sz => ({ glyph with x_scale := sz.metrics.x_scale, y_scale := sz.metrics.y_scale } :
          T1_GlyphSlotRec)
      | none => { glyph with x_scale := 0x10000, y_scale := 0x10000 }) =
      { glyph with
        x_scale := (cff_slot_load_scales size).1
        y_scale := (cff_slot_load_scales size).2 } := by
    cases size <;> rfl
  unfold cff_slot_load_from
  simp only []
  rw [hg, hs]
  simp only []
  rw [if_neg (not_not.mpr hsb)]
  unfold cff_slot_load_tail cff_slot_load_reset
  simp only []
  split_ifs <;> rfl

/-- Before line 353, `cff_slot_load` returns with a bitmap glyph, or with
`Invalid_Argument` when only bitmaps are wanted. -/
theorem cff_slot_load_from_early (env : CFF_Env W) (face : TT_FaceRec W)
    (glyph : T1_GlyphSlotRec) (size : Option CFF_SizeRec) (glyph_index load_flags : Nat)
    (w : W) (tr : List Event) :
    (∀ e st, cff_slot_load_sbit env face size glyph_index (load_flags_recurse load_flags)
        { glyph :=
            { glyph with
              x_scale := (cff_slot_load_scales size).1
              y_scale := (cff_slot_load_scales size).2 }
          world := w, trace := tr } = CFF_Step.ret e st →
        cff_slot_load_from env face glyph size glyph_index load_flags w tr =
          (e, st.glyph, st.world, st.trace)) ∧
      (∀ st, cff_slot_load_sbit env face size glyph_index (load_flags_recurse load_flags)
        { glyph :=
            { glyph with
              x_scale := (cff_slot_load_scales size).1
              y_scale := (cff_slot_load_scales size).2 }
          world := w, trace := tr } = CFF_Step.next st →
        load_flags_recurse load_flags &&& FT_TS_LOAD_SBITS_ONLY ≠ 0 →
        cff_slot_load_from env face glyph size glyph_index load_flags w tr =
          (FT_TS_Err_Invalid_Argument, st.glyph, st.world, st.trace)) := by
  have hg : (match size with
      | some sz => ({ glyph with x_scale := sz.metrics.x_scale, y_scale := sz.metrics.y_scale } :
          T1_GlyphSlotRec)
      | none => { glyph with x_scale := 0x10000, y_scale := 0x10000 }) =
      { glyph with
        x_scale := (cff_slot_load_scales size).1
        y_scale := (cff_slot_load_scales size).2 } := by
    cases size <;> rfl
  constructor
  · intro e st hs
    unfold cff_slot_load_from
    simp only []
    rw [hg, hs]
  · intro st hs hsb
    unfold cff_slot_load_from
    simp only []
    rw [hg, hs]
    simp only []
    rw [if_pos hsb]

end CFFSim3

section CFFSim4

variable {W : Type}

theorem cff_slot_load_sbit_linear_fields (env : CFF_Env W) (face : TT_FaceRec W)
    (glyph_index : Nat) (st : CFF_LoadState W) :
    (cff_slot_load_sbit_linear env face glyph_index st).glyph.loaded = st.glyph.loaded := by
  unfold cff_slot_load_sbit_linear
  simp only []
  split_ifs <;> rfl

/-- The bitmap-strike block on two states with the same trace: both runs
return with a bitmap glyph, on which they agree on the metrics, or both go on
with the slot they had. -/
theorem cff_slot_load_sbit_rel (env : CFF_Env W) (face : TT_FaceRec W)
    (hdet : env.deterministic) (size : Option CFF_SizeRec) (glyph_index load_flags : Nat)
    (st st' : CFF_LoadState W) (ht : st.trace = st'.trace) :
    (∃ s s', cff_slot_load_sbit env face size glyph_index load_flags st = CFF_Step.ret 0 s ∧
        cff_slot_load_sbit env face size glyph_index load_flags st' = CFF_Step.ret 0 s' ∧
        s.glyph.metrics = s'.glyph.metrics ∧
        s.glyph.outline = { st.glyph.outline with n_points := 0, n_contours := 0 } ∧
        s'.glyph.outline = { st'.glyph.outline with n_points := 0, n_contours := 0 } ∧
        s.glyph.key = st.glyph.key ∧ s'.glyph.key = st'.glyph.key) ∨
      (∃ s s', cff_slot_load_sbit env face size glyph_index load_flags st = CFF_Step.next s ∧
        cff_slot_load_sbit env face size glyph_index load_flags st' = CFF_Step.next s' ∧
        s.trace = s'.trace ∧
        s.glyph = { st.glyph with bitmap := s.glyph.bitmap } ∧
        s'.glyph = { st'.glyph with bitmap := s'.glyph.bitmap }) := by
  obtain ⟨g, w, t⟩ := st
  obtain ⟨g', w', t'⟩ := st'
  simp only at ht
  subst ht
  unfold cff_slot_load_sbit
  by_cases hc : env.TT_CONFIG_OPTION_EMBEDDED_BITMAPS = true
  · rw [if_pos hc, if_pos hc]
    cases size with
    | none => exact Or.inr ⟨_, _, rfl, rfl, rfl, rfl, rfl⟩
    | some sz =>
      simp only []
      by_cases hs : sz.strike_index ≠ 0xFFFFFFFF ∧ face.load_eblc = true ∧
          load_flags &&& FT_TS_LOAD_NO_BITMAP = 0
      · rw [if_pos hs, if_pos hs]
        obtain ⟨h1, h2⟩ := hdet.1 sz.strike_index glyph_index load_flags g.bitmap g'.bitmap w w'
        generalize env.load_sbit_image sz.strike_index glyph_index load_flags g.bitmap w = r
          at h1 h2 ⊢
        generalize env.load_sbit_image sz.strike_index glyph_index load_flags g'.bitmap w' = r'
          at h1 h2 ⊢
        obtain ⟨r1, r2, r3, r4⟩ := r
        obtain ⟨r1', r2', r3', r4'⟩ := r'
        simp only at h1 h2
        subst h1 h2
        simp only []
        by_cases he : r1 = 0
        · subst he
          rw [if_pos rfl, if_pos rfl]
          have ha := fun s => cff_slot_load_sbit_linear_fields env face glyph_index s
          simp only [T1_GlyphSlotRec.loaded, Prod.mk.injEq] at ha
          refine Or.inl ⟨_, _, rfl, rfl, ?_, ?_, ?_, ?_, ?_⟩
          · rw [(ha _).2.1, (ha _).2.1]
          · rw [(ha _).1]
          · rw [(ha _).1]
          · rw [(ha _).2.2]
            rfl
          · rw [(ha _).2.2]
            rfl
        · rw [if_neg he, if_neg he]
          exact Or.inr ⟨_, _, rfl, rfl, rfl, rfl, rfl⟩
      · rw [if_neg hs, if_neg hs]
        exact Or.inr ⟨_, _, rfl, rfl, rfl, rfl, rfl⟩
  · rw [if_neg hc, if_neg hc]
    exact Or.inr ⟨_, _, rfl, rfl, rfl, rfl, rfl⟩

/-- The subfont selection on two states with the same scales and the same
trace. -/
theorem cff_slot_load_subfont_rel (env : CFF_Env W) (cff : CFF_FontRec) (glyph_index : Nat)
    (st st' : CFF_LoadState W) (hx : st.glyph.x_scale = st'.glyph.x_scale)
    (hy : st.glyph.y_scale = st'.glyph.y_scale) (ht : st.trace = st'.trace) :
    (cff_slot_load_subfont env cff glyph_index st).1 =
        (cff_slot_load_subfont env cff glyph_index st').1 ∧
      (cff_slot_load_subfont env cff glyph_index st).2.1 =
        (cff_slot_load_subfont env cff glyph_index st').2.1 ∧
      (cff_slot_load_subfont env cff glyph_index st).2.2.1 =
        (cff_slot_load_subfont env cff glyph_index st').2.2.1 ∧
      (cff_slot_load_subfont env cff glyph_index st).2.2.2.trace =
        (cff_slot_load_subfont env cff glyph_index st').2.2.2.trace ∧
      (cff_slot_load_subfont env cff glyph_index st).2.2.2.glyph.x_scale =
        (cff_slot_load_subfont env cff glyph_index st').2.2.2.glyph.x_scale ∧
      (cff_slot_load_subfont env cff glyph_index st).2.2.2.glyph.y_scale =
        (cff_slot_load_subfont env cff glyph_index st').2.2.2.glyph.y_scale := by
  unfold cff_slot_load_subfont
  simp only []
  split_ifs
  all_goals simp [ht, hx, hy]

/-- When the block that decodes the glyph ends with an error, the outline of
the slot is the one it had. -/
theorem cff_slot_load_decode_kept (env : CFF_Env W) (face : TT_FaceRec W)
    (size : Option CFF_SizeRec) (glyph_index : Nat) (hinting force_scaling : Bool)
    (decoder0 : CFF_DecoderRec) (st : CFF_LoadState W)
    (he : (cff_slot_load_decode env face size glyph_index hinting force_scaling
      decoder0 st).error ≠ 0) :
    (cff_slot_load_decode env face size glyph_index hinting force_scaling
      decoder0 st).st.glyph.outline = st.glyph.outline := by
  revert he
  unfold cff_slot_load_decode
  simp only []
  obtain ⟨hdg, -⟩ := cff_get_glyph_data_frame env face glyph_index st 0
  generalize cff_get_glyph_data env face glyph_index st = d at hdg ⊢
  obtain ⟨derr, dptr, dlen, dst⟩ := d
  simp only [] at hdg ⊢
  by_cases h1 : derr ≠ 0
  · rw [if_pos h1]
    intro _
    rw [cff_slot_load_finished_of_ne _ _ h1]
    show dst.glyph.outline = _
    rw [hdg]
  · rw [if_neg h1]
    by_cases h2 : (env.cff_decoder_prepare decoder0 size glyph_index dst.world).1 ≠ 0
    · rw [if_pos h2]
      intro _
      rw [cff_slot_load_finished_of_ne _ _ h2]
      show dst.glyph.outline = _
      rw [hdg]
    · rw [if_neg h2]
      obtain ⟨hpg, -⟩ := cff_slot_load_parse_state env face dptr dlen
        { error := (env.cff_decoder_prepare decoder0 size glyph_index dst.world).1
          hinting := hinting, force_scaling := force_scaling
          decoder := (env.cff_decoder_prepare decoder0 size glyph_index dst.world).2.1
          st :=
            { dst with
              world := (env.cff_decoder_prepare decoder0 size glyph_index dst.world).2.2
              trace := dst.trace ++ [Event.cff_get_glyph_data glyph_index derr] ++
                [Event.cff_decoder_prepare glyph_index
                  (env.cff_decoder_prepare decoder0 size glyph_index dst.world).1] } }
      generalize cff_slot_load_parse env face dptr dlen _ = b at hpg ⊢
      simp only [] at hpg
      obtain ⟨hfg, -⟩ := cff_free_glyph_data_frame env face dptr dlen
        { b.st with trace := b.st.trace ++ [Event.cff_free_glyph_data] } 0
      generalize cff_free_glyph_data env face dptr dlen _ = st3 at hfg ⊢
      simp only [] at hfg
      by_cases h3 : b.error ≠ 0
      · rw [if_pos h3]
        intro _
        rw [cff_slot_load_finished_of_ne env { b with st := st3 } h3]
        show st3.glyph.outline = _
        rw [hfg, hpg, hdg]
      · rw [if_neg h3]
        intro he
        exfalso
        apply he
        rw [(cff_slot_load_finished_fields env _).1]
        exact not_not.mp h3

/-- The slot at line 523 of `cff_slot_load`, in terms of the slot at line
395: the metrics are untouched, and the outline is the builder's when the
decoding succeeded and is untouched otherwise. -/
theorem cff_slot_load_build_fields (env : CFF_Env W) (face : TT_FaceRec W)
    (size : Option CFF_SizeRec) (glyph_index load_flags : Nat) (hinting force_scaling : Bool)
    (st : CFF_LoadState W) :
    (cff_slot_load_inc_metrics env face glyph_index
        (cff_slot_load_build env face size glyph_index load_flags hinting force_scaling
          st)).st.glyph.metrics = st.glyph.metrics ∧
      ((cff_slot_load_build env face size glyph_index load_flags hinting force_scaling
          st).error = 0 →
        (cff_slot_load_inc_metrics env face glyph_index
          (cff_slot_load_build env face size glyph_index load_flags hinting force_scaling
            st)).st.glyph.outline =
          (cff_slot_load_build env face size glyph_index load_flags hinting force_scaling
            st).decoder.builder.base) ∧
      ((cff_slot_load_build env face size glyph_index load_flags hinting force_scaling
          st).error ≠ 0 →
        (cff_slot_load_inc_metrics env face glyph_index
          (cff_slot_load_build env face size glyph_index load_flags hinting force_scaling
            st)).st.glyph.outline = st.glyph.outline) := by
  obtain ⟨hi1, -, -, -, -, -⟩ := cff_slot_load_inc_metrics_state env face glyph_index
    (cff_slot_load_build env face size glyph_index load_flags hinting force_scaling st)
  rw [hi1]
  refine ⟨(cff_slot_load_build_shape env face size glyph_index load_flags hinting force_scaling
    st 0).1, ?_, ?_⟩
  · unfold cff_slot_load_build
    simp only []
    exact (cff_slot_load_decode_state env face size glyph_index hinting force_scaling _ _).2.1
  · unfold cff_slot_load_build
    simp only []
    intro he
    exact cff_slot_load_decode_kept env face size glyph_index hinting force_scaling _ _ he

end CFFSim4

section CFFSim5

variable {W : Type}

theorem cff_slot_load_geometry_congr (env : CFF_Env W) (face : TT_FaceRec W)
    (size : Option CFF_SizeRec) (glyph_index load_flags : Nat) (hinting force_scaling : Bool)
    (font_matrix : FT_TS_Matrix) (font_offset : FT_TS_Vector) (decoder : CFF_DecoderRec)
    (g g' : T1_GlyphSlotRec) (ho : g'.outline = g.outline) (hx : g'.x_scale = g.x_scale)
    (hy : g'.y_scale = g.y_scale) :
    cff_slot_load_geometry env face size glyph_index load_flags hinting force_scaling
        font_matrix font_offset decoder g' =
      cff_slot_load_geometry env face size glyph_index load_flags hinting force_scaling
        font_matrix font_offset decoder g := by
  unfold cff_slot_load_geometry cff_slot_load_unscaled
  rw [ho, hx, hy]

/-- The metrics before the vertical bearings are set depend on the metrics
the slot had only through its two vertical bearings. -/
theorem cff_slot_load_box_metrics_congr (env : CFF_Env W) (face : TT_FaceRec W)
    (size : Option CFF_SizeRec) (glyph_index load_flags : Nat) (hinting force_scaling : Bool)
    (font_matrix : FT_TS_Matrix) (font_offset : FT_TS_Vector) (decoder : CFF_DecoderRec)
    (g g' : T1_GlyphSlotRec) (ho : g'.outline = g.outline) (hx : g'.x_scale = g.x_scale)
    (hy : g'.y_scale = g.y_scale) :
    cff_slot_load_box_metrics env face size glyph_index load_flags hinting force_scaling
        font_matrix font_offset decoder g' =
      { cff_slot_load_box_metrics env face size glyph_index load_flags hinting force_scaling
          font_matrix font_offset decoder g with
        vertBearingX := g'.metrics.vertBearingX
        vertBearingY :=
          if cff_has_vertical_info face then (env.get_metrics true glyph_index).1
          else g'.metrics.vertBearingY } := by
  unfold cff_slot_load_box_metrics
  simp only []
  rw [cff_slot_load_geometry_congr env face size glyph_index load_flags hinting force_scaling
    font_matrix font_offset decoder g g' ho hx hy]
  rfl

theorem cff_slot_load_box_metrics_vertBearingY (env : CFF_Env W) (face : TT_FaceRec W)
    (size : Option CFF_SizeRec) (glyph_index load_flags : Nat) (hinting force_scaling : Bool)
    (font_matrix : FT_TS_Matrix) (font_offset : FT_TS_Vector) (decoder : CFF_DecoderRec)
    (g : T1_GlyphSlotRec) :
    (cff_slot_load_box_metrics env face size glyph_index load_flags hinting force_scaling
        font_matrix font_offset decoder g).vertBearingY =
      (if cff_has_vertical_info face then (env.get_metrics true glyph_index).1
        else g.metrics.vertBearingY) ∧
    (cff_slot_load_box_metrics env face size glyph_index load_flags hinting force_scaling
        font_matrix font_offset decoder g).vertBearingX = g.metrics.vertBearingX := ⟨rfl, rfl⟩

/-- The setting of the metrics, run on a slot that already holds the metrics
it produces, produces them again. -/
theorem cff_slot_load_metrics_twice (env : CFF_Env W) (face : TT_FaceRec W)
    (hsyn : env.base.synthesize_stable)
    (size : Option CFF_SizeRec) (glyph_index load_flags : Nat) (hinting force_scaling : Bool)
    (font_matrix : FT_TS_Matrix) (font_offset : FT_TS_Vector) (decoder : CFF_DecoderRec)
    (s s' : CFF_LoadState W) (ho : s'.glyph.outline = s.glyph.outline)
    (hk : s'.glyph.key = s.glyph.key)
    (hm : s'.glyph.metrics =
      (cff_slot_load_metrics env face size glyph_index load_flags hinting force_scaling
        font_matrix font_offset decoder s).glyph.metrics) :
    (cff_slot_load_metrics env face size glyph_index load_flags hinting force_scaling
        font_matrix font_offset decoder s').glyph.loaded =
      (cff_slot_load_metrics env face size glyph_index load_flags hinting force_scaling
        font_matrix font_offset decoder s).glyph.loaded := by
  have hx : s'.glyph.x_scale = s.glyph.x_scale := congrArg (fun k => k.2.2.1) hk
  have hy : s'.glyph.y_scale = s.glyph.y_scale := congrArg (fun k => k.2.2.2) hk
  by_cases hr : load_flags &&& FT_TS_LOAD_NO_RECURSE ≠ 0
  · rw [cff_slot_load_metrics_no_recurse _ _ _ _ _ _ _ _ _ _ _ hr] at hm ⊢
    rw [cff_slot_load_metrics_no_recurse _ _ _ _ _ _ _ _ _ _ _ hr]
    simp only [T1_GlyphSlotRec.loaded, T1_GlyphSlotRec.key] at hk ⊢
    simp only [] at hm
    rw [ho, hm]
    simp only [Prod.mk.injEq] at hk ⊢
    exact ⟨trivial, trivial, hk⟩
  · have hr' := not_not.mp hr
    rw [cff_slot_load_metrics_outline _ _ _ _ _ _ _ _ _ _ _ hr'] at hm ⊢
    rw [cff_slot_load_metrics_outline _ _ _ _ _ _ _ _ _ _ _ hr']
    simp only [] at hm
    have hb := cff_slot_load_box_metrics_congr env face size glyph_index load_flags hinting
      force_scaling font_matrix font_offset decoder s.glyph s'.glyph ho hx hy
    have hg := cff_slot_load_geometry_congr env face size glyph_index load_flags hinting
      force_scaling font_matrix font_offset decoder s.glyph s'.glyph ho hx hy
    obtain ⟨hvy, hvx⟩ := cff_slot_load_box_metrics_vertBearingY env face size glyph_index
      load_flags hinting force_scaling font_matrix font_offset decoder s.glyph
    simp only [T1_GlyphSlotRec.loaded, T1_GlyphSlotRec.key, Prod.mk.injEq] at hk ⊢
    refine ⟨by rw [hg], ?_, hk⟩
    rw [hb, hy]
    generalize cff_slot_load_box_metrics env face size glyph_index load_flags hinting
      force_scaling font_matrix font_offset decoder s.glyph = bm at hm hvy hvx ⊢
    cases hv : cff_has_vertical_info face with
    | true =>
      simp only [hv, if_true] at hm hvy ⊢
      rw [← hvy]
    | false =>
      simp only [hv, Bool.false_eq_true, if_false] at hm hvy ⊢
      by_cases hl : load_flags &&& FT_TS_LOAD_VERTICAL_LAYOUT ≠ 0
      · simp only [if_pos hl] at hm ⊢
        rw [hm]
        exact hsyn bm bm.vertAdvance
      · simp only [if_neg hl] at hm ⊢
        rw [hm]

end CFFSim5

section CFFSim6

variable {W : Type}

/-- The tail of `cff_slot_load` on two states a collaborator cannot tell
apart, the second one holding the outline (emptied) and the metrics the first
run produces: the second run produces the same error and the same slot
fields. -/
theorem cff_slot_load_tail_twice (env : CFF_Env W) (face : TT_FaceRec W)
    (hdet : env.deterministic) (hinc : ∀ i, cff_inc env face = some i → i.deterministic)
    (size : Option CFF_SizeRec) (glyph_index load_flags : Nat) (hinting force_scaling : Bool)
    (font_matrix : FT_TS_Matrix) (font_offset : FT_TS_Vector) (st st' : CFF_LoadState W)
    (hsim : st.sim st')
    (ho : ({ st.glyph.outline with n_points := 0, n_contours := 0 } : FT_TS_Outline) =
      st.glyph.outline)
    (ho' : st'.glyph.outline =
      { (cff_slot_load_tail env face size glyph_index load_flags hinting force_scaling
          font_matrix font_offset st).2.glyph.outline with n_points := 0, n_contours := 0 })
    (hm' : st'.glyph.metrics =
      (cff_slot_load_tail env face size glyph_index load_flags hinting force_scaling
        font_matrix font_offset st).2.glyph.metrics) :
    (cff_slot_load_tail env face size glyph_index load_flags hinting force_scaling
        font_matrix font_offset st').1 =
      (cff_slot_load_tail env face size glyph_index load_flags hinting force_scaling
        font_matrix font_offset st).1 ∧
    (cff_slot_load_tail env face size glyph_index load_flags hinting force_scaling
        font_matrix font_offset st').2.glyph.loaded =
      (cff_slot_load_tail env face size glyph_index load_flags hinting force_scaling
        font_matrix font_offset st).2.glyph.loaded := by
  have hb := cff_slot_load_build_sim env face hdet hinc size glyph_index load_flags hinting
    force_scaling st st' hsim
  have hms := cff_slot_load_inc_metrics_sim env face hinc glyph_index _ _ hb
  obtain ⟨f1, f2, f3⟩ := cff_slot_load_build_fields env face size glyph_index load_flags
    hinting force_scaling st
  obtain ⟨f1', f2', f3'⟩ := cff_slot_load_build_fields env face size glyph_index load_flags
    hinting force_scaling st'
  obtain ⟨-, -, -, -, f5, -⟩ := cff_slot_load_inc_metrics_state env face glyph_index
    (cff_slot_load_build env face size glyph_index load_flags hinting force_scaling st)
  revert ho' hm'
  unfold cff_slot_load_tail
  simp only []
  generalize cff_slot_load_build env face size glyph_index load_flags hinting force_scaling
    st = b at hb hms f1 f2 f3 f5 ⊢
  generalize cff_slot_load_build env face size glyph_index load_flags hinting force_scaling
    st' = b' at hb hms f1' f2' f3' ⊢
  generalize cff_slot_load_inc_metrics env face glyph_index b = m at hms f1 f2 f3 f5 ⊢
  generalize cff_slot_load_inc_metrics env face glyph_index b' = m' at hms f1' f2' f3' ⊢
  obtain ⟨he, hh, hf, hd, hk, -⟩ := hms
  obtain ⟨hbe, -, -, hbd, -⟩ := hb
  rw [← he, ← hh, ← hf, ← hd]
  by_cases h0 : m.error = 0
  · rw [if_pos h0, if_pos h0]
    intro ho' hm'
    simp only [] at ho' hm' ⊢
    have hb0 : b.error = 0 := f5 h0
    refine ⟨trivial, ?_⟩
    apply cff_slot_load_metrics_twice env face hdet.2.2.2.2.2.2 size glyph_index load_flags
      m.hinting m.force_scaling font_matrix font_offset m.decoder m.st m'.st
    · rw [f2 hb0, f2' (hbe ▸ hb0), hbd]
    · exact hk.symm
    · rw [f1']
      exact hm'
  · rw [if_neg h0, if_neg h0]
    intro ho' hm'
    simp only [] at ho' hm' ⊢
    refine ⟨trivial, ?_⟩
    simp only [T1_GlyphSlotRec.loaded, Prod.mk.injEq]
    refine ⟨?_, ?_, hk.symm⟩
    · by_cases hb0 : b.error = 0
      · rw [f2 hb0, f2' (hbe ▸ hb0), hbd]
      · rw [f3' (hbe ▸ hb0), ho', f3 hb0]
        exact ho
    · rw [f1', hm']

end CFFSim6

section CFFSim7

variable {W : Type}

/-- Two runs of lines 233-681 of `cff_slot_load`, the second one on a slot
that holds what the first run produces. -/
theorem cff_slot_load_from_rel (env : CFF_Env W) (face : TT_FaceRec W)
    (hdet : env.deterministic) (hinc : ∀ i, cff_inc env face = some i → i.deterministic)
    (glyph glyph' : T1_GlyphSlotRec) (size : Option CFF_SizeRec) (glyph_index load_flags : Nat)
    (w w' : W) (tr : List Event)
    (h : glyph'.loaded =
      (cff_slot_load_from env face glyph size glyph_index load_flags w tr).2.1.loaded) :
    (cff_slot_load_from env face glyph' size glyph_index load_flags w' tr).1 =
        (cff_slot_load_from env face glyph size glyph_index load_flags w tr).1 ∧
      (cff_slot_load_from env face glyph' size glyph_index load_flags w' tr).2.1.loaded =
        (cff_slot_load_from env face glyph size glyph_index load_flags w tr).2.1.loaded := by
  obtain ⟨hE1, hE2⟩ := cff_slot_load_from_early env face glyph size glyph_index load_flags w tr
  obtain ⟨hE1', hE2'⟩ :=
    cff_slot_load_from_early env face glyph' size glyph_index load_flags w' tr
  rcases cff_slot_load_sbit_rel env face hdet size glyph_index (load_flags_recurse load_flags)
    { glyph :=
        { glyph with
          x_scale := (cff_slot_load_scales size).1
          y_scale := (cff_slot_load_scales size).2 }
      world := w, trace := tr }
    { glyph :=
        { glyph' with
          x_scale := (cff_slot_load_scales size).1
          y_scale := (cff_slot_load_scales size).2 }
      world := w', trace := tr } rfl with
    ⟨s, s', hs, hs', hmet, hout, hout', hkey, hkey'⟩ | ⟨s, s', hs, hs', htr, hg, hg'⟩
  · rw [hE1 _ _ hs] at h ⊢
    rw [hE1' _ _ hs']
    simp only [T1_GlyphSlotRec.loaded, T1_GlyphSlotRec.key, Prod.mk.injEq] at h hkey hkey' ⊢
    obtain ⟨h1, h2, h3, h4, -, -⟩ := h
    refine ⟨trivial, ?_, hmet.symm, ?_, ?_, ?_, ?_⟩
    · rw [hout', hout]
      simp only []
      rw [h1, hout]
    · rw [hkey'.1, h3]
    · rw [hkey'.2.1, h4]
    · rw [hkey'.2.2.1, hkey.2.2.1]
    · rw [hkey'.2.2.2, hkey.2.2.2]
  · by_cases hsb : load_flags_recurse load_flags &&& FT_TS_LOAD_SBITS_ONLY ≠ 0
    · rw [hE2 _ hs hsb] at h ⊢
      rw [hE2' _ hs' hsb]
      simp only [T1_GlyphSlotRec.loaded, T1_GlyphSlotRec.key, Prod.mk.injEq] at h ⊢
      rw [hg] at h ⊢
      rw [hg']
      simp only [] at h ⊢
      obtain ⟨h1, h2, h3, h4, -, -⟩ := h
      exact ⟨trivial, h1, h2, h3, h4, trivial, trivial⟩
    · have hsb' := not_not.mp hsb
      rw [cff_slot_load_from_next env face glyph size glyph_index load_flags w tr s hs hsb']
        at h ⊢
      rw [cff_slot_load_from_next env face glyph' size glyph_index load_flags w' tr s' hs' hsb']
      simp only [] at h ⊢
      have hx : s.glyph.x_scale = s'.glyph.x_scale := by
        rw [hg, hg']
      have hy : s.glyph.y_scale = s'.glyph.y_scale := by
        rw [hg, hg']
      obtain ⟨r1, r2, r3, r4, r5, r6⟩ :=
        cff_slot_load_subfont_rel env face.cff glyph_index s s' hx hy htr
      obtain ⟨q1, -⟩ := cff_slot_load_subfont_frame env face.cff glyph_index s
      obtain ⟨q1', -⟩ := cff_slot_load_subfont_frame env face.cff glyph_index s'
      rw [← r1, ← r2, ← r3]
      have h' := h
      simp only [T1_GlyphSlotRec.loaded, Prod.mk.injEq] at h'
      apply cff_slot_load_tail_twice env face hdet hinc
      · exact ⟨by
          simp only [cff_slot_load_reset, T1_GlyphSlotRec.key, Prod.mk.injEq]
          exact ⟨trivial, trivial, r5, r6⟩, r4⟩
      · rfl
      · show ({ (cff_slot_load_subfont env face.cff glyph_index s').2.2.2.glyph.outline with
            n_points := 0, n_contours := 0 } : FT_TS_Outline) = _
        rw [q1', hg']
        simp only []
        rw [h'.1]
      · show (cff_slot_load_subfont env face.cff glyph_index s').2.2.2.glyph.metrics = _
        rw [q1', hg']
        exact h'.2.1

/-- Two runs of `cff_slot_load`, the second one on a slot that holds what the
first run produces: same error, same outline, metrics, scales and flags. -/
theorem cff_slot_load_rel (env : CFF_Env W) (face : TT_FaceRec W)
    (hdet : env.deterministic) (hinc : ∀ i, cff_inc env face = some i → i.deterministic)
    (glyph glyph' : T1_GlyphSlotRec) (size : Option CFF_SizeRec) (glyph_index load_flags : Nat)
    (w w' : W)
    (h : glyph'.loaded =
      (cff_slot_load env face glyph size glyph_index load_flags w).2.1.loaded) :
    (cff_slot_load env face glyph' size glyph_index load_flags w').1 =
        (cff_slot_load env face glyph size glyph_index load_flags w).1 ∧
      (cff_slot_load env face glyph' size glyph_index load_flags w').2.1.loaded =
        (cff_slot_load env face glyph size glyph_index load_flags w).2.1.loaded := by
  revert h
  unfold cff_slot_load
  simp only []
  generalize cff_slot_load_index env face.cff glyph_index = ix
  obtain ⟨res, evs⟩ := ix
  cases res with
  | error e =>
    intro h
    exact ⟨rfl, h⟩
  | ok g =>
    intro h
    exact cff_slot_load_from_rel env face hdet hinc glyph glyph' size g load_flags w w' evs h

end CFFSim7

section CIDSim

variable {W : Type}

theorem cid_load_glyph_incremental_sim (env : CID_Env W) (face : CID_FaceRec W)
    (hdet : env.deterministic) (inc : FT_TS_Incremental_FuncsRec W) (hdi : inc.deterministic)
    (glyph_index : Nat) (st st' : CID_LoadState W) (h : st.sim st') :
    (cid_load_glyph_incremental env face inc glyph_index st).sim
      (cid_load_glyph_incremental env face inc glyph_index st') := by
  obtain ⟨d, g, w, t⟩ := st
  obtain ⟨d', g', w', t'⟩ := st'
  obtain ⟨hd, hk, ht⟩ := h
  simp only at hd hk ht
  subst hd ht
  unfold cid_load_glyph_incremental
  simp only []
  obtain ⟨h1, h2⟩ := hdi.1 glyph_index w w'
  generalize inc.get_glyph_data glyph_index w = r at h1 h2 ⊢
  generalize inc.get_glyph_data glyph_index w' = r' at h1 h2 ⊢
  obtain ⟨r1, r2, r3⟩ := r
  obtain ⟨r1', r2', r3'⟩ := r'
  simp only at h1 h2
  subst h1 h2
  simp only []
  by_cases hc : r1 ≠ 0 ∨ r2.length < face.cid.fd_bytes
  · rw [if_pos hc, if_pos hc]
    exact ⟨rfl, rfl, hk, rfl⟩
  · rw [if_neg hc, if_neg hc]
    have h3 := hdet.2.2.2.1 (r2.length - face.cid.fd_bytes) r3 r3'
    generalize env.qalloc (r2.length - face.cid.fd_bytes) r3 = a at h3 ⊢
    generalize env.qalloc (r2.length - face.cid.fd_bytes) r3' = a' at h3 ⊢
    obtain ⟨a1, a2⟩ := a
    obtain ⟨a1', a2'⟩ := a'
    simp only at h3
    subst h3
    simp only []
    by_cases he : a1 ≠ 0
    · rw [if_pos he, if_pos he]
      exact ⟨rfl, rfl, hk, rfl⟩
    · rw [if_neg he, if_neg he]
      exact ⟨rfl, rfl, rfl, rfl, hk, rfl⟩

theorem cid_load_glyph_cidmap_read_sim (env : CID_Env W) (face : CID_FaceRec W)
    (hdet : env.deterministic) (glyph_index : Nat) (st st' : CID_LoadState W)
    (h : st.sim st') :
    (cid_load_glyph_cidmap_read env face glyph_index st).sim
      (cid_load_glyph_cidmap_read env face glyph_index st') := by
  obtain ⟨d, g, w, t⟩ := st
  obtain ⟨d', g', w', t'⟩ := st'
  obtain ⟨hd, hk, ht⟩ := h
  simp only at hd hk ht
  subst hd ht
  unfold cid_load_glyph_cidmap_read
  simp only []
  have h1 := hdet.1 ((face.cid.data_offset + face.cid.cidmap_offset +
    (glyph_index * ((face.cid.fd_bytes + face.cid.gd_bytes) % 2 ^ 32)) % 2 ^ 32) % 2 ^ 64) w w'
  obtain ⟨h2, h3⟩ := hdet.2.1 ((face.cid.data_offset + face.cid.cidmap_offset +
    (glyph_index * ((face.cid.fd_bytes + face.cid.gd_bytes) % 2 ^ 32)) % 2 ^ 32) % 2 ^ 64)
    ((2 * ((face.cid.fd_bytes + face.cid.gd_bytes) % 2 ^ 32)) % 2 ^ 32) w w'
  generalize env.stream_seek _ w = s at h1 h2 h3 ⊢
  generalize env.stream_seek _ w' = s' at h1 h2 h3 ⊢
  obtain ⟨s1, s2⟩ := s
  obtain ⟨s1', s2'⟩ := s'
  simp only at h1 h2 h3
  subst h1
  simp only []
  by_cases hc : s1 ≠ 0
  · rw [if_pos hc, if_pos hc]
    exact ⟨rfl, rfl, hk, rfl⟩
  · rw [if_neg hc, if_neg hc]
    generalize env.frame_enter _ s2 = f at h2 h3 ⊢
    generalize env.frame_enter _ s2' = f' at h2 h3 ⊢
    obtain ⟨f1, f2, f3⟩ := f
    obtain ⟨f1', f2', f3'⟩ := f'
    simp only at h2 h3
    subst h2 h3
    simp only []
    by_cases he : f1 ≠ 0
    · rw [if_pos he, if_pos he]
      exact ⟨rfl, rfl, hk, rfl⟩
    · rw [if_neg he, if_neg he]
      exact ⟨rfl, rfl, rfl, rfl, hk, rfl⟩

theorem cid_load_glyph_cidmap_data_sim (env : CID_Env W) (face : CID_FaceRec W)
    (hdet : env.deterministic) (fd_select off1 off2 : Nat) (st st' : CID_LoadState W)
    (h : st.sim st') :
    (cid_load_glyph_cidmap_data env face fd_select off1 off2 st).sim
      (cid_load_glyph_cidmap_data env face fd_select off1 off2 st') := by
  obtain ⟨d, g, w, t⟩ := st
  obtain ⟨d', g', w', t'⟩ := st'
  obtain ⟨hd, hk, ht⟩ := h
  simp only at hd hk ht
  subst hd ht
  unfold cid_load_glyph_cidmap_data
  simp only []
  by_cases hc : fd_select ≥ face.cid.num_dicts ∨ off2 > face.stream_size ∨ off1 > off2
  · rw [if_pos hc, if_pos hc]
    exact ⟨rfl, rfl, hk, rfl⟩
  · rw [if_neg hc, if_neg hc]
    by_cases hl : (off2 + 2 ^ 64 - off1) % 2 ^ 64 = 0
    · rw [if_pos hl, if_pos hl]
      exact ⟨rfl, rfl, hk, rfl⟩
    · rw [if_neg hl, if_neg hl]
      have h1 := hdet.2.2.2.1 ((off2 + 2 ^ 64 - off1) % 2 ^ 64) w w'
      generalize env.qalloc _ w = a at h1 ⊢
      generalize env.qalloc _ w' = a' at h1 ⊢
      obtain ⟨a1, a2⟩ := a
      obtain ⟨a1', a2'⟩ := a'
      simp only at h1
      subst h1
      simp only []
      by_cases he : a1 ≠ 0
      · rw [if_pos he, if_pos he]
        exact ⟨rfl, rfl, hk, rfl⟩
      · rw [if_neg he, if_neg he]
        obtain ⟨h2, h3⟩ := hdet.2.2.1 ((face.cid.data_offset + off1) % 2 ^ 64)
          ((off2 + 2 ^ 64 - off1) % 2 ^ 64) a2 a2'
        generalize env.stream_read_at _ _ a2 = r at h2 h3 ⊢
        generalize env.stream_read_at _ _ a2' = r' at h2 h3 ⊢
        obtain ⟨r1, r2, r3⟩ := r
        obtain ⟨r1', r2', r3'⟩ := r'
        simp only at h2 h3
        subst h2 h3
        simp only []
        by_cases hr : r1 ≠ 0
        · rw [if_pos hr, if_pos hr]
          exact ⟨rfl, rfl, hk, rfl⟩
        · rw [if_neg hr, if_neg hr]
          exact ⟨rfl, rfl, rfl, rfl, hk, rfl⟩

theorem cid_load_glyph_fetch_sim (env : CID_Env W) (face : CID_FaceRec W)
    (hdet : env.deterministic) (hinc : ∀ i, cid_inc env face = some i → i.deterministic)
    (glyph_index : Nat) (st st' : CID_LoadState W) (h : st.sim st') :
    (cid_load_glyph_fetch env face glyph_index st).sim
      (cid_load_glyph_fetch env face glyph_index st') := by
  unfold cid_load_glyph_fetch
  cases hi : cid_inc env face with
  | some inc =>
    exact cid_load_glyph_incremental_sim env face hdet inc (hinc inc hi) glyph_index st st' h
  | none =>
    simp only []
    unfold cid_load_glyph_cidmap
    have hr := cid_load_glyph_cidmap_read_sim env face hdet glyph_index st st' h
    generalize cid_load_glyph_cidmap_read env face glyph_index st = e at hr ⊢
    generalize cid_load_glyph_cidmap_read env face glyph_index st' = e' at hr ⊢
    cases e with
    | exit er s =>
      cases e' with
      | exit er' s' => exact hr
      | entry f a b s' => exact hr.elim
    | entry f a b s =>
      cases e' with
      | exit er' s' => exact hr.elim
      | entry f' a' b' s' =>
        obtain ⟨h1, h2, h3, h4⟩ := hr
        subst h1 h2 h3
        exact cid_load_glyph_cidmap_data_sim env face hdet f a b s s' h4

end CIDSim

section CIDSim2

variable {W : Type}

theorem cid_load_glyph_parse_sim (env : CID_Env W) (hdet : env.deterministic)
    (dict : CID_FaceDictRec) (bytes : List Nat) (len : Nat) (st st' : CID_LoadState W)
    (h : st.sim st') :
    (cid_load_glyph_parse env dict bytes len st).1 =
        (cid_load_glyph_parse env dict bytes len st').1 ∧
      (cid_load_glyph_parse env dict bytes len st).2.1 =
        (cid_load_glyph_parse env dict bytes len st').2.1 ∧
      (cid_load_glyph_parse env dict bytes len st).2.2.sim
        (cid_load_glyph_parse env dict bytes len st').2.2 := by
  obtain ⟨d, g, w, t⟩ := st
  obtain ⟨d', g', w', t'⟩ := st'
  obtain ⟨hd, hk, ht⟩ := h
  simp only at hd hk ht
  subst hd ht
  have hkey : g.hint = g'.hint := congrArg Prod.fst hk
  unfold cid_load_glyph_parse
  simp only []
  obtain ⟨h1, h2⟩ := hdet.2.2.2.2.2.2.2.1 d dict.private_dict g g' bytes len w w' hk
  generalize env.parse_charstrings d dict.private_dict g bytes len w = r at h1 h2 ⊢
  generalize env.parse_charstrings d dict.private_dict g' bytes len w' = r' at h1 h2 ⊢
  obtain ⟨r1, r2, r3⟩ := r
  obtain ⟨r1', r2', r3'⟩ := r'
  simp only at h1 h2
  subst h1 h2
  simp only []
  by_cases hb : FT_TS_ERR_EQ r1 FT_TS_Err_Glyph_Too_Big = true
  · rw [if_pos hb, if_pos hb]
    obtain ⟨h3, h4⟩ := hdet.2.2.2.2.2.2.2.1 r2 dict.private_dict { g with hint := false }
      { g' with hint := false } bytes len r3 r3' (key_hint_false g g' hk)
    generalize env.parse_charstrings r2 dict.private_dict { g with hint := false } bytes len
      r3 = q at h3 h4 ⊢
    generalize env.parse_charstrings r2 dict.private_dict { g' with hint := false } bytes len
      r3' = q' at h3 h4 ⊢
    obtain ⟨q1, q2, q3⟩ := q
    obtain ⟨q1', q2', q3'⟩ := q'
    simp only at h3 h4
    subst h3 h4
    refine ⟨rfl, rfl, rfl, key_hint_false g g' hk, ?_⟩
    simp only [hkey]
  · rw [if_neg hb, if_neg hb]
    refine ⟨rfl, rfl, rfl, hk, ?_⟩
    simp only [hkey]

theorem cid_load_glyph_engine_sim (env : CID_Env W) (face : CID_FaceRec W)
    (hdet : env.deterministic) (dict : CID_FaceDictRec) (bytes : List Nat) (len : Nat)
    (st st' : CID_LoadState W) (h : st.sim st') :
    (cid_load_glyph_engine env face dict bytes len st).1 =
        (cid_load_glyph_engine env face dict bytes len st').1 ∧
      (cid_load_glyph_engine env face dict bytes len st).2.1 =
        (cid_load_glyph_engine env face dict bytes len st').2.1 ∧
      (cid_load_glyph_engine env face dict bytes len st).2.2.sim
        (cid_load_glyph_engine env face dict bytes len st').2.2 := by
  have hp := cid_load_glyph_parse_sim env hdet dict bytes len st st' h
  obtain ⟨d, g, w, t⟩ := st
  obtain ⟨d', g', w', t'⟩ := st'
  obtain ⟨hd, hk, ht⟩ := h
  simp only at hd hk ht
  subst hd ht
  unfold cid_load_glyph_engine
  simp only []
  by_cases ho : env.T1_CONFIG_OPTION_OLD_ENGINE = true
  · rw [if_pos ho, if_pos ho]
    by_cases hc : face.hinting_engine = FT_TS_HINTING_FREETYPE ∨ d.builder.metrics_only = true
    · rw [if_pos hc, if_pos hc]
      obtain ⟨h1, h2⟩ := hdet.2.2.2.2.2.1 d g g' bytes len w w' hk
      generalize env.parse_charstrings_old d g bytes len w = r at h1 h2 ⊢
      generalize env.parse_charstrings_old d g' bytes len w' = r' at h1 h2 ⊢
      obtain ⟨r1, r2, r3⟩ := r
      obtain ⟨r1', r2', r3'⟩ := r'
      simp only at h1 h2
      subst h1 h2
      exact ⟨rfl, rfl, rfl, hk, rfl⟩
    · rw [if_neg hc, if_neg hc]
      exact hp
  · rw [if_neg ho, if_neg ho]
    by_cases hc : d.builder.metrics_only = true
    · rw [if_pos hc, if_pos hc]
      obtain ⟨h1, h2⟩ := hdet.2.2.2.2.2.2.1 d g g' bytes len w w' hk
      generalize env.parse_metrics d g bytes len w = r at h1 h2 ⊢
      generalize env.parse_metrics d g' bytes len w' = r' at h1 h2 ⊢
      obtain ⟨r1, r2, r3⟩ := r
      obtain ⟨r1', r2', r3'⟩ := r'
      simp only at h1 h2
      subst h1 h2
      exact ⟨rfl, rfl, rfl, hk, rfl⟩
    · rw [if_neg hc, if_neg hc]
      exact hp

theorem cid_load_glyph_decode_sim (env : CID_Env W) (face : CID_FaceRec W)
    (hdet : env.deterministic) (fd_select glyph_length : Nat) (charstring : List Nat)
    (st st' : CID_LoadState W) (h : st.sim st') :
    (cid_load_glyph_decode env face fd_select glyph_length charstring st).1 =
        (cid_load_glyph_decode env face fd_select glyph_length charstring st').1 ∧
      (cid_load_glyph_decode env face fd_select glyph_length charstring st).2.1 =
        (cid_load_glyph_decode env face fd_select glyph_length charstring st').2.1 ∧
      (cid_load_glyph_decode env face fd_select glyph_length charstring st).2.2.sim
        (cid_load_glyph_decode env face fd_select glyph_length charstring st').2.2 := by
  obtain ⟨d, g, w, t⟩ := st
  obtain ⟨d', g', w', t'⟩ := st'
  obtain ⟨hd, hk, ht⟩ := h
  simp only at hd hk ht
  subst hd ht
  unfold cid_load_glyph_decode
  simp only []
  split_ifs
  all_goals first
    | exact ⟨rfl, rfl, rfl, hk, rfl⟩
    | exact cid_load_glyph_engine_sim env face hdet _ _ _ _ _ ⟨rfl, hk, rfl⟩

theorem cid_load_glyph_metrics_sim (env : CID_Env W)
    (inc : Option (FT_TS_Incremental_FuncsRec W)) (hinc : ∀ i, inc = some i → i.deterministic)
    (glyph_index : Nat) (error : FT_TS_Error) (st st' : CID_LoadState W) (h : st.sim st') :
    (cid_load_glyph_metrics env inc glyph_index error st).1 =
        (cid_load_glyph_metrics env inc glyph_index error st').1 ∧
      (cid_load_glyph_metrics env inc glyph_index error st).2.sim
        (cid_load_glyph_metrics env inc glyph_index error st').2 := by
  obtain ⟨d, g, w, t⟩ := st
  obtain ⟨d', g', w', t'⟩ := st'
  obtain ⟨hd, hk, ht⟩ := h
  simp only at hd hk ht
  subst hd ht
  unfold cid_load_glyph_metrics
  cases inc with
  | none => exact ⟨rfl, rfl, hk, rfl⟩
  | some i =>
    simp only []
    cases hf : i.get_glyph_metrics with
    | none => exact ⟨rfl, rfl, hk, rfl⟩
    | some f =>
      simp only []
      by_cases h0 : error ≠ 0
      · rw [if_pos h0, if_pos h0]
        exact ⟨rfl, rfl, hk, rfl⟩
      · rw [if_neg h0, if_neg h0]
        obtain ⟨h1, h2⟩ := (hinc i rfl).2 f hf glyph_index false
          { bearing_x := env.base.FIXED_TO_INT d.builder.left_bearing.x, bearing_y := 0
            advance := env.base.FIXED_TO_INT d.builder.advance.x
            advance_v := env.base.FIXED_TO_INT d.builder.advance.y } w w'
        generalize f glyph_index false _ w = r at h1 h2 ⊢
        generalize f glyph_index false _ w' = r' at h1 h2 ⊢
        obtain ⟨r1, r2, r3⟩ := r
        obtain ⟨r1', r2', r3'⟩ := r'
        simp only at h1 h2
        subst h1 h2
        exact ⟨rfl, rfl, hk, rfl⟩

theorem cid_load_glyph_Exit_sim (env : CID_Env W) (error : FT_TS_Error) (fs : Bool)
    (st st' : CID_LoadState W) (h : st.sim st') :
    (cid_load_glyph_Exit env error fs st).1 = (cid_load_glyph_Exit env error fs st').1 ∧
      (cid_load_glyph_Exit env error fs st).2.sim (cid_load_glyph_Exit env error fs st').2 := by
  obtain ⟨hd, hk, ht⟩ := h
  unfold cid_load_glyph_Exit
  simp only [T1_GlyphSlotRec.key, Prod.mk.injEq] at hk
  refine ⟨rfl, hd, ?_, ?_⟩
  · simp only [T1_GlyphSlotRec.key, Prod.mk.injEq]
    exact ⟨hk.1, trivial, hk.2.2⟩
  · show st.trace ++ _ = st'.trace ++ _
    rw [ht]

/-- The function `cid_load_glyph` on two states a deterministic collaborator
cannot tell apart: same error, and states it cannot tell apart. -/
theorem cid_load_glyph_sim (env : CID_Env W) (face : CID_FaceRec W)
    (hdet : env.deterministic) (hinc : ∀ i, cid_inc env face = some i → i.deterministic)
    (glyph_index : Nat) (st st' : CID_LoadState W) (h : st.sim st') :
    (cid_load_glyph env face glyph_index st).1 = (cid_load_glyph env face glyph_index st').1 ∧
      (cid_load_glyph env face glyph_index st).2.sim
        (cid_load_glyph env face glyph_index st').2 := by
  have hf := cid_load_glyph_fetch_sim env face hdet hinc glyph_index st st' h
  unfold cid_load_glyph
  generalize cid_load_glyph_fetch env face glyph_index st = e at hf ⊢
  generalize cid_load_glyph_fetch env face glyph_index st' = e' at hf ⊢
  cases e with
  | exit er s =>
    cases e' with
    | exit er' s' =>
      obtain ⟨h1, h2⟩ := hf
      subst h1
      exact cid_load_glyph_Exit_sim env er false s s' h2
    | data f l c s' => exact hf.elim
  | data f l c s =>
    cases e' with
    | exit er' s' => exact hf.elim
    | data f' l' c' s' =>
      obtain ⟨h1, h2, h3, h4⟩ := hf
      subst h1 h2 h3
      simp only []
      obtain ⟨d1, d2, d3⟩ := cid_load_glyph_decode_sim env face hdet f l c s s' h4
      generalize cid_load_glyph_decode env face f l c s = x at d1 d2 d3 ⊢
      generalize cid_load_glyph_decode env face f l c s' = x' at d1 d2 d3 ⊢
      obtain ⟨x1, x2, x3⟩ := x
      obtain ⟨x1', x2', x3'⟩ := x'
      simp only at d1 d2 d3
      subst d1 d2
      obtain ⟨m1, m2⟩ := cid_load_glyph_metrics_sim env (cid_inc env face) hinc glyph_index x1
        x3 x3' d3
      simp only []
      rw [← m1]
      exact cid_load_glyph_Exit_sim env _ x2 _ _ m2

end CIDSim2

section CIDSim3

variable {W : Type}

theorem cid_slot_load_glyph_geometry_congr (env : CID_Env W) (face : CID_FaceRec W)
    (cidsize : FT_TS_Size_Metrics) (load_flags : Nat) (hinting scaled : Bool)
    (font_matrix : FT_TS_Matrix) (font_offset : FT_TS_Vector) (decoder : T1_DecoderRec)
    (g g' : T1_GlyphSlotRec) (ho : g'.outline = g.outline) (hx : g'.x_scale = g.x_scale)
    (hy : g'.y_scale = g.y_scale) :
    cid_slot_load_glyph_geometry env face cidsize load_flags hinting scaled font_matrix
        font_offset decoder g' =
      cid_slot_load_glyph_geometry env face cidsize load_flags hinting scaled font_matrix
        font_offset decoder g := by
  unfold cid_slot_load_glyph_geometry cid_slot_load_glyph_unscaled cid_slot_load_glyph_flags
  simp only []
  rw [ho, hx, hy]

/-- The setting of the metrics of `cid_slot_load_glyph`, run on a slot that
already holds the metrics it produces, produces them again. -/
theorem cid_slot_load_glyph_metrics_twice (env : CID_Env W) (face : CID_FaceRec W)
    (hsyn : env.base.synthesize_stable)
    (cidsize : FT_TS_Size_Metrics) (load_flags : Nat) (hinting scaled : Bool)
    (font_matrix : FT_TS_Matrix) (font_offset : FT_TS_Vector) (decoder : T1_DecoderRec)
    (g g' : T1_GlyphSlotRec) (ho : g'.outline = g.outline) (hk : g'.key = g.key)
    (hm : g'.metrics =
      (cid_slot_load_glyph_metrics env face cidsize load_flags hinting scaled font_matrix
        font_offset decoder g).metrics) :
    (cid_slot_load_glyph_metrics env face cidsize load_flags hinting scaled font_matrix
        font_offset decoder g').loaded =
      (cid_slot_load_glyph_metrics env face cidsize load_flags hinting scaled font_matrix
        font_offset decoder g).loaded := by
  have hx : g'.x_scale = g.x_scale := congrArg (fun k => k.2.2.1) hk
  have hy : g'.y_scale = g.y_scale := congrArg (fun k => k.2.2.2) hk
  by_cases hr : load_flags &&& FT_TS_LOAD_NO_RECURSE ≠ 0
  · unfold cid_slot_load_glyph_metrics at hm ⊢
    simp only [if_pos hr] at hm ⊢
    unfold cid_slot_load_glyph_flags
    simp only [T1_GlyphSlotRec.loaded, T1_GlyphSlotRec.key, Prod.mk.injEq] at hk ⊢
    rw [ho, hm]
    exact ⟨rfl, rfl, hk⟩
  · have hr' := not_not.mp hr
    rw [cid_slot_load_glyph_metrics_outline _ _ _ _ _ _ _ _ _ _ hr'] at hm ⊢
    rw [cid_slot_load_glyph_metrics_outline _ _ _ _ _ _ _ _ _ _ hr']
    simp only [] at hm
    have hg := cid_slot_load_glyph_geometry_congr env face cidsize load_flags hinting scaled
      font_matrix font_offset decoder g g' ho hx hy
    simp only [T1_GlyphSlotRec.loaded, T1_GlyphSlotRec.key, Prod.mk.injEq] at hk ⊢
    refine ⟨by rw [hg], ?_, hk⟩
    rw [hg]
    generalize cid_slot_load_glyph_geometry env face cidsize load_flags hinting scaled
      font_matrix font_offset decoder g = geo at hm ⊢
    unfold compute_other_metrics at hm ⊢
    simp only [] at hm ⊢
    by_cases hl : load_flags &&& FT_TS_LOAD_VERTICAL_LAYOUT ≠ 0
    · simp only [if_pos hl] at hm ⊢
      rw [hm]
      exact hsyn (compute_other_metrics env.base geo.outline
          { g.metrics with horiAdvance := geo.horiAdvance, vertAdvance := geo.vertAdvance })
        geo.vertAdvance
    · simp only [if_neg hl] at hm ⊢
      rw [hm]

end CIDSim3

section CIDSim4

variable {W : Type}

theorem cid_slot_load_glyph_init_sim (env : CID_Env W) (hdet : env.deterministic)
    (g g' : T1_GlyphSlotRec) (cidsize : FT_TS_Size_Metrics) (load_flags : Nat) (w w' : W)
    (hk : g.key = g'.key) :
    (cid_slot_load_glyph_init env g cidsize load_flags w).1 =
        (cid_slot_load_glyph_init env g' cidsize load_flags w').1 ∧
      (cid_slot_load_glyph_init env g cidsize load_flags w).2.sim
        (cid_slot_load_glyph_init env g' cidsize load_flags w').2 ∧
      (cid_slot_load_glyph_init env g cidsize load_flags w).2.glyph = g ∧
      (cid_slot_load_glyph_init env g' cidsize load_flags w').2.glyph = g' := by
  have hh : g.hint = g'.hint := congrArg Prod.fst hk
  unfold cid_slot_load_glyph_init
  simp only []
  rw [← hh]
  obtain ⟨h1, h2⟩ := hdet.2.2.2.2.1 g g' cidsize g.hint (FT_TS_LOAD_TARGET_MODE load_flags)
    w w' hk
  generalize env.t1_decoder_init g cidsize g.hint (FT_TS_LOAD_TARGET_MODE load_flags) w = r
    at h1 h2 ⊢
  generalize env.t1_decoder_init g' cidsize g.hint (FT_TS_LOAD_TARGET_MODE load_flags) w' = r'
    at h1 h2 ⊢
  obtain ⟨r1, r2, r3⟩ := r
  obtain ⟨r1', r2', r3'⟩ := r'
  simp only at h1 h2
  subst h1 h2
  exact ⟨rfl, ⟨rfl, hk, rfl⟩, trivial, trivial⟩

/-- What `cid_slot_load_glyph` returns once the index is accepted, in terms
of the state the decoder's initialisation leaves. -/
theorem cid_slot_load_glyph_after_init (env : CID_Env W) (face : CID_FaceRec W)
    (hdet : env.deterministic) (hinc : ∀ i, cid_inc env face = some i → i.deterministic)
    (cidsize : FT_TS_Size_Metrics) (glyph_index load_flags : Nat)
    (st st' : CID_LoadState W) (hsim : st.sim st')
    (hm : st'.glyph.metrics =
      (if (cid_load_glyph env face glyph_index st).1 ≠ 0 then
        (t1_decoder_done env (cid_load_glyph env face glyph_index st).2).glyph
      else
        cid_slot_load_glyph_metrics env face cidsize load_flags
          (cid_load_glyph env face glyph_index st).2.glyph.hint
          (cid_load_glyph env face glyph_index st).2.glyph.scaled
          (cid_load_glyph env face glyph_index st).2.decoder.font_matrix
          (cid_load_glyph env face glyph_index st).2.decoder.font_offset
          (t1_decoder_done env (cid_load_glyph env face glyph_index st).2).decoder
          (t1_decoder_done env (cid_load_glyph env face glyph_index st).2).glyph).metrics) :
    (cid_load_glyph env face glyph_index st').1 = (cid_load_glyph env face glyph_index st).1 ∧
      (if (cid_load_glyph env face glyph_index st').1 ≠ 0 then
        (t1_decoder_done env (cid_load_glyph env face glyph_index st').2).glyph
      else
        cid_slot_load_glyph_metrics env face cidsize load_flags
          (cid_load_glyph env face glyph_index st').2.glyph.hint
          (cid_load_glyph env face glyph_index st').2.glyph.scaled
          (cid_load_glyph env face glyph_index st').2.decoder.font_matrix
          (cid_load_glyph env face glyph_index st').2.decoder.font_offset
          (t1_decoder_done env (cid_load_glyph env face glyph_index st').2).decoder
          (t1_decoder_done env (cid_load_glyph env face glyph_index st').2).glyph).loaded =
      (if (cid_load_glyph env face glyph_index st).1 ≠ 0 then
        (t1_decoder_done env (cid_load_glyph env face glyph_index st).2).glyph
      else
        cid_slot_load_glyph_metrics env face cidsize load_flags
          (cid_load_glyph env face glyph_index st).2.glyph.hint
          (cid_load_glyph env face glyph_index st).2.glyph.scaled
          (cid_load_glyph env face glyph_index st).2.decoder.font_matrix
          (cid_load_glyph env face glyph_index st).2.decoder.font_offset
          (t1_decoder_done env (cid_load_glyph env face glyph_index st).2).decoder
          (t1_decoder_done env (cid_load_glyph env face glyph_index st).2).glyph).loaded := by
  obtain ⟨he, hd, hk, -⟩ := cid_load_glyph_sim env face hdet hinc glyph_index st st' hsim
  have hg := cid_load_glyph_glyph env face glyph_index st
  have hg' := cid_load_glyph_glyph env face glyph_index st'
  have hgm : (cid_load_glyph env face glyph_index st).2.glyph.metrics = st.glyph.metrics := by
    rw [hg]
  have hgm' : (cid_load_glyph env face glyph_index st').2.glyph.metrics = st'.glyph.metrics := by
    rw [hg']
  clear hg hg'
  revert hm
  generalize cid_load_glyph env face glyph_index st = r at he hd hk hgm ⊢
  generalize cid_load_glyph env face glyph_index st' = r' at he hd hk hgm' ⊢
  obtain ⟨e, d, g, w, t⟩ := r
  obtain ⟨e', d', g', w', t'⟩ := r'
  simp only at he hd hk hgm hgm'
  subst he hd
  simp only [T1_GlyphSlotRec.key, Prod.mk.injEq] at hk
  obtain ⟨hk1, hk2, hk3, hk4⟩ := hk
  unfold t1_decoder_done
  simp only []
  by_cases h0 : e ≠ 0
  · rw [if_pos h0, if_pos h0]
    intro hm
    simp only [] at hm
    simp only [T1_GlyphSlotRec.loaded, T1_GlyphSlotRec.key, Prod.mk.injEq]
    exact ⟨trivial, trivial, by rw [hgm', hm], hk1.symm, hk2.symm, hk3.symm, hk4.symm⟩
  · rw [if_neg h0, if_neg h0]
    intro hm
    refine ⟨trivial, ?_⟩
    rw [← hk1, ← hk2]
    apply cid_slot_load_glyph_metrics_twice env face hdet.2.2.2.2.2.2.2.2
    · rfl
    · simp only [T1_GlyphSlotRec.key, Prod.mk.injEq]
      exact ⟨trivial, trivial, hk3.symm, hk4.symm⟩
    · show g'.metrics = _
      rw [hgm']
      exact hm

end CIDSim4

section CIDSim5

variable {W : Type}

/-- Two runs of `cid_slot_load_glyph`, the second one on a slot that holds
what the first run produces: same error, same outline, metrics, scales and
flags. -/
theorem cid_slot_load_glyph_rel (env : CID_Env W) (face : CID_FaceRec W)
    (hdet : env.deterministic) (hinc : ∀ i, cid_inc env face = some i → i.deterministic)
    (cidglyph glyph' : T1_GlyphSlotRec) (cidsize : FT_TS_Size_Metrics)
    (glyph_index load_flags : Nat) (w w' : W)
    (h : glyph'.loaded =
      (cid_slot_load_glyph env face cidglyph cidsize glyph_index load_flags w).2.1.loaded) :
    (cid_slot_load_glyph env face glyph' cidsize glyph_index load_flags w').1 =
        (cid_slot_load_glyph env face cidglyph cidsize glyph_index load_flags w).1 ∧
      (cid_slot_load_glyph env face glyph' cidsize glyph_index load_flags w').2.1.loaded =
        (cid_slot_load_glyph env face cidglyph cidsize glyph_index load_flags w).2.1.loaded := by
  have e1 : ∀ (c : Prop) [Decidable c] (a : FT_TS_Error) (b b' : T1_GlyphSlotRec) (x : W)
      (y : List Event),
      (if c then (a, b, x, y) else (a, b', x, y)) = (a, (if c then b else b'), x, y) := by
    intro c _ a b b' x y
    split_ifs
    · rfl
    · rfl
  revert h
  unfold cid_slot_load_glyph
  by_cases hi : glyph_index ≥ face.num_glyphs % 2 ^ 32
  · rw [if_pos hi, if_pos hi]
    intro h
    exact ⟨rfl, h⟩
  · rw [if_neg hi, if_neg hi]
    simp only []
    obtain ⟨i1, i2, i3, i4⟩ := cid_slot_load_glyph_init_sim env hdet
      (cid_slot_load_glyph_reset cidglyph cidsize (load_flags_recurse load_flags))
      (cid_slot_load_glyph_reset glyph' cidsize (load_flags_recurse load_flags))
      cidsize (load_flags_recurse load_flags) w w' rfl
    generalize cid_slot_load_glyph_init env
      (cid_slot_load_glyph_reset cidglyph cidsize (load_flags_recurse load_flags))
      cidsize (load_flags_recurse load_flags) w = i at i1 i2 i3 ⊢
    generalize cid_slot_load_glyph_init env
      (cid_slot_load_glyph_reset glyph' cidsize (load_flags_recurse load_flags))
      cidsize (load_flags_recurse load_flags) w' = i' at i1 i2 i4 ⊢
    obtain ⟨ie, ist⟩ := i
    obtain ⟨ie', ist'⟩ := i'
    simp only at i1 i2 i3 i4
    subst i1
    by_cases h1 : ie ≠ 0
    · rw [if_pos h1, if_pos h1]
      intro h
      simp only [T1_GlyphSlotRec.loaded, T1_GlyphSlotRec.key, Prod.mk.injEq,
        cid_slot_load_glyph_reset] at h ⊢
      obtain ⟨h1, h2, -⟩ := h
      rw [h1, h2]
      exact ⟨trivial, rfl, rfl, trivial⟩
    · rw [if_neg h1, if_neg h1]
      simp only [e1]
      intro h
      refine cid_slot_load_glyph_after_init env face hdet hinc cidsize glyph_index
        (load_flags_recurse load_flags) ist ist' i2 ?_
      rw [i4]
      exact congrArg (fun x => x.2.1) h

end CIDSim5

section TwiceClaims

variable {W : Type}

/-- C21: for a fixed font, size and flags, and deterministic collaborators
(what the strike lookup, the fetch, the decoders and the metrics callbacks
answer depends on their arguments only, and on the slot only through its
hint and scaled flags and its two scales; the synthesis of vertical metrics
is stable), a second call of `cff_slot_load`, respectively of
`cid_slot_load_glyph`, on the slot and the hidden state the first call has
left returns the same error code and leaves the same outline, the same
metrics, the same scales and the same hint and scaled flags as the first
call. -/
theorem slot_load_twice (env : CFF_Env W) (face : TT_FaceRec W) (glyph : T1_GlyphSlotRec)
    (size : Option CFF_SizeRec) (glyph_index load_flags : Nat) (w : W)
    (cenv : CID_Env W) (cface : CID_FaceRec W) (cidglyph : T1_GlyphSlotRec)
    (cidsize : FT_TS_Size_Metrics) (cid_index cid_flags : Nat) (cw : W)
    (hdet : env.deterministic) (hinc : ∀ i, cff_inc env face = some i → i.deterministic)
    (hcdet : cenv.deterministic)
    (hcinc : ∀ i, cid_inc cenv cface = some i → i.deterministic) :
    ((cff_slot_load env face (cff_slot_load env face glyph size glyph_index load_flags w).2.1
          size glyph_index load_flags
          (cff_slot_load env face glyph size glyph_index load_flags w).2.2.1).1 =
        (cff_slot_load env face glyph size glyph_index load_flags w).1 ∧
      (cff_slot_load env face (cff_slot_load env face glyph size glyph_index load_flags w).2.1
          size glyph_index load_flags
          (cff_slot_load env face glyph size glyph_index load_flags w).2.2.1).2.1.outline =
        (cff_slot_load env face glyph size glyph_index load_flags w).2.1.outline ∧
      (cff_slot_load env face (cff_slot_load env face glyph size glyph_index load_flags w).2.1
          size glyph_index load_flags
          (cff_slot_load env face glyph size glyph_index load_flags w).2.2.1).2.1.metrics =
        (cff_slot_load env face glyph size glyph_index load_flags w).2.1.metrics ∧
      (cff_slot_load env face (cff_slot_load env face glyph size glyph_index load_flags w).2.1
          size glyph_index load_flags
          (cff_slot_load env face glyph size glyph_index load_flags w).2.2.1).2.1.x_scale =
        (cff_slot_load env face glyph size glyph_index load_flags w).2.1.x_scale ∧
      (cff_slot_load env face (cff_slot_load env face glyph size glyph_index load_flags w).2.1
          size glyph_index load_flags
          (cff_slot_load env face glyph size glyph_index load_flags w).2.2.1).2.1.y_scale =
        (cff_slot_load env face glyph size glyph_index load_flags w).2.1.y_scale ∧
      (cff_slot_load env face (cff_slot_load env face glyph size glyph_index load_flags w).2.1
          size glyph_index load_flags
          (cff_slot_load env face glyph size glyph_index load_flags w).2.2.1).2.1.hint =
        (cff_slot_load env face glyph size glyph_index load_flags w).2.1.hint ∧
      (cff_slot_load env face (cff_slot_load env face glyph size glyph_index load_flags w).2.1
          size glyph_index load_flags
          (cff_slot_load env face glyph size glyph_index load_flags w).2.2.1).2.1.scaled =
        (cff_slot_load env face glyph size glyph_index load_flags w).2.1.scaled) ∧
    ((cid_slot_load_glyph cenv cface
          (cid_slot_load_glyph cenv cface cidglyph cidsize cid_index cid_flags cw).2.1
          cidsize cid_index cid_flags
          (cid_slot_load_glyph cenv cface cidglyph cidsize cid_index cid_flags cw).2.2.1).1 =
        (cid_slot_load_glyph cenv cface cidglyph cidsize cid_index cid_flags cw).1 ∧
      (cid_slot_load_glyph cenv cface
          (cid_slot_load_glyph cenv cface cidglyph cidsize cid_index cid_flags cw).2.1
          cidsize cid_index cid_flags
          (cid_slot_load_glyph cenv cface cidglyph cidsize cid_index cid_flags
            cw).2.2.1).2.1.outline =
        (cid_slot_load_glyph cenv cface cidglyph cidsize cid_index cid_flags cw).2.1.outline ∧
      (cid_slot_load_glyph cenv cface
          (cid_slot_load_glyph cenv cface cidglyph cidsize cid_index cid_flags cw).2.1
          cidsize cid_index cid_flags
          (cid_slot_load_glyph cenv cface cidglyph cidsize cid_index cid_flags
            cw).2.2.1).2.1.metrics =
        (cid_slot_load_glyph cenv cface cidglyph cidsize cid_index cid_flags cw).2.1.metrics ∧
      (cid_slot_load_glyph cenv cface
          (cid_slot_load_glyph cenv cface cidglyph cidsize cid_index cid_flags cw).2.1
          cidsize cid_index cid_flags
          (cid_slot_load_glyph cenv cface cidglyph cidsize cid_index cid_flags
            cw).2.2.1).2.1.x_scale =
        (cid_slot_load_glyph cenv cface cidglyph cidsize cid_index cid_flags cw).2.1.x_scale ∧
      (cid_slot_load_glyph cenv cface
          (cid_slot_load_glyph cenv cface cidglyph cidsize cid_index cid_flags cw).2.1
          cidsize cid_index cid_flags
          (cid_slot_load_glyph cenv cface cidglyph cidsize cid_index cid_flags
            cw).2.2.1).2.1.y_scale =
        (cid_slot_load_glyph cenv cface cidglyph cidsize cid_index cid_flags cw).2.1.y_scale ∧
      (cid_slot_load_glyph cenv cface
          (cid_slot_load_glyph cenv cface cidglyph cidsize cid_index cid_flags cw).2.1
          cidsize cid_index cid_flags
          (cid_slot_load_glyph cenv cface cidglyph cidsize cid_index cid_flags
            cw).2.2.1).2.1.hint =
        (cid_slot_load_glyph cenv cface cidglyph cidsize cid_index cid_flags cw).2.1.hint ∧
      (cid_slot_load_glyph cenv cface
          (cid_slot_load_glyph cenv cface cidglyph cidsize cid_index cid_flags cw).2.1
          cidsize cid_index cid_flags
          (cid_slot_load_glyph cenv cface cidglyph cidsize cid_index cid_flags
            cw).2.2.1).2.1.scaled =
        (cid_slot_load_glyph cenv cface cidglyph cidsize cid_index cid_flags
          cw).2.1.scaled) := by
  obtain ⟨h1, h2⟩ := cff_slot_load_rel env face hdet hinc glyph
    (cff_slot_load env face glyph size glyph_index load_flags w).2.1 size glyph_index
    load_flags w (cff_slot_load env face glyph size glyph_index load_flags w).2.2.1 rfl
  obtain ⟨c1, c2⟩ := cid_slot_load_glyph_rel cenv cface hcdet hcinc cidglyph
    (cid_slot_load_glyph cenv cface cidglyph cidsize cid_index cid_flags cw).2.1 cidsize
    cid_index cid_flags cw
    (cid_slot_load_glyph cenv cface cidglyph cidsize cid_index cid_flags cw).2.2.1 rfl
  simp only [T1_GlyphSlotRec.loaded, T1_GlyphSlotRec.key, Prod.mk.injEq] at h2 c2
  exact ⟨⟨h1, h2.1, h2.2.1, h2.2.2.2.2.1, h2.2.2.2.2.2, h2.2.2.1, h2.2.2.2.1⟩,
    c1, c2.1, c2.2.1, c2.2.2.2.2.1, c2.2.2.2.2.2, c2.2.2.1, c2.2.2.2.1⟩

end TwiceClaims

/-- The sample collaborators of the CFF loader with the empty script are
deterministic. -/
theorem Sample.cff_env_model_deterministic : Sample.cff_env_model.deterministic :=
  ⟨fun _ _ _ _ _ _ _ => ⟨rfl, rfl⟩, fun _ _ _ _ => ⟨rfl, rfl, rfl⟩,
    fun _ _ _ _ _ _ _ _ => rfl, fun _ _ _ _ _ => ⟨rfl, rfl⟩,
    fun _ _ _ _ _ _ _ _ => ⟨rfl, rfl⟩, fun _ _ _ _ _ _ _ _ => ⟨rfl, rfl⟩, fun _ _ => rfl⟩

/-- The sample collaborators of the CID loader with the empty script are
deterministic. -/
theorem Sample.cid_env_model_deterministic : Sample.cid_env_model.deterministic :=
  ⟨fun _ _ _ => rfl, fun _ _ _ _ => ⟨rfl, rfl⟩, fun _ _ _ _ => ⟨rfl, rfl⟩, fun _ _ _ => rfl,
    fun _ _ _ _ _ _ _ _ => ⟨rfl, rfl⟩, fun _ _ _ _ _ _ _ _ => ⟨rfl, rfl⟩,
    fun _ _ _ _ _ _ _ _ => ⟨rfl, rfl⟩, fun _ _ _ _ _ _ _ _ _ => ⟨rfl, rfl⟩, fun _ _ => rfl⟩

/-- The sample CFF face with metrics tables has no incremental interface. -/
theorem Sample.cff_face_metrics_inc (i : FT_TS_Incremental_FuncsRec Sample.World)
    (h : cff_inc Sample.cff_env_model Sample.cff_face_metrics = some i) : i.deterministic :=
  Option.noConfusion
    ((rfl : cff_inc Sample.cff_env_model Sample.cff_face_metrics = none).symm.trans h)

/-- The sample CID face has no incremental interface. -/
theorem Sample.cid_face_inc (i : FT_TS_Incremental_FuncsRec Sample.World)
    (h : cid_inc Sample.cid_env_model (Sample.cid_face none) = some i) : i.deterministic :=
  Option.noConfusion
    ((rfl : cid_inc Sample.cid_env_model (Sample.cid_face none) = none).symm.trans h)

/-- C21 (witness): the sample fonts loaded twice with vertical layout at a
size with scales 2.0: the second load of each loader succeeds like the first
and leaves the same outline and the same metrics. -/
theorem slot_load_twice_witness :
    ((cff_slot_load Sample.cff_env_model Sample.cff_face_metrics default
          (some Sample.cff_size) 0 FT_TS_LOAD_VERTICAL_LAYOUT Sample.world).1 = 0 ∧
      (cff_slot_load Sample.cff_env_model Sample.cff_face_metrics
          (cff_slot_load Sample.cff_env_model Sample.cff_face_metrics default
            (some Sample.cff_size) 0 FT_TS_LOAD_VERTICAL_LAYOUT Sample.world).2.1
          (some Sample.cff_size) 0 FT_TS_LOAD_VERTICAL_LAYOUT
          (cff_slot_load Sample.cff_env_model Sample.cff_face_metrics default
            (some Sample.cff_size) 0 FT_TS_LOAD_VERTICAL_LAYOUT Sample.world).2.2.1).2.1.metrics =
        (cff_slot_load Sample.cff_env_model Sample.cff_face_metrics default
          (some Sample.cff_size) 0 FT_TS_LOAD_VERTICAL_LAYOUT Sample.world).2.1.metrics) ∧
    ((cid_slot_load_glyph Sample.cid_env_model (Sample.cid_face none) default
          Sample.size_metrics 0 FT_TS_LOAD_VERTICAL_LAYOUT Sample.world).1 = 0 ∧
      (cid_slot_load_glyph Sample.cid_env_model (Sample.cid_face none)
          (cid_slot_load_glyph Sample.cid_env_model (Sample.cid_face none) default
            Sample.size_metrics 0 FT_TS_LOAD_VERTICAL_LAYOUT Sample.world).2.1
          Sample.size_metrics 0 FT_TS_LOAD_VERTICAL_LAYOUT
          (cid_slot_load_glyph Sample.cid_env_model (Sample.cid_face none) default
            Sample.size_metrics 0 FT_TS_LOAD_VERTICAL_LAYOUT Sample.world).2.2.1).2.1.outline =
        (cid_slot_load_glyph Sample.cid_env_model (Sample.cid_face none) default
          Sample.size_metrics 0 FT_TS_LOAD_VERTICAL_LAYOUT Sample.world).2.1.outline) :=
  have h := slot_load_twice Sample.cff_env_model Sample.cff_face_metrics default
    (some Sample.cff_size) 0 FT_TS_LOAD_VERTICAL_LAYOUT Sample.world
    Sample.cid_env_model (Sample.cid_face none) default Sample.size_metrics 0
    FT_TS_LOAD_VERTICAL_LAYOUT Sample.world
    Sample.cff_env_model_deterministic Sample.cff_face_metrics_inc
    Sample.cid_env_model_deterministic Sample.cid_face_inc
  ⟨⟨by decide, h.1.2.2.1⟩, by decide, h.2.2.1⟩

/-! ## Metrics read off the control box, and bitmap glyphs -/

section BitmapLoads

variable {W : Type}

/-- A bitmap glyph returned by the bitmap-strike block: there is a size, the
outline of the slot is emptied, and the metrics are those of the strike
multiplied by 64. -/
theorem cff_slot_load_sbit_ret_fields (env : CFF_Env W) (face : TT_FaceRec W)
    (size : Option CFF_SizeRec) (glyph_index load_flags : Nat) (st : CFF_LoadState W)
    (e : FT_TS_Error) (s : CFF_LoadState W)
    (h : cff_slot_load_sbit env face size glyph_index load_flags st = CFF_Step.ret e s) :
    ∃ sz, size = some sz ∧
      s.glyph.outline = { st.glyph.outline with n_points := 0, n_contours := 0 } ∧
      s.glyph.metrics =
        { width :=
            ((env.load_sbit_image sz.strike_index glyph_index load_flags st.glyph.bitmap
              st.world).2.2.1.width : Int) * 64
          height :=
            ((env.load_sbit_image sz.strike_index glyph_index load_flags st.glyph.bitmap
              st.world).2.2.1.height : Int) * 64
          horiBearingX :=
            (env.load_sbit_image sz.strike_index glyph_index load_flags st.glyph.bitmap
              st.world).2.2.1.horiBearingX * 64
          horiBearingY :=
            (env.load_sbit_image sz.strike_index glyph_index load_flags st.glyph.bitmap
              st.world).2.2.1.horiBearingY * 64
          horiAdvance :=
            ((env.load_sbit_image sz.strike_index glyph_index load_flags st.glyph.bitmap
              st.world).2.2.1.horiAdvance : Int) * 64
          vertBearingX :=
            (env.load_sbit_image sz.strike_index glyph_index load_flags st.glyph.bitmap
              st.world).2.2.1.vertBearingX * 64
          vertBearingY :=
            (env.load_sbit_image sz.strike_index glyph_index load_flags st.glyph.bitmap
              st.world).2.2.1.vertBearingY * 64
          vertAdvance :=
            ((env.load_sbit_image sz.strike_index glyph_index load_flags st.glyph.bitmap
              st.world).2.2.1.vertAdvance : Int) * 64 } := by
  have ha := fun s => cff_slot_load_sbit_linear_fields env face glyph_index s
  simp only [T1_GlyphSlotRec.loaded, Prod.mk.injEq] at ha
  unfold cff_slot_load_sbit at h
  by_cases hc : env.TT_CONFIG_OPTION_EMBEDDED_BITMAPS = true
  · rw [if_pos hc] at h
    cases size with
    | none => simp only [reduceCtorEq] at h
    | some sz =>
      simp only [] at h
      by_cases hs : sz.strike_index ≠ 0xFFFFFFFF ∧ face.load_eblc = true ∧
          load_flags &&& FT_TS_LOAD_NO_BITMAP = 0
      · rw [if_pos hs] at h
        by_cases he : (env.load_sbit_image sz.strike_index glyph_index load_flags
            st.glyph.bitmap st.world).1 = 0
        · rw [if_pos he] at h
          simp only [CFF_Step.ret.injEq] at h
          obtain ⟨-, h2⟩ := h
          subst h2
          refine ⟨sz, rfl, ?_, ?_⟩
          · rw [(ha _).1]
          · rw [(ha _).2.1]
        · rw [if_neg he] at h
          simp only [reduceCtorEq] at h
      · rw [if_neg hs] at h
        simp only [reduceCtorEq] at h
  · rw [if_neg hc] at h
    simp only [reduceCtorEq] at h

/-- A successful load by `cff_slot_load` that does not reach line 523 has
loaded an embedded bitmap: the slot holds a bitmap glyph, its outline is the
one it had, emptied, and its metrics are those of the strike multiplied by
64. -/
theorem cff_slot_load_bitmap (env : CFF_Env W) (face : TT_FaceRec W)
    (glyph : T1_GlyphSlotRec) (size : Option CFF_SizeRec) (glyph_index load_flags : Nat)
    (w : W)
    (h0 : (cff_slot_load env face glyph size glyph_index load_flags w).1 = 0)
    (hb : cff_slot_load_built env face glyph size glyph_index load_flags w = none) :
    (cff_slot_load env face glyph size glyph_index load_flags w).2.1.format =
        FT_TS_GLYPH_FORMAT_BITMAP ∧
      (cff_slot_load env face glyph size glyph_index load_flags w).2.1.outline =
        { glyph.outline with n_points := 0, n_contours := 0 } ∧
      ∃ sz gi, size = some sz ∧
        (cff_slot_load_index env face.cff glyph_index).1 = Except.ok gi ∧
        (cff_slot_load env face glyph size glyph_index load_flags w).2.1.metrics.width =
          ((env.load_sbit_image sz.strike_index gi (load_flags_recurse load_flags) glyph.bitmap
            w).2.2.1.width : Int) * 64 ∧
        (cff_slot_load env face glyph size glyph_index load_flags w).2.1.metrics.height =
          ((env.load_sbit_image sz.strike_index gi (load_flags_recurse load_flags) glyph.bitmap
            w).2.2.1.height : Int) * 64 ∧
        (cff_slot_load env face glyph size glyph_index load_flags w).2.1.metrics.horiBearingX =
          (env.load_sbit_image sz.strike_index gi (load_flags_recurse load_flags) glyph.bitmap
            w).2.2.1.horiBearingX * 64 ∧
        (cff_slot_load env face glyph size glyph_index load_flags w).2.1.metrics.horiBearingY =
          (env.load_sbit_image sz.strike_index gi (load_flags_recurse load_flags) glyph.bitmap
            w).2.2.1.horiBearingY * 64 := by
  have hie := cff_slot_load_index_error env face.cff glyph_index
  revert h0 hb
  unfold cff_slot_load cff_slot_load_built
  simp only []
  generalize cff_slot_load_index env face.cff glyph_index = ix at hie ⊢
  obtain ⟨res, evs⟩ := ix
  cases res with
  | error e =>
    intro h0 _
    simp only [] at h0 hie
    have := hie e rfl
    rw [h0] at this
    exact absurd this (by decide)
  | ok g =>
    simp only []
    have hg : (match size with
        | some sz =>
          ({ glyph with x_scale := sz.metrics.x_scale, y_scale := sz.metrics.y_scale } :
            T1_GlyphSlotRec)
        | none => { glyph with x_scale := 0x10000, y_scale := 0x10000 }) =
        { glyph with
          x_scale := (cff_slot_load_scales size).1
          y_scale := (cff_slot_load_scales size).2 } := by
      cases size <;> rfl
    rw [hg]
    obtain ⟨hE1, hE2⟩ := cff_slot_load_from_early env face glyph size g load_flags w evs
    cases hs : cff_slot_load_sbit env face size g (load_flags_recurse load_flags)
        { glyph :=
            { glyph with
              x_scale := (cff_slot_load_scales size).1
              y_scale := (cff_slot_load_scales size).2 }
          world := w, trace := evs } with
    | ret e s =>
      intro _ _
      rw [hE1 e s hs]
      obtain ⟨sz, hsz, ho, hm⟩ := cff_slot_load_sbit_ret_fields env face size g
        (load_flags_recurse load_flags) _ e s hs
      refine ⟨cff_slot_load_sbit_ret_format env face size g (load_flags_recurse load_flags) _
        e s hs, ho, sz, g, hsz, rfl, ?_, ?_, ?_, ?_⟩
      · show s.glyph.metrics.width = _
        rw [hm]
      · show s.glyph.metrics.height = _
        rw [hm]
      · show s.glyph.metrics.horiBearingX = _
        rw [hm]
      · show s.glyph.metrics.horiBearingY = _
        rw [hm]
    | next s =>
      simp only []
      by_cases hsb : load_flags_recurse load_flags &&& FT_TS_LOAD_SBITS_ONLY ≠ 0
      · intro h0 _
        rw [hE2 s hs hsb] at h0
        have h0' : FT_TS_Err_Invalid_Argument = 0 := h0
        exact absurd h0' (by decide)
      · rw [if_neg hsb]
        intro _ hb
        simp only [reduceCtorEq] at hb

end BitmapLoads

section BoxClaims2

variable {W : Type}

/-- C19 (as amended): after a load without `no_recurse` that reaches the
metrics without error, by `cff_slot_load` or by `cid_slot_load_glyph`,
`width = xMax - xMin`, `height = yMax - yMin`, `horiBearingX = xMin` and
`horiBearingY = yMax`, where the box is the control box of the outline
returned, that is of the points after the matrix, offset and scaling steps.
With the modelled control box, width and height are not negative, and all
four are 0 for an outline without points.  Every successful load by
`cid_slot_load_glyph` is such a load.  A successful load by `cff_slot_load`
is such a load unless it has loaded an embedded bitmap: then the slot holds a
bitmap glyph, its outline is the one it had with its numbers of points and
contours set to 0, and width, height and the horizontal bearings are those
of the strike's metrics multiplied by 64. -/
theorem slot_load_cbox_metrics (env : CFF_Env W) (face : TT_FaceRec W)
    (glyph : T1_GlyphSlotRec) (size : Option CFF_SizeRec) (glyph_index load_flags : Nat)
    (w : W) (cenv : CID_Env W) (cface : CID_FaceRec W) (cidglyph : T1_GlyphSlotRec)
    (cidsize : FT_TS_Size_Metrics) (cid_index : Nat)
    (hnr : load_flags &&& FT_TS_LOAD_NO_RECURSE = 0)
    (hsyn : env.base.synthesizes_vertical) (hcsyn : cenv.base.synthesizes_vertical) :
    (∀ r, cff_slot_load_built env face glyph size glyph_index load_flags w = some r →
        r.build.error = 0 →
        ((cff_slot_load env face glyph size glyph_index load_flags w).2.1.outline =
            (cff_slot_load_geometry env face size r.glyph_index load_flags r.build.hinting
              r.build.force_scaling r.font_matrix r.font_offset r.build.decoder
              r.build.st.glyph).outline ∧
          (cff_slot_load env face glyph size glyph_index load_flags w).2.1.metrics.width =
            (env.base.Outline_Get_CBox
              (cff_slot_load env face glyph size glyph_index load_flags w).2.1.outline).xMax -
            (env.base.Outline_Get_CBox
              (cff_slot_load env face glyph size glyph_index load_flags w).2.1.outline).xMin ∧
          (cff_slot_load env face glyph size glyph_index load_flags w).2.1.metrics.height =
            (env.base.Outline_Get_CBox
              (cff_slot_load env face glyph size glyph_index load_flags w).2.1.outline).yMax -
            (env.base.Outline_Get_CBox
              (cff_slot_load env face glyph size glyph_index load_flags w).2.1.outline).yMin ∧
          (cff_slot_load env face glyph size glyph_index load_flags w).2.1.metrics.horiBearingX =
            (env.base.Outline_Get_CBox
              (cff_slot_load env face glyph size glyph_index load_flags w).2.1.outline).xMin ∧
          (cff_slot_load env face glyph size glyph_index load_flags w).2.1.metrics.horiBearingY =
            (env.base.Outline_Get_CBox
              (cff_slot_load env face glyph size glyph_index load_flags w).2.1.outline).yMax) ∧
        (env.base.Outline_Get_CBox = FT_TS_Outline_Get_CBox →
          0 ≤ (cff_slot_load env face glyph size glyph_index load_flags w).2.1.metrics.width ∧
          0 ≤ (cff_slot_load env face glyph size glyph_index load_flags w).2.1.metrics.height ∧
          ((cff_slot_load env face glyph size glyph_index load_flags w).2.1.outline.points = [] →
            (cff_slot_load env face glyph size glyph_index load_flags w).2.1.metrics.width = 0 ∧
            (cff_slot_load env face glyph size glyph_index load_flags w).2.1.metrics.height = 0 ∧
            (cff_slot_load env face glyph size glyph_index load_flags
              w).2.1.metrics.horiBearingX = 0 ∧
            (cff_slot_load env face glyph size glyph_index load_flags
              w).2.1.metrics.horiBearingY = 0))) ∧
      (∀ r, cid_slot_load_glyph_loaded cenv cface cidglyph cidsize cid_index load_flags w =
          some r →
        r.1 = 0 →
        ((cid_slot_load_glyph cenv cface cidglyph cidsize cid_index load_flags w).2.1.outline =
            (cid_slot_load_glyph_geometry cenv cface cidsize load_flags r.2.glyph.hint
              r.2.glyph.scaled r.2.decoder.font_matrix r.2.decoder.font_offset r.2.decoder
              { r.2.glyph with outline := r.2.decoder.builder.base }).outline ∧
          (cid_slot_load_glyph cenv cface cidglyph cidsize cid_index load_flags
              w).2.1.metrics.width =
            (cenv.base.Outline_Get_CBox
              (cid_slot_load_glyph cenv cface cidglyph cidsize cid_index load_flags
                w).2.1.outline).xMax -
            (cenv.base.Outline_Get_CBox
              (cid_slot_load_glyph cenv cface cidglyph cidsize cid_index load_flags
                w).2.1.outline).xMin ∧
          (cid_slot_load_glyph cenv cface cidglyph cidsize cid_index load_flags
              w).2.1.metrics.height =
            (cenv.base.Outline_Get_CBox
              (cid_slot_load_glyph cenv cface cidglyph cidsize cid_index load_flags
                w).2.1.outline).yMax -
            (cenv.base.Outline_Get_CBox
              (cid_slot_load_glyph cenv cface cidglyph cidsize cid_index load_flags
                w).2.1.outline).yMin ∧
          (cid_slot_load_glyph cenv cface cidglyph cidsize cid_index load_flags
              w).2.1.metrics.horiBearingX =
            (cenv.base.Outline_Get_CBox
              (cid_slot_load_glyph cenv cface cidglyph cidsize cid_index load_flags
                w).2.1.outline).xMin ∧
          (cid_slot_load_glyph cenv cface cidglyph cidsize cid_index load_flags
              w).2.1.metrics.horiBearingY =
            (cenv.base.Outline_Get_CBox
              (cid_slot_load_glyph cenv cface cidglyph cidsize cid_index load_flags
                w).2.1.outline).yMax) ∧
        (cenv.base.Outline_Get_CBox = FT_TS_Outline_Get_CBox →
          0 ≤ (cid_slot_load_glyph cenv cface cidglyph cidsize cid_index load_flags
            w).2.1.metrics.width ∧
          0 ≤ (cid_slot_load_glyph cenv cface cidglyph cidsize cid_index load_flags
            w).2.1.metrics.height ∧
          ((cid_slot_load_glyph cenv cface cidglyph cidsize cid_index load_flags
              w).2.1.outline.points = [] →
            (cid_slot_load_glyph cenv cface cidglyph cidsize cid_index load_flags
              w).2.1.metrics.width = 0 ∧
            (cid_slot_load_glyph cenv cface cidglyph cidsize cid_index load_flags
              w).2.1.metrics.height = 0 ∧
            (cid_slot_load_glyph cenv cface cidglyph cidsize cid_index load_flags
              w).2.1.metrics.horiBearingX = 0 ∧
            (cid_slot_load_glyph cenv cface cidglyph cidsize cid_index load_flags
              w).2.1.metrics.horiBearingY = 0))) ∧
      ((cff_slot_load env face glyph size glyph_index load_flags w).1 = 0 →
        (∃ r, cff_slot_load_built env face glyph size glyph_index load_flags w = some r ∧
          r.build.error = 0) ∨
        (cff_slot_load_built env face glyph size glyph_index load_flags w = none ∧
          (cff_slot_load env face glyph size glyph_index load_flags w).2.1.format =
            FT_TS_GLYPH_FORMAT_BITMAP ∧
          (cff_slot_load env face glyph size glyph_index load_flags w).2.1.outline =
            { glyph.outline with n_points := 0, n_contours := 0 } ∧
          ∃ sz gi, size = some sz ∧
            (cff_slot_load_index env face.cff glyph_index).1 = Except.ok gi ∧
            (cff_slot_load env face glyph size glyph_index load_flags w).2.1.metrics.width =
              ((env.load_sbit_image sz.strike_index gi load_flags glyph.bitmap
                w).2.2.1.width : Int) * 64 ∧
            (cff_slot_load env face glyph size glyph_index load_flags w).2.1.metrics.height =
              ((env.load_sbit_image sz.strike_index gi load_flags glyph.bitmap
                w).2.2.1.height : Int) * 64 ∧
            (cff_slot_load env face glyph size glyph_index load_flags
                w).2.1.metrics.horiBearingX =
              (env.load_sbit_image sz.strike_index gi load_flags glyph.bitmap
                w).2.2.1.horiBearingX * 64 ∧
            (cff_slot_load env face glyph size glyph_index load_flags
                w).2.1.metrics.horiBearingY =
              (env.load_sbit_image sz.strike_index gi load_flags glyph.bitmap
                w).2.2.1.horiBearingY * 64)) ∧
      ((cid_slot_load_glyph cenv cface cidglyph cidsize cid_index load_flags w).1 = 0 →
        ∃ r, cid_slot_load_glyph_loaded cenv cface cidglyph cidsize cid_index load_flags w =
            some r ∧ r.1 = 0) := by
  refine ⟨?_, ?_, ?_, ?_⟩
  · intro r hr hok
    obtain ⟨hol, -, -, -, -, hh, -⟩ :=
      cff_slot_load_outline_facts env face glyph size glyph_index load_flags w r hr hok hnr
    obtain ⟨-, hw, hht, hbx, hby⟩ := hh (Or.inl hsyn)
    refine ⟨⟨hol, hw, hht, hbx, hby⟩, ?_⟩
    intro hcb
    rw [hw, hht, hbx, hby, hcb]
    obtain ⟨h1, h2, h3⟩ := FT_TS_Outline_Get_CBox_box
      (cff_slot_load env face glyph size glyph_index load_flags w).2.1.outline
    refine ⟨by omega, by omega, ?_⟩
    intro he
    rw [h3 he]
    exact ⟨rfl, rfl, rfl, rfl⟩
  · intro r hr hok
    obtain ⟨hol, -, -, -, -, -, -, hh, -⟩ :=
      cid_slot_load_glyph_outline_facts cenv cface cidglyph cidsize cid_index load_flags w r hr
        hok hnr
    obtain ⟨-, hw, hht, hbx, hby⟩ := hh (Or.inl hcsyn)
    refine ⟨⟨hol, hw, hht, hbx, hby⟩, ?_⟩
    intro hcb
    rw [hw, hht, hbx, hby, hcb]
    obtain ⟨h1, h2, h3⟩ := FT_TS_Outline_Get_CBox_box
      (cid_slot_load_glyph cenv cface cidglyph cidsize cid_index load_flags w).2.1.outline
    refine ⟨by omega, by omega, ?_⟩
    intro he
    rw [h3 he]
    exact ⟨rfl, rfl, rfl, rfl⟩

  · intro h0
    cases hb : cff_slot_load_built env face glyph size glyph_index load_flags w with
    | some r =>
      left
      refine ⟨r, rfl, ?_⟩
      rw [cff_slot_load_of_built env face glyph size glyph_index load_flags w r hb] at h0
      by_cases he : r.build.error = 0
      · exact he
      · rw [if_neg he] at h0
        exact absurd h0 he
    | none =>
      right
      have hbm := cff_slot_load_bitmap env face glyph size glyph_index load_flags w h0 hb
      rw [load_flags_recurse_of_clear load_flags hnr] at hbm
      exact ⟨rfl, hbm⟩
  · intro h0
    exact cid_slot_load_glyph_loaded_of_ok cenv cface cidglyph cidsize cid_index load_flags w h0

/-- C19 (witness): the sample fonts loaded unhinted at scales 2.0 with the
modelled helpers: the square comes back with width and height 200, left edge
0 and top 200, from both loaders. -/
theorem slot_load_cbox_metrics_witness :
    ((cff_slot_load Sample.cff_env_model (Sample.cff_face 0xFFFF none 0 none 1) default
          (some Sample.cff_size) 0 FT_TS_LOAD_NO_HINTING Sample.world).2.1.metrics.width = 200 ∧
        (cff_slot_load Sample.cff_env_model (Sample.cff_face 0xFFFF none 0 none 1) default
          (some Sample.cff_size) 0 FT_TS_LOAD_NO_HINTING Sample.world).2.1.metrics.horiBearingY =
          200) ∧
      (cid_slot_load_glyph Sample.cid_env_model (Sample.cid_face none) default
          Sample.size_metrics 0 FT_TS_LOAD_NO_HINTING Sample.world).2.1.metrics.height = 200 ∧
        (cid_slot_load_glyph Sample.cid_env_model (Sample.cid_face none) default
          Sample.size_metrics 0 FT_TS_LOAD_NO_HINTING Sample.world).2.1.metrics.horiBearingX = 0 :=
  have h := slot_load_cbox_metrics Sample.cff_env_model (Sample.cff_face 0xFFFF none 0 none 1)
    default (some Sample.cff_size) 0 FT_TS_LOAD_NO_HINTING Sample.world Sample.cid_env_model
    (Sample.cid_face none) default Sample.size_metrics 0 (by decide) (fun _ _ => rfl)
    (fun _ _ => rfl)
  have h1 := (h.1 _ (Option.some_get Sample.cff_face_scaled_built).symm (by decide)).1
  have h2 := (h.2.1 _ (Option.some_get Sample.cid_face_scaled_loaded).symm (by decide)).1
  ⟨⟨h1.2.1.trans (by decide), h1.2.2.2.2.trans (by decide)⟩,
    h2.2.2.1.trans (by decide), h2.2.2.2.1.trans (by decide)⟩

/-- C19 (counterexample): the sample face with a bitmap strike is loaded
without `no_recurse` at a size that selects the strike.  The load succeeds
with a bitmap glyph: the outline has no points, so its control box is the box
at the origin, and yet the width is 192 (3 pixels), the height 256, the left
bearing 64 and the top bearing 256. -/
theorem cff_slot_load_bitmap_not_cbox :
    (0 : Nat) &&& FT_TS_LOAD_NO_RECURSE = 0 ∧
      (cff_slot_load Sample.cff_env_strike Sample.cff_face_strike default
        (some Sample.cff_size_strike) 0 0 Sample.world).1 = 0 ∧
      (cff_slot_load Sample.cff_env_strike Sample.cff_face_strike default
        (some Sample.cff_size_strike) 0 0 Sample.world).2.1.format =
          FT_TS_GLYPH_FORMAT_BITMAP ∧
      (cff_slot_load Sample.cff_env_strike Sample.cff_face_strike default
        (some Sample.cff_size_strike) 0 0 Sample.world).2.1.outline.points = [] ∧
      Sample.cff_env_strike.base.Outline_Get_CBox
          (cff_slot_load Sample.cff_env_strike Sample.cff_face_strike default
            (some Sample.cff_size_strike) 0 0 Sample.world).2.1.outline =
        { xMin := 0, yMin := 0, xMax := 0, yMax := 0 } ∧
      (cff_slot_load Sample.cff_env_strike Sample.cff_face_strike default
        (some Sample.cff_size_strike) 0 0 Sample.world).2.1.metrics.width = 192 ∧
      (cff_slot_load Sample.cff_env_strike Sample.cff_face_strike default
        (some Sample.cff_size_strike) 0 0 Sample.world).2.1.metrics.height = 256 ∧
      (cff_slot_load Sample.cff_env_strike Sample.cff_face_strike default
        (some Sample.cff_size_strike) 0 0 Sample.world).2.1.metrics.horiBearingX = 64 ∧
      (cff_slot_load Sample.cff_env_strike Sample.cff_face_strike default
        (some Sample.cff_size_strike) 0 0 Sample.world).2.1.metrics.horiBearingY = 256 := by
  decide

end BoxClaims2

end FreeType
